import Mathlib

/-! # BRE: pass orchestration and GPU resource synchronisation

A shallow embedding of the pass-orchestration code of the BRE renderer
(`AmbientLightPass`, `ToneMappingPass`, the command-list recorders and the
upload buffer) together with the properties proved about it.

Conventions of the embedding

* A C++ object pointer is an `Option`; a descriptor handle (`.ptr`) or a GPU
  address is a `Nat`, `0` being the null handle.
* A failed `ASSERT`, a null dereference and a wait loop that has not finished
  within its iteration budget are results of type `Fault`; every operation that
  can fail returns `Except Fault _`.
* Global managers (`ResourceStateManager`, `CommandListExecutor`, the descriptor
  managers, the shared pipeline states) are fields of one explicit `World`.
-/

namespace BRE

/-! ## Failures -/

/-- Reasons for which an operation does not return normally. -/
inductive Fault where
  /-- An `ASSERT(...)` of the source failed. -/
  | assertion
  /-- A null pointer was dereferenced. -/
  | nullDereference
  /-- The resource state tracker was asked about a resource it does not know. -/
  | unknownResource
  /-- A busy-wait loop was still waiting when its iteration budget ran out. -/
  | stillWaiting
  /-- The behaviour of the source is undefined: an element outside a vector or
  array was accessed, or a signed counter overflowed. -/
  | undefinedBehaviour
  deriving DecidableEq, Repr

/-- The source's `ASSERT(cond)`. -/
def ASSERT (cond : Bool) : Except Fault Unit :=
  if cond then .ok () else .error Fault.assertion

/-! ## Direct3D 12 constants used by the source (values of `d3d12.h`) -/

/-- Resource states are the bit patterns of `D3D12_RESOURCE_STATES`. -/
abbrev D3D12_RESOURCE_STATES := Nat

def D3D12_RESOURCE_STATE_RENDER_TARGET : D3D12_RESOURCE_STATES := 0x4

def D3D12_RESOURCE_STATE_PIXEL_SHADER_RESOURCE : D3D12_RESOURCE_STATES := 0x80

def D3D_PRIMITIVE_TOPOLOGY_POINTLIST : Nat := 1

def D3D_PRIMITIVE_TOPOLOGY_TRIANGLELIST : Nat := 4

def D3D12_SIMULTANEOUS_RENDER_TARGET_COUNT : Nat := 8

def D3D12_SRV_DIMENSION_BUFFER : Nat := 1

def D3D12_SRV_DIMENSION_TEXTURE2D : Nat := 4

/-! ## Resource state tracker -/

/-- The transition barrier built by `CD3DX12_RESOURCE_BARRIER::Transition`. -/
structure CD3DX12_RESOURCE_BARRIER where
  pResource : Nat
  StateBefore : D3D12_RESOURCE_STATES
  StateAfter : D3D12_RESOURCE_STATES
  deriving DecidableEq, Repr

/-- Modelled from the spec: `ResourceStateManager` (section 4.1, "Resource State
Tracker"), whose source file is not part of the sources. `mStateByResource` is
the map from resource identity to current access state. `requests` is a history
of the transition requests received, oldest first, each with the state the
resource had and the state asked for; no operation reads it. -/
structure ResourceStateManager where
  mStateByResource : Nat → Option D3D12_RESOURCE_STATES
  requests : List CD3DX12_RESOURCE_BARRIER

namespace ResourceStateManager

/-- Modelled from the spec: registration of a resource with its creation state
("GpuResource ... current access state owned exclusively by the Resource State
Tracker"). -/
def AddResource (t : ResourceStateManager) (res : Nat)
    (initialState : D3D12_RESOURCE_STATES) : ResourceStateManager :=
  { t with mStateByResource := fun r => if r = res then some initialState else t.mStateByResource r }

/-- Modelled from the spec: `GetState(resource) -> ResourceState`, failing with
`UnknownResource` if the resource was never registered. -/
def GetResourceState (t : ResourceStateManager) (res : Nat) :
    Except Fault D3D12_RESOURCE_STATES :=
  match t.mStateByResource res with
  | some s => .ok s
  | none => .error Fault.unknownResource

/-- Modelled from the spec: `Transition(resource, newState) ->
optional<TransitionDirective>`: "returns nothing if `newState == currentState`
(no-op elision), otherwise atomically updates the stored state and returns a
directive". -/
def ChangeResourceStateAndGetBarrier (t : ResourceStateManager) (res : Nat)
    (newState : D3D12_RESOURCE_STATES) :
    Except Fault (Option CD3DX12_RESOURCE_BARRIER × ResourceStateManager) :=
  match t.mStateByResource res with
  | none => .error Fault.unknownResource
  | some oldState =>
    if newState = oldState then
      .ok (none, { t with requests := t.requests ++ [⟨res, oldState, newState⟩] })
    else
      .ok (some ⟨res, oldState, newState⟩,
        { mStateByResource := fun r => if r = res then some newState else t.mStateByResource r
          requests := t.requests ++ [⟨res, oldState, newState⟩] })

end ResourceStateManager

/-! ## Command lists -/

/-- The commands the source records into a command list. -/
inductive Command where
  | ResourceBarrier (NumBarriers : Nat) (pBarriers : List (Option CD3DX12_RESOURCE_BARRIER))
  | ClearRenderTargetView (RenderTargetView : Nat)
  | RSSetViewports (NumViewports : Nat)
  | RSSetScissorRects (NumRects : Nat)
  | OMSetRenderTargets (NumRenderTargetDescriptors : Nat) (pRenderTargetDescriptors : Nat)
      (pDepthStencilDescriptor : Option Nat)
  | SetDescriptorHeaps (NumDescriptorHeaps : Nat)
  | SetGraphicsRootSignature (pRootSignature : Option Nat)
  | SetGraphicsRootDescriptorTable (RootParameterIndex : Nat) (BaseDescriptor : Nat)
  | SetGraphicsRootConstantBufferView (RootParameterIndex : Nat) (BufferLocation : Nat)
  | IASetPrimitiveTopology (PrimitiveTopology : Nat)
  | IASetVertexBuffers (StartSlot NumViews : Nat)
  | IASetIndexBuffer
  | DrawInstanced (VertexCountPerInstance InstanceCount StartVertexLocation
      StartInstanceLocation : Nat)
  | DrawIndexedInstanced (IndexCountPerInstance InstanceCount StartIndexLocation
      BaseVertexLocation StartInstanceLocation : Nat)
  deriving DecidableEq, Repr

/-- An `ID3D12GraphicsCommandList`: the allocator and initial pipeline state of
its last `Reset`, the commands recorded since, and whether it is closed. -/
structure ID3D12GraphicsCommandList where
  allocator : Nat
  pso : Option Nat
  commands : List Command
  closed : Bool
  deriving DecidableEq, Repr

namespace ID3D12GraphicsCommandList

/-- Appends one recorded command. -/
def record (l : ID3D12GraphicsCommandList) (c : Command) : ID3D12GraphicsCommandList :=
  { l with commands := l.commands ++ [c] }

/-- The `Close` of a command list. -/
def Close (l : ID3D12GraphicsCommandList) : ID3D12GraphicsCommandList :=
  { l with closed := true }

end ID3D12GraphicsCommandList

/-- Whether a command is a draw call. -/
def Command.isDraw : Command → Bool
  | .DrawInstanced _ _ _ _ => true
  | .DrawIndexedInstanced _ _ _ _ _ => true
  | _ => false

/-- Whether a command is a resource barrier. -/
def Command.isResourceBarrier : Command → Bool
  | .ResourceBarrier _ _ => true
  | _ => false

/-- Modelled from the spec: `CommandListPerFrame` (section 4.2, "Per-Frame
Command Buffer Ring"), whose source file is not part of the sources: one command
list and a rotation of command allocators, one per queued frame. -/
structure CommandListPerFrame where
  mCommandAllocators : List Nat
  mCommandList : ID3D12GraphicsCommandList
  mCurrentFrameIndex : Nat

namespace CommandListPerFrame

/-- Modelled from the spec: `AcquireNext(pipelineConfig) -> CommandBuffer`:
"selects the next FrameSlot in round-robin order ..., resets its allocator, and
opens a new CommandBuffer bound to the given pipeline configuration (may be
empty/null for barrier-only buffers)". The wait for the slot's previous use to
retire changes no state and is not represented. -/
def ResetWithNextCommandAllocator (c : CommandListPerFrame) (pso : Option Nat) :
    ID3D12GraphicsCommandList × CommandListPerFrame :=
  let commandList : ID3D12GraphicsCommandList :=
    { allocator := c.mCommandAllocators.getD c.mCurrentFrameIndex 0
      pso := pso
      commands := []
      closed := false }
  (commandList,
    { c with
      mCommandList := commandList
      mCurrentFrameIndex := (c.mCurrentFrameIndex + 1) % c.mCommandAllocators.length })

end CommandListPerFrame

/-! ## Command submission queue -/

/-- Modelled from the spec: `CommandListExecutor` (section 4.4, "Command
Submission Queue"), whose source file is not part of the sources. `mPending`
holds the pushed command lists not yet dequeued, in arrival order; `mSubmitted`
the lists handed to the hardware queue, in submission order;
`mExecutedCommandListCount` is the counter polled by the passes. -/
structure CommandListExecutor where
  mPending : List ID3D12GraphicsCommandList
  mSubmitted : List ID3D12GraphicsCommandList
  mExecutedCommandListCount : Nat

namespace CommandListExecutor

/-- Modelled from the spec: `Push(buffer)`: "enqueues in FIFO/arrival order". -/
def AddCommandList (e : CommandListExecutor) (l : ID3D12GraphicsCommandList) :
    CommandListExecutor :=
  { e with mPending := e.mPending ++ [l] }

/-- Modelled from the spec: `ResetCount()`. -/
def ResetExecutedCommandListCount (e : CommandListExecutor) : CommandListExecutor :=
  { e with mExecutedCommandListCount := 0 }

/-- Modelled from the spec: `GetExecutedCount() -> int`. -/
def GetExecutedCommandListCount (e : CommandListExecutor) : Nat :=
  e.mExecutedCommandListCount

/-- Modelled from the spec: one step of the consuming side: "the counter
increments when the GPU-consuming side dequeues and submits a buffer to the
hardware queue". With nothing pending the step changes nothing. -/
def consume (e : CommandListExecutor) : CommandListExecutor :=
  match e.mPending with
  | [] => e
  | l :: rest =>
    { mPending := rest
      mSubmitted := e.mSubmitted ++ [l]
      mExecutedCommandListCount := e.mExecutedCommandListCount + 1 }

/-- Modelled from the spec: `ExecuteCommandListAndWaitForCompletion`, which the
spec does not describe beyond its name: the list is handed to the hardware queue
directly and the call returns when the GPU has finished it. Whether such a list
is counted is not fixed anywhere, so `counted` is the amount by which the
executed-count advances during the call. -/
def ExecuteCommandListAndWaitForCompletion (counted : Nat) (e : CommandListExecutor)
    (l : ID3D12GraphicsCommandList) : CommandListExecutor :=
  { e with
    mSubmitted := e.mSubmitted ++ [l]
    mExecutedCommandListCount := e.mExecutedCommandListCount + counted }

/-- The source's wait loop
`while (GetExecutedCommandListCount() < taskCount) { Sleep(0U); }`.
`Sleep(0U)` yields the processor; the consuming side then takes one step. The
loop gives up with `Fault.stillWaiting` after `budget` iterations. -/
def waitForExecuted (taskCount : Nat) : Nat → CommandListExecutor →
    Except Fault CommandListExecutor
  | 0, e =>
    if e.GetExecutedCommandListCount < taskCount then .error Fault.stillWaiting else .ok e
  | budget + 1, e =>
    if e.GetExecutedCommandListCount < taskCount then
      waitForExecuted taskCount budget e.consume
    else .ok e

end CommandListExecutor

/-! ## Upload buffers -/

/-- An `UploadBuffer`: element size, the committed resource behind it, and the
memory seen through the mapped pointer (`mMappedData[i]` is the byte at offset
`i`; offsets at or beyond `mappedSize` lie outside the mapped resource). -/
structure UploadBuffer where
  mElemSize : Nat
  mBuffer : Nat
  mMappedData : Nat → Nat
  mappedSize : Nat

/-- The C library's `memcpy(&memory[start], src, count)`: the `count` bytes from
offset `start` on become the first `count` bytes of `src`. -/
def memcpy (memory : Nat → Nat) (start : Nat) (src : List Nat) (count : Nat) : Nat → Nat :=
  fun a => if start ≤ a ∧ a < start + count then src.getD (a - start) 0 else memory a

namespace UploadBuffer

/-- `UploadBuffer::CopyData`: `ASSERT(srcData)` and
`memcpy(&mMappedData[elemIndex * mElemSize], srcData, srcDataSize)`. The source
object is the list of its bytes. The offset arithmetic is that of
`std::size_t`. -/
def CopyData (b : UploadBuffer) (elemIndex : Nat) (srcData : Option (List Nat))
    (srcDataSize : Nat) : Except Fault UploadBuffer := do
  ASSERT srcData.isSome
  pure { b with
    mMappedData :=
      memcpy b.mMappedData ((elemIndex * b.mElemSize) % 2 ^ 64) (srcData.getD []) srcDataSize }

/-- Modelled from the spec: `GetRoundedConstantBufferSizeInBytes`, not part of
the sources and not described by the spec: constant buffers are sized in
multiples of 256 bytes. -/
def GetRoundedConstantBufferSizeInBytes (sizeInBytes : Nat) : Nat :=
  (sizeInBytes + 255) / 256 * 256

end UploadBuffer

/-- Modelled from the spec: `FrameUploadCBufferPerFrame`, the "ring of per-frame
upload buffers" of a FrameSlot (section 3), whose source file is not part of the
sources. -/
structure FrameUploadCBufferPerFrame where
  mFrameCBuffers : List UploadBuffer
  mCurrentFrameIndex : Nat

/-! ## The global managers -/

/-- The parts of a `D3D12_RESOURCE_DESC` the source reads. -/
structure D3D12_RESOURCE_DESC where
  Format : Nat
  MipLevels : Nat
  deriving DecidableEq, Repr

/-- The parts of a `D3D12_SHADER_RESOURCE_VIEW_DESC` the source writes. -/
structure D3D12_SHADER_RESOURCE_VIEW_DESC where
  Format : Nat
  ViewDimension : Nat
  Shader4ComponentMapping : Nat
  MostDetailedMip : Nat
  MipLevels : Nat
  FirstElement : Nat
  NumElements : Nat
  StructureByteStride : Nat
  deriving DecidableEq, Repr

def D3D12_DEFAULT_SHADER_4_COMPONENT_MAPPING : Nat := 0x1688

def DXGI_FORMAT_R16_UNORM : Nat := 56

/-- The pipeline state and root signature shared by all recorders of one class
(the file-level statics `sPSO` and `sRootSignature`). -/
structure SharedPSOAndRootSignature where
  sPSO : Option Nat
  sRootSignature : Option Nat
  deriving DecidableEq, Repr

/-- The recorder classes that own shared statics. -/
inductive RecorderClass where
  | AmbientLight
  | AmbientOcclusion
  | Blur
  | PunctualLight
  | ToneMapping
  deriving DecidableEq, Repr

/-- A render-target view: the resource it renders to and its format. -/
structure RenderTargetView where
  resource : Nat
  Format : Nat
  deriving DecidableEq, Repr

/-- A shader-resource view: the resource it reads and its descriptor. -/
structure ShaderResourceView where
  resource : Nat
  desc : D3D12_SHADER_RESOURCE_VIEW_DESC
  deriving DecidableEq, Repr

/-- The process-wide state the passes work on. -/
structure World where
  /-- `ResourceStateManager`. -/
  resourceStateManager : ResourceStateManager
  /-- `CommandListExecutor::Get()`. -/
  commandListExecutor : CommandListExecutor
  /-- The statics `sPSO` / `sRootSignature` of each recorder class. -/
  shared : RecorderClass → SharedPSOAndRootSignature
  /-- Source of fresh object identities (resources, allocators, pipeline states). -/
  mNextObject : Nat
  /-- `ID3D12Resource::GetDesc`. -/
  GetDesc : Nat → D3D12_RESOURCE_DESC
  /-- `RenderTargetDescriptorManager`: the views created, by handle. -/
  mRenderTargetViews : Nat → Option RenderTargetView
  mNextRenderTargetView : Nat
  /-- `CbvSrvUavDescriptorManager`: the view tables created, by the handle of
  their first descriptor. -/
  mShaderResourceViews : Nat → Option (List ShaderResourceView)
  mNextShaderResourceView : Nat
  /-- `SettingsManager::sQueuedFrameCount`. -/
  sQueuedFrameCount : Nat
  /-- `sizeof(PunctualLight)`. -/
  sizeofPunctualLight : Nat
  /-- `sizeof(FrameCBuffer)`. -/
  sizeofFrameCBuffer : Nat
  /-- The bytes of a default-constructed `ImmutableCBuffer`. -/
  immutableCBuffer : List Nat

/-- A per-frame constants block is the list of its bytes; `sizeof` is its length. -/
abbrev FrameCBuffer := List Nat

/-- Dereference of a possibly null pointer. -/
def deref {α : Type} : Option α → Except Fault α
  | some a => .ok a
  | none => .error Fault.nullDereference

namespace World

/-- `ResourceStateManager::GetResourceState` on the global tracker. -/
def GetResourceState (w : World) (res : Nat) : Except Fault D3D12_RESOURCE_STATES :=
  w.resourceStateManager.GetResourceState res

/-- `ResourceStateManager::ChangeResourceStateAndGetBarrier` on the global tracker. -/
def ChangeResourceStateAndGetBarrier (w : World) (res : Nat)
    (newState : D3D12_RESOURCE_STATES) :
    Except Fault (Option CD3DX12_RESOURCE_BARRIER × World) := do
  let (barrier, t) ← w.resourceStateManager.ChangeResourceStateAndGetBarrier res newState
  pure (barrier, { w with resourceStateManager := t })

/-- `CommandListExecutor::Get().AddCommandList`. -/
def AddCommandList (w : World) (l : ID3D12GraphicsCommandList) : World :=
  { w with commandListExecutor := w.commandListExecutor.AddCommandList l }

/-- `CommandListExecutor::Get().ResetExecutedCommandListCount`. -/
def ResetExecutedCommandListCount (w : World) : World :=
  { w with commandListExecutor := w.commandListExecutor.ResetExecutedCommandListCount }

/-- The wait loop of a pass on the global executor. -/
def waitForExecuted (w : World) (taskCount budget : Nat) : Except Fault World := do
  let e ← w.commandListExecutor.waitForExecuted taskCount budget
  pure { w with commandListExecutor := e }

/-- Modelled from the spec: `ResourceManager::CreateCommittedResource`, whose
source file is not part of the sources: a new resource is created and its
creation state is registered with the tracker. -/
def CreateCommittedResource (w : World) (desc : D3D12_RESOURCE_DESC)
    (initialState : D3D12_RESOURCE_STATES) : Nat × World :=
  let res := w.mNextObject
  (res,
    { w with
      mNextObject := res + 1
      GetDesc := fun r => if r = res then desc else w.GetDesc r
      resourceStateManager := w.resourceStateManager.AddResource res initialState })

/-- Modelled from the spec: `RenderTargetDescriptorManager::CreateRenderTargetView`
("turns a GpuResource + view descriptor into a bindable handle", section 6). -/
def CreateRenderTargetView (w : World) (res : Nat) (format : Nat) : Nat × World :=
  let handle := w.mNextRenderTargetView
  (handle,
    { w with
      mNextRenderTargetView := handle + 1
      mRenderTargetViews := fun h =>
        if h = handle then some ⟨res, format⟩ else w.mRenderTargetViews h })

/-- Modelled from the spec: `CbvSrvUavDescriptorManager::CreateShaderResourceViews`
("turns a GpuResource + view descriptor into a bindable handle", section 6): the
first `descriptorCount` resources with their descriptors become consecutive
views, and the handle of the first is returned. -/
def CreateShaderResourceViews (w : World) (resources : List Nat)
    (descriptors : List D3D12_SHADER_RESOURCE_VIEW_DESC) (descriptorCount : Nat) :
    Nat × World :=
  let handle := w.mNextShaderResourceView
  let views := ((resources.zip descriptors).take descriptorCount).map
    fun rd => ShaderResourceView.mk rd.1 rd.2
  (handle,
    { w with
      mNextShaderResourceView := handle + descriptorCount
      mShaderResourceViews := fun h =>
        if h = handle then some views else w.mShaderResourceViews h })

/-- Modelled from the spec: creation of one pipeline-state or root-signature
object by the external pipeline/config manager (section 6): a new identity. -/
def CreateObject (w : World) : Nat × World :=
  (w.mNextObject, { w with mNextObject := w.mNextObject + 1 })

/-- Modelled from the spec: `UploadBufferManager::CreateUploadBuffer`, which
builds an `UploadBuffer` with the constructor of `UploadBuffer.cpp`:
`ASSERT(elemSize > 0)`, `ASSERT(elemCount > 0)`, a buffer resource of
`mElemSize * elemCount` bytes, mapped. -/
def CreateUploadBuffer (w : World) (elemSize elemCount : Nat) :
    Except Fault (UploadBuffer × World) := do
  ASSERT (decide (elemSize > 0))
  ASSERT (decide (elemCount > 0))
  let (res, w) := w.CreateObject
  pure ({ mElemSize := elemSize
          mBuffer := res
          mMappedData := fun _ => 0
          mappedSize := elemSize * elemCount }, w)

/-- The shared statics of a recorder class. -/
def sPSO (w : World) (c : RecorderClass) : Option Nat := (w.shared c).sPSO

/-- The shared root signature of a recorder class. -/
def sRootSignature (w : World) (c : RecorderClass) : Option Nat := (w.shared c).sRootSignature

end World

namespace CommandListPerFrame

/-- Modelled from the spec: construction of a `CommandListPerFrame`: one
allocator per queued frame and a command list that starts closed. -/
def create (w : World) : CommandListPerFrame × World :=
  ({ mCommandAllocators := (List.range w.sQueuedFrameCount).map fun i => w.mNextObject + i
     mCommandList := { allocator := w.mNextObject, pso := none, commands := [], closed := true }
     mCurrentFrameIndex := 0 },
   { w with mNextObject := w.mNextObject + w.sQueuedFrameCount })

end CommandListPerFrame

namespace World

/-- Assignment to the static `sRootSignature` of a recorder class. -/
def setRootSignature (w : World) (c : RecorderClass) (v : Option Nat) : World :=
  { w with shared := fun k => if k = c then ⟨(w.shared c).sPSO, v⟩ else w.shared k }

/-- Assignment to the static `sPSO` of a recorder class. -/
def setPSO (w : World) (c : RecorderClass) (v : Option Nat) : World :=
  { w with shared := fun k => if k = c then ⟨v, (w.shared c).sRootSignature⟩ else w.shared k }

end World

namespace FrameUploadCBufferPerFrame

/-- Modelled from the spec: the creation loop of the ring: `count` more upload
buffers of one rounded `FrameCBuffer` each. -/
def createBuffers (w : World) : Nat → Except Fault (List UploadBuffer × World)
  | 0 => .ok ([], w)
  | count + 1 => do
    let (buffer, w) ← w.CreateUploadBuffer
      (UploadBuffer.GetRoundedConstantBufferSizeInBytes w.sizeofFrameCBuffer) 1
    let (rest, w) ← createBuffers w count
    pure (buffer :: rest, w)

/-- Modelled from the spec: construction of the ring: one upload buffer per
queued frame. -/
def create (w : World) : Except Fault (FrameUploadCBufferPerFrame × World) := do
  let (buffers, w) ← createBuffers w w.sQueuedFrameCount
  pure ({ mFrameCBuffers := buffers, mCurrentFrameIndex := 0 }, w)

/-- Modelled from the spec: `GetNextFrameCBuffer`: the upload buffer of the
current slot, the rotation moving on to the next slot. The index of the buffer
handed out is returned with it. -/
def GetNextFrameCBuffer (f : FrameUploadCBufferPerFrame) :
    Except Fault (UploadBuffer × Nat × FrameUploadCBufferPerFrame) := do
  let buffer ← deref (f.mFrameCBuffers.get? f.mCurrentFrameIndex)
  pure (buffer, f.mCurrentFrameIndex,
    { f with mCurrentFrameIndex := (f.mCurrentFrameIndex + 1) % f.mFrameCBuffers.length })

end FrameUploadCBufferPerFrame

/-- `X::InitSharedPSOAndRootSignature` of `AmbientLightCmdListRecorder.cpp` and
`PunctualLightCmdListRecorder.cpp` (the two differ only in the shader files and
the topology type they put into the pipeline state): the statics must both be
null on entry, are then created, and are asserted non-null. -/
def InitSharedPSOAndRootSignature (c : RecorderClass) (w : World) : Except Fault World := do
  ASSERT (w.sPSO c).isNone
  ASSERT (w.sRootSignature c).isNone
  let (rootSignature, w) := w.CreateObject
  let w := w.setRootSignature c (some rootSignature)
  let (pso, w) := w.CreateObject
  let w := w.setPSO c (some pso)
  ASSERT (w.sPSO c).isSome
  ASSERT (w.sRootSignature c).isSome
  pure w

/-! ## Recorders whose sources are not part of the sources -/

/-- Modelled from the spec: the common shape of a Pass Recorder (section 4.3),
standing for the recorder classes used by the passes below whose source files
are not part of the sources (`AmbientOcclusionCmdListRecorder`,
`BlurCmdListRecorder`, `ToneMappingCmdListRecorder`): the GPU-visible views it
owns and its command-buffer ring. `cls` names the class, which selects the
shared pipeline configuration. -/
structure ScreenSpaceCmdListRecorder where
  cls : RecorderClass
  mCommandListPerFrame : CommandListPerFrame
  mFrameUploadCBufferPerFrame : FrameUploadCBufferPerFrame
  mRenderTargetView : Nat
  mStartPixelShaderResourceView : Nat

namespace ScreenSpaceCmdListRecorder

/-- Modelled from the spec: "Binds a shared (class-level, created once) pipeline
configuration and shader-binding layout the first time any instance of that
stage type is constructed." -/
def InitSharedPSOAndRootSignature (c : RecorderClass) (w : World) : World :=
  if (w.sPSO c).isSome && (w.sRootSignature c).isSome then w
  else
    let (rootSignature, w) := w.CreateObject
    let w := w.setRootSignature c (some rootSignature)
    let (pso, w) := w.CreateObject
    w.setPSO c (some pso)

/-- Modelled from the spec: a newly constructed recorder: no view bound yet. -/
def create (c : RecorderClass) (w : World) :
    Except Fault (ScreenSpaceCmdListRecorder × World) := do
  let (ring, w) := CommandListPerFrame.create w
  let (frameCBuffers, w) ← FrameUploadCBufferPerFrame.create w
  pure ({ cls := c, mCommandListPerFrame := ring, mFrameUploadCBufferPerFrame := frameCBuffers,
          mRenderTargetView := 0, mStartPixelShaderResourceView := 0 }, w)

/-- Modelled from the spec: "Validation invariant ...: all required view handles
are non-zero/bound". -/
def ValidateData (r : ScreenSpaceCmdListRecorder) : Bool :=
  decide (r.mRenderTargetView ≠ 0) && decide (r.mStartPixelShaderResourceView ≠ 0)

/-- Modelled from the spec: `Init(inputs: resource-view set, output:
render-target view)`: "validates all required views are non-null; fails with
`InvalidConfiguration` otherwise". The inputs become one table of texture
views. -/
def Init (r : ScreenSpaceCmdListRecorder) (inputs : List Nat) (renderTargetView : Nat)
    (w : World) : Except Fault (ScreenSpaceCmdListRecorder × World) := do
  let descriptors := inputs.map fun res =>
    ({ Format := (w.GetDesc res).Format
       ViewDimension := D3D12_SRV_DIMENSION_TEXTURE2D
       Shader4ComponentMapping := D3D12_DEFAULT_SHADER_4_COMPONENT_MAPPING
       MostDetailedMip := 0
       MipLevels := (w.GetDesc res).MipLevels
       FirstElement := 0
       NumElements := 0
       StructureByteStride := 0 } : D3D12_SHADER_RESOURCE_VIEW_DESC)
  let (table, w) := w.CreateShaderResourceViews inputs descriptors inputs.length
  let r := { r with mRenderTargetView := renderTargetView, mStartPixelShaderResourceView := table }
  ASSERT r.ValidateData
  pure (r, w)

/-- Modelled from the spec: `RecordAndSubmit(frameConstants)`: "opens a buffer
from its ring (4.2), encodes: viewport/scissor, output binding,
resource-view-table binding, shader-binding-layout binding, draw/dispatch call
with stage-specific geometry (full-screen triangle pair for screen-space
passes ...), closes the buffer, pushes it to the Submission Queue (4.4)", after
the validation invariant "checked before recording". A recorder that is given
per-frame constants first writes them "into the rotating upload-buffer ring"
(section 6). -/
def RecordAndPushCommandLists (r : ScreenSpaceCmdListRecorder)
    (frameConstants : Option FrameCBuffer) (w : World) :
    Except Fault (ScreenSpaceCmdListRecorder × World) := do
  ASSERT r.ValidateData
  ASSERT (w.sPSO r.cls).isSome
  ASSERT (w.sRootSignature r.cls).isSome
  let frameCBuffers ← match frameConstants with
    | none => pure r.mFrameUploadCBufferPerFrame
    | some frameCBuffer => do
      let (uploadFrameCBuffer, slot, frameCBuffers) ←
        r.mFrameUploadCBufferPerFrame.GetNextFrameCBuffer
      let uploadFrameCBuffer ← uploadFrameCBuffer.CopyData 0 (some frameCBuffer)
        frameCBuffer.length
      pure { frameCBuffers with
        mFrameCBuffers := frameCBuffers.mFrameCBuffers.set slot uploadFrameCBuffer }
  let r := { r with mFrameUploadCBufferPerFrame := frameCBuffers }
  let (commandList, ring) := r.mCommandListPerFrame.ResetWithNextCommandAllocator (w.sPSO r.cls)
  let commandList := commandList.record (.RSSetViewports 1)
  let commandList := commandList.record (.RSSetScissorRects 1)
  let commandList := commandList.record (.OMSetRenderTargets 1 r.mRenderTargetView none)
  let commandList := commandList.record
    (.SetGraphicsRootDescriptorTable 0 r.mStartPixelShaderResourceView)
  let commandList := commandList.record (.SetGraphicsRootSignature (w.sRootSignature r.cls))
  let commandList := commandList.record (.IASetPrimitiveTopology D3D_PRIMITIVE_TOPOLOGY_TRIANGLELIST)
  let commandList := commandList.record (.DrawInstanced 6 1 0 0)
  let commandList := commandList.Close
  pure ({ r with mCommandListPerFrame := { ring with mCommandList := commandList } },
    w.AddCommandList commandList)

end ScreenSpaceCmdListRecorder

/-! ## `AmbientLightCmdListRecorder.cpp` -/

/-- The data members of `AmbientLightCmdListRecorder` used by its source file. -/
structure AmbientLightCmdListRecorder where
  mCommandListPerFrame : CommandListPerFrame
  mRenderTargetView : Nat
  mStartPixelShaderResourceView : Nat

namespace AmbientLightCmdListRecorder

/-- `new AmbientLightCmdListRecorder()`: both handles start as the null handle
(the class declaration is not part of the sources; `Init` asserts that a new
recorder is not valid). -/
def create (w : World) : AmbientLightCmdListRecorder × World :=
  let (ring, w) := CommandListPerFrame.create w
  ({ mCommandListPerFrame := ring, mRenderTargetView := 0,
     mStartPixelShaderResourceView := 0 }, w)

/-- `AmbientLightCmdListRecorder::InitSharedPSOAndRootSignature`. -/
def InitSharedPSOAndRootSignature (w : World) : Except Fault World :=
  BRE.InitSharedPSOAndRootSignature RecorderClass.AmbientLight w

/-- `AmbientLightCmdListRecorder::ValidateData`. -/
def ValidateData (r : AmbientLightCmdListRecorder) : Bool :=
  decide (r.mRenderTargetView ≠ 0) && decide (r.mStartPixelShaderResourceView ≠ 0)

/-- `AmbientLightCmdListRecorder::InitShaderResourceViews`. -/
def InitShaderResourceViews (r : AmbientLightCmdListRecorder)
    (baseColorMetalMaskBuffer ambientAccessibilityBuffer : Nat) (w : World) :
    Except Fault (AmbientLightCmdListRecorder × World) := do
  ASSERT (decide (r.mStartPixelShaderResourceView = 0))
  let resources := [baseColorMetalMaskBuffer, ambientAccessibilityBuffer]
  let srvDescriptors : List D3D12_SHADER_RESOURCE_VIEW_DESC :=
    [ { Format := (w.GetDesc baseColorMetalMaskBuffer).Format
        ViewDimension := D3D12_SRV_DIMENSION_TEXTURE2D
        Shader4ComponentMapping := D3D12_DEFAULT_SHADER_4_COMPONENT_MAPPING
        MostDetailedMip := 0
        MipLevels := (w.GetDesc baseColorMetalMaskBuffer).MipLevels
        FirstElement := 0
        NumElements := 0
        StructureByteStride := 0 },
      { Format := (w.GetDesc ambientAccessibilityBuffer).Format
        ViewDimension := D3D12_SRV_DIMENSION_TEXTURE2D
        Shader4ComponentMapping := D3D12_DEFAULT_SHADER_4_COMPONENT_MAPPING
        MostDetailedMip := 0
        MipLevels := (w.GetDesc ambientAccessibilityBuffer).MipLevels
        FirstElement := 0
        NumElements := 0
        StructureByteStride := 0 } ]
  ASSERT (decide (resources.length = srvDescriptors.length))
  let (handle, w) := w.CreateShaderResourceViews resources srvDescriptors resources.length
  pure ({ r with mStartPixelShaderResourceView := handle }, w)

/-- `AmbientLightCmdListRecorder::Init`. -/
def Init (r : AmbientLightCmdListRecorder)
    (baseColorMetalMaskBuffer ambientAccessibilityBuffer renderTargetView : Nat) (w : World) :
    Except Fault (AmbientLightCmdListRecorder × World) := do
  ASSERT (r.ValidateData == false)
  let r := { r with mRenderTargetView := renderTargetView }
  let (r, w) ← r.InitShaderResourceViews baseColorMetalMaskBuffer ambientAccessibilityBuffer w
  ASSERT r.ValidateData
  pure (r, w)

/-- `AmbientLightCmdListRecorder::RecordAndPushCommandLists`. -/
def RecordAndPushCommandLists (r : AmbientLightCmdListRecorder) (w : World) :
    Except Fault (AmbientLightCmdListRecorder × World) := do
  ASSERT r.ValidateData
  ASSERT (w.sPSO RecorderClass.AmbientLight).isSome
  ASSERT (w.sRootSignature RecorderClass.AmbientLight).isSome
  let (commandList, ring) :=
    r.mCommandListPerFrame.ResetWithNextCommandAllocator (w.sPSO RecorderClass.AmbientLight)
  let commandList := commandList.record (.RSSetViewports 1)
  let commandList := commandList.record (.RSSetScissorRects 1)
  let commandList := commandList.record (.OMSetRenderTargets 1 r.mRenderTargetView none)
  let commandList := commandList.record (.SetDescriptorHeaps 1)
  let commandList := commandList.record
    (.SetGraphicsRootSignature (w.sRootSignature RecorderClass.AmbientLight))
  let commandList := commandList.record
    (.SetGraphicsRootDescriptorTable 0 r.mStartPixelShaderResourceView)
  let commandList := commandList.record (.IASetPrimitiveTopology D3D_PRIMITIVE_TOPOLOGY_TRIANGLELIST)
  let commandList := commandList.record (.DrawInstanced 6 1 0 0)
  let commandList := commandList.Close
  pure ({ r with mCommandListPerFrame := { ring with mCommandList := commandList } },
    w.AddCommandList commandList)

end AmbientLightCmdListRecorder

/-! ## `AmbientLightPass.cpp` -/

/-- The data members of `AmbientLightPass` used by its source file. The three
recorders are owning pointers, the two buffers `ComPtr`s. -/
structure AmbientLightPass where
  mBeginCommandListPerFrame : CommandListPerFrame
  mMiddleCommandListPerFrame : CommandListPerFrame
  mFinalCommandListPerFrame : CommandListPerFrame
  mAmbientOcclusionRecorder : Option ScreenSpaceCmdListRecorder
  mAmbientAccessibilityBuffer : Option Nat
  mAmbientAccessibilityBufferRenderTargetView : Nat
  mBlurRecorder : Option ScreenSpaceCmdListRecorder
  mBlurBuffer : Option Nat
  mAmbientLightRecorder : Option AmbientLightCmdListRecorder

/-- The anonymous-namespace helper `CreateResourceAndRenderTargetView` of
`AmbientLightPass.cpp`: returns the new resource and its render-target view. -/
def CreateResourceAndRenderTargetView (resourceinitialState : D3D12_RESOURCE_STATES)
    (w : World) : Nat × Nat × World :=
  let resourceDescriptor : D3D12_RESOURCE_DESC := { Format := DXGI_FORMAT_R16_UNORM, MipLevels := 0 }
  let (resource, w) := w.CreateCommittedResource resourceDescriptor resourceinitialState
  let (resourceRenderTargetView, w) := w.CreateRenderTargetView resource resourceDescriptor.Format
  (resource, resourceRenderTargetView, w)

namespace AmbientLightPass

/-- A default-constructed `AmbientLightPass`. -/
def create (w : World) : AmbientLightPass × World :=
  let (beginRing, w) := CommandListPerFrame.create w
  let (middleRing, w) := CommandListPerFrame.create w
  let (finalRing, w) := CommandListPerFrame.create w
  ({ mBeginCommandListPerFrame := beginRing
     mMiddleCommandListPerFrame := middleRing
     mFinalCommandListPerFrame := finalRing
     mAmbientOcclusionRecorder := none
     mAmbientAccessibilityBuffer := none
     mAmbientAccessibilityBufferRenderTargetView := 0
     mBlurRecorder := none
     mBlurBuffer := none
     mAmbientLightRecorder := none }, w)

/-- `AmbientLightPass::ValidateData`. -/
def ValidateData (p : AmbientLightPass) : Bool :=
  p.mAmbientOcclusionRecorder.isSome &&
  p.mAmbientLightRecorder.isSome &&
  p.mAmbientAccessibilityBuffer.isSome &&
  p.mBlurBuffer.isSome

/-- `AmbientLightPass::Init`. -/
def Init (p : AmbientLightPass)
    (baseColorMetalMaskBuffer normalSmoothnessBuffer depthBuffer renderTargetView : Nat)
    (w : World) : Except Fault (AmbientLightPass × World) := do
  ASSERT (p.ValidateData == false)
  let w ← AmbientLightCmdListRecorder.InitSharedPSOAndRootSignature w
  let w := ScreenSpaceCmdListRecorder.InitSharedPSOAndRootSignature RecorderClass.AmbientOcclusion w
  let w := ScreenSpaceCmdListRecorder.InitSharedPSOAndRootSignature RecorderClass.Blur w
  -- Create ambient accessibility buffer and blur buffer
  let (ambientAccessibilityBuffer, ambientAccessibilityBufferRenderTargetView, w) :=
    CreateResourceAndRenderTargetView D3D12_RESOURCE_STATE_PIXEL_SHADER_RESOURCE w
  let p := { p with
    mAmbientAccessibilityBuffer := some ambientAccessibilityBuffer
    mAmbientAccessibilityBufferRenderTargetView := ambientAccessibilityBufferRenderTargetView }
  let (blurBuffer, blurBufferRenderTargetView, w) :=
    CreateResourceAndRenderTargetView D3D12_RESOURCE_STATE_PIXEL_SHADER_RESOURCE w
  let p := { p with mBlurBuffer := some blurBuffer }
  -- Initialize ambient occlusion recorder
  let (recorder, w) ← ScreenSpaceCmdListRecorder.create RecorderClass.AmbientOcclusion w
  let (recorder, w) ← recorder.Init [normalSmoothnessBuffer, depthBuffer]
    p.mAmbientAccessibilityBufferRenderTargetView w
  let p := { p with mAmbientOcclusionRecorder := some recorder }
  -- Initialize blur recorder
  let (recorder, w) ← ScreenSpaceCmdListRecorder.create RecorderClass.Blur w
  let ambientAccessibility ← deref p.mAmbientAccessibilityBuffer
  let (recorder, w) ← recorder.Init [ambientAccessibility] blurBufferRenderTargetView w
  let p := { p with mBlurRecorder := some recorder }
  -- Initialize ambient light recorder
  let (recorder, w) := AmbientLightCmdListRecorder.create w
  let blur ← deref p.mBlurBuffer
  let (recorder, w) ← recorder.Init baseColorMetalMaskBuffer blur renderTargetView w
  let p := { p with mAmbientLightRecorder := some recorder }
  ASSERT p.ValidateData
  pure (p, w)

/-- `AmbientLightPass::ExecuteBeginTask`. -/
def ExecuteBeginTask (p : AmbientLightPass) (w : World) :
    Except Fault (AmbientLightPass × World) := do
  ASSERT p.ValidateData
  let ambientAccessibility ← deref p.mAmbientAccessibilityBuffer
  let blur ← deref p.mBlurBuffer
  ASSERT (decide ((← w.GetResourceState ambientAccessibility)
    = D3D12_RESOURCE_STATE_PIXEL_SHADER_RESOURCE))
  ASSERT (decide ((← w.GetResourceState blur) = D3D12_RESOURCE_STATE_PIXEL_SHADER_RESOURCE))
  let (commandList, ring) := p.mBeginCommandListPerFrame.ResetWithNextCommandAllocator none
  let (barrier0, w) ← w.ChangeResourceStateAndGetBarrier ambientAccessibility
    D3D12_RESOURCE_STATE_RENDER_TARGET
  let barriers := [barrier0]
  let barrierCount := barriers.length
  ASSERT (decide (barrierCount = 1))
  let commandList := commandList.record (.ResourceBarrier barrierCount barriers)
  let commandList := commandList.record
    (.ClearRenderTargetView p.mAmbientAccessibilityBufferRenderTargetView)
  let commandList := commandList.Close
  pure ({ p with mBeginCommandListPerFrame := { ring with mCommandList := commandList } },
    w.AddCommandList commandList)

/-- `AmbientLightPass::ExecuteMiddleTask`. -/
def ExecuteMiddleTask (p : AmbientLightPass) (w : World) :
    Except Fault (AmbientLightPass × World) := do
  ASSERT p.ValidateData
  let ambientAccessibility ← deref p.mAmbientAccessibilityBuffer
  let blur ← deref p.mBlurBuffer
  ASSERT (decide ((← w.GetResourceState ambientAccessibility)
    = D3D12_RESOURCE_STATE_RENDER_TARGET))
  ASSERT (decide ((← w.GetResourceState blur) = D3D12_RESOURCE_STATE_PIXEL_SHADER_RESOURCE))
  let (commandList, ring) := p.mMiddleCommandListPerFrame.ResetWithNextCommandAllocator none
  let (barrier0, w) ← w.ChangeResourceStateAndGetBarrier ambientAccessibility
    D3D12_RESOURCE_STATE_PIXEL_SHADER_RESOURCE
  let (barrier1, w) ← w.ChangeResourceStateAndGetBarrier blur
    D3D12_RESOURCE_STATE_RENDER_TARGET
  let barriers := [barrier0, barrier1]
  let barrierCount := barriers.length
  ASSERT (decide (barrierCount = 2))
  let commandList := commandList.record (.ResourceBarrier barrierCount barriers)
  let commandList := commandList.Close
  pure ({ p with mMiddleCommandListPerFrame := { ring with mCommandList := commandList } },
    w.AddCommandList commandList)

/-- `AmbientLightPass::ExecuteFinalTask`. -/
def ExecuteFinalTask (p : AmbientLightPass) (w : World) :
    Except Fault (AmbientLightPass × World) := do
  ASSERT p.ValidateData
  let ambientAccessibility ← deref p.mAmbientAccessibilityBuffer
  let blur ← deref p.mBlurBuffer
  ASSERT (decide ((← w.GetResourceState ambientAccessibility)
    = D3D12_RESOURCE_STATE_PIXEL_SHADER_RESOURCE))
  ASSERT (decide ((← w.GetResourceState blur) = D3D12_RESOURCE_STATE_RENDER_TARGET))
  let (commandList, ring) := p.mFinalCommandListPerFrame.ResetWithNextCommandAllocator none
  let (barrier0, w) ← w.ChangeResourceStateAndGetBarrier blur
    D3D12_RESOURCE_STATE_PIXEL_SHADER_RESOURCE
  let barriers := [barrier0]
  let barrierCount := barriers.length
  ASSERT (decide (barrierCount = 1))
  let commandList := commandList.record (.ResourceBarrier barrierCount barriers)
  let commandList := commandList.Close
  pure ({ p with mFinalCommandListPerFrame := { ring with mCommandList := commandList } },
    w.AddCommandList commandList)

/-- The constant `taskCount` of `AmbientLightPass::Execute`. -/
def taskCount : Nat := 5

/-- `AmbientLightPass::Execute`. `budget` bounds the iterations of the final wait
loop. -/
def Execute (p : AmbientLightPass) (frameCBuffer : FrameCBuffer) (budget : Nat) (w : World) :
    Except Fault (AmbientLightPass × World) := do
  ASSERT p.ValidateData
  let w := w.ResetExecutedCommandListCount
  let (p, w) ← p.ExecuteBeginTask w
  let (recorder, w) ←
    (← deref p.mAmbientOcclusionRecorder).RecordAndPushCommandLists (some frameCBuffer) w
  let p := { p with mAmbientOcclusionRecorder := some recorder }
  let (p, w) ← p.ExecuteMiddleTask w
  let (recorder, w) ← (← deref p.mBlurRecorder).RecordAndPushCommandLists none w
  let p := { p with mBlurRecorder := some recorder }
  let (p, w) ← p.ExecuteFinalTask w
  let (recorder, w) ← (← deref p.mAmbientLightRecorder).RecordAndPushCommandLists w
  let p := { p with mAmbientLightRecorder := some recorder }
  -- Wait until all previous tasks command lists are executed
  let w ← w.waitForExecuted taskCount budget
  pure (p, w)

end AmbientLightPass

/-! ## `ToneMappingPass.cpp` -/

/-- The data members of `ToneMappingPass` used by its source file. -/
structure ToneMappingPass where
  mCommandListPerFrame : CommandListPerFrame
  mCommandListRecorder : Option ScreenSpaceCmdListRecorder
  mInputColorBuffer : Option Nat
  mOutputColorBuffer : Option Nat

namespace ToneMappingPass

/-- A default-constructed `ToneMappingPass`. -/
def create (w : World) : ToneMappingPass × World :=
  let (ring, w) := CommandListPerFrame.create w
  ({ mCommandListPerFrame := ring, mCommandListRecorder := none,
     mInputColorBuffer := none, mOutputColorBuffer := none }, w)

/-- `ToneMappingPass::IsDataValid`. -/
def IsDataValid (p : ToneMappingPass) : Bool :=
  p.mCommandListRecorder.isSome &&
  p.mInputColorBuffer.isSome &&
  p.mOutputColorBuffer.isSome

/-- `ToneMappingPass::Init`. -/
def Init (p : ToneMappingPass) (inputColorBuffer outputColorBuffer renderTargetView : Nat)
    (w : World) : Except Fault (ToneMappingPass × World) := do
  ASSERT (p.IsDataValid == false)
  let p := { p with mInputColorBuffer := some inputColorBuffer }
  let p := { p with mOutputColorBuffer := some outputColorBuffer }
  let w := ScreenSpaceCmdListRecorder.InitSharedPSOAndRootSignature RecorderClass.ToneMapping w
  let (recorder, w) ← ScreenSpaceCmdListRecorder.create RecorderClass.ToneMapping w
  let (recorder, w) ← recorder.Init [← deref p.mInputColorBuffer] renderTargetView w
  let p := { p with mCommandListRecorder := some recorder }
  ASSERT p.IsDataValid
  pure (p, w)

/-- `ToneMappingPass::ExecuteBeginTask`. `counted` is the amount by which the
executed-count advances while the barrier list is executed (see
`CommandListExecutor.ExecuteCommandListAndWaitForCompletion`). -/
def ExecuteBeginTask (p : ToneMappingPass) (counted : Nat) (w : World) :
    Except Fault (ToneMappingPass × World) := do
  ASSERT p.IsDataValid
  let inputColorBuffer ← deref p.mInputColorBuffer
  let outputColorBuffer ← deref p.mOutputColorBuffer
  ASSERT (decide ((← w.GetResourceState inputColorBuffer) = D3D12_RESOURCE_STATE_RENDER_TARGET))
  ASSERT (decide ((← w.GetResourceState outputColorBuffer)
    = D3D12_RESOURCE_STATE_PIXEL_SHADER_RESOURCE))
  let (commandList, ring) := p.mCommandListPerFrame.ResetWithNextCommandAllocator none
  let (barrier0, w) ← w.ChangeResourceStateAndGetBarrier inputColorBuffer
    D3D12_RESOURCE_STATE_PIXEL_SHADER_RESOURCE
  let (barrier1, w) ← w.ChangeResourceStateAndGetBarrier outputColorBuffer
    D3D12_RESOURCE_STATE_RENDER_TARGET
  let barriers := [barrier0, barrier1]
  let commandList := commandList.record (.ResourceBarrier barriers.length barriers)
  let commandList := commandList.Close
  pure ({ p with mCommandListPerFrame := { ring with mCommandList := commandList } },
    { w with commandListExecutor :=
      w.commandListExecutor.ExecuteCommandListAndWaitForCompletion counted commandList })

/-- `ToneMappingPass::Execute`. `budget` bounds the iterations of the final wait
loop. -/
def Execute (p : ToneMappingPass) (counted budget : Nat) (w : World) :
    Except Fault (ToneMappingPass × World) := do
  ASSERT p.IsDataValid
  let (p, w) ← p.ExecuteBeginTask counted w
  let w := w.ResetExecutedCommandListCount
  let (recorder, w) ← (← deref p.mCommandListRecorder).RecordAndPushCommandLists none w
  let p := { p with mCommandListRecorder := some recorder }
  -- Wait until all previous tasks command lists are executed
  let w ← w.waitForExecuted 1 budget
  pure (p, w)

end ToneMappingPass

/-! ## `PunctualLightCmdListRecorder.cpp` -/

/-- A resource is identified with its GPU virtual address
(`ID3D12Resource::GetGPUVirtualAddress`). -/
def GetGPUVirtualAddress (res : Nat) : Nat := res

/-- The data members `PunctualLightCmdListRecorder` uses, its own and those of
its base class `LightingPassCmdListRecorder`. -/
structure PunctualLightCmdListRecorder where
  mCommandListPerFrame : CommandListPerFrame
  mFrameUploadCBufferPerFrame : FrameUploadCBufferPerFrame
  mImmutableUploadCBuffer : Option UploadBuffer
  mLightsUploadBuffer : Option UploadBuffer
  mStartLightsBufferShaderResourceView : Nat
  mStartPixelShaderResourceView : Nat
  mRenderTargetView : Nat
  mNumLights : Nat

namespace PunctualLightCmdListRecorder

/-- `PunctualLightCmdListRecorder::InitSharedPSOAndRootSignature`. -/
def InitSharedPSOAndRootSignature (w : World) : Except Fault World :=
  BRE.InitSharedPSOAndRootSignature RecorderClass.PunctualLight w

/-- Modelled from the spec: `LightingPassCmdListRecorder::IsDataValid` of the
base class, whose source file is not part of the sources ("all required view
handles are non-zero/bound"): the buffers and the lights view the base class
holds are set. -/
def baseIsDataValid (r : PunctualLightCmdListRecorder) : Bool :=
  r.mImmutableUploadCBuffer.isSome &&
  r.mLightsUploadBuffer.isSome &&
  decide (r.mStartLightsBufferShaderResourceView ≠ 0)

/-- `PunctualLightCmdListRecorder::IsDataValid`. -/
def IsDataValid (r : PunctualLightCmdListRecorder) : Bool :=
  r.baseIsDataValid && decide (r.mStartPixelShaderResourceView ≠ 0)

/-- `PunctualLightCmdListRecorder::InitConstantBuffers`. -/
def InitConstantBuffers (r : PunctualLightCmdListRecorder) (w : World) :
    Except Fault (PunctualLightCmdListRecorder × World) := do
  let immutableCBufferElemSize :=
    UploadBuffer.GetRoundedConstantBufferSizeInBytes w.immutableCBuffer.length
  let (buffer, w) ← w.CreateUploadBuffer immutableCBufferElemSize 1
  let buffer ← buffer.CopyData 0 (some w.immutableCBuffer) w.immutableCBuffer.length
  pure ({ r with mImmutableUploadCBuffer := some buffer }, w)

/-- The copy loop of `CreateLightBuffersAndViews`:
`for (i = from; i < mNumLights; ++i) CopyData(i, lightsPtr + sizeof(PunctualLight) * i,
sizeof(PunctualLight))`, with `remaining = mNumLights - from` iterations to go. -/
def copyLights (sizeofPunctualLight : Nat) (lights : List Nat) :
    Nat → Nat → UploadBuffer → Except Fault UploadBuffer
  | 0, _, buffer => .ok buffer
  | remaining + 1, i, buffer => do
    let buffer ← buffer.CopyData i (some (lights.drop (sizeofPunctualLight * i)))
      sizeofPunctualLight
    copyLights sizeofPunctualLight lights remaining (i + 1) buffer

/-- `PunctualLightCmdListRecorder::CreateLightBuffersAndViews`. -/
def CreateLightBuffersAndViews (r : PunctualLightCmdListRecorder) (lights : Option (List Nat))
    (w : World) : Except Fault (PunctualLightCmdListRecorder × World) := do
  ASSERT r.mLightsUploadBuffer.isNone
  ASSERT lights.isSome
  ASSERT (decide (r.mNumLights ≠ 0))
  -- Create lights buffer and fill it
  let lightBufferElemSize := w.sizeofPunctualLight
  let (buffer, w) ← w.CreateUploadBuffer lightBufferElemSize r.mNumLights
  let lightsPtr ← deref lights
  let buffer ← copyLights w.sizeofPunctualLight lightsPtr r.mNumLights 0 buffer
  -- Create lights buffer SRV descriptor
  let srvDescriptor : D3D12_SHADER_RESOURCE_VIEW_DESC :=
    { Format := (w.GetDesc buffer.mBuffer).Format
      ViewDimension := D3D12_SRV_DIMENSION_BUFFER
      Shader4ComponentMapping := D3D12_DEFAULT_SHADER_4_COMPONENT_MAPPING
      MostDetailedMip := 0
      MipLevels := 0
      FirstElement := 0
      NumElements := r.mNumLights
      StructureByteStride := w.sizeofPunctualLight }
  let (handle, w) := w.CreateShaderResourceViews [buffer.mBuffer] [srvDescriptor] 1
  pure ({ r with mLightsUploadBuffer := some buffer
                 mStartLightsBufferShaderResourceView := handle }, w)

/-- The loop of `InitShaderResourceViews` that fills `resources` and
`srvDescriptors` for the geometry buffers `i, i + 1, ...`, with `remaining`
iterations to go. -/
def fillGeometryBufferViews (w : World) (geometryBuffers : List (Option Nat)) :
    Nat → Nat → List Nat → List D3D12_SHADER_RESOURCE_VIEW_DESC →
    Except Fault (List Nat × List D3D12_SHADER_RESOURCE_VIEW_DESC)
  | 0, _, resources, srvDescriptors => .ok (resources, srvDescriptors)
  | remaining + 1, i, resources, srvDescriptors => do
    let geometryBuffer ← deref (geometryBuffers.get? i)
    ASSERT geometryBuffer.isSome
    let resource ← deref geometryBuffer
    let resources := resources ++ [resource]
    let srvDescriptor : D3D12_SHADER_RESOURCE_VIEW_DESC :=
      { Format := (w.GetDesc resource).Format
        ViewDimension := D3D12_SRV_DIMENSION_TEXTURE2D
        Shader4ComponentMapping := D3D12_DEFAULT_SHADER_4_COMPONENT_MAPPING
        MostDetailedMip := 0
        MipLevels := (w.GetDesc resource).MipLevels
        FirstElement := 0
        NumElements := 0
        StructureByteStride := 0 }
    fillGeometryBufferViews w geometryBuffers remaining (i + 1) resources
      (srvDescriptors ++ [srvDescriptor])

/-- `PunctualLightCmdListRecorder::InitShaderResourceViews`.
`sDepthStencilSRVFormat` is `SettingsManager::sDepthStencilSRVFormat`. -/
def InitShaderResourceViews (r : PunctualLightCmdListRecorder)
    (geometryBuffers : Option (List (Option Nat))) (geometryBuffersCount depthBuffer : Nat)
    (sDepthStencilSRVFormat : Nat) (w : World) :
    Except Fault (PunctualLightCmdListRecorder × World) := do
  ASSERT geometryBuffers.isSome
  ASSERT (decide (0 < geometryBuffersCount) &&
    decide (geometryBuffersCount < D3D12_SIMULTANEOUS_RENDER_TARGET_COUNT))
  ASSERT (decide (r.mNumLights > 0))
  -- Number of geometry buffers + depth buffer
  let numResources := geometryBuffersCount + 1
  let (resources, srvDescriptors) ←
    fillGeometryBufferViews w (← deref geometryBuffers) geometryBuffersCount 0 [] []
  -- Fill depth buffer SRV description
  let srvDescriptor : D3D12_SHADER_RESOURCE_VIEW_DESC :=
    { Format := sDepthStencilSRVFormat
      ViewDimension := D3D12_SRV_DIMENSION_TEXTURE2D
      Shader4ComponentMapping := D3D12_DEFAULT_SHADER_4_COMPONENT_MAPPING
      MostDetailedMip := 0
      MipLevels := (w.GetDesc depthBuffer).MipLevels
      FirstElement := 0
      NumElements := 0
      StructureByteStride := 0 }
  let srvDescriptors := srvDescriptors ++ [srvDescriptor]
  let resources := resources ++ [depthBuffer]
  -- Create pixel shader SRV descriptors
  let (handle, w) := w.CreateShaderResourceViews resources srvDescriptors numResources
  pure ({ r with mStartPixelShaderResourceView := handle }, w)

/-- `PunctualLightCmdListRecorder::Init`. -/
def Init (r : PunctualLightCmdListRecorder) (geometryBuffers : Option (List (Option Nat)))
    (geometryBuffersCount depthBuffer : Nat) (lights : Option (List Nat)) (numLights : Nat)
    (sDepthStencilSRVFormat : Nat) (w : World) :
    Except Fault (PunctualLightCmdListRecorder × World) := do
  ASSERT (r.IsDataValid == false)
  ASSERT geometryBuffers.isSome
  ASSERT (decide (0 < geometryBuffersCount) &&
    decide (geometryBuffersCount < D3D12_SIMULTANEOUS_RENDER_TARGET_COUNT))
  ASSERT lights.isSome
  ASSERT (decide (numLights > 0))
  let r := { r with mNumLights := numLights }
  let (r, w) ← r.InitConstantBuffers w
  let (r, w) ← r.CreateLightBuffersAndViews lights w
  let (r, w) ← r.InitShaderResourceViews geometryBuffers geometryBuffersCount depthBuffer
    sDepthStencilSRVFormat w
  ASSERT r.IsDataValid
  pure (r, w)

/-- `PunctualLightCmdListRecorder::RecordAndPushCommandLists`. -/
def RecordAndPushCommandLists (r : PunctualLightCmdListRecorder) (frameCBuffer : FrameCBuffer)
    (w : World) : Except Fault (PunctualLightCmdListRecorder × World) := do
  ASSERT r.IsDataValid
  ASSERT (w.sPSO RecorderClass.PunctualLight).isSome
  ASSERT (w.sRootSignature RecorderClass.PunctualLight).isSome
  ASSERT (decide (r.mRenderTargetView ≠ 0))
  -- Update frame constants
  let (uploadFrameCBuffer, slot, frameCBuffers) ←
    r.mFrameUploadCBufferPerFrame.GetNextFrameCBuffer
  let uploadFrameCBuffer ← uploadFrameCBuffer.CopyData 0 (some frameCBuffer) frameCBuffer.length
  let frameCBuffers := { frameCBuffers with
    mFrameCBuffers := frameCBuffers.mFrameCBuffers.set slot uploadFrameCBuffer }
  let (commandList, ring) :=
    r.mCommandListPerFrame.ResetWithNextCommandAllocator (w.sPSO RecorderClass.PunctualLight)
  let commandList := commandList.record (.RSSetViewports 1)
  let commandList := commandList.record (.RSSetScissorRects 1)
  let commandList := commandList.record (.OMSetRenderTargets 1 r.mRenderTargetView none)
  let commandList := commandList.record (.SetDescriptorHeaps 1)
  let commandList := commandList.record
    (.SetGraphicsRootSignature (w.sRootSignature RecorderClass.PunctualLight))
  let frameCBufferGpuVAddress := GetGPUVirtualAddress uploadFrameCBuffer.mBuffer
  let immutableCBufferGpuVAddress :=
    GetGPUVirtualAddress (← deref r.mImmutableUploadCBuffer).mBuffer
  let commandList := commandList.record
    (.SetGraphicsRootConstantBufferView 0 frameCBufferGpuVAddress)
  let commandList := commandList.record
    (.SetGraphicsRootDescriptorTable 1 r.mStartLightsBufferShaderResourceView)
  let commandList := commandList.record
    (.SetGraphicsRootConstantBufferView 2 frameCBufferGpuVAddress)
  let commandList := commandList.record
    (.SetGraphicsRootConstantBufferView 3 immutableCBufferGpuVAddress)
  let commandList := commandList.record
    (.SetGraphicsRootConstantBufferView 4 frameCBufferGpuVAddress)
  let commandList := commandList.record
    (.SetGraphicsRootDescriptorTable 5 r.mStartPixelShaderResourceView)
  let commandList := commandList.record (.IASetPrimitiveTopology D3D_PRIMITIVE_TOPOLOGY_POINTLIST)
  let commandList := commandList.record (.DrawInstanced r.mNumLights 1 0 0)
  let commandList := commandList.Close
  pure ({ r with
          mFrameUploadCBufferPerFrame := frameCBuffers
          mCommandListPerFrame := { ring with mCommandList := commandList } },
    w.AddCommandList commandList)

end PunctualLightCmdListRecorder

/-! ## `EnvironmentLightCmdListRecorder.cpp` -/

/-- An `ID3D12CommandAllocator`: its identity and how often it has been `Reset`. -/
structure ID3D12CommandAllocator where
  identity : Nat
  resets : Nat
  deriving DecidableEq, Repr

/-- The data members `EnvironmentLightCmdListRecorder.cpp` uses. `mCmdListQueue`
is the queue the recorder was constructed with; `mCmdAlloc` and `mFrameCBuffer`
are arrays with one entry per queued frame; `mIndexCount` is
`mIndexBufferData.mCount`. -/
structure EnvironmentLightCmdListRecorder where
  mCmdListQueue : List ID3D12GraphicsCommandList
  mCmdList : Option ID3D12GraphicsCommandList
  mCmdAlloc : List (Option ID3D12CommandAllocator)
  mCurrFrameIndex : Nat
  mCbvSrvUavDescHeap : Option Nat
  mImmutableCBuffer : Option UploadBuffer
  mFrameCBuffer : List (Option UploadBuffer)
  mIndexCount : Nat

namespace EnvironmentLightCmdListRecorder

/-- The anonymous-namespace helper `BuildCommandObjects`: `cmdAllocCount`
allocators with the identities `firstObject, firstObject + 1, ...`, and a command
list created on the first of them and closed at once. -/
def BuildCommandObjects (cmdList : Option ID3D12GraphicsCommandList)
    (cmdAlloc : List (Option ID3D12CommandAllocator)) (cmdAllocCount firstObject : Nat) :
    Except Fault (ID3D12GraphicsCommandList × List (Option ID3D12CommandAllocator)) := do
  ASSERT cmdList.isNone
  ASSERT ((List.range cmdAllocCount).all fun i => (cmdAlloc.getD i none).isNone)
  let cmdAlloc : List (Option ID3D12CommandAllocator) :=
    (List.range cmdAllocCount).map fun i => some ⟨firstObject + i, 0⟩
  let first ← deref (cmdAlloc.getD 0 none)
  let cmdList : ID3D12GraphicsCommandList :=
    { allocator := first.identity, pso := none, commands := [], closed := false }
  -- Start off in a closed state.
  pure (cmdList.Close, cmdAlloc)

/-- The constructor of `EnvironmentLightCmdListRecorder`. The members not named
in its initialiser list take the values of their declaration, which is not part
of the sources: null pointers, and frame index `0` (the rotation starts at the
first slot). -/
def create (cmdListQueue : List ID3D12GraphicsCommandList) (sQueuedFrameCount firstObject : Nat) :
    Except Fault EnvironmentLightCmdListRecorder := do
  let (cmdList, cmdAlloc) ←
    BuildCommandObjects none (List.replicate sQueuedFrameCount none) sQueuedFrameCount firstObject
  pure { mCmdListQueue := cmdListQueue
         mCmdList := some cmdList
         mCmdAlloc := cmdAlloc
         mCurrFrameIndex := 0
         mCbvSrvUavDescHeap := none
         mImmutableCBuffer := none
         mFrameCBuffer := List.replicate sQueuedFrameCount none
         mIndexCount := 0 }

/-- `EnvironmentLightCmdListRecorder::ValidateData`. `mFrameCBuffer` is an array
member, so the comparison `mFrameCBuffer != nullptr` is always true. -/
def ValidateData (r : EnvironmentLightCmdListRecorder) (sQueuedFrameCount : Nat) : Bool :=
  if (List.range sQueuedFrameCount).any fun i => (r.mCmdAlloc.getD i none).isNone then false
  else
    r.mCmdList.isSome &&
    r.mCbvSrvUavDescHeap.isSome &&
    r.mImmutableCBuffer.isSome &&
    true

/-- `EnvironmentLightCmdListRecorder::RecordCommandLists`. `shared` holds the
statics `sPSO` and `sRootSign`, `sQueuedFrameCount` is
`Settings::sQueuedFrameCount`. `CHECK_HR(mCmdList->Reset(...))` fails on a
command list that is not closed. The index arithmetic is that of
`std::uint32_t`. -/
def RecordCommandLists (r : EnvironmentLightCmdListRecorder) (shared : SharedPSOAndRootSignature)
    (sQueuedFrameCount : Nat) (frameCBuffer : FrameCBuffer)
    (rtvCpuDescHandle depthStencilHandle : Nat) :
    Except Fault EnvironmentLightCmdListRecorder := do
  ASSERT (r.ValidateData sQueuedFrameCount)
  ASSERT shared.sPSO.isSome
  ASSERT shared.sRootSignature.isSome
  let slot ← deref (r.mCmdAlloc.get? r.mCurrFrameIndex)
  ASSERT slot.isSome
  let cmdAlloc ← deref slot
  -- Update frame constants
  let uploadFrameCBuffer ← deref (← deref (r.mFrameCBuffer.get? r.mCurrFrameIndex))
  let uploadFrameCBuffer ← uploadFrameCBuffer.CopyData 0 (some frameCBuffer) frameCBuffer.length
  let r := { r with mFrameCBuffer := r.mFrameCBuffer.set r.mCurrFrameIndex (some uploadFrameCBuffer) }
  -- cmdAlloc->Reset()
  let cmdAlloc : ID3D12CommandAllocator := { cmdAlloc with resets := cmdAlloc.resets + 1 }
  let r := { r with mCmdAlloc := r.mCmdAlloc.set r.mCurrFrameIndex (some cmdAlloc) }
  -- mCmdList->Reset(cmdAlloc, sPSO)
  let oldList ← deref r.mCmdList
  ASSERT oldList.closed
  let cmdList : ID3D12GraphicsCommandList :=
    { allocator := cmdAlloc.identity, pso := shared.sPSO, commands := [], closed := false }
  let cmdList := cmdList.record (.RSSetViewports 1)
  let cmdList := cmdList.record (.RSSetScissorRects 1)
  let cmdList := cmdList.record (.OMSetRenderTargets 1 rtvCpuDescHandle (some depthStencilHandle))
  let cmdList := cmdList.record (.SetDescriptorHeaps 1)
  let cmdList := cmdList.record (.SetGraphicsRootSignature shared.sRootSignature)
  let cmdList := cmdList.record (.IASetPrimitiveTopology D3D_PRIMITIVE_TOPOLOGY_TRIANGLELIST)
  -- Set root parameters
  let immutableCBufferGpuVAddress := GetGPUVirtualAddress (← deref r.mImmutableCBuffer).mBuffer
  let cmdList := cmdList.record (.SetGraphicsRootConstantBufferView 0 immutableCBufferGpuVAddress)
  let frameCBufferGpuVAddress := GetGPUVirtualAddress uploadFrameCBuffer.mBuffer
  let cmdList := cmdList.record (.SetGraphicsRootConstantBufferView 1 frameCBufferGpuVAddress)
  let cmdList := cmdList.record (.SetGraphicsRootDescriptorTable 2 (← deref r.mCbvSrvUavDescHeap))
  -- Draw object
  let cmdList := cmdList.record (.IASetVertexBuffers 0 1)
  let cmdList := cmdList.record .IASetIndexBuffer
  let cmdList := cmdList.record (.DrawIndexedInstanced r.mIndexCount 1 0 0 0)
  let cmdList := cmdList.Close
  -- Next frame
  pure { r with
    mCmdList := some cmdList
    mCmdListQueue := r.mCmdListQueue ++ [cmdList]
    mCurrFrameIndex := ((r.mCurrFrameIndex + 1) % 2 ^ 32) % sQueuedFrameCount }

/-- The recorder after the first `k` of a sequence of `RecordCommandLists` calls,
call `j` (counted from `0`) being given the frame constants `frames j`. -/
def afterCalls (shared : SharedPSOAndRootSignature) (sQueuedFrameCount : Nat)
    (frames : Nat → FrameCBuffer) (rtvCpuDescHandle depthStencilHandle : Nat) :
    Nat → EnvironmentLightCmdListRecorder → Except Fault EnvironmentLightCmdListRecorder
  | 0, r => .ok r
  | k + 1, r => do
    let r ← afterCalls shared sQueuedFrameCount frames rtvCpuDescHandle depthStencilHandle k r
    r.RecordCommandLists shared sQueuedFrameCount (frames k) rtvCpuDescHandle depthStencilHandle

end EnvironmentLightCmdListRecorder

/-! ## `SceneExecutor.cpp`: shutdown -/

/-- The managers that `FinalizeSystems` empties. -/
inductive Manager where
  | CommandAllocatorManager
  | CommandListManager
  | CommandQueueManager
  | FenceManager
  | PSOManager
  | ResourceManager
  | RootSignatureManager
  | ShaderManager
  | UploadBufferManager
  deriving DecidableEq, Repr

/-- The calls the shutdown path of `SceneExecutor.cpp` makes on other systems. -/
inductive ShutdownCall where
  /-- `mRenderManager->Terminate()`. -/
  | RenderManagerTerminate
  /-- `mTaskSchedulerInit.terminate()`. -/
  | TaskSchedulerTerminate
  /-- `X::EraseAll()` of manager `X`. -/
  | EraseAll (manager : Manager)
  deriving DecidableEq, Repr

/-- The systems the shutdown path acts on. `mTerminate` is the flag of
`RenderManager.h` ("when it is true, master render thread is destroyed"),
`mObjectCount` the number of objects each manager holds, and `calls` the calls
received so far, oldest first; no operation reads `calls`. -/
structure Systems where
  mTerminate : Bool
  mTaskSchedulerActive : Bool
  mObjectCount : Manager → Nat
  calls : List ShutdownCall

namespace Systems

/-- `RenderManager::Terminate`, of which only the declaration and the flag
`mTerminate` are part of the sources: the call returns with the flag set. -/
def Terminate (s : Systems) : Systems :=
  { s with mTerminate := true, calls := s.calls ++ [.RenderManagerTerminate] }

/-- `tbb::task_scheduler_init::terminate`. -/
def terminate (s : Systems) : Systems :=
  { s with mTaskSchedulerActive := false, calls := s.calls ++ [.TaskSchedulerTerminate] }

/-- `X::EraseAll()`: manager `X` destroys every object it holds. -/
def EraseAll (s : Systems) (manager : Manager) : Systems :=
  { s with
    mObjectCount := fun m => if m = manager then 0 else s.mObjectCount m
    calls := s.calls ++ [.EraseAll manager] }

end Systems

/-- The anonymous-namespace function `FinalizeSystems` of `SceneExecutor.cpp`. -/
def FinalizeSystems (s : Systems) : Systems :=
  let s := s.EraseAll .CommandAllocatorManager
  let s := s.EraseAll .CommandListManager
  let s := s.EraseAll .CommandQueueManager
  let s := s.EraseAll .FenceManager
  let s := s.EraseAll .PSOManager
  let s := s.EraseAll .ResourceManager
  let s := s.EraseAll .RootSignatureManager
  let s := s.EraseAll .ShaderManager
  s.EraseAll .UploadBufferManager

/-- The data member of `SceneExecutor` its destructor uses: the pointer to the
render manager. -/
structure SceneExecutor where
  mRenderManager : Option Nat

namespace SceneExecutor

/-- `SceneExecutor::~SceneExecutor`. -/
def destructor (e : SceneExecutor) (s : Systems) : Except Fault Systems := do
  ASSERT e.mRenderManager.isSome
  let s := s.Terminate
  let s := s.terminate
  pure (FinalizeSystems s)

end SceneExecutor

namespace Example

/-- A running process: the render manager not terminated, the task scheduler
active, three objects in every manager, no shutdown call made. -/
def systems : Systems :=
  { mTerminate := false, mTaskSchedulerActive := true, mObjectCount := fun _ => 3, calls := [] }

end Example

/-! ## Vocabulary of the properties -/

/-- The tracker after a transition of `res` from `before` to `after`. -/
def ResourceStateManager.transitioned (t : ResourceStateManager) (res : Nat)
    (before after : D3D12_RESOURCE_STATES) : ResourceStateManager :=
  { mStateByResource := fun r => if r = res then some after else t.mStateByResource r
    requests := t.requests ++ [⟨res, before, after⟩] }

/-- The closed command list obtained from a ring by `ResetWithNextCommandAllocator pso`,
recording `commands` and `Close`. -/
def CommandListPerFrame.recorded (c : CommandListPerFrame) (pso : Option Nat)
    (commands : List Command) : ID3D12GraphicsCommandList :=
  { allocator := c.mCommandAllocators.getD c.mCurrentFrameIndex 0
    pso := pso
    commands := commands
    closed := true }

/-- The ring after it handed out its next allocator and `l` was recorded. -/
def CommandListPerFrame.advanced (c : CommandListPerFrame) (l : ID3D12GraphicsCommandList) :
    CommandListPerFrame :=
  { c with
    mCommandList := l
    mCurrentFrameIndex := (c.mCurrentFrameIndex + 1) % c.mCommandAllocators.length }


/-- The command list a recorder of the common shape records and pushes. -/
def ScreenSpaceCmdListRecorder.commandList (r : ScreenSpaceCmdListRecorder) (w : World) :
    ID3D12GraphicsCommandList :=
  r.mCommandListPerFrame.recorded (w.sPSO r.cls)
    [.RSSetViewports 1, .RSSetScissorRects 1, .OMSetRenderTargets 1 r.mRenderTargetView none,
     .SetGraphicsRootDescriptorTable 0 r.mStartPixelShaderResourceView,
     .SetGraphicsRootSignature (w.sRootSignature r.cls),
     .IASetPrimitiveTopology D3D_PRIMITIVE_TOPOLOGY_TRIANGLELIST, .DrawInstanced 6 1 0 0]

/-- The command list `AmbientLightCmdListRecorder` records and pushes. -/
def AmbientLightCmdListRecorder.commandList (r : AmbientLightCmdListRecorder) (w : World) :
    ID3D12GraphicsCommandList :=
  r.mCommandListPerFrame.recorded (w.sPSO RecorderClass.AmbientLight)
    [.RSSetViewports 1, .RSSetScissorRects 1, .OMSetRenderTargets 1 r.mRenderTargetView none,
     .SetDescriptorHeaps 1,
     .SetGraphicsRootSignature (w.sRootSignature RecorderClass.AmbientLight),
     .SetGraphicsRootDescriptorTable 0 r.mStartPixelShaderResourceView,
     .IASetPrimitiveTopology D3D_PRIMITIVE_TOPOLOGY_TRIANGLELIST, .DrawInstanced 6 1 0 0]


/-- The ring of frame constants after its current buffer was handed out and
`frameCBuffer` was copied to the start of that buffer. -/
def FrameUploadCBufferPerFrame.written (f : FrameUploadCBufferPerFrame)
    (frameCBuffer : FrameCBuffer) : FrameUploadCBufferPerFrame :=
  match f.mFrameCBuffers.get? f.mCurrentFrameIndex with
  | none => f
  | some buffer =>
    { mFrameCBuffers := f.mFrameCBuffers.set f.mCurrentFrameIndex
        { buffer with
          mMappedData := memcpy buffer.mMappedData (0 * buffer.mElemSize) frameCBuffer
            frameCBuffer.length }
      mCurrentFrameIndex := (f.mCurrentFrameIndex + 1) % f.mFrameCBuffers.length }


/-- The barrier list `ExecuteBeginTask` records when the ambient-accessibility
buffer `aa` is a pixel-shader resource. -/
def AmbientLightPass.beginList (p : AmbientLightPass) (aa : Nat) : ID3D12GraphicsCommandList :=
  p.mBeginCommandListPerFrame.recorded none
    [.ResourceBarrier 1 [some ⟨aa, D3D12_RESOURCE_STATE_PIXEL_SHADER_RESOURCE,
      D3D12_RESOURCE_STATE_RENDER_TARGET⟩],
     .ClearRenderTargetView p.mAmbientAccessibilityBufferRenderTargetView]

/-- The barrier list `ExecuteMiddleTask` records when `aa` is a render target
and the blur buffer `blur` a pixel-shader resource. -/
def AmbientLightPass.middleList (p : AmbientLightPass) (aa blur : Nat) :
    ID3D12GraphicsCommandList :=
  p.mMiddleCommandListPerFrame.recorded none
    [.ResourceBarrier 2 [some ⟨aa, D3D12_RESOURCE_STATE_RENDER_TARGET,
        D3D12_RESOURCE_STATE_PIXEL_SHADER_RESOURCE⟩,
      some ⟨blur, D3D12_RESOURCE_STATE_PIXEL_SHADER_RESOURCE,
        D3D12_RESOURCE_STATE_RENDER_TARGET⟩]]

/-- The barrier list `ExecuteFinalTask` records when `blur` is a render target. -/
def AmbientLightPass.finalList (p : AmbientLightPass) (blur : Nat) : ID3D12GraphicsCommandList :=
  p.mFinalCommandListPerFrame.recorded none
    [.ResourceBarrier 1 [some ⟨blur, D3D12_RESOURCE_STATE_RENDER_TARGET,
      D3D12_RESOURCE_STATE_PIXEL_SHADER_RESOURCE⟩]]

namespace AmbientLightPass

/-- The state of an `AmbientLightPass` and of the process after `Init`, as far
as `Execute` depends on it: both buffers exist and are different resources, the
three recorders exist and pass their validation, their shared pipeline
configurations exist, the ambient-occlusion recorder's ring of frame constants
has its current slot, and the recorders are wired as `Init` wires them: ambient
occlusion renders to the ambient-accessibility buffer, blur samples the
ambient-accessibility buffer and renders to the blur buffer, ambient light
samples the blur buffer as its second texture. -/
def Ready (p : AmbientLightPass) (w : World) : Bool :=
  match p.mAmbientAccessibilityBuffer, p.mBlurBuffer, p.mAmbientOcclusionRecorder,
      p.mBlurRecorder, p.mAmbientLightRecorder with
  | some ambientAccessibility, some blur, some occlusionRecorder, some blurRecorder,
      some lightRecorder =>
    decide (ambientAccessibility ≠ blur) &&
    decide (occlusionRecorder.cls = RecorderClass.AmbientOcclusion) &&
    occlusionRecorder.ValidateData &&
    decide (occlusionRecorder.mFrameUploadCBufferPerFrame.mCurrentFrameIndex <
      occlusionRecorder.mFrameUploadCBufferPerFrame.mFrameCBuffers.length) &&
    decide (blurRecorder.cls = RecorderClass.Blur) &&
    blurRecorder.ValidateData &&
    lightRecorder.ValidateData &&
    (w.sPSO RecorderClass.AmbientOcclusion).isSome &&
    (w.sRootSignature RecorderClass.AmbientOcclusion).isSome &&
    (w.sPSO RecorderClass.Blur).isSome &&
    (w.sRootSignature RecorderClass.Blur).isSome &&
    (w.sPSO RecorderClass.AmbientLight).isSome &&
    (w.sRootSignature RecorderClass.AmbientLight).isSome &&
    decide ((w.mRenderTargetViews occlusionRecorder.mRenderTargetView).map (·.resource)
      = some ambientAccessibility) &&
    decide ((w.mShaderResourceViews blurRecorder.mStartPixelShaderResourceView).map
      (·.map (·.resource)) = some [ambientAccessibility]) &&
    decide ((w.mRenderTargetViews blurRecorder.mRenderTargetView).map (·.resource) = some blur) &&
    decide (((w.mShaderResourceViews lightRecorder.mStartPixelShaderResourceView).map
      (·.map (·.resource))).map (·.drop 1) = some [blur])
  | _, _, _, _, _ => false

/-- The pass after `n` consecutive `Execute` calls, frame `j` (counted from `0`)
being given the frame constants `frames j`. -/
def executeFrames (frames : Nat → FrameCBuffer) (budget : Nat) :
    Nat → AmbientLightPass → World → Except Fault (AmbientLightPass × World)
  | 0, p, w => .ok (p, w)
  | n + 1, p, w => do
    let (p, w) ← executeFrames frames budget n p w
    p.Execute (frames n) budget w

end AmbientLightPass

/-- The texture view the recorders create for a resource: format and mip count
of the resource itself, most detailed mip 0. -/
def World.textureView (w : World) (res : Nat) : ShaderResourceView :=
  { resource := res
    desc :=
      { Format := (w.GetDesc res).Format
        ViewDimension := D3D12_SRV_DIMENSION_TEXTURE2D
        Shader4ComponentMapping := D3D12_DEFAULT_SHADER_4_COMPONENT_MAPPING
        MostDetailedMip := 0
        MipLevels := (w.GetDesc res).MipLevels
        FirstElement := 0
        NumElements := 0
        StructureByteStride := 0 } }

/-- The process state after `views` were created as one table. -/
def World.withShaderResourceViews (w : World) (views : List ShaderResourceView) : World :=
  { w with
    mNextShaderResourceView := w.mNextShaderResourceView + views.length
    mShaderResourceViews := fun h =>
      if h = w.mNextShaderResourceView then some views else w.mShaderResourceViews h }

namespace AmbientLightPass

/-- What `Ready` says once the five pointers of the pass are named. -/
def ReadyFacts (w : World) (aa blur : Nat) (ao bl : ScreenSpaceCmdListRecorder)
    (al : AmbientLightCmdListRecorder) : Prop :=
  aa ≠ blur ∧
  ao.cls = RecorderClass.AmbientOcclusion ∧
  ao.ValidateData = true ∧
  ao.mFrameUploadCBufferPerFrame.mCurrentFrameIndex <
    ao.mFrameUploadCBufferPerFrame.mFrameCBuffers.length ∧
  bl.cls = RecorderClass.Blur ∧
  bl.ValidateData = true ∧
  al.ValidateData = true ∧
  (w.sPSO RecorderClass.AmbientOcclusion).isSome = true ∧
  (w.sRootSignature RecorderClass.AmbientOcclusion).isSome = true ∧
  (w.sPSO RecorderClass.Blur).isSome = true ∧
  (w.sRootSignature RecorderClass.Blur).isSome = true ∧
  (w.sPSO RecorderClass.AmbientLight).isSome = true ∧
  (w.sRootSignature RecorderClass.AmbientLight).isSome = true ∧
  (w.mRenderTargetViews ao.mRenderTargetView).map (·.resource) = some aa ∧
  (w.mShaderResourceViews bl.mStartPixelShaderResourceView).map (·.map (·.resource))
    = some [aa] ∧
  (w.mRenderTargetViews bl.mRenderTargetView).map (·.resource) = some blur ∧
  ((w.mShaderResourceViews al.mStartPixelShaderResourceView).map
    (·.map (·.resource))).map (·.drop 1) = some [blur]

end AmbientLightPass

/-! ## A concrete process, used to instantiate the properties -/

namespace Example

/-- A process state before any pass is initialised: nothing registered, nothing
pushed, three queued frames. -/
def world : World :=
  { resourceStateManager := { mStateByResource := fun _ => none, requests := [] }
    commandListExecutor := { mPending := [], mSubmitted := [], mExecutedCommandListCount := 0 }
    shared := fun _ => ⟨none, none⟩
    mNextObject := 100
    GetDesc := fun _ => ⟨0, 1⟩
    mRenderTargetViews := fun _ => none
    mNextRenderTargetView := 1
    mShaderResourceViews := fun _ => none
    mNextShaderResourceView := 1
    sQueuedFrameCount := 3
    sizeofPunctualLight := 4
    sizeofFrameCBuffer := 8
    immutableCBuffer := [1, 2, 3] }

/-- The per-frame constants of the example. -/
def frameCBuffer : FrameCBuffer := [1, 2, 3, 4, 5, 6, 7, 8]

/-- An ambient-light pass after `Init`, with the process state it left. -/
def ambientLightPass : AmbientLightPass × World :=
  match (AmbientLightPass.create world).1.Init 1 2 3 77 (AmbientLightPass.create world).2 with
  | .ok initialised => initialised
  | .error _ => AmbientLightPass.create world

end Example

namespace ToneMappingPass

/-- The barrier list `ExecuteBeginTask` records when the input colour buffer
`input` is a render target and the output colour buffer `output` a pixel-shader
resource. -/
def barrierList (p : ToneMappingPass) (input output : Nat) : ID3D12GraphicsCommandList :=
  p.mCommandListPerFrame.recorded none
    [.ResourceBarrier 2 [some ⟨input, D3D12_RESOURCE_STATE_RENDER_TARGET,
        D3D12_RESOURCE_STATE_PIXEL_SHADER_RESOURCE⟩,
      some ⟨output, D3D12_RESOURCE_STATE_PIXEL_SHADER_RESOURCE,
        D3D12_RESOURCE_STATE_RENDER_TARGET⟩]]

/-- The state of a `ToneMappingPass` and of the process after `Init`, as far as
`Execute` depends on it: both buffers are set, the recorder exists and passes its
validation, and the shared pipeline configuration of its class exists. -/
def Ready (p : ToneMappingPass) (w : World) : Bool :=
  match p.mCommandListRecorder with
  | some recorder =>
    p.mInputColorBuffer.isSome && p.mOutputColorBuffer.isSome &&
    recorder.ValidateData &&
    (w.sPSO recorder.cls).isSome &&
    (w.sRootSignature recorder.cls).isSome
  | none => false

end ToneMappingPass

namespace Example

/-- The example process with two colour buffers: `100`, created as a render
target, and `101`, created as a pixel-shader resource. -/
def colourBuffers : World :=
  ((world.CreateCommittedResource ⟨0, 1⟩ D3D12_RESOURCE_STATE_RENDER_TARGET).2.CreateCommittedResource
    ⟨0, 1⟩ D3D12_RESOURCE_STATE_PIXEL_SHADER_RESOURCE).2

/-- A tone-mapping pass after `Init` on the two colour buffers, with the process
state it left. -/
def toneMappingPass : ToneMappingPass × World :=
  match (ToneMappingPass.create colourBuffers).1.Init 100 101 78
      (ToneMappingPass.create colourBuffers).2 with
  | .ok initialised => initialised
  | .error _ => ToneMappingPass.create colourBuffers

end Example

namespace PunctualLightCmdListRecorder

/-- Modelled from the spec: a newly constructed `PunctualLightCmdListRecorder`
(the constructor belongs to the base class `LightingPassCmdListRecorder`, whose
source file is not part of the sources): its command-buffer ring and its ring of
per-frame upload buffers exist, nothing else is set. -/
def create (w : World) : Except Fault (PunctualLightCmdListRecorder × World) := do
  let (ring, w) := CommandListPerFrame.create w
  let (frameCBuffers, w) ← FrameUploadCBufferPerFrame.create w
  pure ({ mCommandListPerFrame := ring
          mFrameUploadCBufferPerFrame := frameCBuffers
          mImmutableUploadCBuffer := none
          mLightsUploadBuffer := none
          mStartLightsBufferShaderResourceView := 0
          mStartPixelShaderResourceView := 0
          mRenderTargetView := 0
          mNumLights := 0 }, w)

end PunctualLightCmdListRecorder

namespace Example

/-- A tracker that knows resource `1`, in the render-target state. -/
def tracker : ResourceStateManager :=
  { mStateByResource := fun r => if r = 1 then some D3D12_RESOURCE_STATE_RENDER_TARGET else none
    requests := [] }

/-- The ambient-light recorder of the example pass. -/
def ambientLightRecorder : AmbientLightCmdListRecorder :=
  match ambientLightPass.1.mAmbientLightRecorder with
  | some recorder => recorder
  | none => (AmbientLightCmdListRecorder.create world).1

/-- Two punctual lights of four bytes each. -/
def lights : List Nat := [1, 2, 3, 4, 5, 6, 7, 8]

/-- A punctual-light recorder after `InitSharedPSOAndRootSignature`, construction
and `Init` with two geometry buffers (`1`, `2`), depth buffer `3` and the two
lights, with render-target view `79` set, and the process state this left. -/
def punctualLightRecorder : PunctualLightCmdListRecorder × World :=
  match (do
      let w ← PunctualLightCmdListRecorder.InitSharedPSOAndRootSignature world
      let (recorder, w) ← PunctualLightCmdListRecorder.create w
      let (recorder, w) ← recorder.Init (some [some 1, some 2]) 2 3 (some lights) 2 41 w
      pure ({ recorder with mRenderTargetView := 79 }, w)) with
  | .ok initialised => initialised
  | .error _ =>
    ({ mCommandListPerFrame := (CommandListPerFrame.create world).1
       mFrameUploadCBufferPerFrame := ⟨[], 0⟩
       mImmutableUploadCBuffer := none
       mLightsUploadBuffer := none
       mStartLightsBufferShaderResourceView := 0
       mStartPixelShaderResourceView := 0
       mRenderTargetView := 0
       mNumLights := 0 }, world)

end Example

namespace EnvironmentLightCmdListRecorder

/-- The command list `RecordCommandLists` records with the allocator `cmdAlloc`
and the frame-constants buffer `uploadFrameCBuffer`. -/
def commandList (r : EnvironmentLightCmdListRecorder) (shared : SharedPSOAndRootSignature)
    (rtvCpuDescHandle depthStencilHandle : Nat) (cmdAlloc : ID3D12CommandAllocator)
    (uploadFrameCBuffer immutableCBuffer : UploadBuffer) (heap : Nat) :
    ID3D12GraphicsCommandList :=
  { allocator := cmdAlloc.identity
    pso := shared.sPSO
    commands :=
      [.RSSetViewports 1, .RSSetScissorRects 1,
       .OMSetRenderTargets 1 rtvCpuDescHandle (some depthStencilHandle), .SetDescriptorHeaps 1,
       .SetGraphicsRootSignature shared.sRootSignature,
       .IASetPrimitiveTopology D3D_PRIMITIVE_TOPOLOGY_TRIANGLELIST,
       .SetGraphicsRootConstantBufferView 0 (GetGPUVirtualAddress immutableCBuffer.mBuffer),
       .SetGraphicsRootConstantBufferView 1 (GetGPUVirtualAddress uploadFrameCBuffer.mBuffer),
       .SetGraphicsRootDescriptorTable 2 heap,
       .IASetVertexBuffers 0 1, .IASetIndexBuffer,
       .DrawIndexedInstanced r.mIndexCount 1 0 0 0]
    closed := true }

/-- The state of a recorder between two `RecordCommandLists` calls, for
`sQueuedFrameCount` queued frames: it passes `ValidateData`, both arrays have one
entry per queued frame, every frame-constants buffer exists, the command list is
closed, and the frame index is inside the arrays. -/
def Ready (r : EnvironmentLightCmdListRecorder) (sQueuedFrameCount : Nat) : Bool :=
  r.ValidateData sQueuedFrameCount &&
  decide (r.mCmdAlloc.length = sQueuedFrameCount) &&
  decide (r.mFrameCBuffer.length = sQueuedFrameCount) &&
  r.mFrameCBuffer.all Option.isSome &&
  (match r.mCmdList with
    | some cmdList => cmdList.closed
    | none => false) &&
  decide (r.mCurrFrameIndex < sQueuedFrameCount)

end EnvironmentLightCmdListRecorder

namespace Example

/-- The statics `sPSO` and `sRootSign` of the environment-light recorder, set. -/
def environmentLightShared : SharedPSOAndRootSignature := ⟨some 400, some 401⟩

/-- An environment-light recorder for three queued frames, as its constructor
builds it, with the buffers `Init` creates filled in: descriptor heap `300`,
immutable buffer `301`, and the frame-constants buffers `302`, `303`, `304`. -/
def environmentLightRecorder : EnvironmentLightCmdListRecorder :=
  match EnvironmentLightCmdListRecorder.create [] 3 200 with
  | .ok recorder =>
    { recorder with
      mCbvSrvUavDescHeap := some 300
      mImmutableCBuffer := some ⟨256, 301, fun _ => 0, 256⟩
      mFrameCBuffer :=
        [some ⟨256, 302, fun _ => 0, 256⟩, some ⟨256, 303, fun _ => 0, 256⟩,
         some ⟨256, 304, fun _ => 0, 256⟩]
      mIndexCount := 36 }
  | .error _ =>
    { mCmdListQueue := [], mCmdList := none, mCmdAlloc := [], mCurrFrameIndex := 0,
      mCbvSrvUavDescHeap := none, mImmutableCBuffer := none, mFrameCBuffer := [],
      mIndexCount := 0 }

end Example

namespace CommandListExecutor

/-- The ways in which the passes and the consuming side act on the executor. -/
inductive Operation where
  /-- A pass pushes a command list. -/
  | AddCommandList (l : ID3D12GraphicsCommandList)
  /-- A pass resets the executed-count. -/
  | ResetExecutedCommandListCount
  /-- The consuming side dequeues, submits and counts one command list. -/
  | consume
  /-- A pass has a command list executed at once and waits for it. -/
  | ExecuteCommandListAndWaitForCompletion (counted : Nat) (l : ID3D12GraphicsCommandList)
  deriving DecidableEq, Repr

/-- Whether an operation is the reset of the executed-count. -/
def Operation.isReset : Operation → Bool
  | .ResetExecutedCommandListCount => true
  | _ => false

/-- The executor after one operation. -/
def apply (e : CommandListExecutor) : Operation → CommandListExecutor
  | .AddCommandList l => e.AddCommandList l
  | .ResetExecutedCommandListCount => e.ResetExecutedCommandListCount
  | .consume => e.consume
  | .ExecuteCommandListAndWaitForCompletion counted l =>
    e.ExecuteCommandListAndWaitForCompletion counted l

/-- The executor after a sequence of operations, oldest first. -/
def run (e : CommandListExecutor) (operations : List Operation) : CommandListExecutor :=
  operations.foldl apply e

end CommandListExecutor

namespace Example

/-- An executor with two pushed lists, neither yet consumed, and a count of 3. -/
def commandListExecutor : CommandListExecutor :=
  { mPending := [⟨1, none, [], true⟩, ⟨2, none, [], true⟩]
    mSubmitted := []
    mExecutedCommandListCount := 3 }

end Example

/-- The tracker after the four transitions of an `AmbientLightPass::Execute` on
the ambient-accessibility buffer `aa` and the blur buffer `blur`. -/
def AmbientLightPass.trackerAfterExecute (t : ResourceStateManager) (aa blur : Nat) :
    ResourceStateManager :=
  (((t.transitioned aa D3D12_RESOURCE_STATE_PIXEL_SHADER_RESOURCE
      D3D12_RESOURCE_STATE_RENDER_TARGET).transitioned aa D3D12_RESOURCE_STATE_RENDER_TARGET
      D3D12_RESOURCE_STATE_PIXEL_SHADER_RESOURCE).transitioned blur
      D3D12_RESOURCE_STATE_PIXEL_SHADER_RESOURCE
      D3D12_RESOURCE_STATE_RENDER_TARGET).transitioned blur D3D12_RESOURCE_STATE_RENDER_TARGET
      D3D12_RESOURCE_STATE_PIXEL_SHADER_RESOURCE

/-- The tracker after the two transitions of a `ToneMappingPass::Execute` on the
colour buffers `input` and `output`. -/
def ToneMappingPass.trackerAfterExecute (t : ResourceStateManager) (input output : Nat) :
    ResourceStateManager :=
  (t.transitioned input D3D12_RESOURCE_STATE_RENDER_TARGET
    D3D12_RESOURCE_STATE_PIXEL_SHADER_RESOURCE).transitioned output
    D3D12_RESOURCE_STATE_PIXEL_SHADER_RESOURCE D3D12_RESOURCE_STATE_RENDER_TARGET

/-- An operation whose only way to fail is a failing assertion. -/
def onlyAsserts {α : Type} (x : Except Fault α) : Prop :=
  ∀ e, x = .error e → e = Fault.assertion

/-- Whether a command binds a root parameter. -/
def Command.isRootParameterBinding : Command → Bool
  | .SetGraphicsRootDescriptorTable _ _ => true
  | .SetGraphicsRootConstantBufferView _ _ => true
  | _ => false

/-! ## Frame fence controller -/

/-- What the hardware queue is given: command lists to execute and fence
signals. -/
inductive QueueItem where
  | commandList (l : ID3D12GraphicsCommandList)
  | signal (value : Nat)
  deriving DecidableEq, Repr

/-- Modelled from the spec: the single hardware queue and its fence (sections
4.5 and 5), which are not part of the sources: "single hardware queue =>
submission order is execution order", and a signal sets the completion counter
"once it finishes". `mExecuted` holds the items the GPU has finished, oldest
first, `mPending` those it has not, and `mCompletedValue` is the completion
counter of the fence. -/
structure ID3D12CommandQueue where
  mExecuted : List QueueItem
  mPending : List QueueItem
  mCompletedValue : Nat

namespace ID3D12CommandQueue

/-- Modelled from the spec: submission of command lists, in order. -/
def ExecuteCommandLists (q : ID3D12CommandQueue) (lists : List ID3D12GraphicsCommandList) :
    ID3D12CommandQueue :=
  { q with mPending := q.mPending ++ lists.map QueueItem.commandList }

/-- Modelled from the spec: "signal the hardware queue to set the completion
counter to `nextValue` once it finishes". -/
def Signal (q : ID3D12CommandQueue) (value : Nat) : ID3D12CommandQueue :=
  { q with mPending := q.mPending ++ [QueueItem.signal value] }

/-- Modelled from the spec: the "observed completion counter". -/
def GetCompletedValue (q : ID3D12CommandQueue) : Nat :=
  q.mCompletedValue

/-- Modelled from the spec: the GPU finishes the oldest pending item; a signal
sets the completion counter. With nothing pending nothing happens. -/
def step (q : ID3D12CommandQueue) : ID3D12CommandQueue :=
  match q.mPending with
  | [] => q
  | .commandList l :: rest =>
    { q with mExecuted := q.mExecuted ++ [.commandList l], mPending := rest }
  | .signal value :: rest =>
    { mExecuted := q.mExecuted ++ [.signal value], mPending := rest, mCompletedValue := value }

/-- The queue after the GPU finished `count` more items. -/
def advance : Nat → ID3D12CommandQueue → ID3D12CommandQueue
  | 0, q => q
  | count + 1, q => advance count q.step

/-- Modelled from the spec: "busy-wait (yielding the CPU each iteration) until
the observed completion counter >= `expectedValue`"; the GPU finishes one item
per iteration, and the loop gives up with `Fault.stillWaiting` after `budget`
iterations. -/
def waitForFence (expectedValue : Nat) : Nat → ID3D12CommandQueue →
    Except Fault ID3D12CommandQueue
  | 0, q => if q.GetCompletedValue < expectedValue then .error Fault.stillWaiting else .ok q
  | budget + 1, q =>
    if q.GetCompletedValue < expectedValue then waitForFence expectedValue budget q.step
    else .ok q

end ID3D12CommandQueue

/-- The fence data of `RenderManager.h`: `mCurrentQueuedFrameIndex`,
`mFenceValueByQueuedFrameIndex[sQueuedFrameCount]` and `mCurrentFenceValue`. -/
structure RenderManager where
  mCurrentQueuedFrameIndex : Nat
  mFenceValueByQueuedFrameIndex : List Nat
  mCurrentFenceValue : Nat

namespace RenderManager

/-- The fence data of a newly constructed `RenderManager`, as its declaration
initialises them: index `0`, all fence values `0`, current fence value `0`. -/
def create (sQueuedFrameCount : Nat) : RenderManager :=
  { mCurrentQueuedFrameIndex := 0
    mFenceValueByQueuedFrameIndex := List.replicate sQueuedFrameCount 0
    mCurrentFenceValue := 0 }

/-- Modelled from the spec: `RenderManager::SignalFenceAndPresent`, declared in
`RenderManager.h`, whose body is not part of the sources (section 4.5): "compute
`nextValue = currentValue + 1`; after all frame command buffers are submitted,
signal the hardware queue to set the completion counter to `nextValue` once it
finishes; store `expectedValue = nextValue` for that slot", then "advance
frame-slot index modulo N" (section 4.6) and, "before reusing the slot N frames
later, busy-wait ... until the observed completion counter >= `expectedValue`". -/
def SignalFenceAndPresent (m : RenderManager) (sQueuedFrameCount budget : Nat)
    (q : ID3D12CommandQueue) : Except Fault (RenderManager × ID3D12CommandQueue) := do
  let nextValue := m.mCurrentFenceValue + 1
  let q := q.Signal nextValue
  let m := { m with
    mCurrentFenceValue := nextValue
    mFenceValueByQueuedFrameIndex :=
      m.mFenceValueByQueuedFrameIndex.set m.mCurrentQueuedFrameIndex nextValue }
  let m := { m with
    mCurrentQueuedFrameIndex := (m.mCurrentQueuedFrameIndex + 1) % sQueuedFrameCount }
  let expectedValue := m.mFenceValueByQueuedFrameIndex.getD m.mCurrentQueuedFrameIndex 0
  let q ← q.waitForFence expectedValue budget
  pure (m, q)

end RenderManager

/-- The state of the frame loop as far as the environment-light recorder takes
part in it: the recorder, the fence data of the render manager, and the hardware
queue. -/
structure FrameLoop where
  recorder : EnvironmentLightCmdListRecorder
  renderManager : RenderManager
  queue : ID3D12CommandQueue

namespace FrameLoop

/-- The state in which frame `k` resets its allocator and records: the GPU has
finished `progress` more items since the previous frame ended. -/
def atRecord (s : FrameLoop) (progress : Nat) : FrameLoop :=
  { s with queue := s.queue.advance progress }

/-- Modelled from the spec: one frame of the loop (section 4.6, whose driver
`RenderManager::execute` is not part of the sources), as far as the
environment-light recorder takes part: the recorder records and pushes its
list (`EnvironmentLightCmdListRecorder::RecordCommandLists`), the consuming side
submits what was pushed to the hardware queue, and the frame ends with
`SignalFenceAndPresent`. -/
def frame (shared : SharedPSOAndRootSignature) (sQueuedFrameCount : Nat)
    (frameCBuffer : FrameCBuffer) (rtvCpuDescHandle depthStencilHandle : Nat)
    (progress budget : Nat) (s : FrameLoop) : Except Fault FrameLoop := do
  let s := s.atRecord progress
  let recorder ← s.recorder.RecordCommandLists shared sQueuedFrameCount frameCBuffer
    rtvCpuDescHandle depthStencilHandle
  let queue := s.queue.ExecuteCommandLists recorder.mCmdListQueue
  let recorder := { recorder with mCmdListQueue := [] }
  let (renderManager, queue) ←
    s.renderManager.SignalFenceAndPresent sQueuedFrameCount budget queue
  pure { recorder := recorder, renderManager := renderManager, queue := queue }

/-- The loop after its first `k` frames; frame `j` (counted from `0`) is given
the frame constants `frames j`, and the GPU finishes `progress j` items between
the end of frame `j - 1` and the recording of frame `j`. -/
def run (shared : SharedPSOAndRootSignature) (sQueuedFrameCount : Nat)
    (frames : Nat → FrameCBuffer) (rtvCpuDescHandle depthStencilHandle : Nat)
    (progress : Nat → Nat) (budget : Nat) : Nat → FrameLoop → Except Fault FrameLoop
  | 0, s => .ok s
  | k + 1, s => do
    let s ← run shared sQueuedFrameCount frames rtvCpuDescHandle depthStencilHandle progress
      budget k s
    frame shared sQueuedFrameCount (frames k) rtvCpuDescHandle depthStencilHandle (progress k)
      budget s

end FrameLoop

namespace Example

/-- The frame loop at start-up: the example environment-light recorder, a new
render manager for three queued frames, and an idle hardware queue. -/
def frameLoop : FrameLoop :=
  { recorder := environmentLightRecorder
    renderManager := RenderManager.create 3
    queue := { mExecuted := [], mPending := [], mCompletedValue := 0 } }

end Example

namespace FrameLoop

/-- The fence values of the signals among queue items, in order. -/
def signals : List QueueItem → List Nat
  | [] => []
  | .signal value :: rest => value :: signals rest
  | .commandList _ :: rest => signals rest

/-- The identities of a recorder's command allocators, by slot. -/
def identities (r : EnvironmentLightCmdListRecorder) : List (Option Nat) :=
  r.mCmdAlloc.map fun cmdAlloc => cmdAlloc.map fun a => a.identity

/-- Every command list among `items` was recorded with the allocator of some
slot and is followed by the signal of the fence value recorded for that slot. -/
def Covered (slots : List (Option Nat)) (fenceValues : List Nat) : List QueueItem → Prop
  | [] => True
  | .signal _ :: rest => Covered slots fenceValues rest
  | .commandList l :: rest =>
    (∃ i, slots.get? i = some (some l.allocator) ∧
      QueueItem.signal (fenceValues.getD i 0) ∈ rest) ∧
    Covered slots fenceValues rest

/-- The state of the hardware queue relative to the last fence value `current`
handed out: the pending signals are increasing, all lie above the completion
counter and none above `current`, and while the counter is below `current` the
signal of `current` is pending. -/
def QueueInvariant (current : Nat) (q : ID3D12CommandQueue) : Prop :=
  (signals q.mPending).Pairwise (fun a b => a < b) ∧
  (∀ v, v ∈ signals q.mPending → q.mCompletedValue < v ∧ v ≤ current) ∧
  q.mCompletedValue ≤ current ∧
  (q.mCompletedValue < current → QueueItem.signal current ∈ q.mPending)

/-- The state of the frame loop between two frames, `k` frames having run with
`sQueuedFrameCount` queued frames: recorder and render manager are at the same
slot, the fence value recorded for that slot has been reached, the fence value
recorded for the slot of each of the last `sQueuedFrameCount` frames `j` is
`j + 1`, and each frame's command list is in the hardware queue, finished or
pending. -/
structure Invariant (sQueuedFrameCount k : Nat) (s : FrameLoop) : Prop where
  ready : s.recorder.Ready sQueuedFrameCount = true
  pushed : s.recorder.mCmdListQueue = []
  slot : s.recorder.mCurrFrameIndex = s.renderManager.mCurrentQueuedFrameIndex
  rotation : s.renderManager.mCurrentQueuedFrameIndex = k % sQueuedFrameCount
  fenceValue : s.renderManager.mCurrentFenceValue = k
  length : s.renderManager.mFenceValueByQueuedFrameIndex.length = sQueuedFrameCount
  distinct : (identities s.recorder).Nodup
  bounded : ∀ v, v ∈ s.renderManager.mFenceValueByQueuedFrameIndex →
    v ≤ s.renderManager.mCurrentFenceValue
  reached : s.renderManager.mFenceValueByQueuedFrameIndex.getD
    s.renderManager.mCurrentQueuedFrameIndex 0 ≤ s.queue.mCompletedValue
  queue : QueueInvariant s.renderManager.mCurrentFenceValue s.queue
  covered : Covered (identities s.recorder) s.renderManager.mFenceValueByQueuedFrameIndex
    s.queue.mPending
  backlog : s.queue.mPending.length ≤ 2 * k
  recent : ∀ j, j < k → k ≤ j + sQueuedFrameCount →
    s.renderManager.mFenceValueByQueuedFrameIndex.getD (j % sQueuedFrameCount) 0 = j + 1
  recorded : ∀ j, j < k →
    ∃ l, QueueItem.commandList l ∈ s.queue.mExecuted ++ s.queue.mPending ∧
      (identities s.recorder).get? (j % sQueuedFrameCount) = some (some l.allocator)

end FrameLoop

namespace UploadBuffer

/-- `UploadBuffer::UploadBuffer`: `ASSERT(elemSize > 0)`, `ASSERT(elemCount > 0)`,
a buffer resource of `mElemSize * elemCount` bytes, mapped. `resource` is the
committed resource the device creates and `memory` what its mapped memory holds.
The size arithmetic is that of `std::size_t`. -/
def create (resource : Nat) (memory : Nat → Nat) (elemSize elemCount : Nat) :
    Except Fault UploadBuffer := do
  ASSERT (decide (elemSize > 0))
  ASSERT (decide (elemCount > 0))
  pure { mElemSize := elemSize
         mBuffer := resource
         mMappedData := memory
         mappedSize := (elemSize * elemCount) % 2 ^ 64 }

end UploadBuffer

namespace Example

/-- An upload buffer of three elements of four bytes, holding the bytes
`100, 101, ..., 111`. -/
def uploadBuffer : UploadBuffer :=
  { mElemSize := 4, mBuffer := 7, mMappedData := fun a => 100 + a, mappedSize := 12 }

end Example

namespace Example

/-- A punctual-light recorder in the middle of `Init` with two lights: after
`mNumLights = numLights` and `InitConstantBuffers`, before
`CreateLightBuffersAndViews`, with the process state at that point. -/
def punctualLightRecorderBeforeLights : PunctualLightCmdListRecorder × World :=
  match (do
      let w ← PunctualLightCmdListRecorder.InitSharedPSOAndRootSignature world
      let (recorder, w) ← PunctualLightCmdListRecorder.create w
      PunctualLightCmdListRecorder.InitConstantBuffers { recorder with mNumLights := 2 } w) with
  | .ok started => started
  | .error _ => punctualLightRecorder

end Example

/-! ## `Scene.cpp` -/

/-- The data members of `Scene` its source file uses: the command allocator,
the command list and the fence, each a pointer that starts null. -/
structure Scene where
  mCommandAllocators : Option Nat
  mCommandList : Option ID3D12GraphicsCommandList
  mFence : Option Nat

/-- What `CommandAllocatorManager::CreateCommandAllocator`,
`CommandListManager::CreateCommandList` (for a given allocator) and
`FenceManager::CreateFence` (for a given initial value) store in their output
parameter. The managers are not part of the sources; the properties below hold
for every behaviour of them. -/
structure SceneManagers where
  CreateCommandAllocator : Option Nat
  CreateCommandList : Nat → Option ID3D12GraphicsCommandList
  CreateFence : Nat → Option Nat

namespace Scene

/-- `Scene::IsDataValid`. -/
def IsDataValid (s : Scene) : Bool :=
  s.mCommandAllocators.isSome && s.mCommandList.isSome && s.mFence.isSome

/-- `Scene::Init`. -/
def Init (s : Scene) (managers : SceneManagers) : Except Fault Scene := do
  ASSERT (s.IsDataValid == false)
  let s := { s with mCommandAllocators := managers.CreateCommandAllocator }
  let allocator ← deref s.mCommandAllocators
  let s := { s with mCommandList := managers.CreateCommandList allocator }
  let commandList ← deref s.mCommandList
  let s := { s with mCommandList := some commandList.Close }
  let s := { s with mFence := managers.CreateFence 0 }
  ASSERT s.IsDataValid
  pure s

end Scene

namespace Example

/-- A `Scene` before `Init`. -/
def scene : Scene := { mCommandAllocators := none, mCommandList := none, mFence := none }

/-- Managers that create allocator `300`, an open empty command list on the
allocator they are given, and fence `301`. -/
def sceneManagers : SceneManagers :=
  { CreateCommandAllocator := some 300
    CreateCommandList := fun allocator => some ⟨allocator, none, [], false⟩
    CreateFence := fun _ => some 301 }

end Example

/-! ## `GeometryGenerator.h` and `Mesh.cpp` -/

/-- `DirectX::XMFLOAT3`: three `float`s, each given by the 32-bit pattern of its
value (pattern `0` is `0.0f`). -/
structure XMFLOAT3 where
  x : Nat
  y : Nat
  z : Nat
  deriving DecidableEq, Repr

/-- `DirectX::XMFLOAT2`. -/
structure XMFLOAT2 where
  x : Nat
  y : Nat
  deriving DecidableEq, Repr

/-- The `float` operations `Mesh.cpp` uses, on bit patterns. Which pattern each
yields is a matter of the target's arithmetic; the properties below hold for
every such arithmetic. -/
structure FloatArithmetic where
  add : Nat → Nat → Nat
  sub : Nat → Nat → Nat
  mul : Nat → Nat → Nat
  div : Nat → Nat → Nat

/-- The bit pattern of `1.0f`. -/
def FLOAT_ONE : Nat := 0x3F800000

/-- `XMVectorAdd` of two loaded `XMFLOAT3`, stored back as an `XMFLOAT3`. -/
def XMVectorAdd (f : FloatArithmetic) (a b : XMFLOAT3) : XMFLOAT3 :=
  ⟨f.add a.x b.x, f.add a.y b.y, f.add a.z b.z⟩

/-- Access `v[i]` to an element of a `std::vector` or of an array: undefined
outside the elements. -/
def elementAt {α : Type} (v : List α) (i : Nat) : Except Fault α :=
  match v.get? i with
  | some a => .ok a
  | none => .error Fault.undefinedBehaviour

namespace GeometryGenerator

/-- `GeometryGenerator::Vertex`, with its default member values. -/
structure Vertex where
  mPosition : XMFLOAT3 := ⟨0, 0, 0⟩
  mNormal : XMFLOAT3 := ⟨0, 0, 0⟩
  mTangent : XMFLOAT3 := ⟨0, 0, 0⟩
  mUV : XMFLOAT2 := ⟨0, 0⟩
  deriving DecidableEq, Repr

/-- `GeometryGenerator::MeshData`: the vertices and the 32-bit indices. -/
structure MeshData where
  mVertices : List Vertex := []
  mIndices32 : List Nat := []
  deriving DecidableEq, Repr

end GeometryGenerator

open GeometryGenerator

/-- One iteration of the loop of `CalculateTangentArray`, from the reads of the
three indices to the six accumulations. `tan` is the array `tan1` of
`vertexCount * 2` elements; `tan2[i]` is `tan[vertexCount + i]`. The mesh data is
passed by reference and is returned as the iteration leaves it. -/
def CalculateTangentArray.iteration (f : FloatArithmetic) (vertexCount : Nat)
    (meshData : MeshData) (tan : List XMFLOAT3) (baseIndex : Nat) :
    Except Fault (MeshData × List XMFLOAT3) := do
  let i1 ← elementAt meshData.mIndices32 baseIndex
  let i2 ← elementAt meshData.mIndices32 (baseIndex + 1)
  let i3 ← elementAt meshData.mIndices32 (baseIndex + 2)
  let v1 := (← elementAt meshData.mVertices i1).mPosition
  let v2 := (← elementAt meshData.mVertices i2).mPosition
  let v3 := (← elementAt meshData.mVertices i3).mPosition
  let w1 := (← elementAt meshData.mVertices i1).mUV
  let w2 := (← elementAt meshData.mVertices i2).mUV
  let w3 := (← elementAt meshData.mVertices i3).mUV
  let x1 := f.sub v2.x v1.x
  let x2 := f.sub v3.x v1.x
  let y1 := f.sub v2.y v1.y
  let y2 := f.sub v3.y v1.y
  let z1 := f.sub v2.z v1.z
  let z2 := f.sub v3.z v1.z
  let s1 := f.sub w2.x w1.x
  let s2 := f.sub w3.x w1.x
  let t1 := f.sub w2.y w1.y
  let t2 := f.sub w3.y w1.y
  let r := f.div FLOAT_ONE (f.sub (f.mul s1 t2) (f.mul s2 t1))
  let sdir : XMFLOAT3 :=
    ⟨f.mul (f.sub (f.mul t2 x1) (f.mul t1 x2)) r,
     f.mul (f.sub (f.mul t2 y1) (f.mul t1 y2)) r,
     f.mul (f.sub (f.mul t2 z1) (f.mul t1 z2)) r⟩
  let tdir : XMFLOAT3 :=
    ⟨f.mul (f.sub (f.mul s1 x2) (f.mul s2 x1)) r,
     f.mul (f.sub (f.mul s1 y2) (f.mul s2 y1)) r,
     f.mul (f.sub (f.mul s1 z2) (f.mul s2 z1)) r⟩
  let tan := tan.set i1 (XMVectorAdd f (← elementAt tan i1) sdir)
  let tan := tan.set i2 (XMVectorAdd f (← elementAt tan i2) sdir)
  let tan := tan.set i3 (XMVectorAdd f (← elementAt tan i3) sdir)
  let tan := tan.set (vertexCount + i1) (XMVectorAdd f (← elementAt tan (vertexCount + i1)) tdir)
  let tan := tan.set (vertexCount + i2) (XMVectorAdd f (← elementAt tan (vertexCount + i2)) tdir)
  let tan := tan.set (vertexCount + i3) (XMVectorAdd f (← elementAt tan (vertexCount + i3)) tdir)
  pure (meshData, tan)

/-- The loop `for (long a = 0; a < triangleCount; ++a)` of `CalculateTangentArray`
with `remaining = triangleCount - a` iterations to go. The counter is a `long`,
of 32 bits on the target of the source (Direct3D 12, Windows): incrementing it
beyond `2 ^ 31 - 1` is undefined. -/
def CalculateTangentArray.loop (f : FloatArithmetic) (vertexCount : Nat) :
    Nat → Nat → MeshData → List XMFLOAT3 → Nat → Except Fault (MeshData × List XMFLOAT3)
  | 0, _, meshData, tan, _ => .ok (meshData, tan)
  | remaining + 1, a, meshData, tan, baseIndex => do
    let (meshData, tan) ← CalculateTangentArray.iteration f vertexCount meshData tan baseIndex
    if a + 1 < 2 ^ 31 then
      CalculateTangentArray.loop f vertexCount remaining (a + 1) meshData tan (baseIndex + 3)
    else
      .error Fault.undefinedBehaviour

/-- `CalculateTangentArray(meshData, triangleCount)` of `Mesh.cpp`: the mesh data
as the call leaves it. The arrays `tan1` and `tan2` are local and are neither
read after the loop nor released. -/
def CalculateTangentArray (f : FloatArithmetic) (meshData : MeshData) (triangleCount : Nat) :
    Except Fault MeshData := do
  let vertexCount := meshData.mVertices.length
  let tan1 : List XMFLOAT3 := List.replicate ((vertexCount * 2) % 2 ^ 64) ⟨0, 0, 0⟩
  let (meshData, _) ← CalculateTangentArray.loop f vertexCount triangleCount 0 meshData tan1 0
  pure meshData

/-- assimp's `aiVector3D`: three `float`s. -/
structure aiVector3D where
  x : Nat
  y : Nat
  z : Nat
  deriving DecidableEq, Repr

/-- `XMFLOAT3(const float* pArray)` on the address of an `aiVector3D`. -/
def aiVector3D.toXMFLOAT3 (v : aiVector3D) : XMFLOAT3 := ⟨v.x, v.y, v.z⟩

/-- `XMFLOAT2(const float* pArray)` on the address of an `aiVector3D`. -/
def aiVector3D.toXMFLOAT2 (v : aiVector3D) : XMFLOAT2 := ⟨v.x, v.y⟩

/-- assimp's `aiFace`. -/
structure aiFace where
  mNumIndices : Nat
  mIndices : List Nat
  deriving DecidableEq, Repr

/-- The members of assimp's `aiMesh` that `Mesh.cpp` reads. A null array is
`none`; `mTextureCoords` is the array of the texture-coordinate channels. -/
structure aiMesh where
  mNumVertices : Nat
  mNumFaces : Nat
  mVertices : Option (List aiVector3D)
  mNormals : Option (List aiVector3D)
  mTangents : Option (List aiVector3D)
  mBitangents : Option (List aiVector3D)
  mTextureCoords : List (Option (List aiVector3D))
  mFaces : Option (List aiFace)

namespace aiMesh

/-- assimp's `aiMesh::HasNormals`. -/
def HasNormals (mesh : aiMesh) : Bool :=
  mesh.mNormals.isSome && decide (mesh.mNumVertices > 0)

/-- assimp's `aiMesh::HasTextureCoords`. -/
def HasTextureCoords (mesh : aiMesh) (index : Nat) : Bool :=
  (mesh.mTextureCoords.getD index none).isSome && decide (mesh.mNumVertices > 0)

/-- assimp's `aiMesh::GetNumUVChannels`: the number of leading channels that
are present. -/
def GetNumUVChannels (mesh : aiMesh) : Nat :=
  (mesh.mTextureCoords.takeWhile Option.isSome).length

/-- assimp's `aiMesh::HasFaces`. -/
def HasFaces (mesh : aiMesh) : Bool :=
  mesh.mFaces.isSome && decide (mesh.mNumFaces > 0)

/-- assimp's `aiMesh::HasTangentsAndBitangents`. -/
def HasTangentsAndBitangents (mesh : aiMesh) : Bool :=
  mesh.mTangents.isSome && mesh.mBitangents.isSome && decide (mesh.mNumVertices > 0)

end aiMesh

/-- Modelled from the spec: the vertex buffer and the index buffer that
`VertexAndIndexBufferCreator`, an external collaborator ("vertex/index buffer
construction", section 1), builds: each holds the elements uploaded to it, and
is valid once created. -/
structure Mesh where
  mVertexBufferData : Option (List Vertex)
  mIndexBufferData : Option (List Nat)

/-- `std::vector::resize(count)`: truncation, or default-constructed elements
appended. -/
def resize (v : List Vertex) (count : Nat) : List Vertex :=
  v.take count ++ List.replicate (count - v.length) ({} : Vertex)

namespace Mesh

/-- The loop `for (i = from; i < numVertices; ++i)` of `Mesh::Mesh` that
assigns `mPosition` and `mNormal`, with `remaining` iterations to go. -/
def copyPositionsAndNormals (vertices normals : List aiVector3D) :
    Nat → Nat → MeshData → Except Fault MeshData
  | 0, _, meshData => .ok meshData
  | remaining + 1, i, meshData => do
    let vertex ← elementAt meshData.mVertices i
    let vertex := { vertex with mPosition := (← elementAt vertices i).toXMFLOAT3 }
    let meshData := { meshData with mVertices := meshData.mVertices.set i vertex }
    let vertex ← elementAt meshData.mVertices i
    let vertex := { vertex with mNormal := (← elementAt normals i).toXMFLOAT3 }
    let meshData := { meshData with mVertices := meshData.mVertices.set i vertex }
    copyPositionsAndNormals vertices normals remaining (i + 1) meshData

/-- The loop of `Mesh::Mesh` that assigns `mUV`. -/
def copyTextureCoordinates (aiTextureCoordinates : List aiVector3D) :
    Nat → Nat → MeshData → Except Fault MeshData
  | 0, _, meshData => .ok meshData
  | remaining + 1, i, meshData => do
    let vertex ← elementAt meshData.mVertices i
    let vertex := { vertex with mUV := (← elementAt aiTextureCoordinates i).toXMFLOAT2 }
    let meshData := { meshData with mVertices := meshData.mVertices.set i vertex }
    copyTextureCoordinates aiTextureCoordinates remaining (i + 1) meshData

/-- The loop of `Mesh::Mesh` over the faces: the address of an element of the
array is not null, each face must have three indices, and they are appended. -/
def copyIndices (faces : List aiFace) : Nat → Nat → MeshData → Except Fault MeshData
  | 0, _, meshData => .ok meshData
  | remaining + 1, i, meshData => do
    let face ← elementAt faces i
    ASSERT (decide (face.mNumIndices = 3))
    let meshData := { meshData with
      mIndices32 := meshData.mIndices32 ++ [← elementAt face.mIndices 0] }
    let meshData := { meshData with
      mIndices32 := meshData.mIndices32 ++ [← elementAt face.mIndices 1] }
    let meshData := { meshData with
      mIndices32 := meshData.mIndices32 ++ [← elementAt face.mIndices 2] }
    copyIndices faces remaining (i + 1) meshData

/-- The loop of `Mesh::Mesh` that assigns `mTangent` from the imported
tangents. -/
def copyTangents (tangents : List aiVector3D) : Nat → Nat → MeshData → Except Fault MeshData
  | 0, _, meshData => .ok meshData
  | remaining + 1, i, meshData => do
    let vertex ← elementAt meshData.mVertices i
    let vertex := { vertex with mTangent := (← elementAt tangents i).toXMFLOAT3 }
    let meshData := { meshData with mVertices := meshData.mVertices.set i vertex }
    copyTangents tangents remaining (i + 1) meshData

/-- `CreateVertexAndIndexBufferData` of `Mesh.cpp`: the vertex buffer is
created from `mVertices.data()` and the index buffer from `mIndices32.data()`,
each with its size converted to `std::uint32_t`. -/
def CreateVertexAndIndexBufferData (mesh : Mesh) (meshData : MeshData) : Except Fault Mesh := do
  ASSERT (mesh.mVertexBufferData.isSome == false)
  ASSERT (mesh.mIndexBufferData.isSome == false)
  let mesh := { mesh with
    mVertexBufferData := some (meshData.mVertices.take (meshData.mVertices.length % 2 ^ 32)) }
  let mesh := { mesh with
    mIndexBufferData := some (meshData.mIndices32.take (meshData.mIndices32.length % 2 ^ 32)) }
  ASSERT mesh.mVertexBufferData.isSome
  ASSERT mesh.mIndexBufferData.isSome
  pure mesh

/-- The constructor `Mesh::Mesh(const aiMesh&, ...)`. -/
def create (f : FloatArithmetic) (mesh : aiMesh) : Except Fault Mesh := do
  let meshData : MeshData := {}
  -- Positions and Normals
  let numVertices := mesh.mNumVertices
  ASSERT (decide (numVertices > 0))
  ASSERT mesh.HasNormals
  let meshData := { meshData with mVertices := resize meshData.mVertices numVertices }
  let meshData ← copyPositionsAndNormals (← deref mesh.mVertices) (← deref mesh.mNormals)
    numVertices 0 meshData
  -- Texture Coordinates (if any)
  let meshData ←
    if mesh.HasTextureCoords 0 then do
      ASSERT (decide (mesh.GetNumUVChannels = 1))
      let aiTextureCoordinates := mesh.mTextureCoords.getD 0 none
      ASSERT aiTextureCoordinates.isSome
      copyTextureCoordinates (← deref aiTextureCoordinates) numVertices 0 meshData
    else pure meshData
  -- Indices
  ASSERT mesh.HasFaces
  let numFaces := mesh.mNumFaces
  let meshData ← copyIndices (← deref mesh.mFaces) numFaces 0 meshData
  -- Tangents
  let meshData ←
    if mesh.HasTangentsAndBitangents then
      copyTangents (← deref mesh.mTangents) numVertices 0 meshData
    else
      CalculateTangentArray f meshData mesh.mNumFaces
  let result ← CreateVertexAndIndexBufferData ⟨none, none⟩ meshData
  ASSERT result.mVertexBufferData.isSome
  ASSERT result.mIndexBufferData.isSome
  pure result

end Mesh

namespace Example

/-- An arithmetic on bit patterns for the examples. -/
def floatArithmetic : FloatArithmetic :=
  { add := fun a b => (a + b) % 2 ^ 32
    sub := fun a b => (a + (2 ^ 32 - b % 2 ^ 32)) % 2 ^ 32
    mul := fun a b => (a * b) % 2 ^ 32
    div := fun a b => if b = 0 then 0x7F800000 else a / b }

/-- An imported mesh of one triangle with normals, one texture-coordinate
channel and no tangents. -/
def triangle : aiMesh :=
  { mNumVertices := 3
    mNumFaces := 1
    mVertices := some [⟨1, 2, 3⟩, ⟨4, 5, 6⟩, ⟨7, 8, 9⟩]
    mNormals := some [⟨0, 0, 1⟩, ⟨0, 0, 1⟩, ⟨0, 0, 1⟩]
    mTangents := none
    mBitangents := none
    mTextureCoords := [some [⟨0, 0, 0⟩, ⟨1, 0, 0⟩, ⟨0, 1, 0⟩], none, none, none, none, none,
      none, none]
    mFaces := some [⟨3, [0, 1, 2]⟩] }

end Example

namespace AmbientLightPass

end AmbientLightPass

/-! # Properties -/

/-! ## Basic facts -/

@[simp] theorem ASSERT_true : ASSERT true = .ok () := rfl
@[simp] theorem ASSERT_false : ASSERT false = .error Fault.assertion := rfl
@[simp] theorem ok_bind {α β : Type} (a : α) (f : α → Except Fault β) :
    (Except.ok a >>= f) = f a := rfl
@[simp] theorem error_bind {α β : Type} (e : Fault) (f : α → Except Fault β) :
    ((Except.error e : Except Fault α) >>= f) = Except.error e := rfl
@[simp] theorem pure_eq_ok {α : Type} (a : α) : (pure a : Except Fault α) = Except.ok a := rfl
@[simp] theorem deref_some {α : Type} (a : α) : deref (some a) = .ok a := rfl
@[simp] theorem deref_none {α : Type} : deref (none : Option α) = .error Fault.nullDereference := rfl

theorem bind_eq_ok {α β : Type} (x : Except Fault α) (f : α → Except Fault β) (b : β) :
    (x >>= f) = .ok b ↔ ∃ a, x = .ok a ∧ f a = .ok b := by
  cases x with
  | error e => simp
  | ok a => simp

theorem World.change_ok (w : World) (res : Nat) (s A : D3D12_RESOURCE_STATES)
    (hreg : w.resourceStateManager.mStateByResource res = some s) (hne : A ≠ s) :
    w.ChangeResourceStateAndGetBarrier res A = .ok (some ⟨res, s, A⟩,
      { w with resourceStateManager := w.resourceStateManager.transitioned res s A }) := by
  simp [World.ChangeResourceStateAndGetBarrier,
    ResourceStateManager.ChangeResourceStateAndGetBarrier, hreg, hne,
    ResourceStateManager.transitioned]

theorem World.get_ok (w : World) (res : Nat) (s : D3D12_RESOURCE_STATES)
    (hreg : w.resourceStateManager.mStateByResource res = some s) :
    w.GetResourceState res = .ok s := by
  simp [World.GetResourceState, ResourceStateManager.GetResourceState, hreg]

theorem RT_ne_PSR :
    D3D12_RESOURCE_STATE_RENDER_TARGET ≠ D3D12_RESOURCE_STATE_PIXEL_SHADER_RESOURCE := by decide

theorem PSR_ne_RT :
    D3D12_RESOURCE_STATE_PIXEL_SHADER_RESOURCE ≠ D3D12_RESOURCE_STATE_RENDER_TARGET := by decide

namespace AmbientLightPass

theorem ambientLightPass_begin_ok (p : AmbientLightPass) (w : World) (aa blur : Nat)
    (hAA : p.mAmbientAccessibilityBuffer = some aa) (hBlur : p.mBlurBuffer = some blur)
    (hv : p.ValidateData = true)
    (h1 : w.resourceStateManager.mStateByResource aa
      = some D3D12_RESOURCE_STATE_PIXEL_SHADER_RESOURCE)
    (h2 : w.resourceStateManager.mStateByResource blur
      = some D3D12_RESOURCE_STATE_PIXEL_SHADER_RESOURCE) :
    p.ExecuteBeginTask w = .ok
      ({ p with
        mBeginCommandListPerFrame := p.mBeginCommandListPerFrame.advanced
              (p.mBeginCommandListPerFrame.recorded none
                [.ResourceBarrier 1 [some ⟨aa, D3D12_RESOURCE_STATE_PIXEL_SHADER_RESOURCE,
                  D3D12_RESOURCE_STATE_RENDER_TARGET⟩],
                 .ClearRenderTargetView p.mAmbientAccessibilityBufferRenderTargetView]) },
       ({ w with
          resourceStateManager := w.resourceStateManager.transitioned aa
            D3D12_RESOURCE_STATE_PIXEL_SHADER_RESOURCE D3D12_RESOURCE_STATE_RENDER_TARGET }
          : World).AddCommandList
          (p.mBeginCommandListPerFrame.recorded none
            [.ResourceBarrier 1 [some ⟨aa, D3D12_RESOURCE_STATE_PIXEL_SHADER_RESOURCE,
              D3D12_RESOURCE_STATE_RENDER_TARGET⟩],
             .ClearRenderTargetView p.mAmbientAccessibilityBufferRenderTargetView])) := by
  simp [AmbientLightPass.ExecuteBeginTask, hv, hAA, hBlur, World.get_ok _ _ _ h1,
    World.get_ok _ _ _ h2, World.change_ok _ _ _ _ h1 RT_ne_PSR,
    CommandListPerFrame.ResetWithNextCommandAllocator, ID3D12GraphicsCommandList.record,
    ID3D12GraphicsCommandList.Close, CommandListPerFrame.recorded, CommandListPerFrame.advanced]

theorem ambientLightPass_middle_ok (p : AmbientLightPass) (w : World) (aa blur : Nat)
    (hAA : p.mAmbientAccessibilityBuffer = some aa) (hBlur : p.mBlurBuffer = some blur)
    (hne : aa ≠ blur)
    (hv : p.ValidateData = true)
    (h1 : w.resourceStateManager.mStateByResource aa = some D3D12_RESOURCE_STATE_RENDER_TARGET)
    (h2 : w.resourceStateManager.mStateByResource blur
      = some D3D12_RESOURCE_STATE_PIXEL_SHADER_RESOURCE) :
    p.ExecuteMiddleTask w = .ok
      ({ p with
        mMiddleCommandListPerFrame := p.mMiddleCommandListPerFrame.advanced
              (p.mMiddleCommandListPerFrame.recorded none
                [.ResourceBarrier 2 [some ⟨aa, D3D12_RESOURCE_STATE_RENDER_TARGET,
                    D3D12_RESOURCE_STATE_PIXEL_SHADER_RESOURCE⟩,
                  some ⟨blur, D3D12_RESOURCE_STATE_PIXEL_SHADER_RESOURCE,
                    D3D12_RESOURCE_STATE_RENDER_TARGET⟩]]) },
       ({ w with
          resourceStateManager := (w.resourceStateManager.transitioned aa
            D3D12_RESOURCE_STATE_RENDER_TARGET
            D3D12_RESOURCE_STATE_PIXEL_SHADER_RESOURCE).transitioned blur
            D3D12_RESOURCE_STATE_PIXEL_SHADER_RESOURCE D3D12_RESOURCE_STATE_RENDER_TARGET }
          : World).AddCommandList
          (p.mMiddleCommandListPerFrame.recorded none
            [.ResourceBarrier 2 [some ⟨aa, D3D12_RESOURCE_STATE_RENDER_TARGET,
                D3D12_RESOURCE_STATE_PIXEL_SHADER_RESOURCE⟩,
              some ⟨blur, D3D12_RESOURCE_STATE_PIXEL_SHADER_RESOURCE,
                D3D12_RESOURCE_STATE_RENDER_TARGET⟩]])) := by
  have h2' : ({ w with
      resourceStateManager := w.resourceStateManager.transitioned aa
        D3D12_RESOURCE_STATE_RENDER_TARGET
        D3D12_RESOURCE_STATE_PIXEL_SHADER_RESOURCE } : World).resourceStateManager.mStateByResource
      blur = some D3D12_RESOURCE_STATE_PIXEL_SHADER_RESOURCE := by
    simp [ResourceStateManager.transitioned, Ne.symm hne, h2]
  simp [AmbientLightPass.ExecuteMiddleTask, hv, hAA, hBlur, World.get_ok _ _ _ h1,
    World.get_ok _ _ _ h2, World.change_ok _ _ _ _ h1 PSR_ne_RT,
    World.change_ok _ _ _ _ h2' RT_ne_PSR,
    CommandListPerFrame.ResetWithNextCommandAllocator, ID3D12GraphicsCommandList.record,
    ID3D12GraphicsCommandList.Close, CommandListPerFrame.recorded, CommandListPerFrame.advanced]

theorem ambientLightPass_final_ok (p : AmbientLightPass) (w : World) (aa blur : Nat)
    (hAA : p.mAmbientAccessibilityBuffer = some aa) (hBlur : p.mBlurBuffer = some blur)
    (hv : p.ValidateData = true)
    (h1 : w.resourceStateManager.mStateByResource aa
      = some D3D12_RESOURCE_STATE_PIXEL_SHADER_RESOURCE)
    (h2 : w.resourceStateManager.mStateByResource blur = some D3D12_RESOURCE_STATE_RENDER_TARGET) :
    p.ExecuteFinalTask w = .ok
      ({ p with
        mFinalCommandListPerFrame := p.mFinalCommandListPerFrame.advanced
              (p.mFinalCommandListPerFrame.recorded none
                [.ResourceBarrier 1 [some ⟨blur, D3D12_RESOURCE_STATE_RENDER_TARGET,
                  D3D12_RESOURCE_STATE_PIXEL_SHADER_RESOURCE⟩]]) },
       ({ w with
          resourceStateManager := w.resourceStateManager.transitioned blur
            D3D12_RESOURCE_STATE_RENDER_TARGET D3D12_RESOURCE_STATE_PIXEL_SHADER_RESOURCE }
          : World).AddCommandList
          (p.mFinalCommandListPerFrame.recorded none
            [.ResourceBarrier 1 [some ⟨blur, D3D12_RESOURCE_STATE_RENDER_TARGET,
              D3D12_RESOURCE_STATE_PIXEL_SHADER_RESOURCE⟩]])) := by
  simp [AmbientLightPass.ExecuteFinalTask, hv, hAA, hBlur, World.get_ok _ _ _ h1,
    World.get_ok _ _ _ h2, World.change_ok _ _ _ _ h2 PSR_ne_RT,
    CommandListPerFrame.ResetWithNextCommandAllocator, ID3D12GraphicsCommandList.record,
    ID3D12GraphicsCommandList.Close, CommandListPerFrame.recorded, CommandListPerFrame.advanced]

end AmbientLightPass

namespace CommandListExecutor

theorem waitForExecuted_ok (taskCount : Nat) :
    ∀ (budget : Nat) (e : CommandListExecutor),
      taskCount ≤ e.mExecutedCommandListCount + e.mPending.length →
      taskCount - e.mExecutedCommandListCount ≤ budget →
      e.waitForExecuted taskCount budget = .ok
        { mPending := e.mPending.drop (taskCount - e.mExecutedCommandListCount)
          mSubmitted := e.mSubmitted ++ e.mPending.take (taskCount - e.mExecutedCommandListCount)
          mExecutedCommandListCount := max e.mExecutedCommandListCount taskCount } := by
  intro budget
  induction budget with
  | zero =>
    intro e h1 h2
    have h3 : taskCount - e.mExecutedCommandListCount = 0 := by omega
    have h4 : ¬ e.mExecutedCommandListCount < taskCount := by omega
    have h5 : max e.mExecutedCommandListCount taskCount = e.mExecutedCommandListCount := by omega
    simp [waitForExecuted, GetExecutedCommandListCount, h3, h4, h5]
  | succ budget ih =>
    intro e h1 h2
    by_cases hlt : e.mExecutedCommandListCount < taskCount
    · obtain ⟨pending, submitted, count⟩ := e
      simp only at h1 h2 hlt
      cases pending with
      | nil => simp at h1; omega
      | cons l rest =>
        have hstep : taskCount - count = (taskCount - (count + 1)) + 1 := by omega
        simp only [waitForExecuted, GetExecutedCommandListCount, hlt, if_true, consume]
        rw [ih]
        · have h5 : max (count + 1) taskCount = max count taskCount := by omega
          simp only [hstep, List.drop_succ_cons, List.take_succ_cons, h5, List.append_assoc,
            List.singleton_append]
        · simp only [List.length_cons] at h1; simp only; omega
        · simp only; omega
    · have h3 : taskCount - e.mExecutedCommandListCount = 0 := by omega
      have h5 : max e.mExecutedCommandListCount taskCount = e.mExecutedCommandListCount := by omega
      simp [waitForExecuted, GetExecutedCommandListCount, h3, hlt, h5]

theorem waitForExecuted_reached (taskCount : Nat) :
    ∀ (budget : Nat) (e e' : CommandListExecutor),
      e.waitForExecuted taskCount budget = .ok e' → taskCount ≤ e'.mExecutedCommandListCount := by
  intro budget
  induction budget with
  | zero =>
    intro e e' h
    by_cases hlt : e.mExecutedCommandListCount < taskCount
    · simp [waitForExecuted, GetExecutedCommandListCount, hlt] at h
    · simp [waitForExecuted, GetExecutedCommandListCount, hlt] at h
      subst h; omega
  | succ budget ih =>
    intro e e' h
    by_cases hlt : e.mExecutedCommandListCount < taskCount
    · simp only [waitForExecuted, GetExecutedCommandListCount, hlt, if_true] at h
      exact ih _ _ h
    · simp [waitForExecuted, GetExecutedCommandListCount, hlt] at h
      subst h; omega

end CommandListExecutor

namespace ScreenSpaceCmdListRecorder

theorem screenSpaceRecorder_record_none_ok (r : ScreenSpaceCmdListRecorder) (w : World)
    (hv : r.ValidateData = true) (hp : (w.sPSO r.cls).isSome = true)
    (hs : (w.sRootSignature r.cls).isSome = true) :
    r.RecordAndPushCommandLists none w = .ok
      ({ r with mCommandListPerFrame := r.mCommandListPerFrame.advanced (r.commandList w) },
       w.AddCommandList (r.commandList w)) := by
  simp [RecordAndPushCommandLists, hv, hp, hs,
    CommandListPerFrame.ResetWithNextCommandAllocator, ID3D12GraphicsCommandList.record,
    ID3D12GraphicsCommandList.Close, CommandListPerFrame.recorded, CommandListPerFrame.advanced,
    commandList]

theorem screenSpaceRecorder_record_some_ok (r : ScreenSpaceCmdListRecorder) (frameCBuffer : FrameCBuffer) (w : World)
    (hv : r.ValidateData = true) (hp : (w.sPSO r.cls).isSome = true)
    (hs : (w.sRootSignature r.cls).isSome = true)
    (hslot : r.mFrameUploadCBufferPerFrame.mCurrentFrameIndex <
      r.mFrameUploadCBufferPerFrame.mFrameCBuffers.length) :
    r.RecordAndPushCommandLists (some frameCBuffer) w = .ok
      ({ r with
          mCommandListPerFrame := r.mCommandListPerFrame.advanced (r.commandList w)
          mFrameUploadCBufferPerFrame := r.mFrameUploadCBufferPerFrame.written frameCBuffer },
       w.AddCommandList (r.commandList w)) := by
  have hget := List.getElem?_eq_getElem hslot
  simp [RecordAndPushCommandLists, hv, hp, hs, hget,
    FrameUploadCBufferPerFrame.GetNextFrameCBuffer, UploadBuffer.CopyData,
    CommandListPerFrame.ResetWithNextCommandAllocator, ID3D12GraphicsCommandList.record,
    ID3D12GraphicsCommandList.Close, CommandListPerFrame.recorded,
    CommandListPerFrame.advanced, commandList, FrameUploadCBufferPerFrame.written]

theorem written_slot (f : FrameUploadCBufferPerFrame) (frameCBuffer : FrameCBuffer)
    (hslot : f.mCurrentFrameIndex < f.mFrameCBuffers.length) :
    (f.written frameCBuffer).mCurrentFrameIndex < (f.written frameCBuffer).mFrameCBuffers.length := by
  have hget := List.getElem?_eq_getElem hslot
  simp only [FrameUploadCBufferPerFrame.written, List.get?_eq_getElem?, hget, List.length_set]
  exact Nat.mod_lt _ (by omega)

end ScreenSpaceCmdListRecorder

namespace AmbientLightCmdListRecorder

theorem ambientLightRecorder_record_ok (r : AmbientLightCmdListRecorder) (w : World)
    (hv : r.ValidateData = true) (hp : (w.sPSO RecorderClass.AmbientLight).isSome = true)
    (hs : (w.sRootSignature RecorderClass.AmbientLight).isSome = true) :
    r.RecordAndPushCommandLists w = .ok
      ({ r with mCommandListPerFrame := r.mCommandListPerFrame.advanced (r.commandList w) },
       w.AddCommandList (r.commandList w)) := by
  simp [RecordAndPushCommandLists, hv, hp, hs,
    CommandListPerFrame.ResetWithNextCommandAllocator, ID3D12GraphicsCommandList.record,
    ID3D12GraphicsCommandList.Close, CommandListPerFrame.recorded, CommandListPerFrame.advanced,
    commandList]

end AmbientLightCmdListRecorder

namespace AmbientLightPass

theorem ambientLightPass_Execute_eq (p : AmbientLightPass) (w : World) (frameCBuffer : FrameCBuffer) (budget : Nat)
    (aa blur : Nat) (ao bl : ScreenSpaceCmdListRecorder) (al : AmbientLightCmdListRecorder)
    (hAA : p.mAmbientAccessibilityBuffer = some aa) (hBlur : p.mBlurBuffer = some blur)
    (hne : aa ≠ blur)
    (hAO : p.mAmbientOcclusionRecorder = some ao) (hBL : p.mBlurRecorder = some bl)
    (hAL : p.mAmbientLightRecorder = some al)
    (haov : ao.ValidateData = true) (haop : (w.sPSO ao.cls).isSome = true)
    (haos : (w.sRootSignature ao.cls).isSome = true)
    (hslot : ao.mFrameUploadCBufferPerFrame.mCurrentFrameIndex <
      ao.mFrameUploadCBufferPerFrame.mFrameCBuffers.length)
    (hblv : bl.ValidateData = true) (hblp : (w.sPSO bl.cls).isSome = true)
    (hbls : (w.sRootSignature bl.cls).isSome = true)
    (halv : al.ValidateData = true) (halp : (w.sPSO RecorderClass.AmbientLight).isSome = true)
    (hals : (w.sRootSignature RecorderClass.AmbientLight).isSome = true)
    (h1 : w.resourceStateManager.mStateByResource aa
      = some D3D12_RESOURCE_STATE_PIXEL_SHADER_RESOURCE)
    (h2 : w.resourceStateManager.mStateByResource blur
      = some D3D12_RESOURCE_STATE_PIXEL_SHADER_RESOURCE) :
    p.Execute frameCBuffer budget w = (do
      let w' ← World.waitForExecuted
        { w with
          resourceStateManager :=
            (((w.resourceStateManager.transitioned aa
              D3D12_RESOURCE_STATE_PIXEL_SHADER_RESOURCE
              D3D12_RESOURCE_STATE_RENDER_TARGET).transitioned aa
              D3D12_RESOURCE_STATE_RENDER_TARGET
              D3D12_RESOURCE_STATE_PIXEL_SHADER_RESOURCE).transitioned blur
              D3D12_RESOURCE_STATE_PIXEL_SHADER_RESOURCE
              D3D12_RESOURCE_STATE_RENDER_TARGET).transitioned blur
              D3D12_RESOURCE_STATE_RENDER_TARGET
              D3D12_RESOURCE_STATE_PIXEL_SHADER_RESOURCE
          commandListExecutor :=
            { mPending := w.commandListExecutor.mPending ++
                [p.beginList aa, ao.commandList w, p.middleList aa blur, bl.commandList w,
                 p.finalList blur, al.commandList w]
              mSubmitted := w.commandListExecutor.mSubmitted
              mExecutedCommandListCount := 0 } }
        taskCount budget
      pure ({ p with
          mBeginCommandListPerFrame := p.mBeginCommandListPerFrame.advanced (p.beginList aa)
          mAmbientOcclusionRecorder := some
            { ao with
              mCommandListPerFrame := ao.mCommandListPerFrame.advanced (ao.commandList w)
              mFrameUploadCBufferPerFrame := ao.mFrameUploadCBufferPerFrame.written frameCBuffer }
          mMiddleCommandListPerFrame :=
            p.mMiddleCommandListPerFrame.advanced (p.middleList aa blur)
          mBlurRecorder := some
            { bl with mCommandListPerFrame := bl.mCommandListPerFrame.advanced (bl.commandList w) }
          mFinalCommandListPerFrame := p.mFinalCommandListPerFrame.advanced (p.finalList blur)
          mAmbientLightRecorder := some
            { al with mCommandListPerFrame := al.mCommandListPerFrame.advanced (al.commandList w) } },
        w')) := by
  have hv : p.ValidateData = true := by simp [ValidateData, hAA, hBlur, hAO, hAL]
  unfold Execute
  simp only [hv, ASSERT_true, ok_bind]
  rw [ambientLightPass_begin_ok _ _ aa blur hAA hBlur hv (by simpa [World.ResetExecutedCommandListCount] using h1)
    (by simpa [World.ResetExecutedCommandListCount] using h2)]
  simp only [ok_bind, hAO, deref_some]
  rw [ScreenSpaceCmdListRecorder.screenSpaceRecorder_record_some_ok _ _ _ haov
    (by simpa [World.sPSO, World.AddCommandList, World.ResetExecutedCommandListCount] using haop)
    (by simpa [World.sRootSignature, World.AddCommandList, World.ResetExecutedCommandListCount]
      using haos) hslot]
  simp only [ok_bind]
  rw [ambientLightPass_middle_ok _ _ aa blur]
  case hAA => exact hAA
  case hBlur => exact hBlur
  case hne => exact hne
  case hv => simp [ValidateData, hAA, hBlur, hAL]
  case h1 =>
    simp [World.AddCommandList, World.ResetExecutedCommandListCount,
      ResourceStateManager.transitioned]
  case h2 =>
    simp [World.AddCommandList, World.ResetExecutedCommandListCount,
      ResourceStateManager.transitioned, Ne.symm hne, h2]
  simp only [ok_bind, hBL, deref_some]
  rw [ScreenSpaceCmdListRecorder.screenSpaceRecorder_record_none_ok _ _ hblv
    (by simpa [World.sPSO, World.AddCommandList, World.ResetExecutedCommandListCount] using hblp)
    (by simpa [World.sRootSignature, World.AddCommandList, World.ResetExecutedCommandListCount]
      using hbls)]
  simp only [ok_bind]
  rw [ambientLightPass_final_ok _ _ aa blur]
  case hAA => exact hAA
  case hBlur => exact hBlur
  case hv => simp [ValidateData, hAA, hBlur, hAL]
  case h1 =>
    simp [World.AddCommandList, World.ResetExecutedCommandListCount,
      ResourceStateManager.transitioned, hne]
  case h2 =>
    simp [World.AddCommandList, World.ResetExecutedCommandListCount,
      ResourceStateManager.transitioned]
  simp only [ok_bind, hAL, deref_some]
  rw [AmbientLightCmdListRecorder.ambientLightRecorder_record_ok _ _ halv
    (by simpa [World.sPSO, World.AddCommandList, World.ResetExecutedCommandListCount] using halp)
    (by simpa [World.sRootSignature, World.AddCommandList, World.ResetExecutedCommandListCount]
      using hals)]
  simp [World.AddCommandList, World.ResetExecutedCommandListCount,
    CommandListExecutor.AddCommandList, CommandListExecutor.ResetExecutedCommandListCount,
    beginList, middleList, finalList, ScreenSpaceCmdListRecorder.commandList,
    AmbientLightCmdListRecorder.commandList, World.sPSO, World.sRootSignature]

end AmbientLightPass

namespace AmbientLightPass

theorem ambientLightPass_Ready_iff (p : AmbientLightPass) (w : World) (aa blur : Nat)
    (ao bl : ScreenSpaceCmdListRecorder) (al : AmbientLightCmdListRecorder)
    (hAA : p.mAmbientAccessibilityBuffer = some aa) (hBlur : p.mBlurBuffer = some blur)
    (hAO : p.mAmbientOcclusionRecorder = some ao) (hBL : p.mBlurRecorder = some bl)
    (hAL : p.mAmbientLightRecorder = some al) :
    p.Ready w = true ↔ ReadyFacts w aa blur ao bl al := by
  simp only [Ready, hAA, hBlur, hAO, hBL, hAL, ReadyFacts, Bool.and_eq_true, decide_eq_true_eq,
    and_assoc]

theorem ambientLightPass_Ready_elim (p : AmbientLightPass) (w : World) (h : p.Ready w = true) :
    ∃ aa blur ao bl al,
      p.mAmbientAccessibilityBuffer = some aa ∧ p.mBlurBuffer = some blur ∧
      p.mAmbientOcclusionRecorder = some ao ∧ p.mBlurRecorder = some bl ∧
      p.mAmbientLightRecorder = some al ∧ ReadyFacts w aa blur ao bl al := by
  cases hAA : p.mAmbientAccessibilityBuffer with
  | none => simp [Ready, hAA] at h
  | some aa =>
    cases hBlur : p.mBlurBuffer with
    | none => simp [Ready, hAA, hBlur] at h
    | some blur =>
      cases hAO : p.mAmbientOcclusionRecorder with
      | none => simp [Ready, hAA, hBlur, hAO] at h
      | some ao =>
        cases hBL : p.mBlurRecorder with
        | none => simp [Ready, hAA, hBlur, hAO, hBL] at h
        | some bl =>
          cases hAL : p.mAmbientLightRecorder with
          | none => simp [Ready, hAA, hBlur, hAO, hBL, hAL] at h
          | some al =>
            exact ⟨aa, blur, ao, bl, al, rfl, rfl, rfl, rfl, rfl,
              (ambientLightPass_Ready_iff p w aa blur ao bl al hAA hBlur hAO hBL hAL).1 h⟩

end AmbientLightPass

theorem ASSERT_eq_ok (b : Bool) (u : Unit) : ASSERT b = .ok u ↔ b = true := by
  cases b <;> simp

theorem map_zip_map_self {α β γ : Type} (l : List α) (f : α → β) (g : α → β → γ) :
    (l.zip (l.map f)).map (fun rd => g rd.1 rd.2) = l.map fun a => g a (f a) := by
  induction l with
  | nil => rfl
  | cons a l ih => simp [ih]

theorem createUploadBuffer_ok (w : World) (elemSize elemCount : Nat) (b : UploadBuffer)
    (w' : World) (h : w.CreateUploadBuffer elemSize elemCount = .ok (b, w')) :
    w' = { w with mNextObject := w.mNextObject + 1 } ∧ b.mElemSize = elemSize ∧
      0 < elemSize ∧ 0 < elemCount ∧ b.mBuffer = w.mNextObject ∧
      b.mappedSize = elemSize * elemCount := by
  unfold World.CreateUploadBuffer at h
  by_cases h1 : elemSize > 0
  · by_cases h2 : elemCount > 0
    · simp [h1, h2, World.CreateObject] at h
      obtain ⟨hb, hw⟩ := h
      subst hb; subst hw
      exact ⟨rfl, rfl, h1, h2, rfl, rfl⟩
    · simp [h1, h2] at h
  · simp [h1] at h

theorem createBuffers_ok : ∀ (n : Nat) (w : World) (bs : List UploadBuffer) (w' : World),
    FrameUploadCBufferPerFrame.createBuffers w n = .ok (bs, w') →
    bs.length = n ∧ w' = { w with mNextObject := w.mNextObject + n } := by
  intro n
  induction n with
  | zero =>
    intro w bs w' h
    simp [FrameUploadCBufferPerFrame.createBuffers] at h
    obtain ⟨hb, hw⟩ := h
    subst hb; subst hw
    exact ⟨rfl, rfl⟩
  | succ n ih =>
    intro w bs w' h
    simp only [FrameUploadCBufferPerFrame.createBuffers, bind_eq_ok] at h
    obtain ⟨⟨b, w1⟩, h1, ⟨rest, w2⟩, h2, h3⟩ := h
    obtain ⟨hw1, -⟩ := createUploadBuffer_ok _ _ _ _ _ h1
    obtain ⟨hlen, hw2⟩ := ih _ _ _ h2
    simp at h3
    obtain ⟨hb, hw⟩ := h3
    subst hb; subst hw; subst hw2; subst hw1
    refine ⟨by simp [hlen], ?_⟩
    simp [Nat.add_assoc, Nat.add_comm 1 n]

namespace ScreenSpaceCmdListRecorder

theorem screenSpaceRecorder_create_ok (c : RecorderClass) (w : World) (r : ScreenSpaceCmdListRecorder) (w' : World)
    (h : create c w = .ok (r, w')) :
    r.cls = c ∧ r.mRenderTargetView = 0 ∧ r.mStartPixelShaderResourceView = 0 ∧
    r.mFrameUploadCBufferPerFrame.mCurrentFrameIndex = 0 ∧
    r.mFrameUploadCBufferPerFrame.mFrameCBuffers.length = w.sQueuedFrameCount ∧
    w' = { w with mNextObject := w.mNextObject + w.sQueuedFrameCount + w.sQueuedFrameCount } := by
  simp only [create, CommandListPerFrame.create, FrameUploadCBufferPerFrame.create, bind_eq_ok,
    pure_eq_ok] at h
  obtain ⟨⟨f, w1⟩, ⟨⟨bs, w2⟩, h1, h2⟩, h3⟩ := h
  obtain ⟨hlen, hw2⟩ := createBuffers_ok _ _ _ _ h1
  simp at h2 h3
  obtain ⟨hf, hw1⟩ := h2
  obtain ⟨hr, hw⟩ := h3
  subst hr; subst hw; subst hw1; subst hf; subst hw2
  exact ⟨rfl, rfl, rfl, rfl, hlen, rfl⟩

theorem screenSpaceRecorder_Init_ok (r : ScreenSpaceCmdListRecorder) (inputs : List Nat) (renderTargetView : Nat)
    (w : World) (r' : ScreenSpaceCmdListRecorder) (w' : World)
    (h : r.Init inputs renderTargetView w = .ok (r', w')) :
    r' = { r with mRenderTargetView := renderTargetView
                  mStartPixelShaderResourceView := w.mNextShaderResourceView } ∧
    r'.ValidateData = true ∧
    w' = w.withShaderResourceViews (inputs.map w.textureView) := by
  simp only [Init, World.CreateShaderResourceViews, bind_eq_ok, pure_eq_ok, ASSERT_eq_ok] at h
  obtain ⟨_, hv, h2⟩ := h
  simp at h2
  obtain ⟨hr, hw⟩ := h2
  subst hr; subst hw
  refine ⟨rfl, hv, ?_⟩
  simp only [World.withShaderResourceViews, List.length_map]
  rw [List.take_of_length_le (by simp), map_zip_map_self]
  rfl

end ScreenSpaceCmdListRecorder


namespace AmbientLightCmdListRecorder

theorem ambientLightRecorder_Init_ok (r : AmbientLightCmdListRecorder)
    (baseColorMetalMaskBuffer ambientAccessibilityBuffer renderTargetView : Nat) (w : World)
    (r' : AmbientLightCmdListRecorder) (w' : World)
    (h : r.Init baseColorMetalMaskBuffer ambientAccessibilityBuffer renderTargetView w
      = .ok (r', w')) :
    r' = { r with mRenderTargetView := renderTargetView
                  mStartPixelShaderResourceView := w.mNextShaderResourceView } ∧
    r'.ValidateData = true ∧
    w' = w.withShaderResourceViews
      [w.textureView baseColorMetalMaskBuffer, w.textureView ambientAccessibilityBuffer] := by
  simp only [Init, InitShaderResourceViews, World.CreateShaderResourceViews, bind_eq_ok,
    pure_eq_ok, ASSERT_eq_ok] at h
  obtain ⟨_, -, ⟨r1, w1⟩, ⟨_, -, _, -, h1⟩, _, hv, h2⟩ := h
  simp at h1 h2
  obtain ⟨hr1, hw1⟩ := h1
  obtain ⟨hr, hw⟩ := h2
  subst hr; subst hw; subst hr1; subst hw1
  exact ⟨rfl, hv, rfl⟩

end AmbientLightCmdListRecorder

theorem InitSharedPSOAndRootSignature_ok (c : RecorderClass) (w w' : World)
    (h : InitSharedPSOAndRootSignature c w = .ok w') :
    (w.sPSO c).isNone = true ∧ (w.sRootSignature c).isNone = true ∧
    w' = { w with
      mNextObject := w.mNextObject + 1 + 1
      shared := fun k =>
        if k = c then ⟨some (w.mNextObject + 1), some w.mNextObject⟩ else w.shared k } := by
  simp only [InitSharedPSOAndRootSignature, World.CreateObject, bind_eq_ok, pure_eq_ok,
    ASSERT_eq_ok] at h
  obtain ⟨_, h1, _, h2, _, -, _, -, h3⟩ := h
  simp at h3
  subst h3
  refine ⟨h1, h2, ?_⟩
  simp only [World.setPSO, World.setRootSignature]
  congr 1
  funext k
  by_cases hk : k = c <;> simp [hk]

theorem ScreenSpace_InitShared_ok (c : RecorderClass) (w : World) :
    ∃ (shared : RecorderClass → SharedPSOAndRootSignature) (next : Nat),
      ScreenSpaceCmdListRecorder.InitSharedPSOAndRootSignature c w
        = { w with shared := shared, mNextObject := next } ∧
      (shared c).sPSO.isSome = true ∧ (shared c).sRootSignature.isSome = true ∧
      (∀ k, (w.shared k).sPSO.isSome = true → (shared k).sPSO.isSome = true) ∧
      (∀ k, (w.shared k).sRootSignature.isSome = true →
        (shared k).sRootSignature.isSome = true) := by
  unfold ScreenSpaceCmdListRecorder.InitSharedPSOAndRootSignature
  by_cases hset : ((w.sPSO c).isSome && (w.sRootSignature c).isSome) = true
  · refine ⟨w.shared, w.mNextObject, by simp [hset], ?_, ?_, fun _ h => h, fun _ h => h⟩
    · simp [World.sPSO] at hset; simp [hset.1]
    · simp [World.sRootSignature] at hset; simp [hset.2]
  · refine ⟨_, _, by simp only [hset]; rfl, ?_, ?_, ?_, ?_⟩
    · simp [World.setPSO, World.setRootSignature, World.CreateObject]
    · simp [World.setPSO, World.setRootSignature, World.CreateObject]
    · intro k hk
      by_cases hkc : k = c <;> simp [World.setPSO, World.setRootSignature, World.CreateObject, hkc, hk]
    · intro k hk
      by_cases hkc : k = c
      · simp [World.setPSO, World.setRootSignature, World.CreateObject, hkc]
      · simp [World.setPSO, World.setRootSignature, World.CreateObject, hkc, hk]


namespace AmbientLightPass

theorem ambientLightPass_InitShared_chain (w1 : World) :
    ∃ w3 : World,
      ScreenSpaceCmdListRecorder.InitSharedPSOAndRootSignature RecorderClass.Blur
        (ScreenSpaceCmdListRecorder.InitSharedPSOAndRootSignature
          RecorderClass.AmbientOcclusion w1) = w3 ∧
      w3.resourceStateManager = w1.resourceStateManager ∧
      w3.commandListExecutor = w1.commandListExecutor ∧
      w3.GetDesc = w1.GetDesc ∧
      w3.mRenderTargetViews = w1.mRenderTargetViews ∧
      w3.mNextRenderTargetView = w1.mNextRenderTargetView ∧
      w3.mShaderResourceViews = w1.mShaderResourceViews ∧
      w3.mNextShaderResourceView = w1.mNextShaderResourceView ∧
      w3.sQueuedFrameCount = w1.sQueuedFrameCount ∧
      (w3.shared RecorderClass.AmbientOcclusion).sPSO.isSome = true ∧
      (w3.shared RecorderClass.AmbientOcclusion).sRootSignature.isSome = true ∧
      (w3.shared RecorderClass.Blur).sPSO.isSome = true ∧
      (w3.shared RecorderClass.Blur).sRootSignature.isSome = true ∧
      (∀ k, (w1.shared k).sPSO.isSome = true → (w3.shared k).sPSO.isSome = true) ∧
      (∀ k, (w1.shared k).sRootSignature.isSome = true →
        (w3.shared k).sRootSignature.isSome = true) := by
  obtain ⟨shared2, next2, hw2, hao1, hao2, hmono1, hmono2⟩ :=
    ScreenSpace_InitShared_ok RecorderClass.AmbientOcclusion w1
  obtain ⟨shared3, next3, hw3, hbl1, hbl2, hmono3, hmono4⟩ :=
    ScreenSpace_InitShared_ok RecorderClass.Blur
      { w1 with shared := shared2, mNextObject := next2 }
  refine ⟨_, rfl, ?_⟩
  rw [hw2, hw3]
  exact ⟨rfl, rfl, rfl, rfl, rfl, rfl, rfl, rfl, hmono3 _ hao1, hmono4 _ hao2, hbl1, hbl2,
    fun k hk => hmono3 k (hmono1 k hk), fun k hk => hmono4 k (hmono2 k hk)⟩

theorem ambientLightPass_Init_ready (p0 : AmbientLightPass)
    (baseColorMetalMaskBuffer normalSmoothnessBuffer depthBuffer renderTargetView : Nat)
    (w0 : World) (p : AmbientLightPass) (w : World) (hN : 0 < w0.sQueuedFrameCount)
    (h : p0.Init baseColorMetalMaskBuffer normalSmoothnessBuffer depthBuffer renderTargetView w0
      = .ok (p, w)) :
    ∃ aa blur, p.mAmbientAccessibilityBuffer = some aa ∧ p.mBlurBuffer = some blur ∧
      p.Ready w = true ∧
      w.resourceStateManager.mStateByResource aa
        = some D3D12_RESOURCE_STATE_PIXEL_SHADER_RESOURCE ∧
      w.resourceStateManager.mStateByResource blur
        = some D3D12_RESOURCE_STATE_PIXEL_SHADER_RESOURCE ∧
      w.resourceStateManager.requests = w0.resourceStateManager.requests ∧
      w.commandListExecutor = w0.commandListExecutor := by
  simp only [Init, bind_eq_ok, pure_eq_ok, ASSERT_eq_ok,
    AmbientLightCmdListRecorder.InitSharedPSOAndRootSignature] at h
  obtain ⟨_, -, w1, hshared, h⟩ := h
  obtain ⟨-, -, hw1⟩ := InitSharedPSOAndRootSignature_ok _ _ _ hshared
  obtain ⟨w3, hw3, hf⟩ := ambientLightPass_InitShared_chain w1
  rw [hw3] at h
  simp only [CreateResourceAndRenderTargetView, World.CreateCommittedResource,
    World.CreateRenderTargetView, deref_some, ok_bind, bind_eq_ok, pure_eq_ok] at h
  obtain ⟨⟨ao0, wa⟩, hcreateAO, ⟨ao, wb⟩, hinitAO, ⟨bl0, wc⟩, hcreateBL, a2, ha2, ⟨bl, wd⟩,
    hinitBL, a5, ha5, ⟨al, we⟩, hinitAL, _, -, hfinal⟩ := h
  simp only [Except.ok.injEq] at ha2 ha5
  subst ha2; subst ha5
  obtain ⟨haocls, -, -, haoidx, haolen, hwa⟩ := ScreenSpaceCmdListRecorder.screenSpaceRecorder_create_ok _ _ _ _ hcreateAO
  obtain ⟨hao, haov, hwb⟩ := ScreenSpaceCmdListRecorder.screenSpaceRecorder_Init_ok _ _ _ _ _ _ hinitAO
  obtain ⟨hblcls, -, -, -, -, hwc⟩ := ScreenSpaceCmdListRecorder.screenSpaceRecorder_create_ok _ _ _ _ hcreateBL
  obtain ⟨hbl, hblv, hwd⟩ := ScreenSpaceCmdListRecorder.screenSpaceRecorder_Init_ok _ _ _ _ _ _ hinitBL
  obtain ⟨hal, halv, hwe⟩ := AmbientLightCmdListRecorder.ambientLightRecorder_Init_ok _ _ _ _ _ _ _ hinitAL
  simp only [Except.ok.injEq, Prod.mk.injEq] at hfinal
  obtain ⟨hp, hw⟩ := hfinal
  obtain ⟨hf1, hf2, hf3, hf4, hf5, hf6, hf7, hf8, hsAO1, hsAO2, hsBL1, hsBL2, hmono1, hmono2⟩ := hf
  have hsAL1 : (w3.shared RecorderClass.AmbientLight).sPSO.isSome = true := by
    apply hmono1; rw [hw1]; simp
  have hsAL2 : (w3.shared RecorderClass.AmbientLight).sRootSignature.isSome = true := by
    apply hmono2; rw [hw1]; simp
  simp only at hao hbl hal hwa hwb hwc hwd hwe haolen
  refine ⟨w3.mNextObject, w3.mNextObject + 1, by rw [← hp], by rw [← hp], ?_, ?_, ?_, ?_, ?_⟩
  · rw [ambientLightPass_Ready_iff p w w3.mNextObject (w3.mNextObject + 1) ao bl al (by rw [← hp]) (by rw [← hp])
      (by rw [← hp]) (by rw [← hp]) (by rw [← hp])]
    subst hw; subst hwe; subst hwd; subst hwc; subst hwb; subst hwa
    refine ⟨by omega, ?_, haov, ?_, ?_, hblv, halv, ?_⟩
    · rw [hao]; exact haocls
    · rw [hao]; simp only [haoidx, haolen, hf8, hw1]; exact hN
    · rw [hbl]; exact hblcls
    · rw [hao, hbl, hal]
      simp [World.sPSO, World.sRootSignature, World.withShaderResourceViews, hsAL1, hsAL2,
        hsAO1, hsAO2, hsBL1, hsBL2, World.textureView, AmbientLightCmdListRecorder.create,
        CommandListPerFrame.create]
  · subst hw; subst hwe; subst hwd; subst hwc; subst hwb; subst hwa
    simp [World.withShaderResourceViews, ResourceStateManager.AddResource,
      AmbientLightCmdListRecorder.create, CommandListPerFrame.create]
  · subst hw; subst hwe; subst hwd; subst hwc; subst hwb; subst hwa
    simp [World.withShaderResourceViews, ResourceStateManager.AddResource,
      AmbientLightCmdListRecorder.create, CommandListPerFrame.create]
  · subst hw; subst hwe; subst hwd; subst hwc; subst hwb; subst hwa
    simp [World.withShaderResourceViews, ResourceStateManager.AddResource, hw1, hf1,
      AmbientLightCmdListRecorder.create, CommandListPerFrame.create]
  · subst hw; subst hwe; subst hwd; subst hwc; subst hwb; subst hwa
    simp [World.withShaderResourceViews, hw1, hf2,
      AmbientLightCmdListRecorder.create, CommandListPerFrame.create]

theorem ambientLightPass_Execute_summary (p : AmbientLightPass) (w : World) (frameCBuffer : FrameCBuffer)
    (budget : Nat) (aa blur : Nat) (ao bl : ScreenSpaceCmdListRecorder)
    (al : AmbientLightCmdListRecorder)
    (hAA : p.mAmbientAccessibilityBuffer = some aa) (hBlur : p.mBlurBuffer = some blur)
    (hAO : p.mAmbientOcclusionRecorder = some ao) (hBL : p.mBlurRecorder = some bl)
    (hAL : p.mAmbientLightRecorder = some al)
    (hf : ReadyFacts w aa blur ao bl al)
    (h1 : w.resourceStateManager.mStateByResource aa
      = some D3D12_RESOURCE_STATE_PIXEL_SHADER_RESOURCE)
    (h2 : w.resourceStateManager.mStateByResource blur
      = some D3D12_RESOURCE_STATE_PIXEL_SHADER_RESOURCE)
    (hbudget : taskCount ≤ budget) :
    ∃ p' w', p.Execute frameCBuffer budget w = .ok (p', w') ∧
      p'.mAmbientAccessibilityBuffer = some aa ∧ p'.mBlurBuffer = some blur ∧
      p'.Ready w' = true ∧
      w'.resourceStateManager.mStateByResource aa
        = some D3D12_RESOURCE_STATE_PIXEL_SHADER_RESOURCE ∧
      w'.resourceStateManager.mStateByResource blur
        = some D3D12_RESOURCE_STATE_PIXEL_SHADER_RESOURCE ∧
      (∀ r, r ≠ aa → r ≠ blur →
        w'.resourceStateManager.mStateByResource r = w.resourceStateManager.mStateByResource r) ∧
      w'.resourceStateManager.requests = w.resourceStateManager.requests ++
        [⟨aa, D3D12_RESOURCE_STATE_PIXEL_SHADER_RESOURCE, D3D12_RESOURCE_STATE_RENDER_TARGET⟩,
         ⟨aa, D3D12_RESOURCE_STATE_RENDER_TARGET, D3D12_RESOURCE_STATE_PIXEL_SHADER_RESOURCE⟩,
         ⟨blur, D3D12_RESOURCE_STATE_PIXEL_SHADER_RESOURCE, D3D12_RESOURCE_STATE_RENDER_TARGET⟩,
         ⟨blur, D3D12_RESOURCE_STATE_RENDER_TARGET, D3D12_RESOURCE_STATE_PIXEL_SHADER_RESOURCE⟩] ∧
      w'.commandListExecutor.mSubmitted ++ w'.commandListExecutor.mPending =
        w.commandListExecutor.mSubmitted ++ w.commandListExecutor.mPending ++
          [p.beginList aa, ao.commandList w, p.middleList aa blur, bl.commandList w,
           p.finalList blur, al.commandList w] ∧
      w'.commandListExecutor.mSubmitted = w.commandListExecutor.mSubmitted ++
        (w.commandListExecutor.mPending ++
          [p.beginList aa, ao.commandList w, p.middleList aa blur, bl.commandList w,
           p.finalList blur, al.commandList w]).take taskCount ∧
      w'.commandListExecutor.mExecutedCommandListCount = taskCount := by
  obtain ⟨hne, haoc, haov, hslot, hblc, hblv, halv, hs1, hs2, hs3, hs4, hs5, hs6, hv1, hv2,
    hv3, hv4⟩ := hf
  have heq := ambientLightPass_Execute_eq p w frameCBuffer budget aa blur ao bl al hAA hBlur hne hAO hBL hAL haov
    (by rw [haoc]; exact hs1) (by rw [haoc]; exact hs2) hslot hblv (by rw [hblc]; exact hs3)
    (by rw [hblc]; exact hs4) halv hs5 hs6 h1 h2
  rw [heq]
  simp only [World.waitForExecuted]
  rw [CommandListExecutor.waitForExecuted_ok taskCount budget _
    (by simp [taskCount]) (by simpa using hbudget)]
  simp only [ok_bind, pure_eq_ok]
  refine ⟨_, _, rfl, ?_, ?_, ?_, ?_, ?_, ?_, ?_, ?_, ?_, ?_⟩
  · exact hAA
  · exact hBlur
  · refine (ambientLightPass_Ready_iff _ _ aa blur _ _ _ (by exact hAA) (by exact hBlur) (by exact rfl)
      (by exact rfl) (by exact rfl)).2 ?_
    exact ⟨hne, haoc, haov, ScreenSpaceCmdListRecorder.written_slot _ _ hslot, hblc, hblv, halv,
      hs1, hs2, hs3, hs4, hs5, hs6, hv1, hv2, hv3, hv4⟩
  · simp [ResourceStateManager.transitioned, hne]
  · simp [ResourceStateManager.transitioned]
  · intro r hr1 hr2
    simp [ResourceStateManager.transitioned, hr1, hr2]
  · simp [ResourceStateManager.transitioned]
  · simp only [Nat.sub_zero, List.append_assoc, List.take_append_drop]
  · simp only [Nat.sub_zero]
  · simp [taskCount]

end AmbientLightPass

theorem World.get_ok_iff (w : World) (res : Nat) (s : D3D12_RESOURCE_STATES) :
    w.GetResourceState res = .ok s ↔ w.resourceStateManager.mStateByResource res = some s := by
  unfold World.GetResourceState ResourceStateManager.GetResourceState
  cases h : w.resourceStateManager.mStateByResource res <;> simp

namespace AmbientLightPass

theorem ambientLightPass_executeFrames_ok (frames : Nat → FrameCBuffer) (budget : Nat) (hbudget : taskCount ≤ budget)
    (aa blur : Nat) :
    ∀ (n : Nat) (p : AmbientLightPass) (w : World),
      p.mAmbientAccessibilityBuffer = some aa → p.mBlurBuffer = some blur →
      p.Ready w = true →
      w.resourceStateManager.mStateByResource aa
        = some D3D12_RESOURCE_STATE_PIXEL_SHADER_RESOURCE →
      w.resourceStateManager.mStateByResource blur
        = some D3D12_RESOURCE_STATE_PIXEL_SHADER_RESOURCE →
      ∃ pn wn, executeFrames frames budget n p w = .ok (pn, wn) ∧
        pn.mAmbientAccessibilityBuffer = some aa ∧ pn.mBlurBuffer = some blur ∧
        pn.Ready wn = true ∧
        wn.resourceStateManager.mStateByResource aa
          = some D3D12_RESOURCE_STATE_PIXEL_SHADER_RESOURCE ∧
        wn.resourceStateManager.mStateByResource blur
          = some D3D12_RESOURCE_STATE_PIXEL_SHADER_RESOURCE := by
  intro n
  induction n with
  | zero =>
    intro p w hAA hBlur hready h1 h2
    exact ⟨p, w, rfl, hAA, hBlur, hready, h1, h2⟩
  | succ n ih =>
    intro p w hAA hBlur hready h1 h2
    obtain ⟨pn, wn, hrun, hAAn, hBlurn, hreadyn, h1n, h2n⟩ := ih p w hAA hBlur hready h1 h2
    obtain ⟨aa', blur', ao, bl, al, hAA', hBlur', hAO, hBL, hAL, hf⟩ := ambientLightPass_Ready_elim pn wn hreadyn
    have e1 : aa' = aa := by rw [hAAn] at hAA'; exact (Option.some.inj hAA').symm
    have e2 : blur' = blur := by rw [hBlurn] at hBlur'; exact (Option.some.inj hBlur').symm
    subst e1; subst e2
    obtain ⟨p', w', hex, hAA2, hBlur2, hready2, h12, h22, -⟩ :=
      ambientLightPass_Execute_summary pn wn (frames n) budget aa' blur' ao bl al hAAn hBlurn hAO hBL hAL hf h1n h2n
        hbudget
    refine ⟨p', w', ?_, hAA2, hBlur2, hready2, h12, h22⟩
    simp only [executeFrames, hrun, ok_bind, hex]

end AmbientLightPass

/-- C1. Every `AmbientLightPass::Execute` that starts with the ambient-accessibility
buffer `aa` and the blur buffer `blur` both tracked as `PIXEL_SHADER_RESOURCE`
(on a pass and process in the state `Init` leaves, `Ready`) returns, and the
transitions it requested from the tracker are exactly four, in this order:
`aa` PSR -> RT, `aa` RT -> PSR, `blur` PSR -> RT, `blur` RT -> PSR; every one of
them is for `aa` or `blur`. The six command lists it pushed are, in order, the
begin barrier list (holding the first transition), the ambient-occlusion list,
the middle barrier list (holding the second and third), the blur list, the final
barrier list (holding the fourth) and the ambient-light list, and no recorder's
list holds a resource barrier. -/
theorem ambientLightPass_requests_exactly_four_transitions
    (p : AmbientLightPass) (w : World) (frameCBuffer : FrameCBuffer) (budget aa blur : Nat)
    (hAA : p.mAmbientAccessibilityBuffer = some aa) (hBlur : p.mBlurBuffer = some blur)
    (hready : p.Ready w = true)
    (h1 : w.GetResourceState aa = .ok D3D12_RESOURCE_STATE_PIXEL_SHADER_RESOURCE)
    (h2 : w.GetResourceState blur = .ok D3D12_RESOURCE_STATE_PIXEL_SHADER_RESOURCE)
    (hbudget : AmbientLightPass.taskCount ≤ budget) :
    ∃ p' w', p.Execute frameCBuffer budget w = .ok (p', w') ∧
      w'.resourceStateManager.requests = w.resourceStateManager.requests ++
        [⟨aa, D3D12_RESOURCE_STATE_PIXEL_SHADER_RESOURCE, D3D12_RESOURCE_STATE_RENDER_TARGET⟩,
         ⟨aa, D3D12_RESOURCE_STATE_RENDER_TARGET, D3D12_RESOURCE_STATE_PIXEL_SHADER_RESOURCE⟩,
         ⟨blur, D3D12_RESOURCE_STATE_PIXEL_SHADER_RESOURCE, D3D12_RESOURCE_STATE_RENDER_TARGET⟩,
         ⟨blur, D3D12_RESOURCE_STATE_RENDER_TARGET, D3D12_RESOURCE_STATE_PIXEL_SHADER_RESOURCE⟩] ∧
      (∀ request ∈ w'.resourceStateManager.requests.drop w.resourceStateManager.requests.length,
        request.pResource = aa ∨ request.pResource = blur) ∧
      ∃ beginList occlusionList middleList blurList finalList lightList,
        w'.commandListExecutor.mSubmitted ++ w'.commandListExecutor.mPending =
          w.commandListExecutor.mSubmitted ++ w.commandListExecutor.mPending ++
            [beginList, occlusionList, middleList, blurList, finalList, lightList] ∧
        beginList.commands =
          [.ResourceBarrier 1 [some ⟨aa, D3D12_RESOURCE_STATE_PIXEL_SHADER_RESOURCE,
              D3D12_RESOURCE_STATE_RENDER_TARGET⟩],
           .ClearRenderTargetView p.mAmbientAccessibilityBufferRenderTargetView] ∧
        middleList.commands =
          [.ResourceBarrier 2 [some ⟨aa, D3D12_RESOURCE_STATE_RENDER_TARGET,
              D3D12_RESOURCE_STATE_PIXEL_SHADER_RESOURCE⟩,
            some ⟨blur, D3D12_RESOURCE_STATE_PIXEL_SHADER_RESOURCE,
              D3D12_RESOURCE_STATE_RENDER_TARGET⟩]] ∧
        finalList.commands =
          [.ResourceBarrier 1 [some ⟨blur, D3D12_RESOURCE_STATE_RENDER_TARGET,
              D3D12_RESOURCE_STATE_PIXEL_SHADER_RESOURCE⟩]] ∧
        occlusionList.commands.all (fun c => !c.isResourceBarrier) = true ∧
        blurList.commands.all (fun c => !c.isResourceBarrier) = true ∧
        lightList.commands.all (fun c => !c.isResourceBarrier) = true := by
  obtain ⟨aa', blur', ao, bl, al, hAA', hBlur', hAO, hBL, hAL, hf⟩ :=
    AmbientLightPass.ambientLightPass_Ready_elim p w hready
  have e1 : aa' = aa := by rw [hAA] at hAA'; exact (Option.some.inj hAA').symm
  have e2 : blur' = blur := by rw [hBlur] at hBlur'; exact (Option.some.inj hBlur').symm
  subst e1; subst e2
  obtain ⟨p', w', hex, -, -, -, -, -, -, hreq, hpush, -, -⟩ :=
    AmbientLightPass.ambientLightPass_Execute_summary p w frameCBuffer budget aa' blur' ao bl al hAA hBlur hAO hBL
      hAL hf ((World.get_ok_iff _ _ _).1 h1) ((World.get_ok_iff _ _ _).1 h2) hbudget
  refine ⟨p', w', hex, hreq, ?_, _, _, _, _, _, _, hpush, rfl, rfl, rfl, ?_, ?_, ?_⟩
  · rw [hreq]
    simp
  · simp [ScreenSpaceCmdListRecorder.commandList, CommandListPerFrame.recorded,
      Command.isResourceBarrier]
  · simp [ScreenSpaceCmdListRecorder.commandList, CommandListPerFrame.recorded,
      Command.isResourceBarrier]
  · simp [AmbientLightCmdListRecorder.commandList, CommandListPerFrame.recorded,
      Command.isResourceBarrier]

/-- Witness of C1 on the example pass: after `Init`, one `Execute` requests the
four transitions of the buffers `115` and `116`. -/
theorem ambientLightPass_requests_exactly_four_transitions_witness :
    ∃ p' w', Example.ambientLightPass.1.Execute Example.frameCBuffer 5 Example.ambientLightPass.2
        = .ok (p', w') ∧
      w'.resourceStateManager.requests =
        [⟨115, D3D12_RESOURCE_STATE_PIXEL_SHADER_RESOURCE, D3D12_RESOURCE_STATE_RENDER_TARGET⟩,
         ⟨115, D3D12_RESOURCE_STATE_RENDER_TARGET, D3D12_RESOURCE_STATE_PIXEL_SHADER_RESOURCE⟩,
         ⟨116, D3D12_RESOURCE_STATE_PIXEL_SHADER_RESOURCE, D3D12_RESOURCE_STATE_RENDER_TARGET⟩,
         ⟨116, D3D12_RESOURCE_STATE_RENDER_TARGET, D3D12_RESOURCE_STATE_PIXEL_SHADER_RESOURCE⟩] := by
  obtain ⟨p', w', hex, hreq, -⟩ := ambientLightPass_requests_exactly_four_transitions
    Example.ambientLightPass.1 Example.ambientLightPass.2 Example.frameCBuffer 5 115 116
    (by decide) (by decide) (by decide) rfl rfl (by decide)
  exact ⟨p', w', hex, hreq⟩

/-- C2. After `AmbientLightPass::Init`, which creates both buffers in the
`PIXEL_SHADER_RESOURCE` state, every number `n` of consecutive `Execute` calls
returns normally: none of the six resource-state assertions of
`ExecuteBeginTask`, `ExecuteMiddleTask` and `ExecuteFinalTask` (nor any other
assertion) fails in any frame, and after each frame the ambient-accessibility
buffer and the blur buffer are both tracked as `PIXEL_SHADER_RESOURCE` again. -/
theorem ambientLightPass_never_out_of_sync (p0 : AmbientLightPass)
    (baseColorMetalMaskBuffer normalSmoothnessBuffer depthBuffer renderTargetView : Nat)
    (w0 : World) (p : AmbientLightPass) (w : World) (frames : Nat → FrameCBuffer) (budget : Nat)
    (hframes : 0 < w0.sQueuedFrameCount)
    (hInit : p0.Init baseColorMetalMaskBuffer normalSmoothnessBuffer depthBuffer renderTargetView
      w0 = .ok (p, w))
    (hbudget : AmbientLightPass.taskCount ≤ budget) :
    ∃ aa blur, p.mAmbientAccessibilityBuffer = some aa ∧ p.mBlurBuffer = some blur ∧
      w.GetResourceState aa = .ok D3D12_RESOURCE_STATE_PIXEL_SHADER_RESOURCE ∧
      w.GetResourceState blur = .ok D3D12_RESOURCE_STATE_PIXEL_SHADER_RESOURCE ∧
      ∀ n, ∃ pn wn, AmbientLightPass.executeFrames frames budget n p w = .ok (pn, wn) ∧
        pn.mAmbientAccessibilityBuffer = some aa ∧ pn.mBlurBuffer = some blur ∧
        wn.GetResourceState aa = .ok D3D12_RESOURCE_STATE_PIXEL_SHADER_RESOURCE ∧
        wn.GetResourceState blur = .ok D3D12_RESOURCE_STATE_PIXEL_SHADER_RESOURCE := by
  obtain ⟨aa, blur, hAA, hBlur, hready, h1, h2, -, -⟩ :=
    AmbientLightPass.ambientLightPass_Init_ready p0 _ _ _ _ w0 p w hframes hInit
  refine ⟨aa, blur, hAA, hBlur, (World.get_ok_iff _ _ _).2 h1, (World.get_ok_iff _ _ _).2 h2, ?_⟩
  intro n
  obtain ⟨pn, wn, hrun, hAAn, hBlurn, -, h1n, h2n⟩ :=
    AmbientLightPass.ambientLightPass_executeFrames_ok frames budget hbudget aa blur n p w hAA hBlur hready h1 h2
  exact ⟨pn, wn, hrun, hAAn, hBlurn, (World.get_ok_iff _ _ _).2 h1n,
    (World.get_ok_iff _ _ _).2 h2n⟩

/-- Witness of C2: on the example process, three frames after `Init` run without a
failed assertion and leave both buffers tracked as `PIXEL_SHADER_RESOURCE`. -/
theorem ambientLightPass_never_out_of_sync_witness :
    ∃ pn wn, AmbientLightPass.executeFrames (fun _ => Example.frameCBuffer) 5 3
        Example.ambientLightPass.1 Example.ambientLightPass.2 = .ok (pn, wn) ∧
      wn.GetResourceState 115 = .ok D3D12_RESOURCE_STATE_PIXEL_SHADER_RESOURCE ∧
      wn.GetResourceState 116 = .ok D3D12_RESOURCE_STATE_PIXEL_SHADER_RESOURCE := by
  obtain ⟨aa, blur, hAA, hBlur, -, -, hall⟩ := ambientLightPass_never_out_of_sync
    (AmbientLightPass.create Example.world).1 1 2 3 77 (AmbientLightPass.create Example.world).2
    Example.ambientLightPass.1 Example.ambientLightPass.2 (fun _ => Example.frameCBuffer) 5
    (by decide) rfl (by decide)
  have e1 : aa = 115 := (Option.some.inj hAA).symm
  have e2 : blur = 116 := (Option.some.inj hBlur).symm
  subst e1; subst e2
  obtain ⟨pn, wn, hrun, -, -, h1, h2⟩ := hall 3
  exact ⟨pn, wn, hrun, h1, h2⟩

/-- C3. `AmbientLightPass::Execute` is the sequence begin barriers,
ambient-occlusion recorder, middle barriers, blur recorder, final barriers,
ambient-light recorder, wait; each step pushes one command list, so the lists
reach the executor in that order. In the state in which the ambient-occlusion
recorder records and pushes, the buffer it renders to (the ambient-accessibility
buffer `aa`) is tracked as `RENDER_TARGET`; for the blur recorder the buffer it
samples (`aa`) is tracked as `PIXEL_SHADER_RESOURCE` and the buffer it renders
to (`blur`) as `RENDER_TARGET`; for the ambient-light recorder the pass-owned
buffer it samples (`blur`) is tracked as `PIXEL_SHADER_RESOURCE`. -/
theorem ambientLightPass_pushes_in_dependency_order
    (p : AmbientLightPass) (w : World) (frameCBuffer : FrameCBuffer) (budget aa blur : Nat)
    (hAA : p.mAmbientAccessibilityBuffer = some aa) (hBlur : p.mBlurBuffer = some blur)
    (hready : p.Ready w = true)
    (h1 : w.GetResourceState aa = .ok D3D12_RESOURCE_STATE_PIXEL_SHADER_RESOURCE)
    (h2 : w.GetResourceState blur = .ok D3D12_RESOURCE_STATE_PIXEL_SHADER_RESOURCE) :
    ∃ ao bl al p1 w1 ao2 w2 p3 w3 bl4 w4 p5 w5 al6 w6,
      p.mAmbientOcclusionRecorder = some ao ∧ p.mBlurRecorder = some bl ∧
      p.mAmbientLightRecorder = some al ∧
      -- the steps of `Execute`, each starting in the state the previous one left
      p.ExecuteBeginTask w.ResetExecutedCommandListCount = .ok (p1, w1) ∧
      p1.mAmbientOcclusionRecorder = some ao ∧
      ao.RecordAndPushCommandLists (some frameCBuffer) w1 = .ok (ao2, w2) ∧
      ({ p1 with mAmbientOcclusionRecorder := some ao2 }).ExecuteMiddleTask w2 = .ok (p3, w3) ∧
      p3.mBlurRecorder = some bl ∧
      bl.RecordAndPushCommandLists none w3 = .ok (bl4, w4) ∧
      ({ p3 with mBlurRecorder := some bl4 }).ExecuteFinalTask w4 = .ok (p5, w5) ∧
      p5.mAmbientLightRecorder = some al ∧
      al.RecordAndPushCommandLists w5 = .ok (al6, w6) ∧
      p.Execute frameCBuffer budget w = (do
        let w' ← w6.waitForExecuted AmbientLightPass.taskCount budget
        pure ({ p5 with mAmbientLightRecorder := some al6 }, w')) ∧
      -- one list is pushed by each step, in this order
      w1.commandListExecutor.mPending = w.commandListExecutor.mPending ++ [p.beginList aa] ∧
      w2.commandListExecutor.mPending = w1.commandListExecutor.mPending ++ [ao.commandList w] ∧
      w3.commandListExecutor.mPending =
        w2.commandListExecutor.mPending ++ [p.middleList aa blur] ∧
      w4.commandListExecutor.mPending = w3.commandListExecutor.mPending ++ [bl.commandList w] ∧
      w5.commandListExecutor.mPending = w4.commandListExecutor.mPending ++ [p.finalList blur] ∧
      w6.commandListExecutor.mPending = w5.commandListExecutor.mPending ++ [al.commandList w] ∧
      -- ambient occlusion renders to `aa`, tracked as a render target when it is pushed
      (w1.mRenderTargetViews ao.mRenderTargetView).map (·.resource) = some aa ∧
      w1.GetResourceState aa = .ok D3D12_RESOURCE_STATE_RENDER_TARGET ∧
      w2.GetResourceState aa = .ok D3D12_RESOURCE_STATE_RENDER_TARGET ∧
      -- blur samples `aa` and renders to `blur`
      (w3.mShaderResourceViews bl.mStartPixelShaderResourceView).map (·.map (·.resource))
        = some [aa] ∧
      (w3.mRenderTargetViews bl.mRenderTargetView).map (·.resource) = some blur ∧
      w3.GetResourceState aa = .ok D3D12_RESOURCE_STATE_PIXEL_SHADER_RESOURCE ∧
      w3.GetResourceState blur = .ok D3D12_RESOURCE_STATE_RENDER_TARGET ∧
      w4.GetResourceState aa = .ok D3D12_RESOURCE_STATE_PIXEL_SHADER_RESOURCE ∧
      w4.GetResourceState blur = .ok D3D12_RESOURCE_STATE_RENDER_TARGET ∧
      -- ambient light samples `blur` as its second texture
      ((w5.mShaderResourceViews al.mStartPixelShaderResourceView).map
        (·.map (·.resource))).map (·.drop 1) = some [blur] ∧
      w5.GetResourceState blur = .ok D3D12_RESOURCE_STATE_PIXEL_SHADER_RESOURCE ∧
      w6.GetResourceState blur = .ok D3D12_RESOURCE_STATE_PIXEL_SHADER_RESOURCE := by
  obtain ⟨aa', blur', ao, bl, al, hAA', hBlur', hAO, hBL, hAL, hf⟩ :=
    AmbientLightPass.ambientLightPass_Ready_elim p w hready
  have e1 : aa = aa' := by rw [hAA] at hAA'; exact Option.some.inj hAA'
  have e2 : blur = blur' := by rw [hBlur] at hBlur'; exact Option.some.inj hBlur'
  subst e1; subst e2
  obtain ⟨hne, haoc, haov, hslot, hblc, hblv, halv, hs1, hs2, hs3, hs4, hs5, hs6, hv1, hv2,
    hv3, hv4⟩ := hf
  have h1' := (World.get_ok_iff _ _ _).1 h1
  have h2' := (World.get_ok_iff _ _ _).1 h2
  have hv : p.ValidateData = true := by
    simp [AmbientLightPass.ValidateData, hAA, hBlur, hAO, hAL]
  refine ⟨ao, bl, al, ?p1, ?w1, ?ao2, ?w2, ?p3, ?w3, ?bl4, ?w4, ?p5, ?w5, ?al6, ?w6,
    hAO, hBL, hAL, ?e1, ?e2, ?e3, ?e4, ?e5, ?e6, ?e7, ?e8, ?e9, ?e10, ?e11⟩
  case e1 =>
    refine AmbientLightPass.ambientLightPass_begin_ok p _ aa blur hAA hBlur hv ?_ ?_
    · simpa [World.ResetExecutedCommandListCount] using h1'
    · simpa [World.ResetExecutedCommandListCount] using h2'
  case e2 => exact hAO
  case e3 =>
    refine ScreenSpaceCmdListRecorder.screenSpaceRecorder_record_some_ok ao frameCBuffer _ haov ?_ ?_ hslot
    · rw [haoc]
      simpa [World.sPSO, World.AddCommandList, World.ResetExecutedCommandListCount] using hs1
    · rw [haoc]
      simpa [World.sRootSignature, World.AddCommandList, World.ResetExecutedCommandListCount]
        using hs2
  case e4 =>
    refine AmbientLightPass.ambientLightPass_middle_ok _ _ aa blur ?_ ?_ hne ?_ ?_ ?_
    · exact hAA
    · exact hBlur
    · simp [AmbientLightPass.ValidateData, hAA, hBlur, hAL]
    · simp [World.AddCommandList, World.ResetExecutedCommandListCount,
        ResourceStateManager.transitioned]
    · simp [World.AddCommandList, World.ResetExecutedCommandListCount,
        ResourceStateManager.transitioned, Ne.symm hne, h2']
  case e5 => exact hBL
  case e6 =>
    refine ScreenSpaceCmdListRecorder.screenSpaceRecorder_record_none_ok bl _ hblv ?_ ?_
    · rw [hblc]
      simpa [World.sPSO, World.AddCommandList, World.ResetExecutedCommandListCount] using hs3
    · rw [hblc]
      simpa [World.sRootSignature, World.AddCommandList, World.ResetExecutedCommandListCount]
        using hs4
  case e7 =>
    refine AmbientLightPass.ambientLightPass_final_ok _ _ aa blur ?_ ?_ ?_ ?_ ?_
    · exact hAA
    · exact hBlur
    · simp [AmbientLightPass.ValidateData, hAA, hBlur, hAL]
    · simp [World.AddCommandList, World.ResetExecutedCommandListCount,
        ResourceStateManager.transitioned, hne]
    · simp [World.AddCommandList, World.ResetExecutedCommandListCount,
        ResourceStateManager.transitioned]
  case e8 => exact hAL
  case e9 =>
    refine AmbientLightCmdListRecorder.ambientLightRecorder_record_ok al _ halv ?_ ?_
    · simpa [World.sPSO, World.AddCommandList, World.ResetExecutedCommandListCount] using hs5
    · simpa [World.sRootSignature, World.AddCommandList, World.ResetExecutedCommandListCount]
        using hs6
  case e10 =>
    rw [AmbientLightPass.ambientLightPass_Execute_eq p w frameCBuffer budget aa blur ao bl al hAA hBlur hne hAO
      hBL hAL haov (by rw [haoc]; exact hs1) (by rw [haoc]; exact hs2) hslot hblv
      (by rw [hblc]; exact hs3) (by rw [hblc]; exact hs4) halv hs5 hs6 h1' h2']
    simp [World.AddCommandList, World.ResetExecutedCommandListCount,
      CommandListExecutor.AddCommandList, CommandListExecutor.ResetExecutedCommandListCount,
      AmbientLightPass.beginList, AmbientLightPass.middleList, AmbientLightPass.finalList,
      ScreenSpaceCmdListRecorder.commandList,
      AmbientLightCmdListRecorder.commandList, World.sPSO, World.sRootSignature]
  case e11 =>
    refine ⟨?_, ?_, ?_, ?_, ?_, ?_, hv1, ?_, ?_, hv2, hv3, ?_, ?_, ?_, ?_, hv4, ?_, ?_⟩ <;>
      simp [World.AddCommandList, World.ResetExecutedCommandListCount,
        CommandListExecutor.AddCommandList, CommandListExecutor.ResetExecutedCommandListCount,
        AmbientLightPass.beginList, AmbientLightPass.middleList, AmbientLightPass.finalList,
        ScreenSpaceCmdListRecorder.commandList, AmbientLightCmdListRecorder.commandList,
        World.sPSO, World.sRootSignature, World.GetResourceState,
        ResourceStateManager.GetResourceState, ResourceStateManager.transitioned, hne,
        Ne.symm hne]


/-- Witness of C3 on the example pass: the begin barriers leave buffer `115`
tracked as a render target for the ambient-occlusion recorder, whose list is the
second one pushed. -/
theorem ambientLightPass_pushes_in_dependency_order_witness :
    ∃ p1 w1, Example.ambientLightPass.1.ExecuteBeginTask
        Example.ambientLightPass.2.ResetExecutedCommandListCount = .ok (p1, w1) ∧
      w1.GetResourceState 115 = .ok D3D12_RESOURCE_STATE_RENDER_TARGET := by
  obtain ⟨ao, bl, al, p1, w1, ao2, w2, p3, w3, bl4, w4, p5, w5, al6, w6, -, -, -, e1, -, -, -,
    -, -, -, -, -, -, -, -, -, -, -, -, -, h, -⟩ :=
    ambientLightPass_pushes_in_dependency_order Example.ambientLightPass.1
      Example.ambientLightPass.2 Example.frameCBuffer 5 115 116 (by decide) (by decide)
      (by decide) rfl rfl
  exact ⟨p1, w1, e1, h⟩

/-- C4 (fails on the code). On the example pass, whose executor is idle when
`Execute` starts, `Execute` pushes six command lists after resetting the
executed-count but waits for `taskCount = 5` only: it returns with the count at
five and the sixth list, the one of the ambient-light recorder, still pending. -/
theorem ambientLightPass_returns_before_its_last_list_is_counted :
    Example.ambientLightPass.2.commandListExecutor.mPending = [] ∧
    Example.ambientLightPass.2.commandListExecutor.mSubmitted = [] ∧
    AmbientLightPass.taskCount = 5 ∧
    ∃ p' w', Example.ambientLightPass.1.Execute Example.frameCBuffer 5 Example.ambientLightPass.2
        = .ok (p', w') ∧
      w'.commandListExecutor.mSubmitted.length + w'.commandListExecutor.mPending.length = 6 ∧
      w'.commandListExecutor.mExecutedCommandListCount = 5 ∧
      w'.commandListExecutor.mPending =
        [{ allocator := 129
           pso := some 110
           commands :=
             [.RSSetViewports 1, .RSSetScissorRects 1, .OMSetRenderTargets 1 77 none,
              .SetDescriptorHeaps 1, .SetGraphicsRootSignature (some 109),
              .SetGraphicsRootDescriptorTable 0 4,
              .IASetPrimitiveTopology D3D_PRIMITIVE_TOPOLOGY_TRIANGLELIST,
              .DrawInstanced 6 1 0 0]
           closed := true }] := by
  refine ⟨by decide, by decide, by decide, _, _, rfl, by decide, by decide, by decide⟩

theorem toneMappingPass_begin_ok (p : ToneMappingPass) (counted : Nat) (w : World)
    (input output : Nat)
    (hIn : p.mInputColorBuffer = some input) (hOut : p.mOutputColorBuffer = some output)
    (hv : p.IsDataValid = true)
    (h1 : w.resourceStateManager.mStateByResource input = some D3D12_RESOURCE_STATE_RENDER_TARGET)
    (h2 : w.resourceStateManager.mStateByResource output
      = some D3D12_RESOURCE_STATE_PIXEL_SHADER_RESOURCE) :
    p.ExecuteBeginTask counted w = .ok
      ({ p with
          mCommandListPerFrame :=
            p.mCommandListPerFrame.advanced (p.barrierList input output) },
       { w with
          resourceStateManager := (w.resourceStateManager.transitioned input
            D3D12_RESOURCE_STATE_RENDER_TARGET
            D3D12_RESOURCE_STATE_PIXEL_SHADER_RESOURCE).transitioned output
            D3D12_RESOURCE_STATE_PIXEL_SHADER_RESOURCE D3D12_RESOURCE_STATE_RENDER_TARGET
          commandListExecutor :=
            { mPending := w.commandListExecutor.mPending
              mSubmitted := w.commandListExecutor.mSubmitted ++ [p.barrierList input output]
              mExecutedCommandListCount :=
                w.commandListExecutor.mExecutedCommandListCount + counted } }) := by
  have hne : input ≠ output := by
    intro h
    rw [h, h2] at h1
    exact absurd (Option.some.inj h1) PSR_ne_RT
  have h2' : ({ w with
      resourceStateManager := w.resourceStateManager.transitioned input
        D3D12_RESOURCE_STATE_RENDER_TARGET
        D3D12_RESOURCE_STATE_PIXEL_SHADER_RESOURCE } : World).resourceStateManager.mStateByResource
      output = some D3D12_RESOURCE_STATE_PIXEL_SHADER_RESOURCE := by
    simp [ResourceStateManager.transitioned, Ne.symm hne, h2]
  simp [ToneMappingPass.ExecuteBeginTask, hv, hIn, hOut, World.get_ok _ _ _ h1,
    World.get_ok _ _ _ h2, World.change_ok _ _ _ _ h1 PSR_ne_RT,
    World.change_ok _ _ _ _ h2' RT_ne_PSR,
    CommandListPerFrame.ResetWithNextCommandAllocator, ID3D12GraphicsCommandList.record,
    ID3D12GraphicsCommandList.Close, CommandListPerFrame.recorded, CommandListPerFrame.advanced,
    ToneMappingPass.barrierList, CommandListExecutor.ExecuteCommandListAndWaitForCompletion]

theorem toneMappingPass_Ready_elim (p : ToneMappingPass) (w : World) (input output : Nat)
    (hIn : p.mInputColorBuffer = some input) (hOut : p.mOutputColorBuffer = some output)
    (h : p.Ready w = true) :
    ∃ r, p.mCommandListRecorder = some r ∧ p.IsDataValid = true ∧ r.ValidateData = true ∧
      (w.sPSO r.cls).isSome = true ∧ (w.sRootSignature r.cls).isSome = true := by
  cases hr : p.mCommandListRecorder with
  | none => simp [ToneMappingPass.Ready, hr] at h
  | some r =>
    simp only [ToneMappingPass.Ready, hr, hIn, hOut, Bool.and_eq_true, Option.isSome_some,
      true_and] at h
    exact ⟨r, rfl, by simp [ToneMappingPass.IsDataValid, hr, hIn, hOut], h.1.1, h.1.2, h.2⟩

theorem toneMappingPass_Execute_eq (p : ToneMappingPass) (counted budget : Nat) (w : World)
    (input output : Nat) (r : ScreenSpaceCmdListRecorder)
    (hIn : p.mInputColorBuffer = some input) (hOut : p.mOutputColorBuffer = some output)
    (hr : p.mCommandListRecorder = some r)
    (hrv : r.ValidateData = true) (hs1 : (w.sPSO r.cls).isSome = true)
    (hs2 : (w.sRootSignature r.cls).isSome = true)
    (h1 : w.resourceStateManager.mStateByResource input = some D3D12_RESOURCE_STATE_RENDER_TARGET)
    (h2 : w.resourceStateManager.mStateByResource output
      = some D3D12_RESOURCE_STATE_PIXEL_SHADER_RESOURCE) :
    p.Execute counted budget w = (do
      let w' ← World.waitForExecuted
        { w with
          resourceStateManager := (w.resourceStateManager.transitioned input
            D3D12_RESOURCE_STATE_RENDER_TARGET
            D3D12_RESOURCE_STATE_PIXEL_SHADER_RESOURCE).transitioned output
            D3D12_RESOURCE_STATE_PIXEL_SHADER_RESOURCE D3D12_RESOURCE_STATE_RENDER_TARGET
          commandListExecutor :=
            { mPending := w.commandListExecutor.mPending ++ [r.commandList w]
              mSubmitted := w.commandListExecutor.mSubmitted ++ [p.barrierList input output]
              mExecutedCommandListCount := 0 } }
        1 budget
      pure ({ p with
          mCommandListPerFrame := p.mCommandListPerFrame.advanced (p.barrierList input output)
          mCommandListRecorder := some
            { r with mCommandListPerFrame := r.mCommandListPerFrame.advanced (r.commandList w) } },
        w')) := by
  have hv : p.IsDataValid = true := by simp [ToneMappingPass.IsDataValid, hIn, hOut, hr]
  unfold ToneMappingPass.Execute
  simp only [hv, ASSERT_true, ok_bind]
  rw [toneMappingPass_begin_ok p counted w input output hIn hOut hv h1 h2]
  simp only [ok_bind, hr, deref_some]
  rw [ScreenSpaceCmdListRecorder.screenSpaceRecorder_record_none_ok _ _ hrv
    (by simpa [World.sPSO, World.ResetExecutedCommandListCount] using hs1)
    (by simpa [World.sRootSignature, World.ResetExecutedCommandListCount] using hs2)]
  simp [World.AddCommandList, World.ResetExecutedCommandListCount,
    CommandListExecutor.AddCommandList, CommandListExecutor.ResetExecutedCommandListCount,
    ScreenSpaceCmdListRecorder.commandList, World.sPSO, World.sRootSignature]

/-- C5. `ToneMappingPass::Execute` first runs `ExecuteBeginTask`, which hands its
barrier list to the hardware queue with a wait for completion (the list is not
pushed to the executor's queue); only then it resets the executed-count, after
which exactly one command list, the recorder's, is pushed; it then waits for a
count of 1, the number of lists pushed since the reset. This holds whatever
amount `counted` the execution of the barrier list added to the counter. Whenever
`Execute` returns the executed-count is at least 1, and it does return once the
wait loop is given one iteration. -/
theorem toneMappingPass_waits_for_the_list_pushed_after_the_reset
    (p : ToneMappingPass) (w : World) (counted budget input output : Nat)
    (hIn : p.mInputColorBuffer = some input) (hOut : p.mOutputColorBuffer = some output)
    (hready : p.Ready w = true)
    (h1 : w.GetResourceState input = .ok D3D12_RESOURCE_STATE_RENDER_TARGET)
    (h2 : w.GetResourceState output = .ok D3D12_RESOURCE_STATE_PIXEL_SHADER_RESOURCE) :
    ∃ r p1 w1 r3 w3,
      p.mCommandListRecorder = some r ∧
      -- the barrier list is executed, with a wait, before anything else
      p.ExecuteBeginTask counted w = .ok (p1, w1) ∧
      w1.commandListExecutor.mSubmitted =
        w.commandListExecutor.mSubmitted ++ [p.barrierList input output] ∧
      w1.commandListExecutor.mPending = w.commandListExecutor.mPending ∧
      w1.commandListExecutor.mExecutedCommandListCount =
        w.commandListExecutor.mExecutedCommandListCount + counted ∧
      -- then the reset, then the recorder's single push
      w1.ResetExecutedCommandListCount.commandListExecutor.mExecutedCommandListCount = 0 ∧
      p1.mCommandListRecorder = some r ∧
      r.RecordAndPushCommandLists none w1.ResetExecutedCommandListCount = .ok (r3, w3) ∧
      w3.commandListExecutor.mPending =
        w1.ResetExecutedCommandListCount.commandListExecutor.mPending ++ [r.commandList w] ∧
      w3.commandListExecutor.mExecutedCommandListCount = 0 ∧
      -- `Execute` is these steps and the wait for a count of 1
      p.Execute counted budget w = (do
        let w' ← w3.waitForExecuted 1 budget
        pure ({ p1 with mCommandListRecorder := some r3 }, w')) ∧
      -- the threshold is the number of lists pushed since the reset
      w3.commandListExecutor.mPending.length -
        w1.ResetExecutedCommandListCount.commandListExecutor.mPending.length = 1 ∧
      -- it returns only with a count of at least 1, and it returns
      (∀ p' w', p.Execute counted budget w = .ok (p', w') →
        1 ≤ w'.commandListExecutor.mExecutedCommandListCount) ∧
      (1 ≤ budget → ∃ p' w', p.Execute counted budget w = .ok (p', w')) := by
  obtain ⟨r, hr, hv, hrv, hs1, hs2⟩ := toneMappingPass_Ready_elim p w input output hIn hOut hready
  have h1' := (World.get_ok_iff _ _ _).1 h1
  have h2' := (World.get_ok_iff _ _ _).1 h2
  have heq := toneMappingPass_Execute_eq p counted budget w input output r hIn hOut hr hrv hs1 hs2
    h1' h2'
  refine ⟨r, ?p1, ?w1, ?r3, ?w3, hr, ?e1, ?e2, ?e3, ?e4, ?e5, ?e6, ?e7, ?e8, ?e9, ?e10, ?e11,
    ?e12, ?e13⟩
  case e1 => exact toneMappingPass_begin_ok p counted w input output hIn hOut hv h1' h2'
  case e2 => rfl
  case e3 => rfl
  case e4 => rfl
  case e5 => rfl
  case e6 => exact hr
  case e7 =>
    refine ScreenSpaceCmdListRecorder.screenSpaceRecorder_record_none_ok r _ hrv ?_ ?_
    · simpa [World.sPSO, World.ResetExecutedCommandListCount] using hs1
    · simpa [World.sRootSignature, World.ResetExecutedCommandListCount] using hs2
  case e8 =>
    simp [World.AddCommandList, World.ResetExecutedCommandListCount,
      CommandListExecutor.AddCommandList, CommandListExecutor.ResetExecutedCommandListCount,
      ScreenSpaceCmdListRecorder.commandList, World.sPSO, World.sRootSignature]
  case e9 => rfl
  case e10 =>
    rw [heq]
    simp [World.AddCommandList, World.ResetExecutedCommandListCount,
      CommandListExecutor.AddCommandList, CommandListExecutor.ResetExecutedCommandListCount,
      ScreenSpaceCmdListRecorder.commandList, World.sPSO, World.sRootSignature]
  case e11 =>
    simp [World.AddCommandList, World.ResetExecutedCommandListCount,
      CommandListExecutor.AddCommandList, CommandListExecutor.ResetExecutedCommandListCount]
  case e12 =>
    intro p' w' hex
    rw [heq] at hex
    simp only [World.waitForExecuted, bind_eq_ok, pure_eq_ok] at hex
    obtain ⟨wa, ⟨e, he, hwa⟩, hfin⟩ := hex
    have hreach := CommandListExecutor.waitForExecuted_reached 1 budget _ _ he
    simp only [Except.ok.injEq, Prod.mk.injEq] at hwa hfin
    rw [← hfin.2, ← hwa]
    exact hreach
  case e13 =>
    intro hb
    rw [heq]
    simp only [World.waitForExecuted]
    rw [CommandListExecutor.waitForExecuted_ok 1 budget _ (by simp) (by simpa using hb)]
    exact ⟨_, _, rfl⟩

/-- Witness of C5 on the example tone-mapping pass, with a barrier list that
advances the counter by 7: `Execute` returns with an executed-count of at least
1. -/
theorem toneMappingPass_waits_for_the_list_pushed_after_the_reset_witness :
    ∃ p' w', Example.toneMappingPass.1.Execute 7 1 Example.toneMappingPass.2 = .ok (p', w') ∧
      1 ≤ w'.commandListExecutor.mExecutedCommandListCount := by
  obtain ⟨r, p1, w1, r3, w3, -, -, -, -, -, -, -, -, -, -, -, -, hreached, hreturns⟩ :=
    toneMappingPass_waits_for_the_list_pushed_after_the_reset Example.toneMappingPass.1
      Example.toneMappingPass.2 7 1 100 101 (by decide) (by decide) (by decide) rfl rfl
  obtain ⟨p', w', hex⟩ := hreturns (by decide)
  exact ⟨p', w', hex, hreached p' w' hex⟩

/-- C6. Every `ToneMappingPass::Execute` that starts with the input colour buffer
tracked as `RENDER_TARGET` and the output colour buffer as
`PIXEL_SHADER_RESOURCE` requests exactly two transitions, input RT -> PSR and then
output PSR -> RT; both are recorded in the one barrier list of
`ExecuteBeginTask`, which has been handed to the hardware queue in the state in
which the recorder records its list with the draw; and on return the input buffer
is tracked as `PIXEL_SHADER_RESOURCE` and the output buffer as `RENDER_TARGET`. -/
theorem toneMappingPass_swaps_input_and_output_states
    (p : ToneMappingPass) (w : World) (counted budget input output : Nat)
    (hIn : p.mInputColorBuffer = some input) (hOut : p.mOutputColorBuffer = some output)
    (hready : p.Ready w = true)
    (h1 : w.GetResourceState input = .ok D3D12_RESOURCE_STATE_RENDER_TARGET)
    (h2 : w.GetResourceState output = .ok D3D12_RESOURCE_STATE_PIXEL_SHADER_RESOURCE)
    (hbudget : 1 ≤ budget) :
    ∃ r p1 w1 r3 w3 p' w',
      p.mCommandListRecorder = some r ∧
      p.ExecuteBeginTask counted w = .ok (p1, w1) ∧
      -- the two transitions, in one barrier list
      w1.resourceStateManager.requests = w.resourceStateManager.requests ++
        [⟨input, D3D12_RESOURCE_STATE_RENDER_TARGET, D3D12_RESOURCE_STATE_PIXEL_SHADER_RESOURCE⟩,
         ⟨output, D3D12_RESOURCE_STATE_PIXEL_SHADER_RESOURCE, D3D12_RESOURCE_STATE_RENDER_TARGET⟩] ∧
      (p.barrierList input output).commands =
        [.ResourceBarrier 2
          [some ⟨input, D3D12_RESOURCE_STATE_RENDER_TARGET,
              D3D12_RESOURCE_STATE_PIXEL_SHADER_RESOURCE⟩,
            some ⟨output, D3D12_RESOURCE_STATE_PIXEL_SHADER_RESOURCE,
              D3D12_RESOURCE_STATE_RENDER_TARGET⟩]] ∧
      (p.barrierList input output).closed = true ∧
      -- submitted before the recorder records its draw
      w1.commandListExecutor.mSubmitted =
        w.commandListExecutor.mSubmitted ++ [p.barrierList input output] ∧
      r.RecordAndPushCommandLists none w1.ResetExecutedCommandListCount = .ok (r3, w3) ∧
      w3.commandListExecutor.mPending = w.commandListExecutor.mPending ++ [r.commandList w] ∧
      Command.DrawInstanced 6 1 0 0 ∈ (r.commandList w).commands ∧
      w3.resourceStateManager = w1.resourceStateManager ∧
      -- the whole call
      p.Execute counted budget w = .ok (p', w') ∧
      w'.resourceStateManager.requests = w1.resourceStateManager.requests ∧
      w'.GetResourceState input = .ok D3D12_RESOURCE_STATE_PIXEL_SHADER_RESOURCE ∧
      w'.GetResourceState output = .ok D3D12_RESOURCE_STATE_RENDER_TARGET := by
  obtain ⟨r, hr, hv, hrv, hs1, hs2⟩ := toneMappingPass_Ready_elim p w input output hIn hOut hready
  have h1' := (World.get_ok_iff _ _ _).1 h1
  have h2' := (World.get_ok_iff _ _ _).1 h2
  have hne : input ≠ output := by
    intro h
    rw [h, h2'] at h1'
    exact absurd (Option.some.inj h1') PSR_ne_RT
  have heq := toneMappingPass_Execute_eq p counted budget w input output r hIn hOut hr hrv hs1 hs2
    h1' h2'
  simp only [World.waitForExecuted] at heq
  rw [CommandListExecutor.waitForExecuted_ok 1 budget _ (by simp) (by simpa using hbudget)] at heq
  simp only [ok_bind, pure_eq_ok] at heq
  refine ⟨r, ?p1, ?w1, ?r3, ?w3, ?p', ?w', hr, ?e1, ?e2, ?e3, ?e4, ?e5, ?e6, ?e7, ?e8, ?e9,
    ?e10, ?e11, ?e12, ?e13⟩
  case e1 => exact toneMappingPass_begin_ok p counted w input output hIn hOut hv h1' h2'
  case e2 => simp [ResourceStateManager.transitioned]
  case e3 => rfl
  case e4 => rfl
  case e5 => rfl
  case e6 =>
    refine ScreenSpaceCmdListRecorder.screenSpaceRecorder_record_none_ok r _ hrv ?_ ?_
    · simpa [World.sPSO, World.ResetExecutedCommandListCount] using hs1
    · simpa [World.sRootSignature, World.ResetExecutedCommandListCount] using hs2
  case e7 =>
    simp [World.AddCommandList, World.ResetExecutedCommandListCount,
      CommandListExecutor.AddCommandList, CommandListExecutor.ResetExecutedCommandListCount,
      ScreenSpaceCmdListRecorder.commandList, World.sPSO, World.sRootSignature]
  case e8 => simp [ScreenSpaceCmdListRecorder.commandList, CommandListPerFrame.recorded]
  case e9 => rfl
  case e10 => exact heq
  case e11 => rfl
  case e12 =>
    simp [World.GetResourceState, ResourceStateManager.GetResourceState,
      ResourceStateManager.transitioned, hne]
  case e13 =>
    simp [World.GetResourceState, ResourceStateManager.GetResourceState,
      ResourceStateManager.transitioned]

/-- Witness of C6 on the example tone-mapping pass: after `Execute` buffer `100`
is tracked as a pixel-shader resource and buffer `101` as a render target. -/
theorem toneMappingPass_swaps_input_and_output_states_witness :
    ∃ p' w', Example.toneMappingPass.1.Execute 0 1 Example.toneMappingPass.2 = .ok (p', w') ∧
      w'.GetResourceState 100 = .ok D3D12_RESOURCE_STATE_PIXEL_SHADER_RESOURCE ∧
      w'.GetResourceState 101 = .ok D3D12_RESOURCE_STATE_RENDER_TARGET := by
  obtain ⟨r, p1, w1, r3, w3, p', w', -, -, -, -, -, -, -, -, -, -, hex, -, h1, h2⟩ :=
    toneMappingPass_swaps_input_and_output_states Example.toneMappingPass.1
      Example.toneMappingPass.2 0 1 100 101 (by decide) (by decide) (by decide) rfl rfl
      (by decide)
  exact ⟨p', w', hex, h1, h2⟩

/-- C7. Elision law of the tracker, for a registered resource `res` whose tracked
state is `s`: a request for `s` itself returns no barrier and leaves every tracked
state unchanged; a request for a different state `A` returns the barrier
`s -> A`, makes `A` the tracked state of `res` and changes no other resource, and
a second request for `A` then returns no barrier and changes nothing, so that the
two requests yield exactly one barrier in total. -/
theorem resourceStateManager_elides_repeated_requests (t : ResourceStateManager) (res : Nat)
    (s A : D3D12_RESOURCE_STATES) (hreg : t.mStateByResource res = some s) :
    (∃ t', t.ChangeResourceStateAndGetBarrier res s = .ok (none, t') ∧
      t'.mStateByResource = t.mStateByResource) ∧
    (A ≠ s →
      ∃ t1 t2 second,
        t.ChangeResourceStateAndGetBarrier res A = .ok (some ⟨res, s, A⟩, t1) ∧
        t1.mStateByResource res = some A ∧
        (∀ r, r ≠ res → t1.mStateByResource r = t.mStateByResource r) ∧
        t1.ChangeResourceStateAndGetBarrier res A = .ok (second, t2) ∧
        second = none ∧
        t2.mStateByResource = t1.mStateByResource ∧
        ([some (⟨res, s, A⟩ : CD3DX12_RESOURCE_BARRIER), second].filterMap id).length = 1) := by
  constructor
  · simp [ResourceStateManager.ChangeResourceStateAndGetBarrier, hreg]
  · intro hne
    refine ⟨t.transitioned res s A,
      { (t.transitioned res s A) with
        requests := (t.transitioned res s A).requests ++ [⟨res, A, A⟩] },
      none, ?_, ?_, ?_, ?_, rfl, rfl, rfl⟩
    · simp [ResourceStateManager.ChangeResourceStateAndGetBarrier, hreg, hne,
        ResourceStateManager.transitioned]
    · simp [ResourceStateManager.transitioned]
    · intro r hr
      simp [ResourceStateManager.transitioned, hr]
    · simp [ResourceStateManager.ChangeResourceStateAndGetBarrier,
        ResourceStateManager.transitioned]

/-- Witness of C7: on a tracker that holds resource `1` as a render target, the
request for the render-target state is elided. -/
theorem resourceStateManager_elides_repeated_requests_witness :
    ∃ t', Example.tracker.ChangeResourceStateAndGetBarrier 1 D3D12_RESOURCE_STATE_RENDER_TARGET
        = .ok (none, t') ∧
      t'.mStateByResource = Example.tracker.mStateByResource :=
  (resourceStateManager_elides_repeated_requests Example.tracker 1
    D3D12_RESOURCE_STATE_RENDER_TARGET D3D12_RESOURCE_STATE_PIXEL_SHADER_RESOURCE rfl).1

theorem ambientLightRecorder_record_inv (r : AmbientLightCmdListRecorder) (w : World)
    (r' : AmbientLightCmdListRecorder) (w' : World)
    (h : r.RecordAndPushCommandLists w = .ok (r', w')) :
    r.ValidateData = true ∧ (w.sPSO RecorderClass.AmbientLight).isSome = true ∧
    (w.sRootSignature RecorderClass.AmbientLight).isSome = true := by
  cases hv : r.ValidateData <;> cases hp : (w.sPSO RecorderClass.AmbientLight).isSome <;>
    cases hs : (w.sRootSignature RecorderClass.AmbientLight).isSome <;>
    simp [AmbientLightCmdListRecorder.RecordAndPushCommandLists, hv, hp, hs] at h ⊢

/-- The command list `PunctualLightCmdListRecorder` records and pushes when
`uploadFrameCBuffer` is the upload buffer it obtained for the frame constants and
`immutableCBuffer` its immutable constant buffer. -/
theorem punctualLightRecorder_record_ok (r : PunctualLightCmdListRecorder)
    (frameCBuffer : FrameCBuffer) (w : World) (uploadFrameCBuffer immutableCBuffer : UploadBuffer)
    (hv : r.IsDataValid = true) (hp : (w.sPSO RecorderClass.PunctualLight).isSome = true)
    (hs : (w.sRootSignature RecorderClass.PunctualLight).isSome = true)
    (hrtv : r.mRenderTargetView ≠ 0)
    (hslot : r.mFrameUploadCBufferPerFrame.mFrameCBuffers.get?
      r.mFrameUploadCBufferPerFrame.mCurrentFrameIndex = some uploadFrameCBuffer)
    (himm : r.mImmutableUploadCBuffer = some immutableCBuffer) :
    r.RecordAndPushCommandLists frameCBuffer w = .ok
      ({ r with
          mFrameUploadCBufferPerFrame := r.mFrameUploadCBufferPerFrame.written frameCBuffer
          mCommandListPerFrame := r.mCommandListPerFrame.advanced
            (r.mCommandListPerFrame.recorded (w.sPSO RecorderClass.PunctualLight)
              [.RSSetViewports 1, .RSSetScissorRects 1,
               .OMSetRenderTargets 1 r.mRenderTargetView none, .SetDescriptorHeaps 1,
               .SetGraphicsRootSignature (w.sRootSignature RecorderClass.PunctualLight),
               .SetGraphicsRootConstantBufferView 0 (GetGPUVirtualAddress uploadFrameCBuffer.mBuffer),
               .SetGraphicsRootDescriptorTable 1 r.mStartLightsBufferShaderResourceView,
               .SetGraphicsRootConstantBufferView 2 (GetGPUVirtualAddress uploadFrameCBuffer.mBuffer),
               .SetGraphicsRootConstantBufferView 3 (GetGPUVirtualAddress immutableCBuffer.mBuffer),
               .SetGraphicsRootConstantBufferView 4 (GetGPUVirtualAddress uploadFrameCBuffer.mBuffer),
               .SetGraphicsRootDescriptorTable 5 r.mStartPixelShaderResourceView,
               .IASetPrimitiveTopology D3D_PRIMITIVE_TOPOLOGY_POINTLIST,
               .DrawInstanced r.mNumLights 1 0 0]) },
       w.AddCommandList
         (r.mCommandListPerFrame.recorded (w.sPSO RecorderClass.PunctualLight)
            [.RSSetViewports 1, .RSSetScissorRects 1,
             .OMSetRenderTargets 1 r.mRenderTargetView none, .SetDescriptorHeaps 1,
             .SetGraphicsRootSignature (w.sRootSignature RecorderClass.PunctualLight),
             .SetGraphicsRootConstantBufferView 0 (GetGPUVirtualAddress uploadFrameCBuffer.mBuffer),
             .SetGraphicsRootDescriptorTable 1 r.mStartLightsBufferShaderResourceView,
             .SetGraphicsRootConstantBufferView 2 (GetGPUVirtualAddress uploadFrameCBuffer.mBuffer),
             .SetGraphicsRootConstantBufferView 3 (GetGPUVirtualAddress immutableCBuffer.mBuffer),
             .SetGraphicsRootConstantBufferView 4 (GetGPUVirtualAddress uploadFrameCBuffer.mBuffer),
             .SetGraphicsRootDescriptorTable 5 r.mStartPixelShaderResourceView,
             .IASetPrimitiveTopology D3D_PRIMITIVE_TOPOLOGY_POINTLIST,
             .DrawInstanced r.mNumLights 1 0 0])) := by
  rw [List.get?_eq_getElem?] at hslot
  simp [PunctualLightCmdListRecorder.RecordAndPushCommandLists, hv, hp, hs, hrtv, hslot, himm,
    FrameUploadCBufferPerFrame.GetNextFrameCBuffer, UploadBuffer.CopyData,
    CommandListPerFrame.ResetWithNextCommandAllocator, ID3D12GraphicsCommandList.record,
    ID3D12GraphicsCommandList.Close, CommandListPerFrame.recorded,
    CommandListPerFrame.advanced, FrameUploadCBufferPerFrame.written]

theorem punctualLightRecorder_record_inv (r : PunctualLightCmdListRecorder)
    (frameCBuffer : FrameCBuffer) (w : World) (r' : PunctualLightCmdListRecorder) (w' : World)
    (h : r.RecordAndPushCommandLists frameCBuffer w = .ok (r', w')) :
    r.IsDataValid = true ∧ (w.sPSO RecorderClass.PunctualLight).isSome = true ∧
    (w.sRootSignature RecorderClass.PunctualLight).isSome = true ∧
    r.mRenderTargetView ≠ 0 ∧
    (∃ uploadFrameCBuffer, r.mFrameUploadCBufferPerFrame.mFrameCBuffers.get?
      r.mFrameUploadCBufferPerFrame.mCurrentFrameIndex = some uploadFrameCBuffer) ∧
    ∃ immutableCBuffer, r.mImmutableUploadCBuffer = some immutableCBuffer := by
  simp only [PunctualLightCmdListRecorder.RecordAndPushCommandLists, bind_eq_ok, ASSERT_eq_ok,
    FrameUploadCBufferPerFrame.GetNextFrameCBuffer, decide_eq_true_eq] at h
  obtain ⟨_, hv, _, hp, _, hs, _, hrtv, ⟨b, slot, ring⟩, ⟨b', hb', -⟩, _, -, imm, himm, -⟩ := h
  refine ⟨hv, hp, hs, hrtv, ?_, ?_⟩
  · cases hget : r.mFrameUploadCBufferPerFrame.mFrameCBuffers.get?
        r.mFrameUploadCBufferPerFrame.mCurrentFrameIndex with
    | none => rw [hget] at hb'; simp at hb'
    | some x => exact ⟨x, rfl⟩
  · cases hi : r.mImmutableUploadCBuffer with
    | none => rw [hi] at himm; simp at himm
    | some x => exact ⟨x, rfl⟩

/-- C8. Recording performs no resource-state transition: whenever
`AmbientLightCmdListRecorder::RecordAndPushCommandLists` or
`PunctualLightCmdListRecorder::RecordAndPushCommandLists` returns, the tracker is
exactly as before the call (same tracked state for every resource, no request
received), and the one command list the call pushed holds no resource barrier. -/
theorem recorders_request_no_transition :
    (∀ (r : AmbientLightCmdListRecorder) (w : World) (r' : AmbientLightCmdListRecorder)
        (w' : World),
      r.RecordAndPushCommandLists w = .ok (r', w') →
      w'.resourceStateManager = w.resourceStateManager ∧
      ∃ commandList,
        w'.commandListExecutor.mPending = w.commandListExecutor.mPending ++ [commandList] ∧
        commandList.commands.all (fun c => !c.isResourceBarrier) = true) ∧
    (∀ (r : PunctualLightCmdListRecorder) (frameCBuffer : FrameCBuffer) (w : World)
        (r' : PunctualLightCmdListRecorder) (w' : World),
      r.RecordAndPushCommandLists frameCBuffer w = .ok (r', w') →
      w'.resourceStateManager = w.resourceStateManager ∧
      ∃ commandList,
        w'.commandListExecutor.mPending = w.commandListExecutor.mPending ++ [commandList] ∧
        commandList.commands.all (fun c => !c.isResourceBarrier) = true) := by
  constructor
  · intro r w r' w' h
    obtain ⟨hv, hp, hs⟩ := ambientLightRecorder_record_inv r w r' w' h
    rw [AmbientLightCmdListRecorder.ambientLightRecorder_record_ok r w hv hp hs] at h
    simp only [Except.ok.injEq, Prod.mk.injEq] at h
    obtain ⟨-, hw⟩ := h
    subst hw
    refine ⟨rfl, _, rfl, ?_⟩
    simp [AmbientLightCmdListRecorder.commandList, CommandListPerFrame.recorded,
      Command.isResourceBarrier]
  · intro r frameCBuffer w r' w' h
    obtain ⟨hv, hp, hs, hrtv, ⟨b, hb⟩, ⟨imm, himm⟩⟩ :=
      punctualLightRecorder_record_inv r frameCBuffer w r' w' h
    rw [punctualLightRecorder_record_ok r frameCBuffer w b imm hv hp hs hrtv hb himm] at h
    simp only [Except.ok.injEq, Prod.mk.injEq] at h
    obtain ⟨-, hw⟩ := h
    subst hw
    refine ⟨rfl, _, rfl, ?_⟩
    simp [CommandListPerFrame.recorded, Command.isResourceBarrier]

/-- Witness of C8: the ambient-light recorder of the example pass and the example
punctual-light recorder both record and push, and leave the tracker as it was. -/
theorem recorders_request_no_transition_witness :
    (∃ r' w', Example.ambientLightRecorder.RecordAndPushCommandLists Example.ambientLightPass.2
        = .ok (r', w') ∧
      w'.resourceStateManager = Example.ambientLightPass.2.resourceStateManager) ∧
    (∃ r' w', Example.punctualLightRecorder.1.RecordAndPushCommandLists Example.frameCBuffer
        Example.punctualLightRecorder.2 = .ok (r', w') ∧
      w'.resourceStateManager = Example.punctualLightRecorder.2.resourceStateManager) := by
  constructor
  · obtain ⟨r', w', h⟩ : ∃ r' w', Example.ambientLightRecorder.RecordAndPushCommandLists
        Example.ambientLightPass.2 = .ok (r', w') := ⟨_, _, rfl⟩
    exact ⟨r', w', h, (recorders_request_no_transition.1 _ _ r' w' h).1⟩
  · obtain ⟨r', w', h⟩ : ∃ r' w', Example.punctualLightRecorder.1.RecordAndPushCommandLists
        Example.frameCBuffer Example.punctualLightRecorder.2 = .ok (r', w') := ⟨_, _, rfl⟩
    exact ⟨r', w', h, (recorders_request_no_transition.2 _ _ _ r' w' h).1⟩

theorem punctualLightRecorder_Init_numLights (r : PunctualLightCmdListRecorder)
    (geometryBuffers : Option (List (Option Nat))) (geometryBuffersCount depthBuffer : Nat)
    (lights : Option (List Nat)) (numLights sDepthStencilSRVFormat : Nat) (w : World)
    (r' : PunctualLightCmdListRecorder) (w' : World)
    (h : r.Init geometryBuffers geometryBuffersCount depthBuffer lights numLights
      sDepthStencilSRVFormat w = .ok (r', w')) :
    r'.mNumLights = numLights := by
  simp only [PunctualLightCmdListRecorder.Init, PunctualLightCmdListRecorder.InitConstantBuffers,
    PunctualLightCmdListRecorder.CreateLightBuffersAndViews,
    PunctualLightCmdListRecorder.InitShaderResourceViews, bind_eq_ok, pure_eq_ok,
    ASSERT_eq_ok] at h
  obtain ⟨_, -, _, -, _, -, _, -, _, -, ⟨r1, w1⟩, ⟨_, -, _, -, h1⟩, ⟨r2, w2⟩,
    ⟨_, -, _, -, _, -, _, -, _, -, _, -, h2⟩, ⟨r3, w3⟩,
    ⟨_, -, _, -, _, -, _, -, _, -, h3⟩, _, -, h4⟩ := h
  simp only [Except.ok.injEq, Prod.mk.injEq] at h1 h2 h3 h4
  rw [← h4.1, ← h3.1, ← h2.1, ← h1.1]

/-- C9. Every `RecordAndPushCommandLists` that returns (so every call that
passes its assertions) has pushed exactly one command list to the executor; that
list is closed, and it holds exactly one draw call, its last command, after the
viewport, scissor, render-target, descriptor-heap and root-signature bindings.
For `AmbientLightCmdListRecorder` the draw is 6 vertices x 1 instance with the
triangle-list topology; for `PunctualLightCmdListRecorder` it is `mNumLights`
vertices x 1 instance with the point-list topology, and `mNumLights` is the
`numLights` passed to `Init`. -/
theorem recorders_push_one_closed_list_with_one_draw :
    (∀ (r : AmbientLightCmdListRecorder) (w : World) (r' : AmbientLightCmdListRecorder)
        (w' : World),
      r.RecordAndPushCommandLists w = .ok (r', w') →
      ∃ commandList,
        w'.commandListExecutor.mPending = w.commandListExecutor.mPending ++ [commandList] ∧
        w'.commandListExecutor.mSubmitted = w.commandListExecutor.mSubmitted ∧
        commandList.closed = true ∧
        commandList.commands =
          [.RSSetViewports 1, .RSSetScissorRects 1,
           .OMSetRenderTargets 1 r.mRenderTargetView none, .SetDescriptorHeaps 1,
           .SetGraphicsRootSignature (w.sRootSignature RecorderClass.AmbientLight),
           .SetGraphicsRootDescriptorTable 0 r.mStartPixelShaderResourceView,
           .IASetPrimitiveTopology D3D_PRIMITIVE_TOPOLOGY_TRIANGLELIST,
           .DrawInstanced 6 1 0 0] ∧
        (commandList.commands.filter Command.isDraw).length = 1) ∧
    (∀ (r : PunctualLightCmdListRecorder) (frameCBuffer : FrameCBuffer) (w : World)
        (r' : PunctualLightCmdListRecorder) (w' : World),
      r.RecordAndPushCommandLists frameCBuffer w = .ok (r', w') →
      ∃ (commandList : ID3D12GraphicsCommandList) (uploadFrameCBuffer immutableCBuffer : UploadBuffer),
        r.mFrameUploadCBufferPerFrame.mFrameCBuffers.get?
          r.mFrameUploadCBufferPerFrame.mCurrentFrameIndex = some uploadFrameCBuffer ∧
        r.mImmutableUploadCBuffer = some immutableCBuffer ∧
        w'.commandListExecutor.mPending = w.commandListExecutor.mPending ++ [commandList] ∧
        w'.commandListExecutor.mSubmitted = w.commandListExecutor.mSubmitted ∧
        commandList.closed = true ∧
        commandList.commands =
          [.RSSetViewports 1, .RSSetScissorRects 1,
           .OMSetRenderTargets 1 r.mRenderTargetView none, .SetDescriptorHeaps 1,
           .SetGraphicsRootSignature (w.sRootSignature RecorderClass.PunctualLight),
           .SetGraphicsRootConstantBufferView 0 (GetGPUVirtualAddress uploadFrameCBuffer.mBuffer),
           .SetGraphicsRootDescriptorTable 1 r.mStartLightsBufferShaderResourceView,
           .SetGraphicsRootConstantBufferView 2 (GetGPUVirtualAddress uploadFrameCBuffer.mBuffer),
           .SetGraphicsRootConstantBufferView 3 (GetGPUVirtualAddress immutableCBuffer.mBuffer),
           .SetGraphicsRootConstantBufferView 4 (GetGPUVirtualAddress uploadFrameCBuffer.mBuffer),
           .SetGraphicsRootDescriptorTable 5 r.mStartPixelShaderResourceView,
           .IASetPrimitiveTopology D3D_PRIMITIVE_TOPOLOGY_POINTLIST,
           .DrawInstanced r.mNumLights 1 0 0] ∧
        (commandList.commands.filter Command.isDraw).length = 1) ∧
    (∀ (r : PunctualLightCmdListRecorder) (geometryBuffers : Option (List (Option Nat)))
        (geometryBuffersCount depthBuffer : Nat) (lights : Option (List Nat))
        (numLights sDepthStencilSRVFormat : Nat) (w : World)
        (r' : PunctualLightCmdListRecorder) (w' : World),
      r.Init geometryBuffers geometryBuffersCount depthBuffer lights numLights
        sDepthStencilSRVFormat w = .ok (r', w') →
      r'.mNumLights = numLights) := by
  refine ⟨?_, ?_, ?_⟩
  · intro r w r' w' h
    obtain ⟨hv, hp, hs⟩ := ambientLightRecorder_record_inv r w r' w' h
    rw [AmbientLightCmdListRecorder.ambientLightRecorder_record_ok r w hv hp hs] at h
    simp only [Except.ok.injEq, Prod.mk.injEq] at h
    obtain ⟨-, hw⟩ := h
    subst hw
    exact ⟨_, rfl, rfl, rfl, rfl, rfl⟩
  · intro r frameCBuffer w r' w' h
    obtain ⟨hv, hp, hs, hrtv, ⟨b, hb⟩, ⟨imm, himm⟩⟩ :=
      punctualLightRecorder_record_inv r frameCBuffer w r' w' h
    rw [punctualLightRecorder_record_ok r frameCBuffer w b imm hv hp hs hrtv hb himm] at h
    simp only [Except.ok.injEq, Prod.mk.injEq] at h
    obtain ⟨-, hw⟩ := h
    subst hw
    exact ⟨_, b, imm, hb, himm, rfl, rfl, rfl, rfl, rfl⟩
  · intro r geometryBuffers geometryBuffersCount depthBuffer lights numLights fmt w r' w' h
    exact punctualLightRecorder_Init_numLights r geometryBuffers geometryBuffersCount depthBuffer
      lights numLights fmt w r' w' h

/-- Witness of C9: the example punctual-light recorder, initialised with two
lights, pushes one list whose draw call has two vertices. -/
theorem recorders_push_one_closed_list_with_one_draw_witness :
    ∃ r' w' commandList,
      Example.punctualLightRecorder.1.RecordAndPushCommandLists Example.frameCBuffer
        Example.punctualLightRecorder.2 = .ok (r', w') ∧
      w'.commandListExecutor.mPending = [commandList] ∧
      commandList.commands.getLast? = some (.DrawInstanced 2 1 0 0) := by
  obtain ⟨r', w', h⟩ : ∃ r' w', Example.punctualLightRecorder.1.RecordAndPushCommandLists
      Example.frameCBuffer Example.punctualLightRecorder.2 = .ok (r', w') := ⟨_, _, rfl⟩
  obtain ⟨commandList, b, imm, -, -, hpending, -, -, hcommands, -⟩ :=
    recorders_push_one_closed_list_with_one_draw.2.1 _ _ _ r' w' h
  refine ⟨r', w', commandList, h, hpending, ?_⟩
  rw [hcommands]
  rfl

theorem environmentLightRecorder_validate_iff (r : EnvironmentLightCmdListRecorder) (N : Nat) :
    r.ValidateData N = true ↔
      (∀ i, i < N → (r.mCmdAlloc.getD i none).isSome = true) ∧ r.mCmdList.isSome = true ∧
      r.mCbvSrvUavDescHeap.isSome = true ∧ r.mImmutableCBuffer.isSome = true := by
  unfold EnvironmentLightCmdListRecorder.ValidateData
  by_cases h : ((List.range N).any fun i => (r.mCmdAlloc.getD i none).isNone) = true
  · simp only [h, if_true]
    simp only [List.any_eq_true, List.mem_range] at h
    obtain ⟨i, hi, hnone⟩ := h
    constructor
    · intro hf; exact absurd hf (by simp)
    · intro hall
      have := hall.1 i hi
      rw [Option.isNone_iff_eq_none] at hnone
      rw [hnone] at this
      simp at this
  · have hfalse : ((List.range N).any fun i => (r.mCmdAlloc.getD i none).isNone) = false := by
      simpa using h
    simp only [hfalse, Bool.false_eq_true, if_false, Bool.and_true, Bool.and_eq_true]
    simp only [List.any_eq_true, List.mem_range, not_exists, not_and] at h
    constructor
    · intro hf
      refine ⟨fun i hi => ?_, hf.1.1, hf.1.2, hf.2⟩
      have := h i hi
      cases hx : r.mCmdAlloc.getD i none with
      | none => rw [hx] at this; simp at this
      | some a => rfl
    · intro hall
      simp [hall.2.1, hall.2.2.1, hall.2.2.2]

theorem environmentLightRecorder_Ready_elim (r : EnvironmentLightCmdListRecorder) (N : Nat)
    (h : r.Ready N = true) :
    r.ValidateData N = true ∧ r.mCmdAlloc.length = N ∧ r.mFrameCBuffer.length = N ∧
    r.mFrameCBuffer.all Option.isSome = true ∧
    (∃ cmdList, r.mCmdList = some cmdList ∧ cmdList.closed = true) ∧
    r.mCurrFrameIndex < N := by
  simp only [EnvironmentLightCmdListRecorder.Ready, Bool.and_eq_true, decide_eq_true_eq] at h
  obtain ⟨⟨⟨⟨⟨hv, hA⟩, hF⟩, hall⟩, hclosed⟩, hidx⟩ := h
  refine ⟨hv, hA, hF, hall, ?_, hidx⟩
  cases hl : r.mCmdList with
  | none => rw [hl] at hclosed; simp at hclosed
  | some l => rw [hl] at hclosed; exact ⟨l, rfl, hclosed⟩

theorem environmentLightRecorder_slot (r : EnvironmentLightCmdListRecorder) (N : Nat)
    (h : r.Ready N = true) :
    ∃ cmdAlloc uploadFrameCBuffer immutableCBuffer heap cmdList,
      r.mCmdAlloc.get? r.mCurrFrameIndex = some (some cmdAlloc) ∧
      r.mFrameCBuffer.get? r.mCurrFrameIndex = some (some uploadFrameCBuffer) ∧
      r.mImmutableCBuffer = some immutableCBuffer ∧
      r.mCbvSrvUavDescHeap = some heap ∧
      r.mCmdList = some cmdList ∧ cmdList.closed = true := by
  obtain ⟨hv, hA, hF, hall, ⟨l, hl, hclosed⟩, hidx⟩ := environmentLightRecorder_Ready_elim r N h
  obtain ⟨hallocs, -, hheap, himm⟩ := (environmentLightRecorder_validate_iff r N).1 hv
  have ha := hallocs _ hidx
  have hidxA : r.mCurrFrameIndex < r.mCmdAlloc.length := by omega
  have hidxF : r.mCurrFrameIndex < r.mFrameCBuffer.length := by omega
  rw [List.getD_eq_getElem?_getD, List.getElem?_eq_getElem hidxA] at ha
  simp only [Option.getD_some] at ha
  have hf : (r.mFrameCBuffer.get ⟨r.mCurrFrameIndex, hidxF⟩).isSome = true := by
    rw [List.all_eq_true] at hall
    exact hall _ (List.get_mem _ _ _)
  obtain ⟨a, hae⟩ := Option.isSome_iff_exists.1 ha
  obtain ⟨b, hbe⟩ := Option.isSome_iff_exists.1 hf
  obtain ⟨imm, himme⟩ := Option.isSome_iff_exists.1 himm
  obtain ⟨heap, hheape⟩ := Option.isSome_iff_exists.1 hheap
  refine ⟨a, b, imm, heap, l, ?_, ?_, himme, hheape, hl, hclosed⟩
  · rw [List.get?_eq_getElem?, List.getElem?_eq_getElem hidxA, hae]
  · rw [List.get?_eq_get hidxF, hbe]

theorem environmentLightRecorder_record_ok (r : EnvironmentLightCmdListRecorder)
    (shared : SharedPSOAndRootSignature) (N : Nat) (frameCBuffer : FrameCBuffer)
    (rtvCpuDescHandle depthStencilHandle : Nat)
    (cmdAlloc : ID3D12CommandAllocator) (uploadFrameCBuffer immutableCBuffer : UploadBuffer)
    (heap : Nat) (cmdList : ID3D12GraphicsCommandList)
    (hv : r.ValidateData N = true)
    (hp : shared.sPSO.isSome = true) (hs : shared.sRootSignature.isSome = true)
    (ha : r.mCmdAlloc.get? r.mCurrFrameIndex = some (some cmdAlloc))
    (hb : r.mFrameCBuffer.get? r.mCurrFrameIndex = some (some uploadFrameCBuffer))
    (himm : r.mImmutableCBuffer = some immutableCBuffer)
    (hheap : r.mCbvSrvUavDescHeap = some heap)
    (hl : r.mCmdList = some cmdList) (hclosed : cmdList.closed = true) :
    r.RecordCommandLists shared N frameCBuffer rtvCpuDescHandle depthStencilHandle = .ok
      { r with
        mFrameCBuffer := r.mFrameCBuffer.set r.mCurrFrameIndex
          (some { uploadFrameCBuffer with
            mMappedData := memcpy uploadFrameCBuffer.mMappedData 0 frameCBuffer
              frameCBuffer.length })
        mCmdAlloc := r.mCmdAlloc.set r.mCurrFrameIndex
          (some { cmdAlloc with resets := cmdAlloc.resets + 1 })
        mCmdList := some (r.commandList shared rtvCpuDescHandle depthStencilHandle cmdAlloc
          uploadFrameCBuffer immutableCBuffer heap)
        mCmdListQueue := r.mCmdListQueue ++
          [r.commandList shared rtvCpuDescHandle depthStencilHandle cmdAlloc
            uploadFrameCBuffer immutableCBuffer heap]
        mCurrFrameIndex := ((r.mCurrFrameIndex + 1) % 2 ^ 32) % N } := by
  rw [List.get?_eq_getElem?] at ha hb
  simp [EnvironmentLightCmdListRecorder.RecordCommandLists, hv, hp, hs, ha, hb, himm, hheap, hl,
    hclosed, UploadBuffer.CopyData, ID3D12GraphicsCommandList.record,
    ID3D12GraphicsCommandList.Close, EnvironmentLightCmdListRecorder.commandList]

theorem environmentLightRecorder_record_ready (r : EnvironmentLightCmdListRecorder)
    (shared : SharedPSOAndRootSignature) (N : Nat) (frameCBuffer : FrameCBuffer)
    (rtvCpuDescHandle depthStencilHandle : Nat)
    (hN32 : N < 2 ^ 32)
    (hp : shared.sPSO.isSome = true) (hs : shared.sRootSignature.isSome = true)
    (h : r.Ready N = true) :
    ∃ r', r.RecordCommandLists shared N frameCBuffer rtvCpuDescHandle depthStencilHandle
        = .ok r' ∧
      r'.Ready N = true ∧ r'.mCurrFrameIndex = (r.mCurrFrameIndex + 1) % N := by
  obtain ⟨a, b, imm, heap, l, ha, hb, himm, hheap, hl, hclosed⟩ :=
    environmentLightRecorder_slot r N h
  obtain ⟨hv, hA, hF, hall, -, hidx⟩ := environmentLightRecorder_Ready_elim r N h
  refine ⟨_, environmentLightRecorder_record_ok r shared N frameCBuffer rtvCpuDescHandle
    depthStencilHandle a b imm heap l hv hp hs ha hb himm hheap hl hclosed, ?_, ?_⟩
  · have hmod : (r.mCurrFrameIndex + 1) % 2 ^ 32 = r.mCurrFrameIndex + 1 :=
      Nat.mod_eq_of_lt (by omega)
    obtain ⟨hallocs, hlist, hheap', himm'⟩ := (environmentLightRecorder_validate_iff r N).1 hv
    simp only [EnvironmentLightCmdListRecorder.Ready, Bool.and_eq_true, decide_eq_true_eq,
      List.length_set]
    refine ⟨⟨⟨⟨⟨?_, hA⟩, hF⟩, ?_⟩, rfl⟩, ?_⟩
    · rw [environmentLightRecorder_validate_iff]
      refine ⟨?_, rfl, hheap', himm'⟩
      intro i hi
      simp only [List.getD_eq_getElem?_getD, List.getElem?_set]
      by_cases hii : r.mCurrFrameIndex = i
      · subst hii
        have hlt : r.mCurrFrameIndex < r.mCmdAlloc.length := by omega
        simp [hlt]
      · simp only [hii, if_false]
        rw [← List.getD_eq_getElem?_getD]
        exact hallocs i hi
    · rw [List.all_eq_true] at hall ⊢
      intro x hx
      rcases List.mem_or_eq_of_mem_set hx with hmem | heq
      · exact hall x hmem
      · rw [heq]; rfl
    · rw [hmod]
      exact Nat.mod_lt _ (by omega)
  · have hmod : (r.mCurrFrameIndex + 1) % 2 ^ 32 = r.mCurrFrameIndex + 1 :=
      Nat.mod_eq_of_lt (by omega)
    simp only [hmod]

theorem environmentLightRecorder_afterCalls (shared : SharedPSOAndRootSignature) (N : Nat)
    (frames : Nat → FrameCBuffer) (rtvCpuDescHandle depthStencilHandle : Nat)
    (r0 : EnvironmentLightCmdListRecorder) (hN32 : N < 2 ^ 32)
    (hp : shared.sPSO.isSome = true) (hs : shared.sRootSignature.isSome = true)
    (h0 : r0.Ready N = true) (hstart : r0.mCurrFrameIndex = 0) :
    ∀ k, ∃ rk, EnvironmentLightCmdListRecorder.afterCalls shared N frames rtvCpuDescHandle
        depthStencilHandle k r0 = .ok rk ∧
      rk.Ready N = true ∧ rk.mCurrFrameIndex = k % N := by
  have hN : 0 < N := by
    obtain ⟨-, -, -, -, -, hidx⟩ := environmentLightRecorder_Ready_elim r0 N h0
    omega
  intro k
  induction k with
  | zero => exact ⟨r0, rfl, h0, by rw [hstart, Nat.zero_mod]⟩
  | succ k ih =>
    obtain ⟨rk, hrun, hready, hidx⟩ := ih
    obtain ⟨r', hrec, hready', hidx'⟩ := environmentLightRecorder_record_ready rk shared N
      (frames k) rtvCpuDescHandle depthStencilHandle hN32 hp hs hready
    refine ⟨r', ?_, hready', ?_⟩
    · simp only [EnvironmentLightCmdListRecorder.afterCalls, hrun, ok_bind, hrec]
    · rw [hidx', hidx, Nat.mod_add_mod]

/-- C10. Round-robin slot rotation of
`EnvironmentLightCmdListRecorder::RecordCommandLists`: for a queued-frame count
`N` and a recorder that is ready to record (which makes `N > 0`) and starts at
slot `0`, every call
`k = 0, 1, 2, ...` returns; it finds the recorder at slot `k % N`, which is below
`N`; it resets the command allocator of that slot and no other, copies the frame
constants into the frame-constants buffer of that slot and no other, and pushes a
list recorded with that allocator and bound to that buffer. Two calls fewer than
`N` apart use different slots, and calls exactly `N` apart use the same slot. -/
theorem environmentLightRecorder_rotates_round_robin (shared : SharedPSOAndRootSignature)
    (N : Nat) (frames : Nat → FrameCBuffer) (rtvCpuDescHandle depthStencilHandle : Nat)
    (r0 : EnvironmentLightCmdListRecorder)
    (hN32 : N < 2 ^ 32)
    (hp : shared.sPSO.isSome = true) (hs : shared.sRootSignature.isSome = true)
    (h0 : r0.Ready N = true) (hstart : r0.mCurrFrameIndex = 0) :
    (∀ k, ∃ (rk rk' : EnvironmentLightCmdListRecorder) (cmdAlloc : ID3D12CommandAllocator)
        (uploadFrameCBuffer : UploadBuffer) (cmdList : ID3D12GraphicsCommandList),
      EnvironmentLightCmdListRecorder.afterCalls shared N frames rtvCpuDescHandle
        depthStencilHandle k r0 = .ok rk ∧
      rk.mCurrFrameIndex = k % N ∧ rk.mCurrFrameIndex < N ∧
      rk.mCmdAlloc.get? (k % N) = some (some cmdAlloc) ∧
      rk.mFrameCBuffer.get? (k % N) = some (some uploadFrameCBuffer) ∧
      rk.RecordCommandLists shared N (frames k) rtvCpuDescHandle depthStencilHandle = .ok rk' ∧
      EnvironmentLightCmdListRecorder.afterCalls shared N frames rtvCpuDescHandle
        depthStencilHandle (k + 1) r0 = .ok rk' ∧
      rk'.mCmdAlloc = rk.mCmdAlloc.set (k % N)
        (some { cmdAlloc with resets := cmdAlloc.resets + 1 }) ∧
      rk'.mFrameCBuffer = rk.mFrameCBuffer.set (k % N)
        (some { uploadFrameCBuffer with
          mMappedData := memcpy uploadFrameCBuffer.mMappedData 0 (frames k)
            (frames k).length }) ∧
      rk'.mCmdListQueue = rk.mCmdListQueue ++ [cmdList] ∧
      rk'.mCmdList = some cmdList ∧
      cmdList.closed = true ∧
      cmdList.allocator = cmdAlloc.identity ∧
      Command.SetGraphicsRootConstantBufferView 1
        (GetGPUVirtualAddress uploadFrameCBuffer.mBuffer) ∈ cmdList.commands) ∧
    (∀ j k rj rk,
      EnvironmentLightCmdListRecorder.afterCalls shared N frames rtvCpuDescHandle
        depthStencilHandle j r0 = .ok rj →
      EnvironmentLightCmdListRecorder.afterCalls shared N frames rtvCpuDescHandle
        depthStencilHandle k r0 = .ok rk →
      (j < k → k < j + N → rj.mCurrFrameIndex ≠ rk.mCurrFrameIndex) ∧
      (k = j + N → rj.mCurrFrameIndex = rk.mCurrFrameIndex)) := by
  have hrun := environmentLightRecorder_afterCalls shared N frames rtvCpuDescHandle
    depthStencilHandle r0 hN32 hp hs h0 hstart
  constructor
  · intro k
    obtain ⟨rk, hk, hready, hidx⟩ := hrun k
    obtain ⟨a, b, imm, heap, l, ha, hb, himm, hheap, hl, hclosed⟩ :=
      environmentLightRecorder_slot rk N hready
    obtain ⟨hv, -, -, -, -, hlt⟩ := environmentLightRecorder_Ready_elim rk N hready
    have hrec := environmentLightRecorder_record_ok rk shared N (frames k) rtvCpuDescHandle
      depthStencilHandle a b imm heap l hv hp hs ha hb himm hheap hl hclosed
    rw [hidx] at ha hb
    refine ⟨rk, _, a, b, _, hk, hidx, hlt, ha, hb, hrec, ?_, ?_, ?_, rfl, rfl, ?_, ?_, ?_⟩
    · simp only [EnvironmentLightCmdListRecorder.afterCalls, hk, ok_bind, hrec]
    · rw [hidx]
    · rw [hidx]
    · rfl
    · rfl
    · simp [EnvironmentLightCmdListRecorder.commandList, ID3D12GraphicsCommandList.record,
        ID3D12GraphicsCommandList.Close]
  · intro j k rj rk hj hk
    obtain ⟨rj', hj', -, hjidx⟩ := hrun j
    obtain ⟨rk', hk', -, hkidx⟩ := hrun k
    rw [hj] at hj'
    rw [hk] at hk'
    simp only [Except.ok.injEq] at hj' hk'
    subst hj' hk'
    rw [hjidx, hkidx]
    constructor
    · intro hjk hkj heq
      have hdvd : N ∣ k - j := (Nat.modEq_iff_dvd' (le_of_lt hjk)).1 heq
      have := Nat.le_of_dvd (by omega) hdvd
      omega
    · intro hkj
      rw [hkj, Nat.add_mod_right]

/-- Witness of C10: the example recorder with three queued frames. Its fourth
call (`k = 3`) runs on the allocator and the frame-constants buffer of slot `0`,
the slot of the first call. -/
theorem environmentLightRecorder_rotates_round_robin_witness :
    ∃ r3 r4,
      EnvironmentLightCmdListRecorder.afterCalls Example.environmentLightShared 3
        (fun _ => Example.frameCBuffer) 500 501 3 Example.environmentLightRecorder = .ok r3 ∧
      r3.mCurrFrameIndex = 0 ∧
      r3.RecordCommandLists Example.environmentLightShared 3 Example.frameCBuffer 500 501
        = .ok r4 ∧
      r4.mCmdAlloc.map (Option.map ID3D12CommandAllocator.resets) = [some 2, some 1, some 1] ∧
      r4.mCmdListQueue.map ID3D12GraphicsCommandList.allocator = [200, 201, 202, 200] := by
  obtain ⟨r3, r4, a, b, l, h3, hidx, -, -, -, hrec, h4, -⟩ :=
    (environmentLightRecorder_rotates_round_robin Example.environmentLightShared 3
      (fun _ => Example.frameCBuffer) 500 501 Example.environmentLightRecorder
      (by norm_num) rfl rfl rfl rfl).1 3
  refine ⟨r3, r4, h3, hidx, hrec, ?_, ?_⟩
  · have : EnvironmentLightCmdListRecorder.afterCalls Example.environmentLightShared 3
        (fun _ => Example.frameCBuffer) 500 501 4 Example.environmentLightRecorder
        = .ok r4 := h4
    obtain ⟨x, hx⟩ : ∃ x, EnvironmentLightCmdListRecorder.afterCalls
      Example.environmentLightShared 3
        (fun _ => Example.frameCBuffer) 500 501 4 Example.environmentLightRecorder
        = .ok x ∧ x.mCmdAlloc.map (Option.map ID3D12CommandAllocator.resets)
          = [some 2, some 1, some 1] := ⟨_, rfl, rfl⟩
    rw [this] at hx
    simp only [Except.ok.injEq] at hx
    rw [hx.1]; exact hx.2
  · obtain ⟨x, hx⟩ : ∃ x, EnvironmentLightCmdListRecorder.afterCalls
      Example.environmentLightShared 3
        (fun _ => Example.frameCBuffer) 500 501 4 Example.environmentLightRecorder
        = .ok x ∧ x.mCmdListQueue.map ID3D12GraphicsCommandList.allocator
          = [200, 201, 202, 200] := ⟨_, rfl, rfl⟩
    rw [h4] at hx
    simp only [Except.ok.injEq] at hx
    rw [hx.1]; exact hx.2

theorem commandListExecutor_apply_count (e : CommandListExecutor)
    (op : CommandListExecutor.Operation) (h : op.isReset = false) :
    e.mExecutedCommandListCount ≤ (e.apply op).mExecutedCommandListCount := by
  cases op with
  | AddCommandList l => exact Nat.le_refl _
  | ResetExecutedCommandListCount => simp [CommandListExecutor.Operation.isReset] at h
  | consume =>
    simp only [CommandListExecutor.apply, CommandListExecutor.consume]
    cases e.mPending with
    | nil => exact Nat.le_refl _
    | cons l rest => exact Nat.le_succ _
  | ExecuteCommandListAndWaitForCompletion counted l =>
    exact Nat.le_add_right _ _

theorem commandListExecutor_run_count (operations : List CommandListExecutor.Operation) :
    ∀ e : CommandListExecutor, operations.all (fun op => !op.isReset) = true →
      e.mExecutedCommandListCount ≤ (e.run operations).mExecutedCommandListCount := by
  induction operations with
  | nil => intro e _; exact Nat.le_refl _
  | cons op rest ih =>
    intro e h
    simp only [List.all_cons, Bool.and_eq_true, Bool.not_eq_true'] at h
    have h1 := commandListExecutor_apply_count e op h.1
    have h2 := ih (e.apply op) h.2
    exact Nat.le_trans h1 h2

theorem waitForExecuted_count (taskCount : Nat) :
    ∀ (budget : Nat) (e e' : CommandListExecutor),
      e.waitForExecuted taskCount budget = .ok e' →
      e.mExecutedCommandListCount ≤ e'.mExecutedCommandListCount := by
  intro budget
  induction budget with
  | zero =>
    intro e e' h
    simp only [CommandListExecutor.waitForExecuted] at h
    split at h
    · simp at h
    · simp only [Except.ok.injEq] at h
      rw [h]
  | succ n ih =>
    intro e e' h
    simp only [CommandListExecutor.waitForExecuted] at h
    split at h
    · have h1 := commandListExecutor_apply_count e .consume rfl
      exact Nat.le_trans h1 (ih _ _ h)
    · simp only [Except.ok.injEq] at h
      rw [h]

/-- C12. The executed-count of the executor is `0` immediately after
`ResetExecutedCommandListCount`; over any sequence of operations that contains
no reset it never decreases, and the wait loop of a pass never decreases it
either; and an operation that changes it is either the reset or one in which the
executor submits a command list and counts it (the consuming side taking one
pending list, which adds one, or an immediate execution). Pushing a list and
reading the count leave it as it is. -/
theorem executedCommandListCount_is_monotone_between_resets :
    (∀ e : CommandListExecutor,
      e.ResetExecutedCommandListCount.GetExecutedCommandListCount = 0) ∧
    (∀ (e : CommandListExecutor) (operations : List CommandListExecutor.Operation),
      operations.all (fun op => !op.isReset) = true →
      e.GetExecutedCommandListCount ≤ (e.run operations).GetExecutedCommandListCount) ∧
    (∀ (e : CommandListExecutor) (before after : List CommandListExecutor.Operation),
      after.all (fun op => !op.isReset) = true →
      (e.run (before ++ [.ResetExecutedCommandListCount])).GetExecutedCommandListCount = 0 ∧
      (e.run (before ++ [.ResetExecutedCommandListCount])).GetExecutedCommandListCount ≤
        (e.run (before ++ [.ResetExecutedCommandListCount] ++ after)).GetExecutedCommandListCount) ∧
    (∀ (taskCount budget : Nat) (e e' : CommandListExecutor),
      e.waitForExecuted taskCount budget = .ok e' →
      e.GetExecutedCommandListCount ≤ e'.GetExecutedCommandListCount) ∧
    (∀ (e : CommandListExecutor) (l : ID3D12GraphicsCommandList),
      (e.AddCommandList l).GetExecutedCommandListCount = e.GetExecutedCommandListCount) ∧
    (∀ (e : CommandListExecutor) (op : CommandListExecutor.Operation),
      (e.apply op).GetExecutedCommandListCount ≠ e.GetExecutedCommandListCount →
      op = .ResetExecutedCommandListCount ∨
      (∃ l rest, op = .consume ∧ e.mPending = l :: rest ∧
        (e.apply op).mSubmitted = e.mSubmitted ++ [l] ∧
        (e.apply op).GetExecutedCommandListCount = e.GetExecutedCommandListCount + 1) ∨
      (∃ counted l, op = .ExecuteCommandListAndWaitForCompletion counted l ∧
        (e.apply op).mSubmitted = e.mSubmitted ++ [l] ∧
        (e.apply op).GetExecutedCommandListCount = e.GetExecutedCommandListCount + counted)) := by
  refine ⟨fun _ => rfl, fun e operations h => commandListExecutor_run_count operations e h,
    ?_, fun taskCount budget e e' h => waitForExecuted_count taskCount budget e e' h,
    fun _ _ => rfl, ?_⟩
  · intro e before after h
    have hreset : (e.run (before ++ [.ResetExecutedCommandListCount])).GetExecutedCommandListCount
        = 0 := by
      simp [CommandListExecutor.run, List.foldl_append, CommandListExecutor.apply,
        CommandListExecutor.ResetExecutedCommandListCount,
        CommandListExecutor.GetExecutedCommandListCount]
    refine ⟨hreset, ?_⟩
    rw [hreset]
    exact Nat.zero_le _
  · intro e op h
    cases op with
    | AddCommandList l => exact absurd rfl h
    | ResetExecutedCommandListCount => exact Or.inl rfl
    | consume =>
      cases hp : e.mPending with
      | nil =>
        simp [CommandListExecutor.apply, CommandListExecutor.consume, hp] at h
      | cons l rest =>
        refine Or.inr (Or.inl ⟨l, rest, rfl, rfl, ?_, ?_⟩)
        · simp [CommandListExecutor.apply, CommandListExecutor.consume, hp]
        · simp [CommandListExecutor.apply, CommandListExecutor.consume, hp,
            CommandListExecutor.GetExecutedCommandListCount]
    | ExecuteCommandListAndWaitForCompletion counted l =>
      exact Or.inr (Or.inr ⟨counted, l, rfl, rfl, rfl⟩)

/-- Witness of C12: on the example executor, whose count is 3, pushing a list
and letting the consuming side take two steps leaves a count of 5. -/
theorem executedCommandListCount_is_monotone_between_resets_witness :
    Example.commandListExecutor.GetExecutedCommandListCount = 3 ∧
    (Example.commandListExecutor.run
      [.AddCommandList ⟨3, none, [], true⟩, .consume, .consume]).GetExecutedCommandListCount
      = 5 ∧
    Example.commandListExecutor.GetExecutedCommandListCount ≤
      (Example.commandListExecutor.run
        [.AddCommandList ⟨3, none, [], true⟩, .consume, .consume]).GetExecutedCommandListCount :=
  ⟨rfl, rfl, executedCommandListCount_is_monotone_between_resets.2.1
    Example.commandListExecutor [.AddCommandList ⟨3, none, [], true⟩, .consume, .consume] rfl⟩

theorem ambientLightRecorder_Init_eq (r : AmbientLightCmdListRecorder)
    (baseColorMetalMaskBuffer ambientAccessibilityBuffer renderTargetView : Nat) (w : World) :
    r.Init baseColorMetalMaskBuffer ambientAccessibilityBuffer renderTargetView w =
      if r.ValidateData = false ∧ r.mStartPixelShaderResourceView = 0 ∧ renderTargetView ≠ 0 ∧
          w.mNextShaderResourceView ≠ 0 then
        .ok ({ r with mRenderTargetView := renderTargetView
                      mStartPixelShaderResourceView := w.mNextShaderResourceView },
          w.withShaderResourceViews
            [w.textureView baseColorMetalMaskBuffer, w.textureView ambientAccessibilityBuffer])
      else .error Fault.assertion := by
  by_cases h1 : r.ValidateData = false
  · by_cases h2 : r.mStartPixelShaderResourceView = 0
    · by_cases h3 : renderTargetView = 0
      · simp [AmbientLightCmdListRecorder.Init, AmbientLightCmdListRecorder.InitShaderResourceViews,
          h1, h2, h3, AmbientLightCmdListRecorder.ValidateData, World.CreateShaderResourceViews]
      · by_cases h4 : w.mNextShaderResourceView = 0
        · simp [AmbientLightCmdListRecorder.Init,
            AmbientLightCmdListRecorder.InitShaderResourceViews,
            h1, h2, h3, h4, AmbientLightCmdListRecorder.ValidateData,
            World.CreateShaderResourceViews]
        · simp [AmbientLightCmdListRecorder.Init,
            AmbientLightCmdListRecorder.InitShaderResourceViews,
            h1, h2, h3, h4, AmbientLightCmdListRecorder.ValidateData,
            World.CreateShaderResourceViews, World.withShaderResourceViews, World.textureView]
    · simp [AmbientLightCmdListRecorder.Init, AmbientLightCmdListRecorder.InitShaderResourceViews,
        h1, h2]
  · have h1' : r.ValidateData = true := by simpa using h1
    simp [AmbientLightCmdListRecorder.Init, h1']

/-- C13. `AmbientLightCmdListRecorder::Init` validates its views. It fails an
assertion when the render-target view handle passed to it is zero, and when the
handle of the shader-resource-view table created for its two input buffers is
zero. Whenever it returns, `ValidateData()` is true of the recorder it leaves:
the render-target view handle is the one passed and is non-zero, the table
handle is the one created and is non-zero. It does return when the recorder was
not valid, had no table yet, and both handles are non-zero. -/
theorem ambientLightRecorder_Init_validates_its_views (r : AmbientLightCmdListRecorder)
    (baseColorMetalMaskBuffer ambientAccessibilityBuffer renderTargetView : Nat) (w : World) :
    (renderTargetView = 0 →
      r.Init baseColorMetalMaskBuffer ambientAccessibilityBuffer renderTargetView w
        = .error Fault.assertion) ∧
    ((w.CreateShaderResourceViews [baseColorMetalMaskBuffer, ambientAccessibilityBuffer]
        [(w.textureView baseColorMetalMaskBuffer).desc,
         (w.textureView ambientAccessibilityBuffer).desc] 2).1 = 0 →
      r.Init baseColorMetalMaskBuffer ambientAccessibilityBuffer renderTargetView w
        = .error Fault.assertion) ∧
    (∀ r' w',
      r.Init baseColorMetalMaskBuffer ambientAccessibilityBuffer renderTargetView w
        = .ok (r', w') →
      r'.ValidateData = true ∧
      r'.mRenderTargetView = renderTargetView ∧ r'.mRenderTargetView ≠ 0 ∧
      r'.mStartPixelShaderResourceView =
        (w.CreateShaderResourceViews [baseColorMetalMaskBuffer, ambientAccessibilityBuffer]
          [(w.textureView baseColorMetalMaskBuffer).desc,
           (w.textureView ambientAccessibilityBuffer).desc] 2).1 ∧
      r'.mStartPixelShaderResourceView ≠ 0) ∧
    (r.ValidateData = false → r.mStartPixelShaderResourceView = 0 → renderTargetView ≠ 0 →
      (w.CreateShaderResourceViews [baseColorMetalMaskBuffer, ambientAccessibilityBuffer]
        [(w.textureView baseColorMetalMaskBuffer).desc,
         (w.textureView ambientAccessibilityBuffer).desc] 2).1 ≠ 0 →
      ∃ r' w',
        r.Init baseColorMetalMaskBuffer ambientAccessibilityBuffer renderTargetView w
          = .ok (r', w')) := by
  have hhandle : (w.CreateShaderResourceViews
      [baseColorMetalMaskBuffer, ambientAccessibilityBuffer]
      [(w.textureView baseColorMetalMaskBuffer).desc,
       (w.textureView ambientAccessibilityBuffer).desc] 2).1 = w.mNextShaderResourceView := rfl
  rw [hhandle, ambientLightRecorder_Init_eq]
  refine ⟨?_, ?_, ?_, ?_⟩
  · intro h
    rw [if_neg (by simp [h])]
  · intro h
    rw [if_neg (by simp [h])]
  · intro r' w' h
    split at h
    · rename_i hc
      simp only [Except.ok.injEq, Prod.mk.injEq] at h
      obtain ⟨hr, -⟩ := h
      subst hr
      refine ⟨?_, rfl, hc.2.2.1, rfl, hc.2.2.2⟩
      simp [AmbientLightCmdListRecorder.ValidateData, hc.2.2.1, hc.2.2.2]
    · simp at h
  · intro h1 h2 h3 h4
    rw [if_pos ⟨h1, h2, h3, h4⟩]
    exact ⟨_, _, rfl⟩

/-- Witness of C13: a new recorder in the example process is initialised with the
render-target view `77`, and is then valid; with the null handle `Init` fails. -/
theorem ambientLightRecorder_Init_validates_its_views_witness :
    (AmbientLightCmdListRecorder.create Example.world).1.Init 1 2 0 Example.world
      = .error Fault.assertion ∧
    ∃ r' w', (AmbientLightCmdListRecorder.create Example.world).1.Init 1 2 77 Example.world
        = .ok (r', w') ∧ r'.ValidateData = true := by
  have h := ambientLightRecorder_Init_validates_its_views
    (AmbientLightCmdListRecorder.create Example.world).1 1 2
  refine ⟨(h 0 Example.world).1 rfl, ?_⟩
  obtain ⟨r', w', hok⟩ := (h 77 Example.world).2.2.2 rfl rfl (by decide) (by decide)
  exact ⟨r', w', hok, ((h 77 Example.world).2.2.1 r' w' hok).1⟩

theorem InitSharedPSOAndRootSignature_eq (c : RecorderClass) (w : World) :
    InitSharedPSOAndRootSignature c w =
      if (w.sPSO c).isNone = true ∧ (w.sRootSignature c).isNone = true then
        .ok { w with
          mNextObject := w.mNextObject + 1 + 1
          shared := fun k =>
            if k = c then ⟨some (w.mNextObject + 1), some w.mNextObject⟩ else w.shared k }
      else .error Fault.assertion := by
  by_cases h1 : (w.sPSO c).isNone = true
  · by_cases h2 : (w.sRootSignature c).isNone = true
    · rw [if_pos ⟨h1, h2⟩]
      simp only [World.sPSO, World.sRootSignature] at h1 h2
      simp [InitSharedPSOAndRootSignature, h1, h2, World.sPSO, World.sRootSignature,
        World.CreateObject, World.setRootSignature, World.setPSO]
      funext k
      by_cases hk : k = c <;> simp [hk]
    · rw [if_neg (fun h => h2 h.2)]
      simp only [Bool.not_eq_true] at h2
      simp [InitSharedPSOAndRootSignature, h1, h2]
  · rw [if_neg (fun h => h1 h.1)]
    simp only [Bool.not_eq_true] at h1
    simp [InitSharedPSOAndRootSignature, h1]

theorem ambientLightPass_Init_shared_set (p : AmbientLightPass)
    (baseColorMetalMaskBuffer normalSmoothnessBuffer depthBuffer renderTargetView : Nat)
    (w : World)
    (h : (w.sPSO RecorderClass.AmbientLight).isSome = true ∨
      (w.sRootSignature RecorderClass.AmbientLight).isSome = true) :
    p.Init baseColorMetalMaskBuffer normalSmoothnessBuffer depthBuffer renderTargetView w
      = .error Fault.assertion := by
  have hshared : AmbientLightCmdListRecorder.InitSharedPSOAndRootSignature w
      = .error Fault.assertion := by
    unfold AmbientLightCmdListRecorder.InitSharedPSOAndRootSignature
    rw [InitSharedPSOAndRootSignature_eq, if_neg]
    intro hc
    rcases h with h | h
    · rw [Option.isNone_iff_eq_none] at hc
      rw [hc.1] at h
      simp at h
    · have := hc.2
      rw [Option.isNone_iff_eq_none] at this
      rw [this] at h
      simp at h
  unfold AmbientLightPass.Init
  cases hv : p.ValidateData
  · simp [hshared]
  · simp

/-- C14 (counterexample). In the example process a first `AmbientLightPass::Init`
succeeds and leaves the example pass; `Init` of a further, newly constructed
`AmbientLightPass` in the process state the first one left then fails an
assertion: the shared pipeline state of `AmbientLightCmdListRecorder` already
exists. -/
theorem ambientLightPass_second_Init_fails :
    (AmbientLightPass.create Example.world).1.Init 1 2 3 77
        (AmbientLightPass.create Example.world).2 = .ok Example.ambientLightPass ∧
    (AmbientLightPass.create Example.ambientLightPass.2).1.ValidateData = false ∧
    (AmbientLightPass.create Example.ambientLightPass.2).1.Init 1 2 3 77
        (AmbientLightPass.create Example.ambientLightPass.2).2 = .error Fault.assertion :=
  ⟨rfl, rfl, rfl⟩

/-- C14 (amended). The shared pipeline state and root signature of a recorder
class are created by the one call of `InitSharedPSOAndRootSignature` that finds
both absent: that call returns, having created two new objects and stored them
in the statics of its class only. A call that finds either of them present fails
an assertion, so a call that follows a successful one fails. Hence
`AmbientLightPass::Init` fails an assertion whenever the statics of
`AmbientLightCmdListRecorder` exist, and after one `AmbientLightPass::Init` has
returned every further `AmbientLightPass::Init` in that process fails it. -/
theorem shared_objects_are_created_by_one_guarded_call :
    (∀ (c : RecorderClass) (w : World),
      (w.sPSO c).isNone = true → (w.sRootSignature c).isNone = true →
      ∃ w', InitSharedPSOAndRootSignature c w = .ok w' ∧
        w'.sRootSignature c = some w.mNextObject ∧ w'.sPSO c = some (w.mNextObject + 1) ∧
        (∀ k, k ≠ c → w'.shared k = w.shared k) ∧
        InitSharedPSOAndRootSignature c w' = .error Fault.assertion) ∧
    (∀ (c : RecorderClass) (w : World),
      (w.sPSO c).isSome = true ∨ (w.sRootSignature c).isSome = true →
      InitSharedPSOAndRootSignature c w = .error Fault.assertion) ∧
    (∀ w : World,
      AmbientLightCmdListRecorder.InitSharedPSOAndRootSignature w
        = InitSharedPSOAndRootSignature RecorderClass.AmbientLight w ∧
      PunctualLightCmdListRecorder.InitSharedPSOAndRootSignature w
        = InitSharedPSOAndRootSignature RecorderClass.PunctualLight w) ∧
    (∀ (p : AmbientLightPass)
        (baseColorMetalMaskBuffer normalSmoothnessBuffer depthBuffer renderTargetView : Nat)
        (w : World),
      (w.sPSO RecorderClass.AmbientLight).isSome = true ∨
        (w.sRootSignature RecorderClass.AmbientLight).isSome = true →
      p.Init baseColorMetalMaskBuffer normalSmoothnessBuffer depthBuffer renderTargetView w
        = .error Fault.assertion) ∧
    (∀ (p0 : AmbientLightPass)
        (baseColorMetalMaskBuffer normalSmoothnessBuffer depthBuffer renderTargetView : Nat)
        (w0 : World) (p : AmbientLightPass) (w : World),
      0 < w0.sQueuedFrameCount →
      p0.Init baseColorMetalMaskBuffer normalSmoothnessBuffer depthBuffer renderTargetView w0
        = .ok (p, w) →
      (w0.sPSO RecorderClass.AmbientLight).isNone = true ∧
      (w.sPSO RecorderClass.AmbientLight).isSome = true ∧
      ∀ (q : AmbientLightPass) (b n d rtv : Nat) (w2 : World), w2.shared = w.shared →
        q.Init b n d rtv w2 = .error Fault.assertion) := by
  have hfail : ∀ (c : RecorderClass) (w : World),
      (w.sPSO c).isSome = true ∨ (w.sRootSignature c).isSome = true →
      InitSharedPSOAndRootSignature c w = .error Fault.assertion := by
    intro c w h
    rw [InitSharedPSOAndRootSignature_eq, if_neg]
    intro hc
    rcases h with h | h
    · have := hc.1
      rw [Option.isNone_iff_eq_none] at this
      rw [this] at h
      simp at h
    · have := hc.2
      rw [Option.isNone_iff_eq_none] at this
      rw [this] at h
      simp at h
  refine ⟨?_, hfail, fun w => ⟨rfl, rfl⟩, ?_, ?_⟩
  · intro c w h1 h2
    refine ⟨{ w with
      mNextObject := w.mNextObject + 1 + 1
      shared := fun k =>
        if k = c then ⟨some (w.mNextObject + 1), some w.mNextObject⟩ else w.shared k },
      ?_, ?_, ?_, ?_, ?_⟩
    · rw [InitSharedPSOAndRootSignature_eq, if_pos ⟨h1, h2⟩]
    · simp [World.sRootSignature]
    · simp [World.sPSO]
    · intro k hk
      simp [hk]
    · apply hfail
      left
      simp [World.sPSO]
  · intro p b n d rtv w h
    exact ambientLightPass_Init_shared_set p b n d rtv w h
  · intro p0 b n d rtv w0 p w hN h
    obtain ⟨aa, blur, hAA, hBlur, hready, -⟩ :=
      AmbientLightPass.ambientLightPass_Init_ready p0 b n d rtv w0 p w hN h
    obtain ⟨aa', blur', ao, bl, al, -, -, -, -, -, hf⟩ :=
      AmbientLightPass.ambientLightPass_Ready_elim p w hready
    have hset : (w.sPSO RecorderClass.AmbientLight).isSome = true := hf.2.2.2.2.2.2.2.2.2.2.2.1
    refine ⟨?_, hset, ?_⟩
    · cases hnone : (w0.sPSO RecorderClass.AmbientLight).isNone
      · have hsome : (w0.sPSO RecorderClass.AmbientLight).isSome = true := by
          cases hx : w0.sPSO RecorderClass.AmbientLight with
          | none => rw [hx] at hnone; simp at hnone
          | some x => rfl
        rw [ambientLightPass_Init_shared_set p0 b n d rtv w0 (Or.inl hsome)] at h
        simp at h
      · rfl
    · intro q b' n' d' rtv' w2 hw2
      apply ambientLightPass_Init_shared_set
      left
      simp only [World.sPSO, hw2]
      exact hset

/-- Witness of C14 (amended): in the example process, which has no shared object
yet, `AmbientLightCmdListRecorder::InitSharedPSOAndRootSignature` returns and a
second call fails; and a second `AmbientLightPass::Init` after that of the
example pass fails. -/
theorem shared_objects_are_created_by_one_guarded_call_witness :
    (∃ w', AmbientLightCmdListRecorder.InitSharedPSOAndRootSignature Example.world = .ok w' ∧
      AmbientLightCmdListRecorder.InitSharedPSOAndRootSignature w' = .error Fault.assertion) ∧
    (AmbientLightPass.create Example.ambientLightPass.2).1.Init 1 2 3 77
        (AmbientLightPass.create Example.ambientLightPass.2).2 = .error Fault.assertion := by
  constructor
  · obtain ⟨w', h1, -, -, -, h2⟩ :=
      shared_objects_are_created_by_one_guarded_call.1 RecorderClass.AmbientLight Example.world
        rfl rfl
    exact ⟨w', h1, h2⟩
  · exact (shared_objects_are_created_by_one_guarded_call.2.2.2.2
      (AmbientLightPass.create Example.world).1 1 2 3 77
      (AmbientLightPass.create Example.world).2 Example.ambientLightPass.1
      Example.ambientLightPass.2 (by decide) rfl).2.2 _ 1 2 3 77 _ rfl

theorem ambientLightRecorder_record_eq (r : AmbientLightCmdListRecorder) (w : World) :
    r.RecordAndPushCommandLists w =
      if r.ValidateData = true ∧ (w.sPSO RecorderClass.AmbientLight).isSome = true ∧
          (w.sRootSignature RecorderClass.AmbientLight).isSome = true then
        .ok ({ r with mCommandListPerFrame := r.mCommandListPerFrame.advanced (r.commandList w) },
          w.AddCommandList (r.commandList w))
      else .error Fault.assertion := by
  by_cases hc : r.ValidateData = true ∧ (w.sPSO RecorderClass.AmbientLight).isSome = true ∧
      (w.sRootSignature RecorderClass.AmbientLight).isSome = true
  · rw [if_pos hc]
    exact AmbientLightCmdListRecorder.ambientLightRecorder_record_ok r w hc.1 hc.2.1 hc.2.2
  · rw [if_neg hc]
    cases hv : r.ValidateData <;> cases hp : (w.sPSO RecorderClass.AmbientLight).isSome <;>
      cases hs : (w.sRootSignature RecorderClass.AmbientLight).isSome <;>
      simp [AmbientLightCmdListRecorder.RecordAndPushCommandLists, hv, hp, hs] at hc ⊢

/-- C15. `AmbientLightCmdListRecorder::RecordAndPushCommandLists` checks its
validation before it records. `ValidateData()` holds exactly when the
render-target view handle and the shader-resource-view table handle are both
non-zero. When they are, and the shared pipeline state and root signature exist,
the call takes the next allocator of its ring, records its command list, and
pushes that one list. In every other case the call fails an assertion and
produces no new recorder or process state: no command list is acquired and
nothing is pushed. So every call that returns had all four conditions, and a
call on a newly constructed recorder, on which `Init` has not run, fails. -/
theorem ambientLightRecorder_validates_before_recording (r : AmbientLightCmdListRecorder)
    (w : World) :
    (r.ValidateData = true ↔
      r.mRenderTargetView ≠ 0 ∧ r.mStartPixelShaderResourceView ≠ 0) ∧
    (r.mRenderTargetView ≠ 0 → r.mStartPixelShaderResourceView ≠ 0 →
      (w.sPSO RecorderClass.AmbientLight).isSome = true →
      (w.sRootSignature RecorderClass.AmbientLight).isSome = true →
      r.RecordAndPushCommandLists w = .ok
        ({ r with mCommandListPerFrame := r.mCommandListPerFrame.advanced (r.commandList w) },
          w.AddCommandList (r.commandList w))) ∧
    (r.mRenderTargetView = 0 ∨ r.mStartPixelShaderResourceView = 0 ∨
        w.sPSO RecorderClass.AmbientLight = none ∨
        w.sRootSignature RecorderClass.AmbientLight = none →
      r.RecordAndPushCommandLists w = .error Fault.assertion) ∧
    (∀ r' w', r.RecordAndPushCommandLists w = .ok (r', w') →
      r.mRenderTargetView ≠ 0 ∧ r.mStartPixelShaderResourceView ≠ 0 ∧
      (w.sPSO RecorderClass.AmbientLight).isSome = true ∧
      (w.sRootSignature RecorderClass.AmbientLight).isSome = true ∧
      w'.commandListExecutor.mPending = w.commandListExecutor.mPending ++ [r.commandList w]) ∧
    (∀ w0 : World,
      (AmbientLightCmdListRecorder.create w0).1.RecordAndPushCommandLists w
        = .error Fault.assertion) := by
  have hvalid : ∀ r : AmbientLightCmdListRecorder, r.ValidateData = true ↔
      r.mRenderTargetView ≠ 0 ∧ r.mStartPixelShaderResourceView ≠ 0 := by
    intro r
    simp [AmbientLightCmdListRecorder.ValidateData]
  refine ⟨hvalid r, ?_, ?_, ?_, ?_⟩
  · intro h1 h2 h3 h4
    rw [ambientLightRecorder_record_eq, if_pos ⟨(hvalid r).2 ⟨h1, h2⟩, h3, h4⟩]
  · intro h
    rw [ambientLightRecorder_record_eq, if_neg]
    rintro ⟨hv, hp, hs⟩
    have hv' := (hvalid r).1 hv
    rcases h with h | h | h | h
    · exact hv'.1 h
    · exact hv'.2 h
    · rw [h] at hp; simp at hp
    · rw [h] at hs; simp at hs
  · intro r' w' h
    rw [ambientLightRecorder_record_eq] at h
    split at h
    · rename_i hc
      simp only [Except.ok.injEq, Prod.mk.injEq] at h
      obtain ⟨-, hw⟩ := h
      subst hw
      exact ⟨((hvalid r).1 hc.1).1, ((hvalid r).1 hc.1).2, hc.2.1, hc.2.2, rfl⟩
    · simp at h
  · intro w0
    rw [ambientLightRecorder_record_eq, if_neg]
    rintro ⟨hv, -⟩
    simp [AmbientLightCmdListRecorder.ValidateData, AmbientLightCmdListRecorder.create] at hv

/-- Witness of C15: the initialised ambient-light recorder of the example pass
records and pushes one list; a recorder that was only constructed fails. -/
theorem ambientLightRecorder_validates_before_recording_witness :
    (∃ r' w', Example.ambientLightRecorder.RecordAndPushCommandLists Example.ambientLightPass.2
        = .ok (r', w') ∧ w'.commandListExecutor.mPending.length = 1) ∧
    (AmbientLightCmdListRecorder.create Example.world).1.RecordAndPushCommandLists
        Example.ambientLightPass.2 = .error Fault.assertion := by
  constructor
  · have h := (ambientLightRecorder_validates_before_recording Example.ambientLightRecorder
      Example.ambientLightPass.2).2.1 (by decide) (by decide) rfl rfl
    exact ⟨_, _, h, rfl⟩
  · exact (ambientLightRecorder_validates_before_recording
      (AmbientLightCmdListRecorder.create Example.world).1 Example.ambientLightPass.2).2.2.1
      (Or.inl rfl)

theorem sceneExecutor_destructor_eq (e : SceneExecutor) (s : Systems)
    (h : e.mRenderManager.isSome = true) :
    e.destructor s = .ok
      { mTerminate := true
        mTaskSchedulerActive := false
        mObjectCount := fun _ => 0
        calls := s.calls ++
          [.RenderManagerTerminate, .TaskSchedulerTerminate,
           .EraseAll .CommandAllocatorManager, .EraseAll .CommandListManager,
           .EraseAll .CommandQueueManager, .EraseAll .FenceManager, .EraseAll .PSOManager,
           .EraseAll .ResourceManager, .EraseAll .RootSignatureManager,
           .EraseAll .ShaderManager, .EraseAll .UploadBufferManager] } := by
  simp only [SceneExecutor.destructor, h, ASSERT_true, ok_bind, pure_eq_ok, FinalizeSystems,
    Systems.Terminate, Systems.terminate, Systems.EraseAll, List.append_assoc,
    List.singleton_append, List.cons_append, List.nil_append, Except.ok.injEq,
    Systems.mk.injEq, true_and, and_true]
  funext m
  cases m <;> simp

/-- C16. On shutdown the render manager is terminated before anything is torn
down. `SceneExecutor::~SceneExecutor`, on an executor that has its render
manager, returns having made exactly these calls, in this order:
`RenderManager::Terminate`, the termination of the task scheduler, and then the
`EraseAll` of the command allocators, command lists, command queues, fences,
pipeline states, resources, root signatures, shaders and upload buffers. So
every `EraseAll` among the calls it makes comes after both terminations, and
when it returns the render manager is terminated and every manager is empty.
`FinalizeSystems` itself makes the nine `EraseAll` calls and nothing else, and a
destructor that finds no render manager fails its assertion before any call. -/
theorem sceneExecutor_terminates_before_teardown (e : SceneExecutor) (s : Systems) :
    (e.mRenderManager.isSome = true →
      ∃ s', e.destructor s = .ok s' ∧
        s'.calls = s.calls ++
          [.RenderManagerTerminate, .TaskSchedulerTerminate,
           .EraseAll .CommandAllocatorManager, .EraseAll .CommandListManager,
           .EraseAll .CommandQueueManager, .EraseAll .FenceManager, .EraseAll .PSOManager,
           .EraseAll .ResourceManager, .EraseAll .RootSignatureManager,
           .EraseAll .ShaderManager, .EraseAll .UploadBufferManager] ∧
        (∀ (i : Nat) (manager : Manager),
          (s'.calls.drop s.calls.length).get? i = some (.EraseAll manager) →
          (s'.calls.drop s.calls.length).get? 0 = some .RenderManagerTerminate ∧
          (s'.calls.drop s.calls.length).get? 1 = some .TaskSchedulerTerminate ∧ 1 < i) ∧
        s'.mTerminate = true ∧ s'.mTaskSchedulerActive = false ∧
        ∀ manager, s'.mObjectCount manager = 0) ∧
    (FinalizeSystems s).calls = s.calls ++
      [.EraseAll .CommandAllocatorManager, .EraseAll .CommandListManager,
       .EraseAll .CommandQueueManager, .EraseAll .FenceManager, .EraseAll .PSOManager,
       .EraseAll .ResourceManager, .EraseAll .RootSignatureManager,
       .EraseAll .ShaderManager, .EraseAll .UploadBufferManager] ∧
    (FinalizeSystems s).mTerminate = s.mTerminate ∧
    (e.mRenderManager = none → e.destructor s = .error Fault.assertion) := by
  refine ⟨?_, ?_, ?_, ?_⟩
  · intro h
    refine ⟨_, sceneExecutor_destructor_eq e s h, ?_, ?_, ?_, ?_, ?_⟩
    · rfl
    · intro i manager hi
      simp only [List.drop_left] at hi ⊢
      refine ⟨rfl, rfl, ?_⟩
      match i, hi with
      | 0, hi => simp at hi
      | 1, hi => simp at hi
      | i + 2, _ => omega
    · rfl
    · rfl
    · intro _
      rfl
  · simp [FinalizeSystems, Systems.EraseAll]
  · simp [FinalizeSystems, Systems.EraseAll]
  · intro h
    simp [SceneExecutor.destructor, h]

/-- Witness of C16: the destructor of an executor with a render manager, in the
running example process, returns with the render manager terminated; its third
call is the first `EraseAll`. -/
theorem sceneExecutor_terminates_before_teardown_witness :
    ∃ s', (SceneExecutor.mk (some 1)).destructor Example.systems = .ok s' ∧
      s'.mTerminate = true ∧
      s'.calls.get? 0 = some .RenderManagerTerminate ∧
      s'.calls.get? 2 = some (.EraseAll .CommandAllocatorManager) := by
  obtain ⟨s', h, hcalls, -, hterm, -⟩ :=
    (sceneExecutor_terminates_before_teardown (SceneExecutor.mk (some 1)) Example.systems).1 rfl
  refine ⟨s', h, hterm, ?_, ?_⟩
  · rw [hcalls]; rfl
  · rw [hcalls]; rfl

theorem ambientLightPass_begin_inv (p : AmbientLightPass) (w : World) (p1 : AmbientLightPass)
    (w1 : World) (h : p.ExecuteBeginTask w = .ok (p1, w1)) :
    ∃ aa blur, p.mAmbientAccessibilityBuffer = some aa ∧ p.mBlurBuffer = some blur ∧
      p1.mAmbientAccessibilityBuffer = some aa ∧ p1.mBlurBuffer = some blur ∧
      w.resourceStateManager.mStateByResource aa
        = some D3D12_RESOURCE_STATE_PIXEL_SHADER_RESOURCE ∧
      w.resourceStateManager.mStateByResource blur
        = some D3D12_RESOURCE_STATE_PIXEL_SHADER_RESOURCE ∧
      w1.resourceStateManager = w.resourceStateManager.transitioned aa
        D3D12_RESOURCE_STATE_PIXEL_SHADER_RESOURCE D3D12_RESOURCE_STATE_RENDER_TARGET := by
  have h0 := h
  simp only [AmbientLightPass.ExecuteBeginTask, bind_eq_ok, ASSERT_eq_ok] at h0
  obtain ⟨_, hv, aa, haa, blur, hblur, s1, hs1, _, hd1, s2, hs2, _, hd2, -⟩ := h0
  have hAA : p.mAmbientAccessibilityBuffer = some aa := by
    cases hx : p.mAmbientAccessibilityBuffer with
    | none => rw [hx] at haa; simp at haa
    | some x => rw [hx] at haa; simp at haa; rw [haa]
  have hBlur : p.mBlurBuffer = some blur := by
    cases hx : p.mBlurBuffer with
    | none => rw [hx] at hblur; simp at hblur
    | some x => rw [hx] at hblur; simp at hblur; rw [hblur]
  simp only [decide_eq_true_eq] at hd1 hd2
  subst hd1 hd2
  rw [World.get_ok_iff] at hs1 hs2
  rw [AmbientLightPass.ambientLightPass_begin_ok p w aa blur hAA hBlur hv hs1 hs2] at h
  simp only [Except.ok.injEq, Prod.mk.injEq] at h
  obtain ⟨hp, hw⟩ := h
  subst hp hw
  exact ⟨aa, blur, hAA, hBlur, hAA, hBlur, hs1, hs2, rfl⟩

theorem ambientLightPass_middle_inv (p : AmbientLightPass) (w : World) (p1 : AmbientLightPass)
    (w1 : World) (h : p.ExecuteMiddleTask w = .ok (p1, w1)) :
    ∃ aa blur, p.mAmbientAccessibilityBuffer = some aa ∧ p.mBlurBuffer = some blur ∧
      p1.mAmbientAccessibilityBuffer = some aa ∧ p1.mBlurBuffer = some blur ∧
      w1.resourceStateManager = (w.resourceStateManager.transitioned aa
        D3D12_RESOURCE_STATE_RENDER_TARGET
        D3D12_RESOURCE_STATE_PIXEL_SHADER_RESOURCE).transitioned blur
        D3D12_RESOURCE_STATE_PIXEL_SHADER_RESOURCE D3D12_RESOURCE_STATE_RENDER_TARGET := by
  have h0 := h
  simp only [AmbientLightPass.ExecuteMiddleTask, bind_eq_ok, ASSERT_eq_ok] at h0
  obtain ⟨_, hv, aa, haa, blur, hblur, s1, hs1, _, hd1, s2, hs2, _, hd2, -⟩ := h0
  have hAA : p.mAmbientAccessibilityBuffer = some aa := by
    cases hx : p.mAmbientAccessibilityBuffer with
    | none => rw [hx] at haa; simp at haa
    | some x => rw [hx] at haa; simp at haa; rw [haa]
  have hBlur : p.mBlurBuffer = some blur := by
    cases hx : p.mBlurBuffer with
    | none => rw [hx] at hblur; simp at hblur
    | some x => rw [hx] at hblur; simp at hblur; rw [hblur]
  simp only [decide_eq_true_eq] at hd1 hd2
  subst hd1 hd2
  rw [World.get_ok_iff] at hs1 hs2
  have hne : aa ≠ blur := by
    intro heq
    rw [heq, hs2] at hs1
    exact absurd (Option.some.inj hs1) PSR_ne_RT
  rw [AmbientLightPass.ambientLightPass_middle_ok p w aa blur hAA hBlur hne hv hs1 hs2] at h
  simp only [Except.ok.injEq, Prod.mk.injEq] at h
  obtain ⟨hp, hw⟩ := h
  subst hp hw
  exact ⟨aa, blur, hAA, hBlur, hAA, hBlur, rfl⟩

theorem ambientLightPass_final_inv (p : AmbientLightPass) (w : World) (p1 : AmbientLightPass)
    (w1 : World) (h : p.ExecuteFinalTask w = .ok (p1, w1)) :
    ∃ aa blur, p.mAmbientAccessibilityBuffer = some aa ∧ p.mBlurBuffer = some blur ∧
      p1.mAmbientAccessibilityBuffer = some aa ∧ p1.mBlurBuffer = some blur ∧
      w1.resourceStateManager = w.resourceStateManager.transitioned blur
        D3D12_RESOURCE_STATE_RENDER_TARGET D3D12_RESOURCE_STATE_PIXEL_SHADER_RESOURCE := by
  have h0 := h
  simp only [AmbientLightPass.ExecuteFinalTask, bind_eq_ok, ASSERT_eq_ok] at h0
  obtain ⟨_, hv, aa, haa, blur, hblur, s1, hs1, _, hd1, s2, hs2, _, hd2, -⟩ := h0
  have hAA : p.mAmbientAccessibilityBuffer = some aa := by
    cases hx : p.mAmbientAccessibilityBuffer with
    | none => rw [hx] at haa; simp at haa
    | some x => rw [hx] at haa; simp at haa; rw [haa]
  have hBlur : p.mBlurBuffer = some blur := by
    cases hx : p.mBlurBuffer with
    | none => rw [hx] at hblur; simp at hblur
    | some x => rw [hx] at hblur; simp at hblur; rw [hblur]
  simp only [decide_eq_true_eq] at hd1 hd2
  subst hd1 hd2
  rw [World.get_ok_iff] at hs1 hs2
  rw [AmbientLightPass.ambientLightPass_final_ok p w aa blur hAA hBlur hv hs1 hs2] at h
  simp only [Except.ok.injEq, Prod.mk.injEq] at h
  obtain ⟨hp, hw⟩ := h
  subst hp hw
  exact ⟨aa, blur, hAA, hBlur, hAA, hBlur, rfl⟩

theorem screenSpaceRecorder_record_inv (r : ScreenSpaceCmdListRecorder)
    (frameConstants : Option FrameCBuffer) (w : World) (r' : ScreenSpaceCmdListRecorder)
    (w' : World) (h : r.RecordAndPushCommandLists frameConstants w = .ok (r', w')) :
    w' = w.AddCommandList (r.commandList w) := by
  have hguards : r.ValidateData = true ∧ (w.sPSO r.cls).isSome = true ∧
      (w.sRootSignature r.cls).isSome = true := by
    cases hv : r.ValidateData <;> cases hp : (w.sPSO r.cls).isSome <;>
      cases hs : (w.sRootSignature r.cls).isSome <;>
      simp [ScreenSpaceCmdListRecorder.RecordAndPushCommandLists, hv, hp, hs] at h ⊢
  obtain ⟨hv, hp, hs⟩ := hguards
  cases frameConstants with
  | none =>
    rw [ScreenSpaceCmdListRecorder.screenSpaceRecorder_record_none_ok r w hv hp hs] at h
    simp only [Except.ok.injEq, Prod.mk.injEq] at h
    exact h.2.symm
  | some frameCBuffer =>
    have hslot : r.mFrameUploadCBufferPerFrame.mCurrentFrameIndex <
        r.mFrameUploadCBufferPerFrame.mFrameCBuffers.length := by
      by_contra hlt
      have hnone : r.mFrameUploadCBufferPerFrame.mFrameCBuffers[
          r.mFrameUploadCBufferPerFrame.mCurrentFrameIndex]? = none :=
        List.getElem?_eq_none (by omega)
      simp [ScreenSpaceCmdListRecorder.RecordAndPushCommandLists, hv, hp, hs,
        FrameUploadCBufferPerFrame.GetNextFrameCBuffer, hnone] at h
    rw [ScreenSpaceCmdListRecorder.screenSpaceRecorder_record_some_ok r frameCBuffer w hv hp hs
      hslot] at h
    simp only [Except.ok.injEq, Prod.mk.injEq] at h
    exact h.2.symm

theorem World.waitForExecuted_inv (w : World) (taskCount budget : Nat) (w' : World)
    (h : w.waitForExecuted taskCount budget = .ok w') :
    w'.resourceStateManager = w.resourceStateManager := by
  simp only [World.waitForExecuted, bind_eq_ok, pure_eq_ok, Except.ok.injEq] at h
  obtain ⟨e, -, hw⟩ := h
  rw [← hw]

theorem deref_eq_ok {α : Type} (o : Option α) (a : α) : deref o = .ok a ↔ o = some a := by
  cases o <;> simp [deref]

theorem ambientLightPass_Execute_inv (p : AmbientLightPass) (frameCBuffer : FrameCBuffer)
    (budget : Nat) (w : World) (p' : AmbientLightPass) (w' : World)
    (h : p.Execute frameCBuffer budget w = .ok (p', w')) :
    ∃ aa blur, p.mAmbientAccessibilityBuffer = some aa ∧ p.mBlurBuffer = some blur ∧
      w'.resourceStateManager
        = AmbientLightPass.trackerAfterExecute w.resourceStateManager aa blur := by
  simp only [AmbientLightPass.Execute, bind_eq_ok, ASSERT_eq_ok, deref_eq_ok, pure_eq_ok,
    Except.ok.injEq, Prod.mk.injEq] at h
  obtain ⟨_, -, ⟨p1, w1⟩, hbegin, ao, -, ⟨r2, w2⟩, hrec2, ⟨p3, w3⟩, hmid, bl, -, ⟨r4, w4⟩,
    hrec4, ⟨p5, w5⟩, hfin, al, -, ⟨r6, w6⟩, hrec6, w7, hwait, -, hw⟩ := h
  subst hw
  obtain ⟨aa, blur, hAA, hBlur, hAA1, hBlur1, -, -, ht1⟩ :=
    ambientLightPass_begin_inv p _ p1 w1 hbegin
  have ht2 := screenSpaceRecorder_record_inv ao _ w1 r2 w2 hrec2
  obtain ⟨aa3, blur3, hAA3, hBlur3, hAA3', hBlur3', ht3⟩ :=
    ambientLightPass_middle_inv _ w2 p3 w3 hmid
  have ht4 := screenSpaceRecorder_record_inv bl _ w3 r4 w4 hrec4
  obtain ⟨aa5, blur5, hAA5, hBlur5, -, -, ht5⟩ := ambientLightPass_final_inv _ w4 p5 w5 hfin
  obtain ⟨hv6, hp6, hs6⟩ := ambientLightRecorder_record_inv al w5 r6 w6 hrec6
  rw [AmbientLightCmdListRecorder.ambientLightRecorder_record_ok al w5 hv6 hp6 hs6] at hrec6
  simp only [Except.ok.injEq, Prod.mk.injEq] at hrec6
  have ht6 := hrec6.2
  have ht7 := World.waitForExecuted_inv w6 _ _ w7 hwait
  simp only at hAA3 hBlur3 hAA5 hBlur5
  rw [hAA1] at hAA3
  rw [hBlur1] at hBlur3
  rw [hAA3'] at hAA5
  rw [hBlur3'] at hBlur5
  simp only [Option.some.injEq] at hAA3 hBlur3 hAA5 hBlur5
  subst hAA3 hBlur3 hAA5 hBlur5
  refine ⟨aa, blur, hAA, hBlur, ?_⟩
  rw [ht7, ← ht6]
  simp only [World.AddCommandList]
  rw [ht5, ht4]
  simp only [World.AddCommandList]
  rw [ht3, ht2]
  simp only [World.AddCommandList]
  rw [ht1]
  rfl

theorem toneMappingPass_begin_inv (p : ToneMappingPass) (counted : Nat) (w : World)
    (p1 : ToneMappingPass) (w1 : World) (h : p.ExecuteBeginTask counted w = .ok (p1, w1)) :
    ∃ input output, p.mInputColorBuffer = some input ∧ p.mOutputColorBuffer = some output ∧
      w.resourceStateManager.mStateByResource input
        = some D3D12_RESOURCE_STATE_RENDER_TARGET ∧
      w.resourceStateManager.mStateByResource output
        = some D3D12_RESOURCE_STATE_PIXEL_SHADER_RESOURCE ∧
      w1.resourceStateManager
        = ToneMappingPass.trackerAfterExecute w.resourceStateManager input output := by
  have h0 := h
  simp only [ToneMappingPass.ExecuteBeginTask, bind_eq_ok, ASSERT_eq_ok, deref_eq_ok] at h0
  obtain ⟨_, hv, input, hIn, output, hOut, s1, hs1, _, hd1, s2, hs2, _, hd2, -⟩ := h0
  simp only [decide_eq_true_eq] at hd1 hd2
  subst hd1 hd2
  rw [World.get_ok_iff] at hs1 hs2
  rw [toneMappingPass_begin_ok p counted w input output hIn hOut hv hs1 hs2] at h
  simp only [Except.ok.injEq, Prod.mk.injEq] at h
  obtain ⟨-, hw⟩ := h
  subst hw
  exact ⟨input, output, hIn, hOut, hs1, hs2, rfl⟩

theorem toneMappingPass_Execute_inv (p : ToneMappingPass) (counted budget : Nat) (w : World)
    (p' : ToneMappingPass) (w' : World) (h : p.Execute counted budget w = .ok (p', w')) :
    ∃ input output, p.mInputColorBuffer = some input ∧ p.mOutputColorBuffer = some output ∧
      w'.resourceStateManager
        = ToneMappingPass.trackerAfterExecute w.resourceStateManager input output := by
  simp only [ToneMappingPass.Execute, bind_eq_ok, ASSERT_eq_ok, deref_eq_ok, pure_eq_ok,
    Except.ok.injEq, Prod.mk.injEq] at h
  obtain ⟨_, -, ⟨p1, w1⟩, hbegin, r, -, ⟨r2, w2⟩, hrec, w3, hwait, -, hw⟩ := h
  subst hw
  obtain ⟨input, output, hIn, hOut, -, -, ht1⟩ := toneMappingPass_begin_inv p counted w p1 w1 hbegin
  have ht2 := screenSpaceRecorder_record_inv r _ _ r2 w2 hrec
  have ht3 := World.waitForExecuted_inv w2 _ _ w3 hwait
  refine ⟨input, output, hIn, hOut, ?_⟩
  rw [ht3, ht2]
  simp only [World.AddCommandList, World.ResetExecutedCommandListCount]
  exact ht1

/-- C17. The transitions of a pass are unconditional. Whenever
`AmbientLightPass::Execute` returns, the tracker it leaves is the tracker it
found after the four transitions on the two buffers of the pass, whatever the
frame constants, the wait budget, the recorders of the pass and the rest of the
process state; so two runs on passes with the same two buffers that start from
the same tracker request the same transitions and leave the same tracker. The
same holds of `ToneMappingPass::Execute` with its two transitions. From a state
as `Init` leaves it, with the buffers tracked in the states the pass expects,
`Execute` does return for every value of the frame constants. -/
theorem pass_transitions_are_unconditional :
    (∀ (p : AmbientLightPass) (frameCBuffer : FrameCBuffer) (budget : Nat) (w : World)
        (p' : AmbientLightPass) (w' : World),
      p.Execute frameCBuffer budget w = .ok (p', w') →
      ∃ aa blur, p.mAmbientAccessibilityBuffer = some aa ∧ p.mBlurBuffer = some blur ∧
        w'.resourceStateManager
          = AmbientLightPass.trackerAfterExecute w.resourceStateManager aa blur ∧
        w'.resourceStateManager.requests = w.resourceStateManager.requests ++
          [⟨aa, D3D12_RESOURCE_STATE_PIXEL_SHADER_RESOURCE, D3D12_RESOURCE_STATE_RENDER_TARGET⟩,
           ⟨aa, D3D12_RESOURCE_STATE_RENDER_TARGET, D3D12_RESOURCE_STATE_PIXEL_SHADER_RESOURCE⟩,
           ⟨blur, D3D12_RESOURCE_STATE_PIXEL_SHADER_RESOURCE, D3D12_RESOURCE_STATE_RENDER_TARGET⟩,
           ⟨blur, D3D12_RESOURCE_STATE_RENDER_TARGET,
             D3D12_RESOURCE_STATE_PIXEL_SHADER_RESOURCE⟩]) ∧
    (∀ (p1 p2 : AmbientLightPass) (frameCBuffer1 frameCBuffer2 : FrameCBuffer)
        (budget1 budget2 : Nat) (w1 w2 : World) (p1' p2' : AmbientLightPass) (w1' w2' : World),
      p1.mAmbientAccessibilityBuffer = p2.mAmbientAccessibilityBuffer →
      p1.mBlurBuffer = p2.mBlurBuffer →
      w1.resourceStateManager = w2.resourceStateManager →
      p1.Execute frameCBuffer1 budget1 w1 = .ok (p1', w1') →
      p2.Execute frameCBuffer2 budget2 w2 = .ok (p2', w2') →
      w1'.resourceStateManager = w2'.resourceStateManager) ∧
    (∀ (p : AmbientLightPass) (w : World) (aa blur : Nat) (frameCBuffer : FrameCBuffer)
        (budget : Nat),
      p.mAmbientAccessibilityBuffer = some aa → p.mBlurBuffer = some blur →
      p.Ready w = true →
      w.GetResourceState aa = .ok D3D12_RESOURCE_STATE_PIXEL_SHADER_RESOURCE →
      w.GetResourceState blur = .ok D3D12_RESOURCE_STATE_PIXEL_SHADER_RESOURCE →
      AmbientLightPass.taskCount ≤ budget →
      ∃ p' w', p.Execute frameCBuffer budget w = .ok (p', w')) ∧
    (∀ (p : ToneMappingPass) (counted budget : Nat) (w : World) (p' : ToneMappingPass)
        (w' : World),
      p.Execute counted budget w = .ok (p', w') →
      ∃ input output, p.mInputColorBuffer = some input ∧ p.mOutputColorBuffer = some output ∧
        w'.resourceStateManager
          = ToneMappingPass.trackerAfterExecute w.resourceStateManager input output ∧
        w'.resourceStateManager.requests = w.resourceStateManager.requests ++
          [⟨input, D3D12_RESOURCE_STATE_RENDER_TARGET,
             D3D12_RESOURCE_STATE_PIXEL_SHADER_RESOURCE⟩,
           ⟨output, D3D12_RESOURCE_STATE_PIXEL_SHADER_RESOURCE,
             D3D12_RESOURCE_STATE_RENDER_TARGET⟩]) ∧
    (∀ (p1 p2 : ToneMappingPass) (counted1 counted2 budget1 budget2 : Nat) (w1 w2 : World)
        (p1' p2' : ToneMappingPass) (w1' w2' : World),
      p1.mInputColorBuffer = p2.mInputColorBuffer →
      p1.mOutputColorBuffer = p2.mOutputColorBuffer →
      w1.resourceStateManager = w2.resourceStateManager →
      p1.Execute counted1 budget1 w1 = .ok (p1', w1') →
      p2.Execute counted2 budget2 w2 = .ok (p2', w2') →
      w1'.resourceStateManager = w2'.resourceStateManager) ∧
    (∀ (p : ToneMappingPass) (w : World) (input output counted budget : Nat),
      p.mInputColorBuffer = some input → p.mOutputColorBuffer = some output →
      p.Ready w = true →
      w.GetResourceState input = .ok D3D12_RESOURCE_STATE_RENDER_TARGET →
      w.GetResourceState output = .ok D3D12_RESOURCE_STATE_PIXEL_SHADER_RESOURCE →
      1 ≤ budget →
      ∃ p' w', p.Execute counted budget w = .ok (p', w')) := by
  refine ⟨?_, ?_, ?_, ?_, ?_, ?_⟩
  · intro p frameCBuffer budget w p' w' h
    obtain ⟨aa, blur, hAA, hBlur, ht⟩ := ambientLightPass_Execute_inv p frameCBuffer budget w p' w' h
    refine ⟨aa, blur, hAA, hBlur, ht, ?_⟩
    rw [ht]
    simp [AmbientLightPass.trackerAfterExecute, ResourceStateManager.transitioned]
  · intro p1 p2 frameCBuffer1 frameCBuffer2 budget1 budget2 w1 w2 p1' p2' w1' w2' hAA hBlur ht
      h1 h2
    obtain ⟨aa1, blur1, hAA1, hBlur1, ht1⟩ := ambientLightPass_Execute_inv p1 _ _ w1 p1' w1' h1
    obtain ⟨aa2, blur2, hAA2, hBlur2, ht2⟩ := ambientLightPass_Execute_inv p2 _ _ w2 p2' w2' h2
    rw [hAA1, hAA2] at hAA
    rw [hBlur1, hBlur2] at hBlur
    simp only [Option.some.injEq] at hAA hBlur
    rw [ht1, ht2, hAA, hBlur, ht]
  · intro p w aa blur frameCBuffer budget hAA hBlur hready h1 h2 hbudget
    obtain ⟨aa', blur', ao, bl, al, hAA', hBlur', hAO, hBL, hAL, hf⟩ :=
      AmbientLightPass.ambientLightPass_Ready_elim p w hready
    rw [hAA] at hAA'
    rw [hBlur] at hBlur'
    simp only [Option.some.injEq] at hAA' hBlur'
    subst hAA' hBlur'
    obtain ⟨p', w', h, -⟩ := AmbientLightPass.ambientLightPass_Execute_summary p w frameCBuffer
      budget aa blur ao bl al hAA hBlur hAO hBL hAL hf ((World.get_ok_iff _ _ _).1 h1)
      ((World.get_ok_iff _ _ _).1 h2) hbudget
    exact ⟨p', w', h⟩
  · intro p counted budget w p' w' h
    obtain ⟨input, output, hIn, hOut, ht⟩ := toneMappingPass_Execute_inv p counted budget w p' w' h
    refine ⟨input, output, hIn, hOut, ht, ?_⟩
    rw [ht]
    simp [ToneMappingPass.trackerAfterExecute, ResourceStateManager.transitioned]
  · intro p1 p2 counted1 counted2 budget1 budget2 w1 w2 p1' p2' w1' w2' hIn hOut ht h1 h2
    obtain ⟨i1, o1, hIn1, hOut1, ht1⟩ := toneMappingPass_Execute_inv p1 _ _ w1 p1' w1' h1
    obtain ⟨i2, o2, hIn2, hOut2, ht2⟩ := toneMappingPass_Execute_inv p2 _ _ w2 p2' w2' h2
    rw [hIn1, hIn2] at hIn
    rw [hOut1, hOut2] at hOut
    simp only [Option.some.injEq] at hIn hOut
    rw [ht1, ht2, hIn, hOut, ht]
  · intro p w input output counted budget hIn hOut hready h1 h2 hbudget
    obtain ⟨r, hr, hv, hrv, hs1, hs2⟩ :=
      toneMappingPass_Ready_elim p w input output hIn hOut hready
    have heq := toneMappingPass_Execute_eq p counted budget w input output r hIn hOut hr hrv
      hs1 hs2 ((World.get_ok_iff _ _ _).1 h1) ((World.get_ok_iff _ _ _).1 h2)
    simp only [World.waitForExecuted] at heq
    rw [CommandListExecutor.waitForExecuted_ok 1 budget _ (by simp) (by simpa using hbudget)]
      at heq
    simp only [ok_bind, pure_eq_ok] at heq
    exact ⟨_, _, heq⟩

/-- Witness of C17: on the example pass, a run with the example frame constants
and a run with empty frame constants both return and leave the same tracker. -/
theorem pass_transitions_are_unconditional_witness :
    ∃ p1 w1 p2 w2,
      Example.ambientLightPass.1.Execute Example.frameCBuffer 5 Example.ambientLightPass.2
        = .ok (p1, w1) ∧
      Example.ambientLightPass.1.Execute [] 9 Example.ambientLightPass.2 = .ok (p2, w2) ∧
      w1.resourceStateManager = w2.resourceStateManager := by
  obtain ⟨p1, w1, h1⟩ := pass_transitions_are_unconditional.2.2.1 Example.ambientLightPass.1
    Example.ambientLightPass.2 115 116 Example.frameCBuffer 5 (by decide) (by decide)
    (by decide) rfl rfl (by decide)
  obtain ⟨p2, w2, h2⟩ : ∃ p2 w2, Example.ambientLightPass.1.Execute [] 9
      Example.ambientLightPass.2 = .ok (p2, w2) := ⟨_, _, rfl⟩
  exact ⟨p1, w1, p2, w2, h1, h2,
    pass_transitions_are_unconditional.2.1 _ _ _ _ _ _ _ _ p1 p2 w1 w2 rfl rfl rfl h1 h2⟩

theorem onlyAsserts_ASSERT (b : Bool) : onlyAsserts (ASSERT b) := by
  intro e h
  cases b
  · simp at h
    exact h.symm
  · simp at h

theorem onlyAsserts_ok {α : Type} (a : α) : onlyAsserts (Except.ok a : Except Fault α) := by
  intro e h
  cases h

theorem onlyAsserts_bind {α β : Type} (x : Except Fault α) (f : α → Except Fault β)
    (hx : onlyAsserts x) (hf : ∀ a, x = .ok a → onlyAsserts (f a)) : onlyAsserts (x >>= f) := by
  intro e h
  cases hxa : x with
  | error e' =>
    rw [hxa] at h
    simp at h
    rw [← h]
    exact hx e' hxa
  | ok a =>
    rw [hxa] at h
    exact hf a hxa e h

theorem CopyData_ok (b : UploadBuffer) (elemIndex : Nat) (srcData : List Nat) (srcDataSize : Nat) :
    b.CopyData elemIndex (some srcData) srcDataSize = .ok
      { b with
        mMappedData :=
          memcpy b.mMappedData ((elemIndex * b.mElemSize) % 2 ^ 64) srcData srcDataSize } := by
  simp [UploadBuffer.CopyData]

theorem onlyAsserts_CreateUploadBuffer (w : World) (elemSize elemCount : Nat) :
    onlyAsserts (w.CreateUploadBuffer elemSize elemCount) := by
  unfold World.CreateUploadBuffer
  refine onlyAsserts_bind _ _ (onlyAsserts_ASSERT _) fun _ _ => ?_
  refine onlyAsserts_bind _ _ (onlyAsserts_ASSERT _) fun _ _ => ?_
  exact onlyAsserts_ok _

theorem onlyAsserts_InitConstantBuffers (r : PunctualLightCmdListRecorder) (w : World) :
    onlyAsserts (r.InitConstantBuffers w) := by
  unfold PunctualLightCmdListRecorder.InitConstantBuffers
  refine onlyAsserts_bind _ _ (onlyAsserts_CreateUploadBuffer _ _ _) fun a _ => ?_
  simp only [CopyData_ok, ok_bind, pure_eq_ok]
  exact onlyAsserts_ok _

theorem copyLights_ok (sizeofPunctualLight : Nat) (lights : List Nat) :
    ∀ (remaining i : Nat) (buffer : UploadBuffer),
      ∃ buffer', PunctualLightCmdListRecorder.copyLights sizeofPunctualLight lights remaining i
        buffer = .ok buffer' ∧ buffer'.mBuffer = buffer.mBuffer := by
  intro remaining
  induction remaining with
  | zero => intro i buffer; exact ⟨buffer, rfl, rfl⟩
  | succ n ih =>
    intro i buffer
    simp only [PunctualLightCmdListRecorder.copyLights, CopyData_ok, ok_bind]
    obtain ⟨b', h, hb⟩ := ih (i + 1) _
    exact ⟨b', h, hb⟩

theorem onlyAsserts_CreateLightBuffersAndViews (r : PunctualLightCmdListRecorder)
    (lights : Option (List Nat)) (w : World) :
    onlyAsserts (r.CreateLightBuffersAndViews lights w) := by
  unfold PunctualLightCmdListRecorder.CreateLightBuffersAndViews
  refine onlyAsserts_bind _ _ (onlyAsserts_ASSERT _) fun _ h1 => ?_
  refine onlyAsserts_bind _ _ (onlyAsserts_ASSERT _) fun _ h2 => ?_
  refine onlyAsserts_bind _ _ (onlyAsserts_ASSERT _) fun _ h3 => ?_
  refine onlyAsserts_bind _ _ (onlyAsserts_CreateUploadBuffer _ _ _) fun a _ => ?_
  rw [ASSERT_eq_ok] at h2
  cases lights with
  | none => simp at h2
  | some l =>
    simp only [deref_some, ok_bind]
    obtain ⟨b', hb', -⟩ := copyLights_ok a.2.sizeofPunctualLight l r.mNumLights 0 a.1
    simp only [hb', ok_bind, pure_eq_ok]
    exact onlyAsserts_ok _

theorem onlyAsserts_fillGeometryBufferViews (w : World) (geometryBuffers : List (Option Nat)) :
    ∀ (remaining i : Nat) (resources : List Nat)
      (srvDescriptors : List D3D12_SHADER_RESOURCE_VIEW_DESC),
      i + remaining ≤ geometryBuffers.length →
      onlyAsserts (PunctualLightCmdListRecorder.fillGeometryBufferViews w geometryBuffers
        remaining i resources srvDescriptors) := by
  intro remaining
  induction remaining with
  | zero => intro i rs ds _; exact onlyAsserts_ok _
  | succ n ih =>
    intro i rs ds hlen
    unfold PunctualLightCmdListRecorder.fillGeometryBufferViews
    have hi : i < geometryBuffers.length := by omega
    rw [List.get?_eq_getElem?, List.getElem?_eq_getElem hi]
    simp only [deref_some, ok_bind]
    refine onlyAsserts_bind _ _ (onlyAsserts_ASSERT _) fun _ h1 => ?_
    rw [ASSERT_eq_ok] at h1
    cases hg : geometryBuffers[i] with
    | none => rw [hg] at h1; simp at h1
    | some res =>
      simp only [deref_some, ok_bind]
      exact ih (i + 1) _ _ (by omega)

theorem fillGeometryBufferViews_inv (w : World) (geometryBuffers : List (Option Nat)) :
    ∀ (remaining i : Nat) (resources : List Nat)
      (srvDescriptors : List D3D12_SHADER_RESOURCE_VIEW_DESC)
      (result : List Nat × List D3D12_SHADER_RESOURCE_VIEW_DESC),
      PunctualLightCmdListRecorder.fillGeometryBufferViews w geometryBuffers
        remaining i resources srvDescriptors = .ok result →
      ∀ j, i ≤ j → j < i + remaining → ∃ res, geometryBuffers.get? j = some (some res) := by
  intro remaining
  induction remaining with
  | zero => intro i rs ds result _ j h1 h2; omega
  | succ n ih =>
    intro i rs ds result h j h1 h2
    unfold PunctualLightCmdListRecorder.fillGeometryBufferViews at h
    simp only [bind_eq_ok, deref_eq_ok, ASSERT_eq_ok] at h
    obtain ⟨g, hg, _, hsome, res, hres, hrest⟩ := h
    subst hres
    by_cases hj : j = i
    · subst hj
      exact ⟨res, hg⟩
    · exact ih (i + 1) _ _ result hrest j (by omega) (by omega)

theorem fillGeometryBufferViews_null (w : World) (geometryBuffers : List (Option Nat)) :
    ∀ (remaining i : Nat) (resources : List Nat)
      (srvDescriptors : List D3D12_SHADER_RESOURCE_VIEW_DESC) (j : Nat),
      i ≤ j → j < i + remaining → geometryBuffers.get? j = some none →
      (∀ k, i ≤ k → k < j → k < geometryBuffers.length) →
      PunctualLightCmdListRecorder.fillGeometryBufferViews w geometryBuffers
        remaining i resources srvDescriptors = .error Fault.assertion := by
  intro remaining
  induction remaining with
  | zero => intro i rs ds j h1 h2; omega
  | succ n ih =>
    intro i rs ds j h1 h2 hnull hbound
    unfold PunctualLightCmdListRecorder.fillGeometryBufferViews
    by_cases hj : j = i
    · subst hj
      rw [List.get?_eq_getElem?] at hnull
      simp [hnull]
    · have hi : i < geometryBuffers.length := hbound i (Nat.le_refl _) (by omega)
      rw [List.get?_eq_getElem?, List.getElem?_eq_getElem hi]
      simp only [deref_some, ok_bind]
      cases hg : geometryBuffers[i] with
      | none => simp
      | some res =>
        simp only [Option.isSome_some, ASSERT_true, ok_bind, deref_some]
        exact ih (i + 1) _ _ j (by omega) (by omega) hnull
          (fun k hk1 hk2 => hbound k (by omega) hk2)

theorem onlyAsserts_InitShaderResourceViews (r : PunctualLightCmdListRecorder)
    (geometryBuffers : Option (List (Option Nat))) (geometryBuffersCount depthBuffer : Nat)
    (sDepthStencilSRVFormat : Nat) (w : World)
    (hlen : ∀ l, geometryBuffers = some l → geometryBuffersCount ≤ l.length) :
    onlyAsserts (r.InitShaderResourceViews geometryBuffers geometryBuffersCount depthBuffer
      sDepthStencilSRVFormat w) := by
  unfold PunctualLightCmdListRecorder.InitShaderResourceViews
  refine onlyAsserts_bind _ _ (onlyAsserts_ASSERT _) fun _ h1 => ?_
  refine onlyAsserts_bind _ _ (onlyAsserts_ASSERT _) fun _ h2 => ?_
  refine onlyAsserts_bind _ _ (onlyAsserts_ASSERT _) fun _ h3 => ?_
  rw [ASSERT_eq_ok] at h1
  cases geometryBuffers with
  | none => simp at h1
  | some l =>
    simp only [deref_some, ok_bind]
    refine onlyAsserts_bind _ _
      (onlyAsserts_fillGeometryBufferViews w l geometryBuffersCount 0 [] []
        (by simpa using hlen l rfl)) fun a _ => ?_
    exact onlyAsserts_ok _

theorem punctualLightRecorder_InitShaderResourceViews_inv (r : PunctualLightCmdListRecorder)
    (geometryBuffers : Option (List (Option Nat))) (geometryBuffersCount depthBuffer : Nat)
    (sDepthStencilSRVFormat : Nat) (w : World) (r' : PunctualLightCmdListRecorder) (w' : World)
    (h : r.InitShaderResourceViews geometryBuffers geometryBuffersCount depthBuffer
      sDepthStencilSRVFormat w = .ok (r', w')) :
    ∃ l, geometryBuffers = some l ∧
      ∀ i, i < geometryBuffersCount → ∃ res, l.get? i = some (some res) := by
  simp only [PunctualLightCmdListRecorder.InitShaderResourceViews, bind_eq_ok, ASSERT_eq_ok,
    deref_eq_ok] at h
  obtain ⟨_, -, _, -, _, -, l, hl, result, hfill, -⟩ := h
  refine ⟨l, hl, fun i hi => ?_⟩
  exact fillGeometryBufferViews_inv w l geometryBuffersCount 0 [] [] result hfill i
    (Nat.zero_le _) (by omega)

theorem punctualLightRecorder_Init_guards (r : PunctualLightCmdListRecorder)
    (geometryBuffers : Option (List (Option Nat))) (geometryBuffersCount depthBuffer : Nat)
    (lights : Option (List Nat)) (numLights sDepthStencilSRVFormat : Nat) (w : World)
    (h : ((r.IsDataValid == false) && geometryBuffers.isSome &&
      (decide (0 < geometryBuffersCount) &&
        decide (geometryBuffersCount < D3D12_SIMULTANEOUS_RENDER_TARGET_COUNT)) &&
      lights.isSome && decide (numLights > 0)) = false) :
    r.Init geometryBuffers geometryBuffersCount depthBuffer lights numLights
      sDepthStencilSRVFormat w = .error Fault.assertion := by
  unfold PunctualLightCmdListRecorder.Init
  cases h1 : (r.IsDataValid == false)
  · simp
  · cases h2 : geometryBuffers.isSome
    · simp
    · cases h3 : (decide (0 < geometryBuffersCount) &&
        decide (geometryBuffersCount < D3D12_SIMULTANEOUS_RENDER_TARGET_COUNT))
      · simp
      · cases h4 : lights.isSome
        · simp
        · cases h5 : decide (numLights > 0)
          · simp
          · rw [h1, h2, h3, h4, h5] at h
            simp at h

theorem punctualLightRecorder_Init_inv (r : PunctualLightCmdListRecorder)
    (geometryBuffers : Option (List (Option Nat))) (geometryBuffersCount depthBuffer : Nat)
    (lights : Option (List Nat)) (numLights sDepthStencilSRVFormat : Nat) (w : World)
    (r' : PunctualLightCmdListRecorder) (w' : World)
    (h : r.Init geometryBuffers geometryBuffersCount depthBuffer lights numLights
      sDepthStencilSRVFormat w = .ok (r', w')) :
    r.IsDataValid = false ∧ geometryBuffers.isSome = true ∧ lights.isSome = true ∧
    0 < geometryBuffersCount ∧ geometryBuffersCount < D3D12_SIMULTANEOUS_RENDER_TARGET_COUNT ∧
    0 < numLights ∧
    (∃ l, geometryBuffers = some l ∧
      ∀ i, i < geometryBuffersCount → ∃ res, l.get? i = some (some res)) ∧
    r'.IsDataValid = true := by
  have h0 := h
  simp only [PunctualLightCmdListRecorder.Init, bind_eq_ok, ASSERT_eq_ok, pure_eq_ok,
    Except.ok.injEq] at h0
  obtain ⟨_, h1, _, h2, _, h3, _, h4, _, h5, ⟨r1, w1⟩, -, ⟨r2, w2⟩, -, ⟨r3, w3⟩, hviews, _,
    hvalid, hret⟩ := h0
  simp only [Prod.mk.injEq] at hret
  simp only [Bool.and_eq_true, decide_eq_true_eq, beq_iff_eq] at h1 h3 h5
  refine ⟨h1, h2, h4, h3.1, h3.2, h5,
    punctualLightRecorder_InitShaderResourceViews_inv _ _ _ _ _ _ r3 w3 hviews, ?_⟩
  rw [← hret.1]
  exact hvalid

theorem onlyAsserts_punctualLightRecorder_Init (r : PunctualLightCmdListRecorder)
    (geometryBuffers : Option (List (Option Nat))) (geometryBuffersCount depthBuffer : Nat)
    (lights : Option (List Nat)) (numLights sDepthStencilSRVFormat : Nat) (w : World)
    (hlen : ∀ l, geometryBuffers = some l → geometryBuffersCount ≤ l.length) :
    onlyAsserts (r.Init geometryBuffers geometryBuffersCount depthBuffer lights numLights
      sDepthStencilSRVFormat w) := by
  unfold PunctualLightCmdListRecorder.Init
  refine onlyAsserts_bind _ _ (onlyAsserts_ASSERT _) fun _ _ => ?_
  refine onlyAsserts_bind _ _ (onlyAsserts_ASSERT _) fun _ _ => ?_
  refine onlyAsserts_bind _ _ (onlyAsserts_ASSERT _) fun _ _ => ?_
  refine onlyAsserts_bind _ _ (onlyAsserts_ASSERT _) fun _ _ => ?_
  refine onlyAsserts_bind _ _ (onlyAsserts_ASSERT _) fun _ _ => ?_
  refine onlyAsserts_bind _ _ (onlyAsserts_InitConstantBuffers _ _) fun a _ => ?_
  refine onlyAsserts_bind _ _ (onlyAsserts_CreateLightBuffersAndViews _ _ _) fun b _ => ?_
  refine onlyAsserts_bind _ _
    (onlyAsserts_InitShaderResourceViews _ _ _ _ _ _ hlen) fun c _ => ?_
  refine onlyAsserts_bind _ _ (onlyAsserts_ASSERT _) fun _ _ => ?_
  exact onlyAsserts_ok _

/-- C18. `PunctualLightCmdListRecorder::Init` returns only if, on entry, the
recorder was not valid, `geometryBuffers` and `lights` are non-null,
`0 < geometryBuffersCount < D3D12_SIMULTANEOUS_RENDER_TARGET_COUNT`,
`numLights > 0`, and each of the first `geometryBuffersCount` geometry buffers is
non-null; when it returns, `IsDataValid()` is true and `mNumLights` is
`numLights`. When one of these conditions fails, an assertion fails: this is
shown for each condition, for a null geometry buffer under the assumption that
the array passed has at least `geometryBuffersCount` entries. -/
theorem punctualLightRecorder_Init_checks_its_arguments (r : PunctualLightCmdListRecorder)
    (geometryBuffers : Option (List (Option Nat))) (geometryBuffersCount depthBuffer : Nat)
    (lights : Option (List Nat)) (numLights sDepthStencilSRVFormat : Nat) (w : World) :
    (∀ r' w',
      r.Init geometryBuffers geometryBuffersCount depthBuffer lights numLights
        sDepthStencilSRVFormat w = .ok (r', w') →
      r.IsDataValid = false ∧ geometryBuffers.isSome = true ∧ lights.isSome = true ∧
      0 < geometryBuffersCount ∧
      geometryBuffersCount < D3D12_SIMULTANEOUS_RENDER_TARGET_COUNT ∧
      0 < numLights ∧
      (∃ l, geometryBuffers = some l ∧
        ∀ i, i < geometryBuffersCount → ∃ res, l.get? i = some (some res)) ∧
      r'.IsDataValid = true ∧ r'.mNumLights = numLights) ∧
    (r.IsDataValid = true →
      r.Init geometryBuffers geometryBuffersCount depthBuffer lights numLights
        sDepthStencilSRVFormat w = .error Fault.assertion) ∧
    (geometryBuffers = none →
      r.Init geometryBuffers geometryBuffersCount depthBuffer lights numLights
        sDepthStencilSRVFormat w = .error Fault.assertion) ∧
    (geometryBuffersCount = 0 ∨
        D3D12_SIMULTANEOUS_RENDER_TARGET_COUNT ≤ geometryBuffersCount →
      r.Init geometryBuffers geometryBuffersCount depthBuffer lights numLights
        sDepthStencilSRVFormat w = .error Fault.assertion) ∧
    (lights = none →
      r.Init geometryBuffers geometryBuffersCount depthBuffer lights numLights
        sDepthStencilSRVFormat w = .error Fault.assertion) ∧
    (numLights = 0 →
      r.Init geometryBuffers geometryBuffersCount depthBuffer lights numLights
        sDepthStencilSRVFormat w = .error Fault.assertion) ∧
    (∀ l i, geometryBuffers = some l → geometryBuffersCount ≤ l.length →
      i < geometryBuffersCount → l.get? i = some none →
      r.Init geometryBuffers geometryBuffersCount depthBuffer lights numLights
        sDepthStencilSRVFormat w = .error Fault.assertion) := by
  refine ⟨?_, ?_, ?_, ?_, ?_, ?_, ?_⟩
  · intro r' w' h
    obtain ⟨h1, h2, h3, h4, h5, h6, h7, h8⟩ := punctualLightRecorder_Init_inv r geometryBuffers
      geometryBuffersCount depthBuffer lights numLights sDepthStencilSRVFormat w r' w' h
    exact ⟨h1, h2, h3, h4, h5, h6, h7, h8,
      punctualLightRecorder_Init_numLights r geometryBuffers geometryBuffersCount depthBuffer
        lights numLights sDepthStencilSRVFormat w r' w' h⟩
  · intro h
    apply punctualLightRecorder_Init_guards
    simp [h]
  · intro h
    apply punctualLightRecorder_Init_guards
    simp [h]
  · intro h
    apply punctualLightRecorder_Init_guards
    rcases h with h | h
    · simp [h]
    · have : ¬ geometryBuffersCount < D3D12_SIMULTANEOUS_RENDER_TARGET_COUNT := by omega
      simp [this]
  · intro h
    apply punctualLightRecorder_Init_guards
    simp [h]
  · intro h
    apply punctualLightRecorder_Init_guards
    simp [h]
  · intro l i hl hlen hi hnull
    cases hres : r.Init geometryBuffers geometryBuffersCount depthBuffer lights numLights
        sDepthStencilSRVFormat w with
    | error e =>
      have := onlyAsserts_punctualLightRecorder_Init r geometryBuffers geometryBuffersCount
        depthBuffer lights numLights sDepthStencilSRVFormat w
        (fun l' hl' => by rw [hl] at hl'; cases hl'; exact hlen) e hres
      rw [this]
    | ok result =>
      obtain ⟨r', w'⟩ := result
      obtain ⟨-, -, -, -, -, -, ⟨l', hl', hall⟩, -⟩ := punctualLightRecorder_Init_inv r
        geometryBuffers geometryBuffersCount depthBuffer lights numLights
        sDepthStencilSRVFormat w r' w' hres
      rw [hl] at hl'
      cases hl'
      obtain ⟨res, hres'⟩ := hall i hi
      rw [hnull] at hres'
      simp at hres'

/-- Witness of C18: in the example process `Init` of a recorder that holds
nothing yet, with two geometry buffers and two lights, returns a valid recorder
with `mNumLights = 2`; with no lights, and with a null second geometry buffer,
it fails an assertion. -/
theorem punctualLightRecorder_Init_checks_its_arguments_witness :
    (∃ r' w',
      (PunctualLightCmdListRecorder.mk (CommandListPerFrame.create Example.world).1 ⟨[], 0⟩
        none none 0 0 0 0).Init (some [some 1, some 2]) 2 3 (some Example.lights) 2 41
        Example.world = .ok (r', w') ∧
      r'.IsDataValid = true ∧ r'.mNumLights = 2) ∧
    (∀ (r : PunctualLightCmdListRecorder) (w : World),
      r.Init (some [some 1, some 2]) 2 3 (some Example.lights) 0 41 w
        = .error Fault.assertion) ∧
    (∀ (r : PunctualLightCmdListRecorder) (w : World),
      r.Init (some [some 1, none]) 2 3 (some Example.lights) 2 41 w
        = .error Fault.assertion) := by
  refine ⟨?_, fun r w => ?_, fun r w => ?_⟩
  · obtain ⟨r', w', h⟩ : ∃ r' w',
        (PunctualLightCmdListRecorder.mk (CommandListPerFrame.create Example.world).1 ⟨[], 0⟩
          none none 0 0 0 0).Init (some [some 1, some 2]) 2 3 (some Example.lights) 2 41
          Example.world = .ok (r', w') := ⟨_, _, rfl⟩
    obtain ⟨-, -, -, -, -, -, -, hvalid, hnum⟩ :=
      (punctualLightRecorder_Init_checks_its_arguments _ _ _ _ _ _ _ _).1 r' w' h
    exact ⟨r', w', h, hvalid, hnum⟩
  · exact (punctualLightRecorder_Init_checks_its_arguments r (some [some 1, some 2]) 2 3
      (some Example.lights) 0 41 w).2.2.2.2.2.1 rfl
  · exact (punctualLightRecorder_Init_checks_its_arguments r (some [some 1, none]) 2 3
      (some Example.lights) 2 41 w).2.2.2.2.2.2 [some 1, none] 1 rfl (by decide) (by decide) rfl

/-- C19. Whenever `PunctualLightCmdListRecorder::RecordAndPushCommandLists`
returns, the root parameters bound in the command list it pushed are, in order:
0, the GPU address of the per-frame upload buffer obtained in this call (the
buffer of the current slot of the ring); 1, the lights-buffer shader-resource
view; 2, that same address; 3, the address of the immutable constant buffer; 4,
that same address again; 5, the pixel-shader texture table. The call has copied
the `frameCBuffer` argument to the start of that upload buffer: its first
`sizeof(frameCBuffer)` bytes are those of the argument, the other bytes and the
buffer behind it are as before. -/
theorem punctualLightRecorder_binds_the_documented_root_parameters
    (r : PunctualLightCmdListRecorder) (frameCBuffer : FrameCBuffer) (w : World)
    (r' : PunctualLightCmdListRecorder) (w' : World)
    (h : r.RecordAndPushCommandLists frameCBuffer w = .ok (r', w')) :
    ∃ (commandList : ID3D12GraphicsCommandList)
      (uploadFrameCBuffer written immutableCBuffer : UploadBuffer),
      r.mFrameUploadCBufferPerFrame.mFrameCBuffers.get?
        r.mFrameUploadCBufferPerFrame.mCurrentFrameIndex = some uploadFrameCBuffer ∧
      r.mImmutableUploadCBuffer = some immutableCBuffer ∧
      w'.commandListExecutor.mPending = w.commandListExecutor.mPending ++ [commandList] ∧
      commandList.commands.filter Command.isRootParameterBinding =
        [.SetGraphicsRootConstantBufferView 0 (GetGPUVirtualAddress uploadFrameCBuffer.mBuffer),
         .SetGraphicsRootDescriptorTable 1 r.mStartLightsBufferShaderResourceView,
         .SetGraphicsRootConstantBufferView 2 (GetGPUVirtualAddress uploadFrameCBuffer.mBuffer),
         .SetGraphicsRootConstantBufferView 3 (GetGPUVirtualAddress immutableCBuffer.mBuffer),
         .SetGraphicsRootConstantBufferView 4 (GetGPUVirtualAddress uploadFrameCBuffer.mBuffer),
         .SetGraphicsRootDescriptorTable 5 r.mStartPixelShaderResourceView] ∧
      r'.mFrameUploadCBufferPerFrame.mFrameCBuffers.get?
        r.mFrameUploadCBufferPerFrame.mCurrentFrameIndex = some written ∧
      written.mBuffer = uploadFrameCBuffer.mBuffer ∧
      (∀ a, a < frameCBuffer.length → frameCBuffer.get? a = some (written.mMappedData a)) ∧
      (∀ a, frameCBuffer.length ≤ a →
        written.mMappedData a = uploadFrameCBuffer.mMappedData a) := by
  obtain ⟨hv, hp, hs, hrtv, ⟨b, hb⟩, ⟨imm, himm⟩⟩ :=
    punctualLightRecorder_record_inv r frameCBuffer w r' w' h
  rw [punctualLightRecorder_record_ok r frameCBuffer w b imm hv hp hs hrtv hb himm] at h
  simp only [Except.ok.injEq, Prod.mk.injEq] at h
  obtain ⟨hr, hw⟩ := h
  subst hr hw
  have hlt : r.mFrameUploadCBufferPerFrame.mCurrentFrameIndex <
      r.mFrameUploadCBufferPerFrame.mFrameCBuffers.length := by
    rw [List.get?_eq_getElem?] at hb
    exact (List.getElem?_eq_some_iff.1 hb).1
  refine ⟨_, b,
    ⟨b.mElemSize, b.mBuffer,
      memcpy b.mMappedData (0 * b.mElemSize) frameCBuffer frameCBuffer.length, b.mappedSize⟩,
    imm, hb, himm, rfl, ?_, ?_, rfl, ?_, ?_⟩
  · simp [CommandListPerFrame.recorded, Command.isRootParameterBinding, List.filter]
  · simp only [FrameUploadCBufferPerFrame.written, hb]
    rw [List.get?_eq_getElem?, List.getElem?_set_self hlt]
  · intro a ha
    simp only [memcpy, Nat.zero_mul, Nat.zero_le, Nat.zero_add, true_and, ha, if_true,
      Nat.sub_zero]
    rw [List.get?_eq_getElem?, List.getElem?_eq_getElem ha, List.getD_eq_getElem?_getD,
      List.getElem?_eq_getElem ha]
    rfl
  · intro a ha
    have : ¬ a < frameCBuffer.length := by omega
    simp [memcpy, this]

/-- Witness of C19: the example punctual-light recorder records and pushes one
list, which binds exactly six root parameters. -/
theorem punctualLightRecorder_binds_the_documented_root_parameters_witness :
    ∃ r' w' commandList,
      Example.punctualLightRecorder.1.RecordAndPushCommandLists Example.frameCBuffer
        Example.punctualLightRecorder.2 = .ok (r', w') ∧
      w'.commandListExecutor.mPending = [commandList] ∧
      (commandList.commands.filter Command.isRootParameterBinding).length = 6 := by
  obtain ⟨r', w', h⟩ : ∃ r' w', Example.punctualLightRecorder.1.RecordAndPushCommandLists
      Example.frameCBuffer Example.punctualLightRecorder.2 = .ok (r', w') := ⟨_, _, rfl⟩
  obtain ⟨commandList, b, b', imm, -, -, hpending, hroot, -⟩ :=
    punctualLightRecorder_binds_the_documented_root_parameters _ _ _ r' w' h
  refine ⟨r', w', commandList, h, hpending, ?_⟩
  rw [hroot]
  rfl

/-- C20. Whenever `AmbientLightCmdListRecorder::Init` returns, the
shader-resource-view table it created holds exactly two descriptors, in the
order of the root signature: the first (`t0`) views the base-colour/metal-mask
buffer passed to `Init`, the second (`t1`) the ambient-accessibility buffer
passed to `Init`; each is a `TEXTURE2D` view with most detailed mip 0 whose
format and mip-level count are those of its own resource. The handle of that
table is what the recorder stores, and what a later
`RecordAndPushCommandLists` binds at root parameter 0, the only root parameter
it binds. -/
theorem ambientLightRecorder_table_has_the_two_documented_views
    (r : AmbientLightCmdListRecorder)
    (baseColorMetalMaskBuffer ambientAccessibilityBuffer renderTargetView : Nat) (w : World)
    (r' : AmbientLightCmdListRecorder) (w' : World)
    (h : r.Init baseColorMetalMaskBuffer ambientAccessibilityBuffer renderTargetView w
      = .ok (r', w')) :
    (∃ t0 t1 : ShaderResourceView,
      w'.mShaderResourceViews r'.mStartPixelShaderResourceView = some [t0, t1] ∧
      t0.resource = baseColorMetalMaskBuffer ∧
      t0.desc.ViewDimension = D3D12_SRV_DIMENSION_TEXTURE2D ∧
      t0.desc.MostDetailedMip = 0 ∧
      t0.desc.Format = (w.GetDesc baseColorMetalMaskBuffer).Format ∧
      t0.desc.MipLevels = (w.GetDesc baseColorMetalMaskBuffer).MipLevels ∧
      t0.desc.Shader4ComponentMapping = D3D12_DEFAULT_SHADER_4_COMPONENT_MAPPING ∧
      t1.resource = ambientAccessibilityBuffer ∧
      t1.desc.ViewDimension = D3D12_SRV_DIMENSION_TEXTURE2D ∧
      t1.desc.MostDetailedMip = 0 ∧
      t1.desc.Format = (w.GetDesc ambientAccessibilityBuffer).Format ∧
      t1.desc.MipLevels = (w.GetDesc ambientAccessibilityBuffer).MipLevels ∧
      t1.desc.Shader4ComponentMapping = D3D12_DEFAULT_SHADER_4_COMPONENT_MAPPING) ∧
    w'.GetDesc = w.GetDesc ∧
    (∀ (w2 : World) (r2 : AmbientLightCmdListRecorder) (w3 : World),
      r'.RecordAndPushCommandLists w2 = .ok (r2, w3) →
      ∃ commandList,
        w3.commandListExecutor.mPending = w2.commandListExecutor.mPending ++ [commandList] ∧
        commandList.commands.filter Command.isRootParameterBinding =
          [.SetGraphicsRootDescriptorTable 0 r'.mStartPixelShaderResourceView] ∧
        r2.mStartPixelShaderResourceView = r'.mStartPixelShaderResourceView) := by
  obtain ⟨hr, -, hw⟩ := AmbientLightCmdListRecorder.ambientLightRecorder_Init_ok r
    baseColorMetalMaskBuffer ambientAccessibilityBuffer renderTargetView w r' w' h
  subst hr hw
  refine ⟨⟨w.textureView baseColorMetalMaskBuffer, w.textureView ambientAccessibilityBuffer,
    ?_, rfl, rfl, rfl, rfl, rfl, rfl, rfl, rfl, rfl, rfl, rfl, rfl⟩, rfl, ?_⟩
  · simp [World.withShaderResourceViews]
  · intro w2 r2 w3 h2
    obtain ⟨hv, hp, hs⟩ := ambientLightRecorder_record_inv _ w2 r2 w3 h2
    rw [AmbientLightCmdListRecorder.ambientLightRecorder_record_ok _ w2 hv hp hs] at h2
    simp only [Except.ok.injEq, Prod.mk.injEq] at h2
    obtain ⟨hr2, hw3⟩ := h2
    subst hr2 hw3
    refine ⟨_, rfl, ?_, rfl⟩
    simp [AmbientLightCmdListRecorder.commandList, CommandListPerFrame.recorded,
      Command.isRootParameterBinding, List.filter]

/-- Witness of C20: `Init` of a new recorder in the example process, on the
buffers `1` and `2`, creates the table with handle `1`, which holds the views of
`1` and `2` in this order. -/
theorem ambientLightRecorder_table_has_the_two_documented_views_witness :
    ∃ r' w' t0 t1,
      (AmbientLightCmdListRecorder.create Example.world).1.Init 1 2 77 Example.world
        = .ok (r', w') ∧
      w'.mShaderResourceViews r'.mStartPixelShaderResourceView = some [t0, t1] ∧
      t0.resource = 1 ∧ t1.resource = 2 := by
  obtain ⟨r', w', h⟩ : ∃ r' w',
      (AmbientLightCmdListRecorder.create Example.world).1.Init 1 2 77 Example.world
        = .ok (r', w') := ⟨_, _, rfl⟩
  obtain ⟨⟨t0, t1, htable, h0, -, -, -, -, -, h1, -⟩, -⟩ :=
    ambientLightRecorder_table_has_the_two_documented_views _ 1 2 77 Example.world r' w' h
  exact ⟨r', w', t0, t1, h, htable, h0, h1⟩

/-! ## The frame loop and its fence -/

section FrameLoopProperties

open FrameLoop


theorem signals_append (a b : List QueueItem) : signals (a ++ b) = signals a ++ signals b := by
  induction a with
  | nil => rfl
  | cons x rest ih =>
    cases x with
    | commandList l => simpa [signals] using ih
    | signal v => simp [signals, ih]

theorem signals_commandLists (ls : List ID3D12GraphicsCommandList) :
    signals (ls.map QueueItem.commandList) = [] := by
  induction ls with
  | nil => rfl
  | cons l rest ih => simpa [signals] using ih

theorem mem_signals (items : List QueueItem) (v : Nat) :
    v ∈ signals items ↔ QueueItem.signal v ∈ items := by
  induction items with
  | nil => simp [signals]
  | cons x rest ih =>
    cases x with
    | commandList l => simp [signals, ih]
    | signal u => simp [signals, ih]

theorem queueInvariant_step (current : Nat) (q : ID3D12CommandQueue)
    (h : QueueInvariant current q) :
    QueueInvariant current q.step ∧ q.mCompletedValue ≤ q.step.mCompletedValue ∧
    q.step.mPending = q.mPending.drop 1 := by
  obtain ⟨hsorted, hahead, hle, hlast⟩ := h
  unfold ID3D12CommandQueue.step
  cases hp : q.mPending with
  | nil =>
    refine ⟨⟨hsorted, hahead, hle, hlast⟩, Nat.le_refl _, ?_⟩
    simpa using hp
  | cons x rest =>
    rw [hp] at hsorted hahead hlast
    cases x with
    | commandList l =>
      simp only [signals] at hsorted hahead
      refine ⟨⟨hsorted, hahead, hle, ?_⟩, Nat.le_refl _, rfl⟩
      intro hlt
      simpa using hlast hlt
    | signal v =>
      simp only [signals, List.pairwise_cons, List.mem_cons, forall_eq_or_imp] at hsorted hahead
      refine ⟨⟨hsorted.2, ?_, hahead.1.2, ?_⟩, Nat.le_of_lt hahead.1.1, rfl⟩
      · intro u hu
        exact ⟨hsorted.1 u hu, (hahead.2 u hu).2⟩
      · intro hlt
        have hcur := hlast (Nat.lt_trans hahead.1.1 hlt)
        simp only [List.mem_cons, QueueItem.signal.injEq] at hcur
        rcases hcur with hcur | hcur
        · simp only at hlt
          omega
        · exact hcur

theorem covered_drop (slots : List (Option Nat)) (fenceValues : List Nat) :
    ∀ (items : List QueueItem) (n : Nat), Covered slots fenceValues items →
      Covered slots fenceValues (items.drop n) := by
  intro items
  induction items with
  | nil => intro n h; simpa using h
  | cons x rest ih =>
    intro n h
    cases n with
    | zero => exact h
    | succ n =>
      simp only [List.drop_succ_cons]
      cases x with
      | commandList l => exact ih n h.2
      | signal v => exact ih n h

theorem covered_mem (slots : List (Option Nat)) (fenceValues : List Nat) :
    ∀ (items : List QueueItem) (l : ID3D12GraphicsCommandList),
      Covered slots fenceValues items → QueueItem.commandList l ∈ items →
      ∃ i, slots.get? i = some (some l.allocator) ∧
        QueueItem.signal (fenceValues.getD i 0) ∈ items := by
  intro items
  induction items with
  | nil => intro l _ hmem; simp at hmem
  | cons x rest ih =>
    intro l h hmem
    cases x with
    | commandList l' =>
      simp only [List.mem_cons, QueueItem.commandList.injEq] at hmem
      rcases hmem with hmem | hmem
      · subst hmem
        obtain ⟨i, hi, hs⟩ := h.1
        exact ⟨i, hi, List.mem_cons_of_mem _ hs⟩
      · obtain ⟨i, hi, hs⟩ := ih l h.2 hmem
        exact ⟨i, hi, List.mem_cons_of_mem _ hs⟩
    | signal v =>
      simp only [List.mem_cons, reduceCtorEq, false_or] at hmem
      obtain ⟨i, hi, hs⟩ := ih l h hmem
      exact ⟨i, hi, List.mem_cons_of_mem _ hs⟩


theorem queueInvariant_advance (current : Nat) :
    ∀ (n : Nat) (q : ID3D12CommandQueue), QueueInvariant current q →
      QueueInvariant current (q.advance n) ∧
      q.mCompletedValue ≤ (q.advance n).mCompletedValue ∧
      (q.advance n).mPending = q.mPending.drop n := by
  intro n
  induction n with
  | zero => intro q h; exact ⟨h, Nat.le_refl _, by simp [ID3D12CommandQueue.advance]⟩
  | succ n ih =>
    intro q h
    obtain ⟨h1, h2, h3⟩ := queueInvariant_step current q h
    obtain ⟨h4, h5, h6⟩ := ih q.step h1
    refine ⟨h4, Nat.le_trans h2 h5, ?_⟩
    simp only [ID3D12CommandQueue.advance]
    rw [h6, h3, List.drop_drop, Nat.add_comm]

theorem waitForFence_ok (current expectedValue : Nat) (hexp : expectedValue ≤ current) :
    ∀ (budget : Nat) (q : ID3D12CommandQueue), QueueInvariant current q →
      q.mPending.length ≤ budget →
      ∃ q' n, q.waitForFence expectedValue budget = .ok q' ∧ q' = q.advance n ∧
        expectedValue ≤ q'.mCompletedValue := by
  intro budget
  induction budget with
  | zero =>
    intro q h hlen
    have hnil : q.mPending = [] := List.length_eq_zero.1 (Nat.le_zero.1 hlen)
    have hcur : ¬ q.mCompletedValue < current := by
      intro hlt
      have := h.2.2.2 hlt
      rw [hnil] at this
      simp at this
    refine ⟨q, 0, ?_, rfl, by omega⟩
    have hge : ¬ q.mCompletedValue < expectedValue := by omega
    simp [ID3D12CommandQueue.waitForFence, ID3D12CommandQueue.GetCompletedValue, hge]
  | succ n ih =>
    intro q h hlen
    by_cases hlt : q.mCompletedValue < expectedValue
    · obtain ⟨h1, -, h3⟩ := queueInvariant_step current q h
      obtain ⟨q', m, hq', hadv, hreached⟩ := ih q.step h1 (by rw [h3]; simp; omega)
      refine ⟨q', m + 1, ?_, ?_, hreached⟩
      · simp [ID3D12CommandQueue.waitForFence, ID3D12CommandQueue.GetCompletedValue, hlt, hq']
      · rw [hadv]
        rfl
    · refine ⟨q, 0, ?_, rfl, by omega⟩
      simp [ID3D12CommandQueue.waitForFence, ID3D12CommandQueue.GetCompletedValue, hlt]

theorem covered_append (slots : List (Option Nat)) (fenceValues : List Nat) (slot value : Nat)
    (lnew : ID3D12GraphicsCommandList)
    (hslot : slots.get? slot = some (some lnew.allocator)) (hlen : slot < fenceValues.length) :
    ∀ items : List QueueItem, Covered slots fenceValues items →
      (∀ l, QueueItem.commandList l ∈ items → l.allocator ≠ lnew.allocator) →
      Covered slots (fenceValues.set slot value)
        (items ++ [QueueItem.commandList lnew, QueueItem.signal value]) := by
  intro items
  induction items with
  | nil =>
    intro _ _
    refine ⟨⟨slot, hslot, ?_⟩, trivial⟩
    simp [List.getD_eq_getElem?_getD, List.getElem?_set_self hlen]
  | cons x rest ih =>
    intro h hfree
    cases x with
    | commandList l =>
      refine ⟨?_, ih h.2 fun l' hl' => hfree l' (List.mem_cons_of_mem _ hl')⟩
      obtain ⟨i, hi, hs⟩ := h.1
      have hne : slot ≠ i := by
        intro heq
        rw [← heq, hslot] at hi
        simp only [Option.some.injEq] at hi
        exact hfree l (List.mem_cons_self _ _) hi.symm
      refine ⟨i, hi, ?_⟩
      simp only [List.getD_eq_getElem?_getD, List.getElem?_set_ne hne]
      simp only [List.getD_eq_getElem?_getD] at hs
      exact List.mem_append_left _ hs
    | signal v =>
      exact ih h fun l' hl' => hfree l' (List.mem_cons_of_mem _ hl')

theorem no_pending_list_of_slot (slots : List (Option Nat)) (fenceValues : List Nat)
    (current slot identity : Nat) (q : ID3D12CommandQueue)
    (hq : QueueInvariant current q) (hcov : Covered slots fenceValues q.mPending)
    (hdistinct : slots.Nodup) (hslot : slots.get? slot = some (some identity))
    (hreached : fenceValues.getD slot 0 ≤ q.mCompletedValue) :
    ∀ l, QueueItem.commandList l ∈ q.mPending → l.allocator ≠ identity := by
  intro l hmem heq
  obtain ⟨i, hi, hs⟩ := covered_mem slots fenceValues q.mPending l hcov hmem
  rw [heq, ← hslot] at hi
  have hii : i = slot := by
    rw [List.get?_eq_getElem?, List.get?_eq_getElem?] at hi
    have hi1 : i < slots.length := by
      by_contra hc
      rw [List.getElem?_eq_none (by omega)] at hi
      rw [List.get?_eq_getElem?] at hslot
      rw [hslot] at hi
      simp at hi
    have hi2 : slot < slots.length := by
      rw [List.get?_eq_getElem?] at hslot
      exact (List.getElem?_eq_some_iff.1 hslot).1
    rw [List.getElem?_eq_getElem hi1, List.getElem?_eq_getElem hi2] at hi
    exact (List.Nodup.getElem_inj_iff hdistinct).1 (Option.some.inj hi)
  rw [hii] at hs
  have := (hq.2.1 _ ((mem_signals _ _).2 hs)).1
  omega


theorem queueInvariant_submit (current : Nat) (q : ID3D12CommandQueue)
    (ls : List ID3D12GraphicsCommandList) (h : QueueInvariant current q) :
    QueueInvariant (current + 1) ((q.ExecuteCommandLists ls).Signal (current + 1)) := by
  obtain ⟨hsorted, hahead, hle, hlast⟩ := h
  simp only [QueueInvariant, ID3D12CommandQueue.Signal, ID3D12CommandQueue.ExecuteCommandLists,
    signals_append, signals_commandLists, List.append_nil, signals]
  refine ⟨?_, ?_, by omega, ?_⟩
  · rw [List.pairwise_append]
    refine ⟨hsorted, List.pairwise_singleton _ _, ?_⟩
    intro a ha b hb
    simp only [List.mem_singleton] at hb
    have := (hahead a ha).2
    omega
  · intro v hv
    simp only [List.mem_append, List.mem_singleton] at hv
    rcases hv with hv | hv
    · have := hahead v hv
      omega
    · omega
  · intro _
    simp

theorem identities_set (r : EnvironmentLightCmdListRecorder) (i : Nat)
    (a a' : ID3D12CommandAllocator) (h : r.mCmdAlloc.get? i = some (some a))
    (hid : a'.identity = a.identity) :
    (r.mCmdAlloc.set i (some a')).map (fun cmdAlloc => cmdAlloc.map fun x => x.identity)
      = identities r := by
  rw [List.get?_eq_getElem?] at h
  apply List.ext_getElem?
  intro j
  simp only [identities, List.getElem?_map, List.getElem?_set]
  by_cases hj : i = j
  · subst hj
    have hlt := (List.getElem?_eq_some_iff.1 h).1
    simp [hlt, h, hid]
  · simp [hj]

theorem identities_get (r : EnvironmentLightCmdListRecorder) (i : Nat)
    (a : ID3D12CommandAllocator) (h : r.mCmdAlloc.get? i = some (some a)) :
    (identities r).get? i = some (some a.identity) := by
  rw [List.get?_eq_getElem?] at h ⊢
  simp [identities, List.getElem?_map, h]


theorem frameLoop_atRecord (sQueuedFrameCount k progress : Nat) (s : FrameLoop)
    (hinv : Invariant sQueuedFrameCount k s) :
    ∃ cmdAlloc : ID3D12CommandAllocator,
      s.recorder.mCmdAlloc.get? s.recorder.mCurrFrameIndex = some (some cmdAlloc) ∧
      QueueInvariant k (s.atRecord progress).queue ∧
      (s.atRecord progress).queue.mPending = s.queue.mPending.drop progress ∧
      Covered (identities s.recorder) s.renderManager.mFenceValueByQueuedFrameIndex
        (s.atRecord progress).queue.mPending ∧
      s.renderManager.mFenceValueByQueuedFrameIndex.getD s.recorder.mCurrFrameIndex 0
        ≤ (s.atRecord progress).queue.GetCompletedValue ∧
      (∀ l, QueueItem.commandList l ∈ (s.atRecord progress).queue.mPending →
        l.allocator ≠ cmdAlloc.identity) := by
  obtain ⟨a, b, imm, heap, l, ha, -⟩ :=
    environmentLightRecorder_slot s.recorder sQueuedFrameCount hinv.ready
  have hq := hinv.queue
  rw [hinv.fenceValue] at hq
  obtain ⟨hq1, hmono, hdrop⟩ := queueInvariant_advance k progress s.queue hq
  have hcov : Covered (identities s.recorder) s.renderManager.mFenceValueByQueuedFrameIndex
      (s.queue.advance progress).mPending := by
    rw [hdrop]
    exact covered_drop _ _ _ _ hinv.covered
  have hreached : s.renderManager.mFenceValueByQueuedFrameIndex.getD
      s.recorder.mCurrFrameIndex 0 ≤ (s.queue.advance progress).mCompletedValue := by
    rw [hinv.slot]
    exact Nat.le_trans hinv.reached hmono
  exact ⟨a, ha, hq1, hdrop, hcov, hreached,
    no_pending_list_of_slot _ _ k s.recorder.mCurrFrameIndex a.identity _ hq1 hcov hinv.distinct
      (identities_get _ _ _ ha) hreached⟩

theorem environmentLightRecorder_Ready_pushed (r : EnvironmentLightCmdListRecorder) (N : Nat)
    (queue : List ID3D12GraphicsCommandList) :
    ({ r with mCmdListQueue := queue } : EnvironmentLightCmdListRecorder).Ready N = r.Ready N := by
  simp [EnvironmentLightCmdListRecorder.Ready, EnvironmentLightCmdListRecorder.ValidateData]


theorem queue_step_history (q : ID3D12CommandQueue) :
    q.step.mExecuted ++ q.step.mPending = q.mExecuted ++ q.mPending := by
  unfold ID3D12CommandQueue.step
  cases hp : q.mPending with
  | nil => simp [hp]
  | cons x rest => cases x <;> simp

theorem queue_advance_history :
    ∀ (n : Nat) (q : ID3D12CommandQueue),
      (q.advance n).mExecuted ++ (q.advance n).mPending = q.mExecuted ++ q.mPending := by
  intro n
  induction n with
  | zero => intro q; rfl
  | succ n ih =>
    intro q
    simp only [ID3D12CommandQueue.advance]
    rw [ih, queue_step_history]

theorem mod_ne_of_near (j k n : Nat) (h1 : j < k) (h2 : k < j + n) : j % n ≠ k % n := by
  intro heq
  have hdvd : n ∣ k - j := (Nat.modEq_iff_dvd' (Nat.le_of_lt h1)).1 heq
  have := Nat.le_of_dvd (by omega) hdvd
  omega

theorem frameLoop_frame (shared : SharedPSOAndRootSignature) (sQueuedFrameCount : Nat)
    (frameCBuffer : FrameCBuffer) (rtvCpuDescHandle depthStencilHandle : Nat)
    (progress budget k : Nat) (s : FrameLoop)
    (hN32 : sQueuedFrameCount < 2 ^ 32)
    (hp : shared.sPSO.isSome = true) (hs : shared.sRootSignature.isSome = true)
    (hinv : Invariant sQueuedFrameCount k s) (hbudget : 2 * (k + 1) ≤ budget) :
    ∃ (s' : FrameLoop) (cmdAlloc : ID3D12CommandAllocator)
      (cmdList : ID3D12GraphicsCommandList),
      s.recorder.mCmdAlloc.get? s.recorder.mCurrFrameIndex = some (some cmdAlloc) ∧
      frame shared sQueuedFrameCount frameCBuffer rtvCpuDescHandle depthStencilHandle progress
        budget s = .ok s' ∧
      Invariant sQueuedFrameCount (k + 1) s' ∧
      s'.recorder.mCmdAlloc = s.recorder.mCmdAlloc.set s.recorder.mCurrFrameIndex
        (some { cmdAlloc with resets := cmdAlloc.resets + 1 }) ∧
      cmdList.allocator = cmdAlloc.identity ∧
      s'.queue.mExecuted ++ s'.queue.mPending = s.queue.mExecuted ++ s.queue.mPending ++
        [QueueItem.commandList cmdList, QueueItem.signal (k + 1)] := by
  obtain ⟨a, b, imm, heap, l, ha, hb, himm, hheap, hl, hclosed⟩ :=
    environmentLightRecorder_slot s.recorder sQueuedFrameCount hinv.ready
  obtain ⟨hv, hA, hF, -, -, hidx⟩ :=
    environmentLightRecorder_Ready_elim s.recorder sQueuedFrameCount hinv.ready
  obtain ⟨a', ha', hq1, hdrop, hcov, hreached, hfree⟩ :=
    frameLoop_atRecord sQueuedFrameCount k progress s hinv
  rw [ha] at ha'
  simp only [Option.some.injEq] at ha'
  subst ha'
  have hrec := environmentLightRecorder_record_ok s.recorder shared sQueuedFrameCount
    frameCBuffer rtvCpuDescHandle depthStencilHandle a b imm heap l hv hp hs ha hb himm hheap hl
    hclosed
  obtain ⟨r1, hrec1, hready1, hidx1⟩ := environmentLightRecorder_record_ready s.recorder shared
    sQueuedFrameCount frameCBuffer rtvCpuDescHandle depthStencilHandle hN32 hp hs hinv.ready
  rw [hrec] at hrec1
  simp only [Except.ok.injEq] at hrec1
  -- the queue after submission and signal
  have hq3 := queueInvariant_submit k _
    [s.recorder.commandList shared rtvCpuDescHandle depthStencilHandle a b imm heap] hq1
  have hbound : (s.renderManager.mFenceValueByQueuedFrameIndex.set
      s.renderManager.mCurrentQueuedFrameIndex (k + 1)).getD
      ((s.renderManager.mCurrentQueuedFrameIndex + 1) % sQueuedFrameCount) 0 ≤ k + 1 := by
    rw [List.getD_eq_getElem?_getD]
    cases hget : (s.renderManager.mFenceValueByQueuedFrameIndex.set
        s.renderManager.mCurrentQueuedFrameIndex (k + 1))[
        (s.renderManager.mCurrentQueuedFrameIndex + 1) % sQueuedFrameCount]? with
    | none => simp
    | some v =>
      simp only [Option.getD_some]
      have hmem := List.getElem?_mem hget
      rcases List.mem_or_eq_of_mem_set hmem with hmem | hmem
      · have := hinv.bounded v hmem
        rw [hinv.fenceValue] at this
        omega
      · omega
  have hlen3 : (((s.atRecord progress).queue.ExecuteCommandLists
      [s.recorder.commandList shared rtvCpuDescHandle depthStencilHandle a b imm heap]).Signal
      (k + 1)).mPending.length ≤ budget := by
    simp only [ID3D12CommandQueue.Signal, ID3D12CommandQueue.ExecuteCommandLists, hdrop,
      List.length_append, List.length_map, List.length_singleton, List.length_drop]
    have := hinv.backlog
    omega
  obtain ⟨q', n, hwait, hadv, hexp⟩ := waitForFence_ok (k + 1) _ hbound budget _ hq3 hlen3
  obtain ⟨hq4, -, hdrop4⟩ := queueInvariant_advance (k + 1) n _ hq3
  rw [← hadv] at hq4 hdrop4
  have hpend3 : (((s.atRecord progress).queue.ExecuteCommandLists
      [s.recorder.commandList shared rtvCpuDescHandle depthStencilHandle a b imm heap]).Signal
      (k + 1)).mPending = (s.atRecord progress).queue.mPending ++
        [QueueItem.commandList
          (s.recorder.commandList shared rtvCpuDescHandle depthStencilHandle a b imm heap),
         QueueItem.signal (k + 1)] := by
    simp [ID3D12CommandQueue.Signal, ID3D12CommandQueue.ExecuteCommandLists]
  have hhistory : q'.mExecuted ++ q'.mPending = s.queue.mExecuted ++ s.queue.mPending ++
      [QueueItem.commandList
        (s.recorder.commandList shared rtvCpuDescHandle depthStencilHandle a b imm heap),
       QueueItem.signal (k + 1)] := by
    rw [hadv, queue_advance_history]
    simp only [ID3D12CommandQueue.Signal, ID3D12CommandQueue.ExecuteCommandLists,
      FrameLoop.atRecord, List.map_cons, List.map_nil]
    rw [← List.append_assoc, ← List.append_assoc, queue_advance_history]
    simp
  refine ⟨{ recorder := { r1 with mCmdListQueue := [] }
            renderManager :=
              { mCurrentQueuedFrameIndex :=
                  (s.renderManager.mCurrentQueuedFrameIndex + 1) % sQueuedFrameCount
                mFenceValueByQueuedFrameIndex :=
                  s.renderManager.mFenceValueByQueuedFrameIndex.set
                    s.renderManager.mCurrentQueuedFrameIndex (k + 1)
                mCurrentFenceValue := k + 1 }
            queue := q' },
    a, s.recorder.commandList shared rtvCpuDescHandle depthStencilHandle a b imm heap,
    ha, ?_, ?_, ?_, rfl, ?_⟩
  · simp only [FrameLoop.frame, ok_bind]
    have hrec' : (s.atRecord progress).recorder.RecordCommandLists shared sQueuedFrameCount
        frameCBuffer rtvCpuDescHandle depthStencilHandle = .ok r1 := by
      rw [← hrec1]
      exact hrec
    rw [hrec']
    simp only [ok_bind, RenderManager.SignalFenceAndPresent, hinv.fenceValue]
    have hqueue : r1.mCmdListQueue
        = [s.recorder.commandList shared rtvCpuDescHandle depthStencilHandle a b imm heap] := by
      rw [← hrec1]
      simp [hinv.pushed]
    rw [hqueue]
    have hmgr : (s.atRecord progress).renderManager = s.renderManager := rfl
    rw [hmgr, hinv.fenceValue, hwait]
    rfl
  · have hslot1 : r1.mCurrFrameIndex
        = (s.renderManager.mCurrentQueuedFrameIndex + 1) % sQueuedFrameCount := by
      rw [hidx1, hinv.slot]
    have hids : identities ({ r1 with mCmdListQueue := [] } : EnvironmentLightCmdListRecorder)
        = identities s.recorder := by
      rw [← hrec1]
      exact identities_set s.recorder s.recorder.mCurrFrameIndex a _ ha rfl
    refine
      { ready := ?_, pushed := rfl, slot := hslot1, rotation := ?_, fenceValue := rfl,
        length := ?_, distinct := ?_, bounded := ?_, reached := hexp, queue := hq4,
        covered := ?_, backlog := ?_, recent := ?_, recorded := ?_ }
    · rw [environmentLightRecorder_Ready_pushed]
      exact hready1
    · simp only [hinv.rotation, Nat.mod_add_mod]
    · simp only [List.length_set]
      exact hinv.length
    · rw [hids]
      exact hinv.distinct
    · intro v hv
      simp only at hv ⊢
      rcases List.mem_or_eq_of_mem_set hv with hmem | hmem
      · have := hinv.bounded v hmem
        rw [hinv.fenceValue] at this
        omega
      · omega
    · rw [hids, hdrop4, hpend3]
      apply covered_drop
      rw [← hinv.slot]
      refine covered_append _ _ _ _ _ (identities_get _ _ _ ha) ?_ _ hcov hfree
      rw [hinv.length]
      exact hidx
    · rw [hdrop4, hpend3]
      simp only [List.length_drop, List.length_append, hdrop, List.length_cons,
        List.length_nil]
      have := hinv.backlog
      omega
    · intro j hj1 hj2
      simp only
      rw [hinv.rotation, List.getD_eq_getElem?_getD]
      by_cases hjk : j = k
      · subst hjk
        have hlt : j % sQueuedFrameCount <
            s.renderManager.mFenceValueByQueuedFrameIndex.length := by
          rw [hinv.length]
          exact Nat.mod_lt _ (by omega)
        rw [List.getElem?_set_self hlt]
        rfl
      · have hne : k % sQueuedFrameCount ≠ j % sQueuedFrameCount :=
          fun heq => mod_ne_of_near j k sQueuedFrameCount (by omega) (by omega) heq.symm
        rw [List.getElem?_set_ne hne, ← List.getD_eq_getElem?_getD]
        exact hinv.recent j (by omega) (by omega)
    · intro j hj
      rw [hids, hhistory]
      by_cases hjk : j = k
      · subst hjk
        refine ⟨s.recorder.commandList shared rtvCpuDescHandle depthStencilHandle a b imm heap,
          by simp, ?_⟩
        rw [← hinv.rotation, ← hinv.slot]
        exact identities_get _ _ _ ha
      · obtain ⟨l', hl', hid'⟩ := hinv.recorded j (by omega)
        exact ⟨l', List.mem_append_left _ hl', hid'⟩
  · rw [← hrec1]
  · exact hhistory


theorem frameLoop_initial (sQueuedFrameCount : Nat) (r0 : EnvironmentLightCmdListRecorder)
    (q0 : ID3D12CommandQueue)
    (hready : r0.Ready sQueuedFrameCount = true) (hpushed : r0.mCmdListQueue = [])
    (hstart : r0.mCurrFrameIndex = 0) (hdistinct : (identities r0).Nodup)
    (hidle : q0.mPending = []) (hzero : q0.mCompletedValue = 0) :
    Invariant sQueuedFrameCount 0
      { recorder := r0, renderManager := RenderManager.create sQueuedFrameCount, queue := q0 } := by
  refine
    { ready := hready, pushed := hpushed, slot := hstart, rotation := ?_, fenceValue := rfl,
      length := ?_, distinct := hdistinct, bounded := ?_, reached := ?_, queue := ?_,
      covered := ?_, backlog := ?_, recent := ?_, recorded := ?_ }
  · simp [RenderManager.create]
  · simp [RenderManager.create]
  · intro v hv
    simp only [RenderManager.create, List.mem_replicate] at hv ⊢
    omega
  · simp only [RenderManager.create, List.getD_eq_getElem?_getD]
    cases hget : (List.replicate sQueuedFrameCount 0)[0]? with
    | none => simp
    | some v =>
      have := List.getElem?_mem hget
      simp only [List.mem_replicate] at this
      simp [this.2]
  · simp only [QueueInvariant, hidle, hzero, signals, RenderManager.create]
    simp
  · simp only [hidle]
    trivial
  · simp [hidle]
  · intro j hj
    omega
  · intro j hj
    omega

theorem frameLoop_run (shared : SharedPSOAndRootSignature) (sQueuedFrameCount : Nat)
    (frames : Nat → FrameCBuffer) (rtvCpuDescHandle depthStencilHandle : Nat)
    (progress : Nat → Nat) (budget : Nat) (s0 : FrameLoop)
    (hN32 : sQueuedFrameCount < 2 ^ 32)
    (hp : shared.sPSO.isSome = true) (hs : shared.sRootSignature.isSome = true)
    (h0 : Invariant sQueuedFrameCount 0 s0) :
    ∀ k, 2 * k ≤ budget →
      ∃ s, run shared sQueuedFrameCount frames rtvCpuDescHandle depthStencilHandle progress
          budget k s0 = .ok s ∧ Invariant sQueuedFrameCount k s := by
  intro k
  induction k with
  | zero => intro _; exact ⟨s0, rfl, h0⟩
  | succ k ih =>
    intro hbudget
    obtain ⟨s, hrun, hinv⟩ := ih (by omega)
    obtain ⟨s', -, -, -, hframe, hinv', -⟩ := frameLoop_frame shared sQueuedFrameCount (frames k)
      rtvCpuDescHandle depthStencilHandle (progress k) budget k s hN32 hp hs hinv hbudget
    refine ⟨s', ?_, hinv'⟩
    simp only [FrameLoop.run, hrun, ok_bind, hframe]


/-- C11. No premature reuse, in the frame loop of a recorder with
`sQueuedFrameCount = N` queued frames that starts at slot `0` with an idle
hardware queue, whatever progress the GPU makes between frames. Frame `k` is
reached; recorder and render manager are then both at slot `k % N`. At the
moment frame `k` resets the command allocator of that slot, the fence value
recorded for the slot's last use does not exceed the completion value the GPU
has reached; from frame `N` on that fence value is `k - N + 1`, the one signalled
at the end of frame `k - N`. At that moment no command list recorded with this
allocator is pending in the hardware queue, and from frame `N` on a command list
recorded with it is among the finished ones. The frame then resets exactly this
allocator and records the next command list with it. -/
theorem allocator_is_reset_only_after_its_last_use_completed
    (shared : SharedPSOAndRootSignature) (sQueuedFrameCount : Nat)
    (frames : Nat → FrameCBuffer) (rtvCpuDescHandle depthStencilHandle : Nat)
    (progress : Nat → Nat) (budget k : Nat) (r0 : EnvironmentLightCmdListRecorder)
    (q0 : ID3D12CommandQueue)
    (hN32 : sQueuedFrameCount < 2 ^ 32)
    (hp : shared.sPSO.isSome = true) (hs : shared.sRootSignature.isSome = true)
    (hready : r0.Ready sQueuedFrameCount = true) (hpushed : r0.mCmdListQueue = [])
    (hstart : r0.mCurrFrameIndex = 0) (hdistinct : (identities r0).Nodup)
    (hidle : q0.mPending = []) (hzero : q0.mCompletedValue = 0)
    (hbudget : 2 * (k + 1) ≤ budget) :
    ∃ (s s' : FrameLoop) (cmdAlloc : ID3D12CommandAllocator)
      (cmdList : ID3D12GraphicsCommandList),
      run shared sQueuedFrameCount frames rtvCpuDescHandle depthStencilHandle progress budget k
        { recorder := r0, renderManager := RenderManager.create sQueuedFrameCount, queue := q0 }
        = .ok s ∧
      s.recorder.mCurrFrameIndex = k % sQueuedFrameCount ∧
      s.renderManager.mCurrentQueuedFrameIndex = k % sQueuedFrameCount ∧
      s.recorder.mCmdAlloc.get? (k % sQueuedFrameCount) = some (some cmdAlloc) ∧
      s.renderManager.mFenceValueByQueuedFrameIndex.getD (k % sQueuedFrameCount) 0
        ≤ (s.atRecord (progress k)).queue.GetCompletedValue ∧
      (sQueuedFrameCount ≤ k →
        s.renderManager.mFenceValueByQueuedFrameIndex.getD (k % sQueuedFrameCount) 0
          = k - sQueuedFrameCount + 1) ∧
      (∀ l, QueueItem.commandList l ∈ (s.atRecord (progress k)).queue.mPending →
        l.allocator ≠ cmdAlloc.identity) ∧
      (sQueuedFrameCount ≤ k →
        ∃ l, l.allocator = cmdAlloc.identity ∧
          QueueItem.commandList l ∈ (s.atRecord (progress k)).queue.mExecuted) ∧
      frame shared sQueuedFrameCount (frames k) rtvCpuDescHandle depthStencilHandle (progress k)
        budget s = .ok s' ∧
      s'.recorder.mCmdAlloc = s.recorder.mCmdAlloc.set (k % sQueuedFrameCount)
        (some { cmdAlloc with resets := cmdAlloc.resets + 1 }) ∧
      cmdList.allocator = cmdAlloc.identity ∧
      s'.queue.mExecuted ++ s'.queue.mPending = s.queue.mExecuted ++ s.queue.mPending ++
        [QueueItem.commandList cmdList, QueueItem.signal (k + 1)] := by
  have h0 := frameLoop_initial sQueuedFrameCount r0 q0 hready hpushed hstart hdistinct hidle hzero
  obtain ⟨s, hrun, hinv⟩ := frameLoop_run shared sQueuedFrameCount frames rtvCpuDescHandle
    depthStencilHandle progress budget _ hN32 hp hs h0 k (by omega)
  obtain ⟨a, ha, -, -, -, hreached, hfree⟩ :=
    frameLoop_atRecord sQueuedFrameCount k (progress k) s hinv
  obtain ⟨s', a', cmdList, ha', hframe, -, halloc, hlist, hhistory⟩ := frameLoop_frame shared
    sQueuedFrameCount (frames k) rtvCpuDescHandle depthStencilHandle (progress k) budget k s
    hN32 hp hs hinv hbudget
  rw [ha] at ha'
  simp only [Option.some.injEq] at ha'
  subst ha'
  have hslot : s.recorder.mCurrFrameIndex = k % sQueuedFrameCount := by
    rw [hinv.slot, hinv.rotation]
  rw [hslot] at ha hreached halloc
  have hmod : sQueuedFrameCount ≤ k →
      (k - sQueuedFrameCount) % sQueuedFrameCount = k % sQueuedFrameCount := by
    intro hle
    have := Nat.add_mod_right (k - sQueuedFrameCount) sQueuedFrameCount
    rw [Nat.sub_add_cancel hle] at this
    exact this.symm
  refine ⟨s, s', a, cmdList, hrun, hslot, hinv.rotation, ha, hreached, ?_, hfree, ?_, hframe,
    halloc, hlist, hhistory⟩
  · intro hle
    have := hinv.recent (k - sQueuedFrameCount) (by
      have := Nat.mod_lt k (show 0 < sQueuedFrameCount by
        obtain ⟨-, -, -, -, -, hidx⟩ :=
          environmentLightRecorder_Ready_elim r0 sQueuedFrameCount hready
        omega)
      omega) (by omega)
    rw [hmod hle] at this
    exact this
  · intro hle
    have hpos : 0 < sQueuedFrameCount := by
      obtain ⟨-, -, -, -, -, hidx⟩ :=
        environmentLightRecorder_Ready_elim r0 sQueuedFrameCount hready
      omega
    obtain ⟨l, hl, hid⟩ := hinv.recorded (k - sQueuedFrameCount) (by omega)
    rw [hmod hle, identities_get _ _ _ ha] at hid
    simp only [Option.some.injEq] at hid
    refine ⟨l, hid.symm, ?_⟩
    have hmem : QueueItem.commandList l ∈ (s.atRecord (progress k)).queue.mExecuted ++
        (s.atRecord (progress k)).queue.mPending := by
      simp only [FrameLoop.atRecord]
      rw [queue_advance_history]
      exact hl
    rcases List.mem_append.1 hmem with hmem | hmem
    · exact hmem
    · exact absurd hid.symm (hfree l hmem)

/-- Witness of C11: the example frame loop with three queued frames, the GPU
finishing nothing between frames. Frame `3` finds recorder and render manager at
slot `0`; the fence value recorded for that slot is `1`, and the completion
value has reached it. -/
theorem allocator_is_reset_only_after_its_last_use_completed_witness :
    ∃ s, run Example.environmentLightShared 3 (fun _ => Example.frameCBuffer) 500 501
        (fun _ => 0) 8 3 Example.frameLoop = .ok s ∧
      s.recorder.mCurrFrameIndex = 0 ∧
      s.renderManager.mFenceValueByQueuedFrameIndex.getD 0 0 = 1 ∧
      1 ≤ (s.atRecord 0).queue.GetCompletedValue ∧
      ∀ l, QueueItem.commandList l ∈ (s.atRecord 0).queue.mPending → l.allocator ≠ 200 := by
  obtain ⟨s, s', a, cmdList, hrun, hslot, -, ha, hreached, hrecent, hfree, -⟩ :=
    allocator_is_reset_only_after_its_last_use_completed Example.environmentLightShared 3
      (fun _ => Example.frameCBuffer) 500 501 (fun _ => 0) 8 3 Example.environmentLightRecorder
      { mExecuted := [], mPending := [], mCompletedValue := 0 } (by norm_num) rfl rfl rfl rfl rfl
      (by decide) rfl rfl (by decide)
  have hrun' : run Example.environmentLightShared 3 (fun _ => Example.frameCBuffer) 500 501
      (fun _ => 0) 8 3 Example.frameLoop = .ok s := hrun
  have hfence := hrecent (by decide)
  have hid : a.identity = 200 := by
    obtain ⟨x, hx⟩ : ∃ x, run Example.environmentLightShared 3 (fun _ => Example.frameCBuffer)
        500 501 (fun _ => 0) 8 3 Example.frameLoop = .ok x ∧
        x.recorder.mCmdAlloc.get? 0 = some (some ⟨200, 1⟩) := ⟨_, rfl, rfl⟩
    rw [hrun'] at hx
    simp only [Except.ok.injEq] at hx
    have h2 := hx.2
    rw [← hx.1] at h2
    have ha' : s.recorder.mCmdAlloc.get? 0 = some (some a) := ha
    rw [ha'] at h2
    simp only [Option.some.injEq] at h2
    rw [h2]
  refine ⟨s, hrun', hslot, hfence, ?_, ?_⟩
  · have h1 : s.renderManager.mFenceValueByQueuedFrameIndex.getD 0 0
        ≤ (s.atRecord 0).queue.GetCompletedValue := hreached
    have h2 : s.renderManager.mFenceValueByQueuedFrameIndex.getD 0 0 = 1 := hfence
    omega
  · intro l hl
    rw [← hid]
    exact hfree l hl

end FrameLoopProperties

theorem environmentLightRecorder_record_inv (r : EnvironmentLightCmdListRecorder)
    (shared : SharedPSOAndRootSignature) (N : Nat) (frameCBuffer : FrameCBuffer)
    (rtvCpuDescHandle depthStencilHandle : Nat) (r' : EnvironmentLightCmdListRecorder)
    (h : r.RecordCommandLists shared N frameCBuffer rtvCpuDescHandle depthStencilHandle
      = .ok r') :
    r.ValidateData N = true ∧ shared.sPSO.isSome = true ∧ shared.sRootSignature.isSome = true ∧
    ∃ cmdAlloc uploadFrameCBuffer immutableCBuffer heap cmdList,
      r.mCmdAlloc.get? r.mCurrFrameIndex = some (some cmdAlloc) ∧
      r.mFrameCBuffer.get? r.mCurrFrameIndex = some (some uploadFrameCBuffer) ∧
      r.mImmutableCBuffer = some immutableCBuffer ∧
      r.mCbvSrvUavDescHeap = some heap ∧
      r.mCmdList = some cmdList ∧ cmdList.closed = true := by
  simp only [EnvironmentLightCmdListRecorder.RecordCommandLists, bind_eq_ok, ASSERT_eq_ok,
    deref_eq_ok] at h
  obtain ⟨_, hv, _, hp, _, hs, slot, hslot, _, hsome, a, ha, fslot, hfslot, b, hb, b', -, l, hl,
    _, hclosed, imm, himm, heap, hheap, -⟩ := h
  subst ha hb
  exact ⟨hv, hp, hs, a, b, imm, heap, l, hslot, hfslot, himm, hheap, hl, hclosed⟩

/-- C21. The command list of an `EnvironmentLightCmdListRecorder` is closed
whenever `RecordCommandLists` resets it. A recorder that its constructor
returns holds a closed list and has pushed nothing. Every `RecordCommandLists`
that returns found the list closed when it reset it, and leaves it closed again;
the list it pushed is that list, which it obtained by the reset as an open,
empty list, recorded, and closed before the push. A call on a recorder whose
list is open does not return. So in a sequence of calls on a recorder that is
ready to record every call returns and leaves the list closed. -/
theorem environmentLightRecorder_command_list_is_closed_between_calls :
    (∀ (cmdListQueue : List ID3D12GraphicsCommandList) (sQueuedFrameCount firstObject : Nat)
        (r : EnvironmentLightCmdListRecorder),
      EnvironmentLightCmdListRecorder.create cmdListQueue sQueuedFrameCount firstObject = .ok r →
      r.mCmdListQueue = cmdListQueue ∧ ∃ l, r.mCmdList = some l ∧ l.closed = true) ∧
    (∀ (r : EnvironmentLightCmdListRecorder) (shared : SharedPSOAndRootSignature)
        (sQueuedFrameCount : Nat) (frameCBuffer : FrameCBuffer)
        (rtvCpuDescHandle depthStencilHandle : Nat) (r' : EnvironmentLightCmdListRecorder),
      r.RecordCommandLists shared sQueuedFrameCount frameCBuffer rtvCpuDescHandle
        depthStencilHandle = .ok r' →
      (∃ old, r.mCmdList = some old ∧ old.closed = true) ∧
      ∃ (opened l : ID3D12GraphicsCommandList),
        opened.closed = false ∧ opened.commands = [] ∧ opened.pso = shared.sPSO ∧
        l = { opened with commands := l.commands, closed := true } ∧
        l.commands.length = 12 ∧
        r'.mCmdList = some l ∧ l.closed = true ∧
        r'.mCmdListQueue = r.mCmdListQueue ++ [l]) ∧
    (∀ (r : EnvironmentLightCmdListRecorder) (shared : SharedPSOAndRootSignature)
        (sQueuedFrameCount : Nat) (frameCBuffer : FrameCBuffer)
        (rtvCpuDescHandle depthStencilHandle : Nat) (l : ID3D12GraphicsCommandList),
      r.mCmdList = some l → l.closed = false →
      ∃ fault, r.RecordCommandLists shared sQueuedFrameCount frameCBuffer rtvCpuDescHandle
        depthStencilHandle = .error fault) ∧
    (∀ (shared : SharedPSOAndRootSignature) (sQueuedFrameCount : Nat)
        (frames : Nat → FrameCBuffer) (rtvCpuDescHandle depthStencilHandle : Nat)
        (r0 : EnvironmentLightCmdListRecorder) (k : Nat),
      sQueuedFrameCount < 2 ^ 32 → shared.sPSO.isSome = true →
      shared.sRootSignature.isSome = true → r0.Ready sQueuedFrameCount = true →
      r0.mCurrFrameIndex = 0 →
      ∃ rk l, EnvironmentLightCmdListRecorder.afterCalls shared sQueuedFrameCount frames
          rtvCpuDescHandle depthStencilHandle k r0 = .ok rk ∧
        rk.mCmdList = some l ∧ l.closed = true) := by
  refine ⟨?_, ?_, ?_, ?_⟩
  · intro cmdListQueue N firstObject r h
    simp only [EnvironmentLightCmdListRecorder.create,
      EnvironmentLightCmdListRecorder.BuildCommandObjects, bind_eq_ok, ASSERT_eq_ok,
      deref_eq_ok, pure_eq_ok, Except.ok.injEq] at h
    obtain ⟨⟨l, allocs⟩, ⟨_, -, _, -, first, -, hbuilt⟩, hr⟩ := h
    simp only [Prod.mk.injEq] at hbuilt
    subst hr
    refine ⟨rfl, l, rfl, ?_⟩
    rw [← hbuilt.1]
    rfl
  · intro r shared N frameCBuffer rtv ds r' h
    obtain ⟨hv, hp, hs, a, b, imm, heap, old, ha, hb, himm, hheap, hold, hclosed⟩ :=
      environmentLightRecorder_record_inv r shared N frameCBuffer rtv ds r' h
    rw [environmentLightRecorder_record_ok r shared N frameCBuffer rtv ds a b imm heap old hv hp
      hs ha hb himm hheap hold hclosed] at h
    simp only [Except.ok.injEq] at h
    subst h
    refine ⟨⟨old, hold, hclosed⟩,
      ⟨a.identity, shared.sPSO, [], false⟩, r.commandList shared rtv ds a b imm heap,
      rfl, rfl, rfl, rfl, rfl, rfl, rfl, rfl⟩
  · intro r shared N frameCBuffer rtv ds l hl hopen
    cases hres : r.RecordCommandLists shared N frameCBuffer rtv ds with
    | error fault => exact ⟨fault, rfl⟩
    | ok r' =>
      obtain ⟨-, -, -, a, b, imm, heap, old, -, -, -, -, hold, hclosed⟩ :=
        environmentLightRecorder_record_inv r shared N frameCBuffer rtv ds r' hres
      rw [hl] at hold
      simp only [Option.some.injEq] at hold
      rw [← hold, hopen] at hclosed
      simp at hclosed
  · intro shared N frames rtv ds r0 k hN32 hp hs hready hstart
    obtain ⟨rk, hrun, hreadyk, -⟩ := environmentLightRecorder_afterCalls shared N frames rtv ds r0
      hN32 hp hs hready hstart k
    obtain ⟨-, -, -, -, ⟨l, hl, hclosed⟩, -⟩ := environmentLightRecorder_Ready_elim rk N hreadyk
    exact ⟨rk, l, hrun, hl, hclosed⟩

/-- Witness of C21: the constructor builds a recorder for three queued frames
whose list is closed, and the example recorder, after two calls, holds a closed
list again. -/
theorem environmentLightRecorder_command_list_is_closed_between_calls_witness :
    (∃ r l, EnvironmentLightCmdListRecorder.create [] 3 200 = .ok r ∧
      r.mCmdList = some l ∧ l.closed = true) ∧
    (∃ r2 l, EnvironmentLightCmdListRecorder.afterCalls Example.environmentLightShared 3
        (fun _ => Example.frameCBuffer) 500 501 2 Example.environmentLightRecorder = .ok r2 ∧
      r2.mCmdList = some l ∧ l.closed = true) := by
  constructor
  · obtain ⟨r, h⟩ : ∃ r, EnvironmentLightCmdListRecorder.create [] 3 200 = .ok r := ⟨_, rfl⟩
    obtain ⟨-, l, hl, hclosed⟩ :=
      environmentLightRecorder_command_list_is_closed_between_calls.1 [] 3 200 r h
    exact ⟨r, l, h, hl, hclosed⟩
  · exact environmentLightRecorder_command_list_is_closed_between_calls.2.2.2
      Example.environmentLightShared 3 (fun _ => Example.frameCBuffer) 500 501
      Example.environmentLightRecorder 2 (by norm_num) rfl rfl rfl rfl

theorem memcpy_inside (memory : Nat → Nat) (start : Nat) (src : List Nat) (count j : Nat)
    (hj : j < count) (hsrc : count ≤ src.length) :
    src.get? j = some (memcpy memory start src count (start + j)) := by
  have hlt : j < src.length := by omega
  simp only [memcpy, Nat.le_add_right, Nat.add_lt_add_iff_left, hj, and_self, if_true,
    Nat.add_sub_cancel_left]
  rw [List.get?_eq_getElem?, List.getElem?_eq_getElem hlt, List.getD_eq_getElem?_getD,
    List.getElem?_eq_getElem hlt]
  rfl

theorem memcpy_outside (memory : Nat → Nat) (start : Nat) (src : List Nat) (count a : Nat)
    (ha : a < start ∨ start + count ≤ a) :
    memcpy memory start src count a = memory a := by
  have : ¬ (start ≤ a ∧ a < start + count) := by omega
  simp [memcpy, this]

/-- C23. `UploadBuffer::CopyData(elemIndex, srcData, srcDataSize)` with a
non-null source always returns. It makes the `srcDataSize` bytes of the mapped
data that start at byte offset `elemIndex * mElemSize` equal to the source bytes,
in order (byte `j` of the source lands at offset `elemIndex * mElemSize + j`),
leaves every other byte of the mapped data unchanged, and changes nothing else
of the buffer. The offset is the one `std::size_t` arithmetic gives, which is the
product itself when that is below `2 ^ 64`. With a null source the call fails
its assertion. -/
theorem uploadBuffer_CopyData_writes_exactly_the_source_bytes (b : UploadBuffer)
    (elemIndex : Nat) (srcData : List Nat) (srcDataSize : Nat)
    (hsrc : srcDataSize ≤ srcData.length) (hoffset : elemIndex * b.mElemSize < 2 ^ 64) :
    (∃ b', b.CopyData elemIndex (some srcData) srcDataSize = .ok b' ∧
      (∀ j, j < srcDataSize →
        srcData.get? j = some (b'.mMappedData (elemIndex * b.mElemSize + j))) ∧
      (∀ a, a < elemIndex * b.mElemSize ∨ elemIndex * b.mElemSize + srcDataSize ≤ a →
        b'.mMappedData a = b.mMappedData a) ∧
      b'.mElemSize = b.mElemSize ∧ b'.mBuffer = b.mBuffer ∧ b'.mappedSize = b.mappedSize) ∧
    b.CopyData elemIndex none srcDataSize = .error Fault.assertion := by
  refine ⟨⟨_, CopyData_ok b elemIndex srcData srcDataSize, ?_, ?_, rfl, rfl, rfl⟩, rfl⟩
  · intro j hj
    simp only [Nat.mod_eq_of_lt hoffset]
    exact memcpy_inside _ _ _ _ _ hj hsrc
  · intro a ha
    simp only [Nat.mod_eq_of_lt hoffset]
    exact memcpy_outside _ _ _ _ _ ha

/-- Witness of C23: copying the two bytes `1, 2` to element 1 of the example
buffer, whose elements have four bytes, changes the bytes at offsets 4 and 5 and
leaves the byte at offset 6 as it was. -/
theorem uploadBuffer_CopyData_writes_exactly_the_source_bytes_witness :
    ∃ b', Example.uploadBuffer.CopyData 1 (some [1, 2]) 2 = .ok b' ∧
      b'.mMappedData 4 = 1 ∧ b'.mMappedData 5 = 2 ∧ b'.mMappedData 6 = 106 ∧
      b'.mMappedData 3 = 103 := by
  obtain ⟨⟨b', h, hin, hout, -⟩, -⟩ := uploadBuffer_CopyData_writes_exactly_the_source_bytes
    Example.uploadBuffer 1 [1, 2] 2 (by decide) (by decide)
  refine ⟨b', h, ?_, ?_, ?_, ?_⟩
  · have := hin 0 (by decide)
    simpa using this.symm
  · have := hin 1 (by decide)
    simpa using this.symm
  · exact hout 6 (Or.inr (by decide))
  · exact hout 3 (Or.inl (by decide))

theorem uploadBuffer_create_ok (resource : Nat) (memory : Nat → Nat) (elemSize elemCount : Nat)
    (b : UploadBuffer) (h : UploadBuffer.create resource memory elemSize elemCount = .ok b) :
    0 < elemSize ∧ 0 < elemCount ∧
    b = ⟨elemSize, resource, memory, (elemSize * elemCount) % 2 ^ 64⟩ := by
  simp only [UploadBuffer.create, bind_eq_ok, ASSERT_eq_ok, decide_eq_true_eq, pure_eq_ok,
    Except.ok.injEq] at h
  obtain ⟨_, h1, _, h2, h3⟩ := h
  exact ⟨h1, h2, h3.symm⟩

theorem element_offsets (s c i n : Nat) (hi : i < c) (hn : n ≤ s) :
    i * s + n ≤ (i + 1) * s ∧ (i + 1) * s ≤ s * c := by
  constructor
  · rw [Nat.add_mul, Nat.one_mul]
    omega
  · rw [Nat.mul_comm s c]
    exact Nat.mul_le_mul_right s hi

/-- C24. For an `UploadBuffer` constructed with element size `s > 0` and element
count `c > 0`, whose mapped region has `s * c` bytes (the product being below
`2 ^ 64`), a `CopyData(i, src, n)` with `i < c` and `n <= s` writes only inside
the mapped region, `i * s + n <= s * c`, and only inside element `i`: every byte
it changes lies at an offset from `i * s` to below `i * s + n`, which is below
`(i + 1) * s` and below the size of the region, so the bytes of every other
element are as before. `CopyData` itself checks neither bound: it returns for
every element index and size, on every buffer. -/
theorem uploadBuffer_CopyData_stays_inside_its_element (resource : Nat) (memory : Nat → Nat)
    (s c i n : Nat) (src : List Nat) (b : UploadBuffer)
    (hcreate : UploadBuffer.create resource memory s c = .ok b) (hsize : s * c < 2 ^ 64)
    (hi : i < c) (hn : n ≤ s) :
    0 < s ∧ 0 < c ∧ b.mElemSize = s ∧ b.mappedSize = s * c ∧
    i * s + n ≤ s * c ∧
    (∃ b', b.CopyData i (some src) n = .ok b' ∧
      (∀ a, b'.mMappedData a ≠ b.mMappedData a →
        i * s ≤ a ∧ a < i * s + n ∧ a < (i + 1) * s ∧ a < b.mappedSize) ∧
      (∀ k a, k ≠ i → k * s ≤ a → a < (k + 1) * s → b'.mMappedData a = b.mMappedData a)) ∧
    (∀ (buffer : UploadBuffer) (elemIndex srcDataSize : Nat),
      ∃ buffer', buffer.CopyData elemIndex (some src) srcDataSize = .ok buffer') := by
  obtain ⟨hs, hc, hb⟩ := uploadBuffer_create_ok resource memory s c b hcreate
  subst hb
  obtain ⟨h1, h2⟩ := element_offsets s c i n hi hn
  have hoff : (i * s) % 2 ^ 64 = i * s := by
    apply Nat.mod_eq_of_lt
    have : i * s ≤ (i + 1) * s := Nat.mul_le_mul_right s (Nat.le_succ i)
    omega
  refine ⟨hs, hc, rfl, Nat.mod_eq_of_lt hsize, by omega, ⟨_, CopyData_ok _ i src n, ?_, ?_⟩,
    fun buffer elemIndex srcDataSize => ⟨_, CopyData_ok buffer elemIndex src srcDataSize⟩⟩
  · intro a ha
    simp only [hoff] at ha
    have hin : i * s ≤ a ∧ a < i * s + n := by
      by_contra hc'
      exact ha (memcpy_outside _ _ _ _ _ (by omega))
    simp only [Nat.mod_eq_of_lt hsize]
    omega
  · intro k a hk hlo hhi
    simp only [hoff]
    apply memcpy_outside
    rcases Nat.lt_or_gt_of_ne hk with hlt | hgt
    · left
      have : (k + 1) * s ≤ i * s := Nat.mul_le_mul_right s hlt
      omega
    · right
      have : (i + 1) * s ≤ k * s := Nat.mul_le_mul_right s hgt
      omega

/-- Witness of C24: in a buffer of three elements of four bytes, a copy of four
bytes to element 1 leaves elements 0 and 2 as they were; a copy of five bytes,
which `CopyData` does not refuse, changes the first byte of element 2. -/
theorem uploadBuffer_CopyData_stays_inside_its_element_witness :
    ∃ b b' b'', UploadBuffer.create 7 (fun a => 100 + a) 4 3 = .ok b ∧
      b.CopyData 1 (some [1, 2, 3, 4, 5]) 4 = .ok b' ∧
      b'.mMappedData 3 = 103 ∧ b'.mMappedData 8 = 108 ∧
      b.CopyData 1 (some [1, 2, 3, 4, 5]) 5 = .ok b'' ∧ b''.mMappedData 8 = 5 := by
  obtain ⟨b, hb⟩ : ∃ b, UploadBuffer.create 7 (fun a => 100 + a) 4 3 = .ok b := ⟨_, rfl⟩
  obtain ⟨-, -, -, -, -, ⟨b', hb', -, hother⟩, -⟩ :=
    uploadBuffer_CopyData_stays_inside_its_element 7 (fun a => 100 + a) 4 3 1 4
      [1, 2, 3, 4, 5] b hb (by decide) (by decide) (by decide)
  have hcreated : b = ⟨4, 7, fun a => 100 + a, 12⟩ := by
    simp only [UploadBuffer.create] at hb
    exact (Except.ok.inj hb).symm
  refine ⟨b, b', _, hb, hb', ?_, ?_, CopyData_ok b 1 [1, 2, 3, 4, 5] 5, ?_⟩
  · rw [hother 0 3 (by decide) (by decide) (by decide), hcreated]
  · rw [hother 2 8 (by decide) (by decide) (by decide), hcreated]
  · rw [hcreated]
    decide

theorem copyLights_bytes (size : Nat) (lights : List Nat) :
    ∀ (remaining i : Nat) (buffer : UploadBuffer), buffer.mElemSize = size →
      (i + remaining) * size < 2 ^ 64 →
      ∃ buffer', PunctualLightCmdListRecorder.copyLights size lights remaining i buffer
          = .ok buffer' ∧
        buffer'.mBuffer = buffer.mBuffer ∧ buffer'.mElemSize = buffer.mElemSize ∧
        buffer'.mappedSize = buffer.mappedSize ∧
        ∀ a, buffer'.mMappedData a =
          if i * size ≤ a ∧ a < (i + remaining) * size then lights.getD a 0
          else buffer.mMappedData a := by
  intro remaining
  induction remaining with
  | zero =>
    intro i buffer _ _
    refine ⟨buffer, rfl, rfl, rfl, rfl, fun a => ?_⟩
    have : ¬ (i * size ≤ a ∧ a < (i + 0) * size) := by
      rw [Nat.add_zero]; omega
    simp only [this, if_false]
  | succ n ih =>
    intro i buffer hsize hbound
    simp only [PunctualLightCmdListRecorder.copyLights, CopyData_ok, ok_bind]
    have hle : i * size ≤ (i + (n + 1)) * size := Nat.mul_le_mul_right size (by omega)
    have hoff : (i * buffer.mElemSize) % 2 ^ 64 = i * size := by
      rw [hsize]
      exact Nat.mod_eq_of_lt (by omega)
    obtain ⟨b', h, hb, he, hm, hbytes⟩ := ih (i + 1)
      ⟨buffer.mElemSize, buffer.mBuffer, memcpy buffer.mMappedData
        ((i * buffer.mElemSize) % 2 ^ 64) ((some (lights.drop (size * i))).getD []) size,
        buffer.mappedSize⟩ hsize
      (by rw [show i + 1 + n = i + (n + 1) by omega]; exact hbound)
    refine ⟨b', h, hb, he, hm, fun a => ?_⟩
    rw [hbytes a]
    have hnext : (i + 1) * size = i * size + size := by rw [Nat.add_mul, Nat.one_mul]
    have hlast : (i + 1 + n) * size = (i + (n + 1)) * size := by
      rw [show i + 1 + n = i + (n + 1) by omega]
    have hmono : (i + 1) * size ≤ (i + 1 + n) * size := Nat.mul_le_mul_right size (by omega)
    simp only [hoff, memcpy, Option.getD_some, List.getD_eq_getElem?_getD, List.getElem?_drop]
    by_cases h1 : (i + 1) * size ≤ a ∧ a < (i + 1 + n) * size
    · have h2 : i * size ≤ a ∧ a < (i + (n + 1)) * size := by omega
      simp only [h1, h2, and_self, if_true]
    · simp only [h1, if_false]
      by_cases h3 : i * size ≤ a ∧ a < i * size + size
      · have h2 : i * size ≤ a ∧ a < (i + (n + 1)) * size := by omega
        have h4 : size * i + (a - i * size) = a := by
          rw [Nat.mul_comm size i]; omega
        simp only [h3, h2, and_self, if_true, h4]
      · have h2 : ¬ (i * size ≤ a ∧ a < (i + (n + 1)) * size) := by omega
        simp only [h3, h2, if_false]

theorem CreateUploadBuffer_inv (w : World) (elemSize elemCount : Nat) (b : UploadBuffer)
    (w' : World) (h : w.CreateUploadBuffer elemSize elemCount = .ok (b, w')) :
    0 < elemSize ∧ 0 < elemCount ∧
    b = ⟨elemSize, w.mNextObject, fun _ => 0, elemSize * elemCount⟩ ∧
    w' = (w.CreateObject).2 := by
  simp only [World.CreateUploadBuffer, bind_eq_ok, ASSERT_eq_ok, decide_eq_true_eq, pure_eq_ok,
    Except.ok.injEq, Prod.mk.injEq] at h
  obtain ⟨_, h1, _, h2, h3, h4⟩ := h
  exact ⟨h1, h2, h3.symm, h4.symm⟩

/-- C25. After a returning `CreateLightBuffersAndViews(lights)`, where `lights`
holds at least `mNumLights * sizeof(PunctualLight)` bytes and that product is
below `2 ^ 64`, the lights buffer holds the lights in order: it has `mNumLights`
elements of `sizeof(PunctualLight)` bytes, and byte `j` of element `i` is byte
`j` of the `i`-th light. Every copy stays inside the buffer: element `i` ends
at or before the mapped size, and the bytes from the mapped size on are as the
mapping left them. The shader resource view created is one view of the buffer
resource, of dimension buffer, describing exactly `mNumLights` elements of
stride `sizeof(PunctualLight)` starting at element `0`. -/
theorem punctualLightRecorder_lights_buffer_holds_the_lights_in_order
    (r : PunctualLightCmdListRecorder) (lights : List Nat) (w : World)
    (r' : PunctualLightCmdListRecorder) (w' : World)
    (h : r.CreateLightBuffersAndViews (some lights) w = .ok (r', w'))
    (hlength : r.mNumLights * w.sizeofPunctualLight ≤ lights.length)
    (hsize : r.mNumLights * w.sizeofPunctualLight < 2 ^ 64) :
    r'.mNumLights = r.mNumLights ∧ w'.sizeofPunctualLight = w.sizeofPunctualLight ∧
    ∃ buffer, r'.mLightsUploadBuffer = some buffer ∧
      buffer.mElemSize = w.sizeofPunctualLight ∧
      buffer.mappedSize = w.sizeofPunctualLight * r.mNumLights ∧
      (∀ i j, i < r.mNumLights → j < w.sizeofPunctualLight →
        lights.get? (i * w.sizeofPunctualLight + j) =
          some (buffer.mMappedData (i * buffer.mElemSize + j))) ∧
      (∀ i, i < r.mNumLights →
        i * buffer.mElemSize + w.sizeofPunctualLight ≤ buffer.mappedSize) ∧
      (∀ a, buffer.mappedSize ≤ a → buffer.mMappedData a = 0) ∧
      ∃ descriptor, w'.mShaderResourceViews r'.mStartLightsBufferShaderResourceView =
          some [⟨buffer.mBuffer, descriptor⟩] ∧
        descriptor.ViewDimension = D3D12_SRV_DIMENSION_BUFFER ∧
        descriptor.FirstElement = 0 ∧
        descriptor.NumElements = r.mNumLights ∧
        descriptor.StructureByteStride = w.sizeofPunctualLight := by
  simp only [PunctualLightCmdListRecorder.CreateLightBuffersAndViews, bind_eq_ok, ASSERT_eq_ok,
    deref_some, Except.ok.injEq] at h
  obtain ⟨_, -, _, -, _, -, ⟨b0, w0⟩, hcreate, lightsPtr, hl, h⟩ := h
  subst hl
  obtain ⟨hs, hc, hb0, hw0⟩ := CreateUploadBuffer_inv _ _ _ _ _ hcreate
  have hsz : w0.sizeofPunctualLight = w.sizeofPunctualLight := by rw [hw0]; rfl
  simp only [hsz] at h
  obtain ⟨b1, hcopy, hres, helem, hmapped, hbytes⟩ := copyLights_bytes w.sizeofPunctualLight
    lights r.mNumLights 0 b0 (by rw [hb0]) (by rw [Nat.zero_add]; exact hsize)
  simp only [hcopy, ok_bind, pure_eq_ok, Except.ok.injEq, Prod.mk.injEq] at h
  obtain ⟨b, hb, hr, hw⟩ := h
  subst hb hr hw
  have helem1 : b1.mElemSize = w.sizeofPunctualLight := by rw [helem, hb0]
  have hmapped1 : b1.mappedSize = w.sizeofPunctualLight * r.mNumLights := by rw [hmapped, hb0]
  refine ⟨rfl, ?_, b1, rfl, helem1, hmapped1, ?_, ?_, ?_,
    ⟨(w0.GetDesc b1.mBuffer).Format, D3D12_SRV_DIMENSION_BUFFER,
      D3D12_DEFAULT_SHADER_4_COMPONENT_MAPPING, 0, 0, 0, r.mNumLights, w.sizeofPunctualLight⟩,
    ?_, rfl, rfl, rfl, rfl⟩
  · simp only [World.CreateShaderResourceViews, hsz]
  · intro i j hi hj
    have hle : (i + 1) * w.sizeofPunctualLight ≤ r.mNumLights * w.sizeofPunctualLight :=
      Nat.mul_le_mul_right _ hi
    rw [Nat.add_mul, Nat.one_mul] at hle
    have hin : 0 * w.sizeofPunctualLight ≤ i * w.sizeofPunctualLight + j ∧
        i * w.sizeofPunctualLight + j < (0 + r.mNumLights) * w.sizeofPunctualLight := by
      rw [Nat.zero_add, Nat.zero_mul]; omega
    rw [helem1, hbytes, if_pos hin, List.getD_eq_getElem?_getD, List.get?_eq_getElem?,
      List.getElem?_eq_getElem (by omega)]
    rfl
  · intro i hi
    have hle : (i + 1) * w.sizeofPunctualLight ≤ r.mNumLights * w.sizeofPunctualLight :=
      Nat.mul_le_mul_right _ hi
    rw [Nat.add_mul, Nat.one_mul] at hle
    rw [helem1, hmapped1, Nat.mul_comm w.sizeofPunctualLight]
    exact hle
  · intro a ha
    have hout : ¬ (0 * w.sizeofPunctualLight ≤ a ∧
        a < (0 + r.mNumLights) * w.sizeofPunctualLight) := by
      rw [Nat.zero_add]
      rw [hmapped1, Nat.mul_comm] at ha
      omega
    rw [hbytes, if_neg hout, hb0]
  · simp [World.CreateShaderResourceViews, hres]

/-- Witness of C25: two lights of four bytes each, copied by the example
recorder; the third byte of the second light is in place. -/
theorem punctualLightRecorder_lights_buffer_holds_the_lights_in_order_witness :
    ∃ r' w' buffer, Example.punctualLightRecorderBeforeLights.1.CreateLightBuffersAndViews
        (some Example.lights) Example.punctualLightRecorderBeforeLights.2 = .ok (r', w') ∧
      r'.mLightsUploadBuffer = some buffer ∧ buffer.mappedSize = 8 ∧
      buffer.mMappedData 6 = 7 := by
  obtain ⟨r', w', h⟩ : ∃ r' w',
      Example.punctualLightRecorderBeforeLights.1.CreateLightBuffersAndViews
        (some Example.lights) Example.punctualLightRecorderBeforeLights.2 = .ok (r', w') :=
    ⟨_, _, rfl⟩
  obtain ⟨-, -, buffer, hbuffer, helem, hmapped, hbytes, -, -, -⟩ :=
    punctualLightRecorder_lights_buffer_holds_the_lights_in_order _ _ _ r' w' h
      (by decide) (by decide)
  refine ⟨r', w', buffer, h, hbuffer, hmapped, ?_⟩
  have h6 := hbytes 1 2 (by decide) (by decide)
  rw [helem] at h6
  exact (Option.some.inj h6).symm

theorem ambientLightRecorder_Init_valid (r : AmbientLightCmdListRecorder)
    (a b c : Nat) (w : World) (r' : AmbientLightCmdListRecorder) (w' : World)
    (h : r.Init a b c w = .ok (r', w')) : r'.ValidateData = true := by
  simp only [AmbientLightCmdListRecorder.Init, bind_eq_ok, ASSERT_eq_ok, pure_eq_ok,
    Except.ok.injEq, Prod.mk.injEq] at h
  obtain ⟨_, -, ⟨r1, w1⟩, -, _, hv, hr, -⟩ := h
  rw [← hr]; exact hv

theorem ambientLightPass_Init_valid (p : AmbientLightPass)
    (a b c d : Nat) (w : World) (p' : AmbientLightPass) (w' : World)
    (h : p.Init a b c d w = .ok (p', w')) : p'.ValidateData = true := by
  simp only [AmbientLightPass.Init, bind_eq_ok, ASSERT_eq_ok, pure_eq_ok,
    CreateResourceAndRenderTargetView, deref_some, ok_bind,
    Except.ok.injEq, Prod.mk.injEq] at h
  obtain ⟨_, -, w1, -, ⟨ao0, wa⟩, -, ⟨ao, wb⟩, -, ⟨bl0, wc⟩, -, ⟨bl, wd⟩,
    -, ⟨al, we⟩, -, _, hv, hp, -⟩ := h
  rw [← hp]; exact hv

theorem toneMappingPass_Init_valid (p : ToneMappingPass)
    (a b c : Nat) (w : World) (p' : ToneMappingPass) (w' : World)
    (h : p.Init a b c w = .ok (p', w')) : p'.IsDataValid = true := by
  simp only [ToneMappingPass.Init, bind_eq_ok, ASSERT_eq_ok, pure_eq_ok, deref_some, ok_bind,
    Except.ok.injEq, Prod.mk.injEq] at h
  obtain ⟨_, -, ⟨r0, w0⟩, -, ⟨r1, w1⟩, -, _, hv, hp, -⟩ := h
  rw [← hp]; exact hv

theorem scene_Init_valid (s : Scene) (managers : SceneManagers) (s' : Scene)
    (h : s.Init managers = .ok s') : s'.IsDataValid = true := by
  simp only [Scene.Init, bind_eq_ok, ASSERT_eq_ok, pure_eq_ok, deref_eq_ok,
    Except.ok.injEq] at h
  obtain ⟨_, -, allocator, -, commandList, -, _, hv, hs⟩ := h
  rw [← hs]; exact hv

/-- C27. `Init` is once-only. For `AmbientLightCmdListRecorder::Init`,
`AmbientLightPass::Init`, `ToneMappingPass::Init` and `Scene::Init`: a call that
returns leaves the object valid, and on a valid object the entry assertion
(`ValidateData() == false`, `IsDataValid() == false`) is the one that fails, so
`Init` with any arguments, in any process state, is an assertion failure; it
is the first statement of `Init`, so no field of the object has been assigned
and the failing call yields no new object. Hence a second `Init` on the object
a first `Init` returned always fails. -/
theorem second_Init_fails_the_entry_assertion :
    (∀ (r : AmbientLightCmdListRecorder) (a b c : Nat) (w : World)
        (r' : AmbientLightCmdListRecorder) (w' : World),
      r.Init a b c w = .ok (r', w') →
      r'.ValidateData = true ∧
      ASSERT (r'.ValidateData == false) = .error Fault.assertion ∧
      ∀ (a' b' c' : Nat) (w'' : World), r'.Init a' b' c' w'' = .error Fault.assertion) ∧
    (∀ (p : AmbientLightPass) (a b c d : Nat) (w : World) (p' : AmbientLightPass) (w' : World),
      p.Init a b c d w = .ok (p', w') →
      p'.ValidateData = true ∧
      ASSERT (p'.ValidateData == false) = .error Fault.assertion ∧
      ∀ (a' b' c' d' : Nat) (w'' : World), p'.Init a' b' c' d' w'' = .error Fault.assertion) ∧
    (∀ (p : ToneMappingPass) (a b c : Nat) (w : World) (p' : ToneMappingPass) (w' : World),
      p.Init a b c w = .ok (p', w') →
      p'.IsDataValid = true ∧
      ASSERT (p'.IsDataValid == false) = .error Fault.assertion ∧
      ∀ (a' b' c' : Nat) (w'' : World), p'.Init a' b' c' w'' = .error Fault.assertion) ∧
    (∀ (s : Scene) (managers : SceneManagers) (s' : Scene),
      s.Init managers = .ok s' →
      s'.IsDataValid = true ∧
      ASSERT (s'.IsDataValid == false) = .error Fault.assertion ∧
      ∀ (managers' : SceneManagers), s'.Init managers' = .error Fault.assertion) := by
  refine ⟨?_, ?_, ?_, ?_⟩
  · intro r a b c w r' w' h
    have hv := ambientLightRecorder_Init_valid r a b c w r' w' h
    refine ⟨hv, by simp [hv], fun a' b' c' w'' => ?_⟩
    simp [AmbientLightCmdListRecorder.Init, hv]
  · intro p a b c d w p' w' h
    have hv := ambientLightPass_Init_valid p a b c d w p' w' h
    refine ⟨hv, by simp [hv], fun a' b' c' d' w'' => ?_⟩
    simp [AmbientLightPass.Init, hv]
  · intro p a b c w p' w' h
    have hv := toneMappingPass_Init_valid p a b c w p' w' h
    refine ⟨hv, by simp [hv], fun a' b' c' w'' => ?_⟩
    simp [ToneMappingPass.Init, hv]
  · intro s managers s' h
    have hv := scene_Init_valid s managers s' h
    refine ⟨hv, by simp [hv], fun managers' => ?_⟩
    simp [Scene.Init, hv]

/-- Witness of C27: the example scene is initialised once; a second `Init` with
the same managers fails. The same for the example ambient-light pass with its
own arguments. -/
theorem second_Init_fails_the_entry_assertion_witness :
    (∃ s', Example.scene.Init Example.sceneManagers = .ok s' ∧
      s'.Init Example.sceneManagers = .error Fault.assertion) ∧
    (∃ p' w', (AmbientLightPass.create Example.world).1.Init 1 2 3 77
        (AmbientLightPass.create Example.world).2 = .ok (p', w') ∧
      p'.Init 1 2 3 77 w' = .error Fault.assertion) := by
  constructor
  · obtain ⟨s', h⟩ : ∃ s', Example.scene.Init Example.sceneManagers = .ok s' := ⟨_, rfl⟩
    exact ⟨s', h, (second_Init_fails_the_entry_assertion.2.2.2 _ _ s' h).2.2 _⟩
  · obtain ⟨p', w', h⟩ : ∃ p' w', (AmbientLightPass.create Example.world).1.Init 1 2 3 77
        (AmbientLightPass.create Example.world).2 = .ok (p', w') := ⟨_, _, rfl⟩
    exact ⟨p', w', h,
      (second_Init_fails_the_entry_assertion.2.1 _ _ _ _ _ _ p' w' h).2.2 _ _ _ _ _⟩

theorem elementAt_eq_ok {α : Type} (v : List α) (i : Nat) (a : α) :
    elementAt v i = .ok a ↔ v.get? i = some a := by
  unfold elementAt
  cases h : v.get? i <;> simp

theorem elementAt_ok {α : Type} (v : List α) (i : Nat) (h : i < v.length) :
    elementAt v i = .ok (v.get ⟨i, h⟩) := by
  rw [elementAt_eq_ok, List.get?_eq_get h]

theorem calculateTangentArray_iteration_meshData (f : FloatArithmetic) (vertexCount : Nat)
    (meshData : MeshData) (tan : List XMFLOAT3) (baseIndex : Nat)
    (result : MeshData × List XMFLOAT3)
    (h : CalculateTangentArray.iteration f vertexCount meshData tan baseIndex = .ok result) :
    result.1 = meshData ∧ result.2.length = tan.length := by
  simp only [CalculateTangentArray.iteration, bind_eq_ok, pure_eq_ok, Except.ok.injEq] at h
  obtain ⟨i1, -, i2, -, i3, -, p1, -, p2, -, p3, -, u1, -, u2, -, u3, -, a1, -, a2, -, a3, -,
    b1, -, b2, -, b3, -, h⟩ := h
  subst h
  simp

theorem calculateTangentArray_loop_meshData (f : FloatArithmetic) (vertexCount : Nat) :
    ∀ (remaining a : Nat) (meshData : MeshData) (tan : List XMFLOAT3) (baseIndex : Nat)
      (result : MeshData × List XMFLOAT3),
      CalculateTangentArray.loop f vertexCount remaining a meshData tan baseIndex = .ok result →
      result.1 = meshData := by
  intro remaining
  induction remaining with
  | zero =>
    intro a meshData tan baseIndex result h
    simp only [CalculateTangentArray.loop, Except.ok.injEq] at h
    rw [← h]
  | succ n ih =>
    intro a meshData tan baseIndex result h
    simp only [CalculateTangentArray.loop, bind_eq_ok] at h
    obtain ⟨⟨m1, t1⟩, hit, h⟩ := h
    obtain ⟨hm, -⟩ := calculateTangentArray_iteration_meshData f vertexCount meshData tan
      baseIndex _ hit
    simp only at hm
    subst hm
    by_cases ha : a + 1 < 2 ^ 31
    · simp only [ha, if_true] at h
      exact ih _ _ _ _ _ h
    · simp only [ha, if_false] at h
      cases h

theorem calculateTangentArray_meshData (f : FloatArithmetic) (meshData : MeshData)
    (triangleCount : Nat) (result : MeshData)
    (h : CalculateTangentArray f meshData triangleCount = .ok result) : result = meshData := by
  simp only [CalculateTangentArray, bind_eq_ok, pure_eq_ok, Except.ok.injEq] at h
  obtain ⟨⟨m, t⟩, hloop, h⟩ := h
  rw [← h]
  exact calculateTangentArray_loop_meshData f _ _ _ _ _ _ _ hloop

theorem calculateTangentArray_iteration_ok (f : FloatArithmetic) (vertexCount : Nat)
    (meshData : MeshData) (tan : List XMFLOAT3) (baseIndex : Nat)
    (hindices : baseIndex + 3 ≤ meshData.mIndices32.length)
    (hrange : ∀ i ∈ meshData.mIndices32, i < meshData.mVertices.length)
    (hcount : vertexCount = meshData.mVertices.length)
    (htan : tan.length = vertexCount * 2) :
    ∃ result, CalculateTangentArray.iteration f vertexCount meshData tan baseIndex
      = .ok result := by
  have h1 : baseIndex < meshData.mIndices32.length := by omega
  have h2 : baseIndex + 1 < meshData.mIndices32.length := by omega
  have h3 : baseIndex + 2 < meshData.mIndices32.length := by omega
  have r1 := hrange _ (List.get_mem _ _ h1)
  have r2 := hrange _ (List.get_mem _ _ h2)
  have r3 := hrange _ (List.get_mem _ _ h3)
  simp only [CalculateTangentArray.iteration, bind_eq_ok, pure_eq_ok]
  refine ⟨_, _, elementAt_ok _ _ h1, _, elementAt_ok _ _ h2, _, elementAt_ok _ _ h3,
    _, elementAt_ok _ _ r1, _, elementAt_ok _ _ r2, _, elementAt_ok _ _ r3,
    _, elementAt_ok _ _ r1, _, elementAt_ok _ _ r2, _, elementAt_ok _ _ r3,
    _, elementAt_ok _ _ ?_, _, elementAt_ok _ _ ?_, _, elementAt_ok _ _ ?_,
    _, elementAt_ok _ _ ?_, _, elementAt_ok _ _ ?_, _, elementAt_ok _ _ ?_, rfl⟩ <;>
  (try simp only [List.length_set]) <;> omega

theorem calculateTangentArray_loop_ok (f : FloatArithmetic) (vertexCount : Nat)
    (meshData : MeshData)
    (hrange : ∀ i ∈ meshData.mIndices32, i < meshData.mVertices.length)
    (hcount : vertexCount = meshData.mVertices.length) :
    ∀ (remaining a : Nat) (tan : List XMFLOAT3) (baseIndex : Nat),
      baseIndex + 3 * remaining ≤ meshData.mIndices32.length →
      tan.length = vertexCount * 2 → a + remaining < 2 ^ 31 →
      ∃ tan', CalculateTangentArray.loop f vertexCount remaining a meshData tan baseIndex
        = .ok (meshData, tan') := by
  intro remaining
  induction remaining with
  | zero => intro a tan baseIndex _ _ _; exact ⟨tan, rfl⟩
  | succ n ih =>
    intro a tan baseIndex hindices htan ha
    obtain ⟨⟨m1, t1⟩, hit⟩ := calculateTangentArray_iteration_ok f vertexCount meshData tan
      baseIndex (by omega) hrange hcount htan
    obtain ⟨hm, hlen⟩ := calculateTangentArray_iteration_meshData f vertexCount meshData tan
      baseIndex _ hit
    simp only at hm hlen
    subst hm
    have ha1 : a + 1 < 2 ^ 31 := by omega
    obtain ⟨tan', h⟩ := ih (a + 1) t1 (baseIndex + 3) (by omega) (by omega) (by omega)
    refine ⟨tan', ?_⟩
    simp only [CalculateTangentArray.loop, hit, ok_bind, ha1, if_true]
    exact h

theorem calculateTangentArray_ok (f : FloatArithmetic) (meshData : MeshData)
    (triangleCount : Nat) (htriangles : triangleCount < 2 ^ 31)
    (hvertices : meshData.mVertices.length < 2 ^ 63)
    (hindices : 3 * triangleCount ≤ meshData.mIndices32.length)
    (hrange : ∀ i ∈ meshData.mIndices32, i < meshData.mVertices.length) :
    CalculateTangentArray f meshData triangleCount = .ok meshData := by
  have hmod : (meshData.mVertices.length * 2) % 2 ^ 64 = meshData.mVertices.length * 2 :=
    Nat.mod_eq_of_lt (by omega)
  obtain ⟨tan', h⟩ := calculateTangentArray_loop_ok f meshData.mVertices.length meshData hrange
    rfl triangleCount 0 (List.replicate (meshData.mVertices.length * 2) ⟨0, 0, 0⟩) 0
    (by omega) (by simp) (by omega)
  simp only [CalculateTangentArray, hmod, h, ok_bind, pure_eq_ok]

theorem tangent_set (l : List Vertex) (i : Nat) (x : Vertex)
    (hl : ∀ v ∈ l, v.mTangent = ⟨0, 0, 0⟩) (hx : x.mTangent = ⟨0, 0, 0⟩) :
    ∀ v ∈ l.set i x, v.mTangent = ⟨0, 0, 0⟩ := by
  intro v hv
  rcases List.mem_or_eq_of_mem_set hv with h | h
  · exact hl v h
  · rw [h]; exact hx

theorem copyPositionsAndNormals_inv (vertices normals : List aiVector3D) (n : Nat) :
    ∀ (remaining i : Nat) (meshData result : MeshData),
      Mesh.copyPositionsAndNormals vertices normals remaining i meshData = .ok result →
      meshData.mVertices.length = n → (∀ v ∈ meshData.mVertices, v.mTangent = ⟨0, 0, 0⟩) →
      result.mVertices.length = n ∧ (∀ v ∈ result.mVertices, v.mTangent = ⟨0, 0, 0⟩) ∧
      result.mIndices32 = meshData.mIndices32 := by
  intro remaining
  induction remaining with
  | zero =>
    intro i meshData result h hlen htan
    simp only [Mesh.copyPositionsAndNormals, Except.ok.injEq] at h
    subst h
    exact ⟨hlen, htan, rfl⟩
  | succ k ih =>
    intro i meshData result h hlen htan
    simp only [Mesh.copyPositionsAndNormals, bind_eq_ok, elementAt_eq_ok] at h
    obtain ⟨v1, hv1, p, -, v2, hv2, q, -, h⟩ := h
    have h1 : ∀ v ∈ meshData.mVertices.set i { v1 with mPosition := p.toXMFLOAT3 },
        v.mTangent = ⟨0, 0, 0⟩ :=
      tangent_set _ _ _ htan (htan v1 (List.get?_mem hv1))
    obtain ⟨r1, r2, r3⟩ := ih _ _ _ h (by simp [hlen])
      (tangent_set _ _ _ h1 (h1 v2 (List.get?_mem hv2)))
    exact ⟨r1, r2, r3⟩

theorem copyTextureCoordinates_inv (coordinates : List aiVector3D) (n : Nat) :
    ∀ (remaining i : Nat) (meshData result : MeshData),
      Mesh.copyTextureCoordinates coordinates remaining i meshData = .ok result →
      meshData.mVertices.length = n → (∀ v ∈ meshData.mVertices, v.mTangent = ⟨0, 0, 0⟩) →
      result.mVertices.length = n ∧ (∀ v ∈ result.mVertices, v.mTangent = ⟨0, 0, 0⟩) ∧
      result.mIndices32 = meshData.mIndices32 := by
  intro remaining
  induction remaining with
  | zero =>
    intro i meshData result h hlen htan
    simp only [Mesh.copyTextureCoordinates, Except.ok.injEq] at h
    subst h
    exact ⟨hlen, htan, rfl⟩
  | succ k ih =>
    intro i meshData result h hlen htan
    simp only [Mesh.copyTextureCoordinates, bind_eq_ok, elementAt_eq_ok] at h
    obtain ⟨v1, hv1, p, -, h⟩ := h
    obtain ⟨r1, r2, r3⟩ := ih _ _ _ h (by simp [hlen])
      (tangent_set _ _ _ htan (htan v1 (List.get?_mem hv1)))
    exact ⟨r1, r2, r3⟩

theorem copyIndices_inv (faces : List aiFace) :
    ∀ (remaining i : Nat) (meshData result : MeshData),
      Mesh.copyIndices faces remaining i meshData = .ok result →
      result.mVertices = meshData.mVertices ∧
      result.mIndices32.length = meshData.mIndices32.length + 3 * remaining := by
  intro remaining
  induction remaining with
  | zero =>
    intro i meshData result h
    simp only [Mesh.copyIndices, Except.ok.injEq] at h
    subst h
    exact ⟨rfl, rfl⟩
  | succ k ih =>
    intro i meshData result h
    simp only [Mesh.copyIndices, bind_eq_ok, elementAt_eq_ok, ASSERT_eq_ok] at h
    obtain ⟨face, -, _, -, a, -, b, -, c, -, h⟩ := h
    obtain ⟨r1, r2⟩ := ih _ _ _ h
    refine ⟨r1, ?_⟩
    rw [r2]
    simp only [List.length_append, List.length_singleton]
    omega

theorem resize_nil (count : Nat) :
    (resize [] count).length = count ∧ ∀ v ∈ resize [] count, v.mTangent = ⟨0, 0, 0⟩ := by
  constructor
  · simp [resize]
  · intro v hv
    simp only [resize, List.take_nil, List.length_nil, Nat.sub_zero, List.nil_append] at hv
    rw [List.eq_of_mem_replicate hv]

theorem mesh_upload_without_tangents (f : FloatArithmetic) (faces : List aiFace)
    (numVertices numFaces : Nat) (m2 m3 m4 : MeshData) (result : Mesh)
    (hlength : m2.mVertices.length = numVertices)
    (htangent : ∀ v ∈ m2.mVertices, v.mTangent = ⟨0, 0, 0⟩)
    (h3 : Mesh.copyIndices faces numFaces 0 m2 = .ok m3)
    (h4 : CalculateTangentArray f m3 numFaces = .ok m4)
    (h5 : Mesh.CreateVertexAndIndexBufferData ⟨none, none⟩ m4 = .ok result) :
    ∃ vertices, result.mVertexBufferData = some vertices ∧
      vertices.length = numVertices % 2 ^ 32 ∧
      ∀ v ∈ vertices, v.mTangent = ⟨0, 0, 0⟩ := by
  obtain ⟨e3, -⟩ := copyIndices_inv faces _ _ _ _ h3
  have e4 := calculateTangentArray_meshData f m3 numFaces m4 h4
  subst e4
  simp only [Mesh.CreateVertexAndIndexBufferData, bind_eq_ok, ASSERT_eq_ok, pure_eq_ok,
    Except.ok.injEq] at h5
  obtain ⟨_, -, _, -, _, -, _, -, h5⟩ := h5
  subst h5
  refine ⟨_, rfl, ?_, ?_⟩
  · rw [List.length_take, e3, hlength]
    exact Nat.min_eq_left (Nat.mod_le _ _)
  · intro v hv
    exact htangent v (e3 ▸ List.mem_of_mem_take hv)

theorem mesh_create_without_tangents (f : FloatArithmetic) (mesh : aiMesh) (result : Mesh)
    (hno : mesh.HasTangentsAndBitangents = false) (h : Mesh.create f mesh = .ok result) :
    ∃ vertices, result.mVertexBufferData = some vertices ∧
      vertices.length = mesh.mNumVertices % 2 ^ 32 ∧
      ∀ v ∈ vertices, v.mTangent = ⟨0, 0, 0⟩ := by
  obtain ⟨l0, t0⟩ := resize_nil mesh.mNumVertices
  by_cases huv : mesh.HasTextureCoords 0 = true
  · simp only [Mesh.create, hno, huv, if_true, Bool.false_eq_true, if_false, bind_eq_ok,
      ASSERT_eq_ok, deref_eq_ok, pure_eq_ok, Except.ok.injEq] at h
    obtain ⟨_, -, _, -, vs, -, ns, -, m1, h1, _, -, _, -, cs, -, m2, h2, _, -, fs, -, m3, h3,
      m4, h4, r, h5, _, -, _, -, hr⟩ := h
    subst hr
    obtain ⟨l1, t1, -⟩ := copyPositionsAndNormals_inv vs ns mesh.mNumVertices _ _ _ _ h1 l0 t0
    obtain ⟨l2, t2, -⟩ := copyTextureCoordinates_inv cs mesh.mNumVertices _ _ _ _ h2 l1 t1
    exact mesh_upload_without_tangents f fs _ _ m2 m3 m4 r l2 t2 h3 h4 h5
  · simp only [Mesh.create, hno, huv, Bool.false_eq_true, if_false, bind_eq_ok,
      ASSERT_eq_ok, deref_eq_ok, pure_eq_ok, Except.ok.injEq] at h
    obtain ⟨_, -, _, -, vs, -, ns, -, m1, h1, m2, hm, _, -, fs, -, m3, h3,
      m4, h4, r, h5, _, -, _, -, hr⟩ := h
    subst hr hm
    obtain ⟨l1, t1, -⟩ := copyPositionsAndNormals_inv vs ns mesh.mNumVertices _ _ _ _ h1 l0 t0
    exact mesh_upload_without_tangents f fs _ _ _ m3 m4 r l1 t1 h3 h4 h5

/-- C26. `CalculateTangentArray` does not modify the mesh data it is given:
whenever it returns, the mesh data (every vertex with its position, normal,
tangent and UV, and every index) is the one it was called with; and it does
return when there are fewer than `2 ^ 31` triangles and `2 ^ 63` vertices, the
indices of the triangles exist and every index is the index of a vertex.
Therefore a `Mesh` constructed from an imported mesh without tangents creates
its vertex buffer from vertices, one for each vertex of the imported mesh,
whose `mTangent` is the default `(0, 0, 0)`. -/
theorem calculateTangentArray_leaves_the_mesh_data_unchanged (f : FloatArithmetic) :
    (∀ (meshData : MeshData) (triangleCount : Nat) (result : MeshData),
      CalculateTangentArray f meshData triangleCount = .ok result → result = meshData) ∧
    (∀ (meshData : MeshData) (triangleCount : Nat),
      triangleCount < 2 ^ 31 → meshData.mVertices.length < 2 ^ 63 →
      3 * triangleCount ≤ meshData.mIndices32.length →
      (∀ i ∈ meshData.mIndices32, i < meshData.mVertices.length) →
      CalculateTangentArray f meshData triangleCount = .ok meshData) ∧
    (∀ (mesh : aiMesh) (result : Mesh),
      mesh.HasTangentsAndBitangents = false → Mesh.create f mesh = .ok result →
      ∃ vertices, result.mVertexBufferData = some vertices ∧
        vertices.length = mesh.mNumVertices % 2 ^ 32 ∧
        ∀ v ∈ vertices, v.mTangent = ⟨0, 0, 0⟩) :=
  ⟨calculateTangentArray_meshData f, calculateTangentArray_ok f,
    fun mesh result hno h => mesh_create_without_tangents f mesh result hno h⟩

/-- Witness of C26: the example triangle, imported without tangents, becomes a
mesh whose three uploaded vertices have the default tangent, and the tangent
computation on its mesh data returns that mesh data. -/
theorem calculateTangentArray_leaves_the_mesh_data_unchanged_witness :
    (∃ result vertices, Mesh.create Example.floatArithmetic Example.triangle = .ok result ∧
      result.mVertexBufferData = some vertices ∧ vertices.length = 3 ∧
      ∀ v ∈ vertices, v.mTangent = ⟨0, 0, 0⟩) ∧
    CalculateTangentArray Example.floatArithmetic
      ⟨[⟨⟨1, 2, 3⟩, ⟨0, 0, 1⟩, ⟨0, 0, 0⟩, ⟨0, 0⟩⟩, ⟨⟨4, 5, 6⟩, ⟨0, 0, 1⟩, ⟨0, 0, 0⟩, ⟨1, 0⟩⟩,
        ⟨⟨7, 8, 9⟩, ⟨0, 0, 1⟩, ⟨0, 0, 0⟩, ⟨0, 1⟩⟩], [0, 1, 2]⟩ 1 =
      .ok ⟨[⟨⟨1, 2, 3⟩, ⟨0, 0, 1⟩, ⟨0, 0, 0⟩, ⟨0, 0⟩⟩, ⟨⟨4, 5, 6⟩, ⟨0, 0, 1⟩, ⟨0, 0, 0⟩, ⟨1, 0⟩⟩,
        ⟨⟨7, 8, 9⟩, ⟨0, 0, 1⟩, ⟨0, 0, 0⟩, ⟨0, 1⟩⟩], [0, 1, 2]⟩ := by
  constructor
  · obtain ⟨result, h⟩ : ∃ result,
        Mesh.create Example.floatArithmetic Example.triangle = .ok result := ⟨_, rfl⟩
    obtain ⟨vertices, hv, hlen, htan⟩ :=
      (calculateTangentArray_leaves_the_mesh_data_unchanged Example.floatArithmetic).2.2
        Example.triangle result rfl h
    exact ⟨result, vertices, h, hv, hlen, htan⟩
  · exact (calculateTangentArray_leaves_the_mesh_data_unchanged Example.floatArithmetic).2.1
      _ 1 (by decide) (by decide) (by decide) (by decide)

theorem ambientLightPass_ValidateData_ignores_the_blur_recorder (p : AmbientLightPass)
    (blurRecorder : Option ScreenSpaceCmdListRecorder) :
    ({ p with mBlurRecorder := blurRecorder } : AmbientLightPass).ValidateData
      = p.ValidateData := rfl

end BRE
